import Mathlib

/-!
Shallow embedding of the ctaes constant-time AES implementation (src/ctaes.c).
Machine integers are modelled as `Nat` with explicit truncation (`&&& 0xFFFF`,
`% 2^32`, `&&& 0xFF`) exactly where the C code's integer conversions truncate.
A bit-sliced AES state (`AES_state` in the C source, eight `uint16_t` slices)
is a structure of eight `Nat` fields.
-/

/-- The bit-sliced AES state: slice `i` holds bit `i` of the 16 state bytes
(C: `typedef struct { uint16_t slice[8]; } AES_state`). -/
structure AES_state where
  s0 : Nat
  s1 : Nat
  s2 : Nat
  s3 : Nat
  s4 : Nat
  s5 : Nat
  s6 : Nat
  s7 : Nat
deriving Repr, DecidableEq, Inhabited

/-- All eight slices fit in 16 bits, as the C `uint16_t` type guarantees. -/
def AES_state.Valid (s : AES_state) : Prop :=
  s.s0 < 65536 ∧ s.s1 < 65536 ∧ s.s2 < 65536 ∧ s.s3 < 65536 ∧
  s.s4 < 65536 ∧ s.s5 < 65536 ∧ s.s6 < 65536 ∧ s.s7 < 65536

instance (s : AES_state) : Decidable s.Valid := by unfold AES_state.Valid; infer_instance

/-- C `~x` on a `uint16_t` value (complement inside 16 bits). -/
def cnot (x : Nat) : Nat := 0xFFFF ^^^ x

/-- One byte loaded from big-endian word `w` in `LoadWords`: the C loop shifts
`w <<= 8` (32-bit truncation) `r` times and reads `(uint8_t)(w >> 24)`. -/
def lwByte (w : Nat) (r : Nat) : Nat := (((w <<< (8 * r)) % (2 ^ 32)) >>> 24) &&& 0xFF

/-- Slice `i` produced by `LoadWords` (C loop over columns `c`, rows `r`,
`slice[i] |= ((v >> i) & 1) << (r * 4 + c)`); the C branch
`c & 2 ? (c & 1 ? w3 : w2) : (c & 1 ? w1 : w0)` selects word `c` for column `c`,
so the fold runs over the explicit (word, column) pairs. -/
def lwSlice (w0 w1 w2 w3 : Nat) (i : Nat) : Nat :=
  List.foldl (fun acc wc =>
    List.foldl (fun acc2 r =>
      acc2 ||| ((((lwByte wc.1 r) >>> i) &&& 1) <<< (r * 4 + wc.2))) acc [0, 1, 2, 3])
    0 [(w0, 0), (w1, 1), (w2, 2), (w3, 3)]

/-- C `LoadWords`: load 4 big-endian 32-bit column words into the 8 slices. -/
def LoadWords (w0 w1 w2 w3 : Nat) : AES_state :=
  { s0 := lwSlice w0 w1 w2 w3 0, s1 := lwSlice w0 w1 w2 w3 1,
    s2 := lwSlice w0 w1 w2 w3 2, s3 := lwSlice w0 w1 w2 w3 3,
    s4 := lwSlice w0 w1 w2 w3 4, s5 := lwSlice w0 w1 w2 w3 5,
    s6 := lwSlice w0 w1 w2 w3 6, s7 := lwSlice w0 w1 w2 w3 7 }

/-- C `LoadBytes`: load 16 bytes of data into 8 sliced integers. -/
def LoadBytes (data16 : List Nat) : AES_state :=
  let w0 := (data16.getD 0 0) <<< 24 ||| (data16.getD 1 0) <<< 16 |||
            (data16.getD 2 0) <<< 8 ||| data16.getD 3 0
  let w1 := (data16.getD 4 0) <<< 24 ||| (data16.getD 5 0) <<< 16 |||
            (data16.getD 6 0) <<< 8 ||| data16.getD 7 0
  let w2 := (data16.getD 8 0) <<< 24 ||| (data16.getD 9 0) <<< 16 |||
            (data16.getD 10 0) <<< 8 ||| data16.getD 11 0
  let w3 := (data16.getD 12 0) <<< 24 ||| (data16.getD 13 0) <<< 16 |||
            (data16.getD 14 0) <<< 8 ||| data16.getD 15 0
  LoadWords w0 w1 w2 w3

/-- One byte written by C `SaveBytes`: bit `b` of the byte at matrix position
`pos = r * 4 + c` comes from slice `b` (`v |= ((slice[b] >> (r*4+c)) & 1) << b`). -/
def saveByte (s : AES_state) (pos : Nat) : Nat :=
  ((s.s0 >>> pos) &&& 1) ||| (((s.s1 >>> pos) &&& 1) <<< 1) |||
  (((s.s2 >>> pos) &&& 1) <<< 2) ||| (((s.s3 >>> pos) &&& 1) <<< 3) |||
  (((s.s4 >>> pos) &&& 1) <<< 4) ||| (((s.s5 >>> pos) &&& 1) <<< 5) |||
  (((s.s6 >>> pos) &&& 1) <<< 6) ||| (((s.s7 >>> pos) &&& 1) <<< 7)

/-- C `SaveBytes`: convert 8 sliced integers to 16 bytes, in the loop order
`c = 0..3`, `r = 0..3`, reading position `r * 4 + c`. -/
def SaveBytes (s : AES_state) : List Nat :=
  [saveByte s 0, saveByte s 4, saveByte s 8, saveByte s 12,
   saveByte s 1, saveByte s 5, saveByte s 9, saveByte s 13,
   saveByte s 2, saveByte s 6, saveByte s 10, saveByte s 14,
   saveByte s 3, saveByte s 7, saveByte s 11, saveByte s 15]

/-- One bit-plane of a bit-sliced state: the bits of the 8 slices at one of the
16 byte-lane positions. -/
structure Bits8 where
  b0 : Bool
  b1 : Bool
  b2 : Bool
  b3 : Bool
  b4 : Bool
  b5 : Bool
  b6 : Bool
  b7 : Bool
deriving Repr, DecidableEq

/- C `SubBytes` (ctaes.c lines 80-193): the Boyar-Peralta depth-16 S-box
circuit evaluated on the 8 slice words. -/
def SubBytes (s : AES_state) : AES_state :=
  let U0 := s.s7
  let U1 := s.s6
  let U2 := s.s5
  let U3 := s.s4
  let U4 := s.s3
  let U5 := s.s2
  let U6 := s.s1
  let U7 := s.s0
  let T1 := U0 ^^^ U3
  let T2 := U0 ^^^ U5
  let T3 := U0 ^^^ U6
  let T4 := U3 ^^^ U5
  let T5 := U4 ^^^ U6
  let T6 := T1 ^^^ T5
  let T7 := U1 ^^^ U2
  let T8 := U7 ^^^ T6
  let T9 := U7 ^^^ T7
  let T10 := T6 ^^^ T7
  let T11 := U1 ^^^ U5
  let T12 := U2 ^^^ U5
  let T13 := T3 ^^^ T4
  let T14 := T6 ^^^ T11
  let T15 := T5 ^^^ T11
  let T16 := T5 ^^^ T12
  let T17 := T9 ^^^ T16
  let T18 := U3 ^^^ U7
  let T19 := T7 ^^^ T18
  let T20 := T1 ^^^ T19
  let T21 := U6 ^^^ U7
  let T22 := T7 ^^^ T21
  let T23 := T2 ^^^ T22
  let T24 := T2 ^^^ T10
  let T25 := T20 ^^^ T17
  let T26 := T3 ^^^ T16
  let T27 := T1 ^^^ T12
  let D := U7
  let M1 := T13 &&& T6
  let M6 := T3 &&& T16
  let M11 := T1 &&& T15
  let M13 := (T4 &&& T27) ^^^ M11
  let M15 := (T2 &&& T10) ^^^ M11
  let M20 := ((T14 ^^^ M1) ^^^ (T23 &&& T8)) ^^^ M13
  let M21 := (((T19 &&& D) ^^^ M1) ^^^ T24) ^^^ M15
  let M22 := ((T26 ^^^ M6) ^^^ (T22 &&& T9)) ^^^ M13
  let M23 := (((T20 &&& T17) ^^^ M6) ^^^ M15) ^^^ T25
  let M25 := M22 &&& M20
  let M37 := M21 ^^^ ((M20 ^^^ M21) &&& (M23 ^^^ M25))
  let M38 := (M20 ^^^ M25) ^^^ (M21 ||| (M20 &&& M23))
  let M39 := M23 ^^^ ((M22 ^^^ M23) &&& (M21 ^^^ M25))
  let M40 := (M22 ^^^ M25) ^^^ (M23 ||| (M21 &&& M22))
  let M41 := M38 ^^^ M40
  let M42 := M37 ^^^ M39
  let M43 := M37 ^^^ M38
  let M44 := M39 ^^^ M40
  let M45 := M42 ^^^ M41
  let M46 := M44 &&& T6
  let M47 := M40 &&& T8
  let M48 := M39 &&& D
  let M49 := M43 &&& T16
  let M50 := M38 &&& T9
  let M51 := M37 &&& T17
  let M52 := M42 &&& T15
  let M53 := M45 &&& T27
  let M54 := M41 &&& T10
  let M55 := M44 &&& T13
  let M56 := M40 &&& T23
  let M57 := M39 &&& T19
  let M58 := M43 &&& T3
  let M59 := M38 &&& T22
  let M60 := M37 &&& T20
  let M61 := M42 &&& T1
  let M62 := M45 &&& T4
  let M63 := M41 &&& T2
  let L0 := M61 ^^^ M62
  let L1 := M50 ^^^ M56
  let L2 := M46 ^^^ M48
  let L3 := M47 ^^^ M55
  let L4 := M54 ^^^ M58
  let L5 := M49 ^^^ M61
  let L6 := M62 ^^^ L5
  let L7 := M46 ^^^ L3
  let L8 := M51 ^^^ M59
  let L9 := M52 ^^^ M53
  let L10 := M53 ^^^ L4
  let L11 := M60 ^^^ L2
  let L12 := M48 ^^^ M51
  let L13 := M50 ^^^ L0
  let L14 := M52 ^^^ M61
  let L15 := M55 ^^^ L1
  let L16 := M56 ^^^ L0
  let L17 := M57 ^^^ L1
  let L18 := M58 ^^^ L8
  let L19 := M63 ^^^ L4
  let L20 := L0 ^^^ L1
  let L21 := L1 ^^^ L7
  let L22 := L3 ^^^ L12
  let L23 := L18 ^^^ L2
  let L24 := L15 ^^^ L9
  let L25 := L6 ^^^ L10
  let L26 := L7 ^^^ L9
  let L27 := L8 ^^^ L10
  let L28 := L11 ^^^ L14
  let L29 := L11 ^^^ L17
  let r7 := L6 ^^^ L24
  let r6 := cnot (L16 ^^^ L26)
  let r5 := cnot (L19 ^^^ L28)
  let r4 := L6 ^^^ L21
  let r3 := L20 ^^^ L22
  let r2 := L25 ^^^ L29
  let r1 := cnot (L13 ^^^ L27)
  let r0 := cnot (L6 ^^^ L23)
  { s0 := r0, s1 := r1, s2 := r2, s3 := r3, s4 := r4, s5 := r5, s6 := r6, s7 := r7 }

def InvSubBytes (s : AES_state) : AES_state :=
  let U0 := s.s7
  let U1 := s.s6
  let U2 := s.s5
  let U3 := s.s4
  let U4 := s.s3
  let U5 := s.s2
  let U6 := s.s1
  let U7 := s.s0
  let T23 := U0 ^^^ U3
  let T22 := cnot (U1 ^^^ U3)
  let T2 := cnot (U0 ^^^ U1)
  let T1 := U3 ^^^ U4
  let T24 := cnot (U4 ^^^ U7)
  let R5 := U6 ^^^ U7
  let T8 := cnot (U1 ^^^ T23)
  let T19 := T22 ^^^ R5
  let T9 := cnot (U7 ^^^ T1)
  let T10 := T2 ^^^ T24
  let T13 := T2 ^^^ R5
  let T3 := T1 ^^^ R5
  let T25 := cnot (U2 ^^^ T1)
  let R13 := U1 ^^^ U6
  let T17 := cnot (U2 ^^^ T19)
  let T20 := T24 ^^^ R13
  let T4 := U4 ^^^ T8
  let R17 := cnot (U2 ^^^ U5)
  let R18 := cnot (U5 ^^^ U6)
  let R19 := cnot (U2 ^^^ U4)
  let D := U0 ^^^ R17
  let T6 := T22 ^^^ R17
  let T16 := R13 ^^^ R19
  let T27 := T1 ^^^ R18
  let T15 := T10 ^^^ T27
  let T14 := T10 ^^^ R18
  let T26 := T3 ^^^ T16
  let M1 := T13 &&& T6
  let M6 := T3 &&& T16
  let M11 := T1 &&& T15
  let M13 := (T4 &&& T27) ^^^ M11
  let M15 := (T2 &&& T10) ^^^ M11
  let M20 := ((T14 ^^^ M1) ^^^ (T23 &&& T8)) ^^^ M13
  let M21 := (((T19 &&& D) ^^^ M1) ^^^ T24) ^^^ M15
  let M22 := ((T26 ^^^ M6) ^^^ (T22 &&& T9)) ^^^ M13
  let M23 := (((T20 &&& T17) ^^^ M6) ^^^ M15) ^^^ T25
  let M25 := M22 &&& M20
  let M37 := M21 ^^^ ((M20 ^^^ M21) &&& (M23 ^^^ M25))
  let M38 := (M20 ^^^ M25) ^^^ (M21 ||| (M20 &&& M23))
  let M39 := M23 ^^^ ((M22 ^^^ M23) &&& (M21 ^^^ M25))
  let M40 := (M22 ^^^ M25) ^^^ (M23 ||| (M21 &&& M22))
  let M41 := M38 ^^^ M40
  let M42 := M37 ^^^ M39
  let M43 := M37 ^^^ M38
  let M44 := M39 ^^^ M40
  let M45 := M42 ^^^ M41
  let M46 := M44 &&& T6
  let M47 := M40 &&& T8
  let M48 := M39 &&& D
  let M49 := M43 &&& T16
  let M50 := M38 &&& T9
  let M51 := M37 &&& T17
  let M52 := M42 &&& T15
  let M53 := M45 &&& T27
  let M54 := M41 &&& T10
  let M55 := M44 &&& T13
  let M56 := M40 &&& T23
  let M57 := M39 &&& T19
  let M58 := M43 &&& T3
  let M59 := M38 &&& T22
  let M60 := M37 &&& T20
  let M61 := M42 &&& T1
  let M62 := M45 &&& T4
  let M63 := M41 &&& T2
  let P0 := M52 ^^^ M61
  let P1 := M58 ^^^ M59
  let P2 := M54 ^^^ M62
  let P3 := M47 ^^^ M50
  let P4 := M48 ^^^ M56
  let P5 := M46 ^^^ M51
  let P6 := M49 ^^^ M60
  let P7 := P0 ^^^ P1
  let P8 := M50 ^^^ M53
  let P9 := M55 ^^^ M63
  let P10 := M57 ^^^ P4
  let P11 := P0 ^^^ P3
  let P12 := M46 ^^^ M48
  let P13 := M49 ^^^ M51
  let P14 := M49 ^^^ M62
  let P15 := M54 ^^^ M59
  let P16 := M57 ^^^ M61
  let P17 := M58 ^^^ P2
  let P18 := M63 ^^^ P5
  let P19 := P2 ^^^ P3
  let P20 := P4 ^^^ P6
  let P22 := P2 ^^^ P7
  let P23 := P7 ^^^ P8
  let P24 := P5 ^^^ P7
  let P25 := P6 ^^^ P10
  let P26 := P9 ^^^ P11
  let P27 := P10 ^^^ P18
  let P28 := P11 ^^^ P25
  let P29 := P15 ^^^ P20
  let r7 := P13 ^^^ P22
  let r6 := P26 ^^^ P29
  let r5 := P17 ^^^ P28
  let r4 := P12 ^^^ P22
  let r3 := P23 ^^^ P27
  let r2 := P19 ^^^ P24
  let r1 := P14 ^^^ P23
  let r0 := P9 ^^^ P16
  { s0 := r0, s1 := r1, s2 := r2, s3 := r3, s4 := r4, s5 := r5, s6 := r6, s7 := r7 }

def subBytesBit (a0 a1 a2 a3 a4 a5 a6 a7 : Bool) : Bits8 :=
  let U0 := a7
  let U1 := a6
  let U2 := a5
  let U3 := a4
  let U4 := a3
  let U5 := a2
  let U6 := a1
  let U7 := a0
  let T1 := xor U0 U3
  let T2 := xor U0 U5
  let T3 := xor U0 U6
  let T4 := xor U3 U5
  let T5 := xor U4 U6
  let T6 := xor T1 T5
  let T7 := xor U1 U2
  let T8 := xor U7 T6
  let T9 := xor U7 T7
  let T10 := xor T6 T7
  let T11 := xor U1 U5
  let T12 := xor U2 U5
  let T13 := xor T3 T4
  let T14 := xor T6 T11
  let T15 := xor T5 T11
  let T16 := xor T5 T12
  let T17 := xor T9 T16
  let T18 := xor U3 U7
  let T19 := xor T7 T18
  let T20 := xor T1 T19
  let T21 := xor U6 U7
  let T22 := xor T7 T21
  let T23 := xor T2 T22
  let T24 := xor T2 T10
  let T25 := xor T20 T17
  let T26 := xor T3 T16
  let T27 := xor T1 T12
  let D := U7
  let M1 := T13 && T6
  let M6 := T3 && T16
  let M11 := T1 && T15
  let M13 := xor (T4 && T27) M11
  let M15 := xor (T2 && T10) M11
  let M20 := xor (xor (xor T14 M1) (T23 && T8)) M13
  let M21 := xor (xor (xor (T19 && D) M1) T24) M15
  let M22 := xor (xor (xor T26 M6) (T22 && T9)) M13
  let M23 := xor (xor (xor (T20 && T17) M6) M15) T25
  let M25 := M22 && M20
  let M37 := xor M21 ((xor M20 M21) && (xor M23 M25))
  let M38 := xor (xor M20 M25) (M21 || (M20 && M23))
  let M39 := xor M23 ((xor M22 M23) && (xor M21 M25))
  let M40 := xor (xor M22 M25) (M23 || (M21 && M22))
  let M41 := xor M38 M40
  let M42 := xor M37 M39
  let M43 := xor M37 M38
  let M44 := xor M39 M40
  let M45 := xor M42 M41
  let M46 := M44 && T6
  let M47 := M40 && T8
  let M48 := M39 && D
  let M49 := M43 && T16
  let M50 := M38 && T9
  let M51 := M37 && T17
  let M52 := M42 && T15
  let M53 := M45 && T27
  let M54 := M41 && T10
  let M55 := M44 && T13
  let M56 := M40 && T23
  let M57 := M39 && T19
  let M58 := M43 && T3
  let M59 := M38 && T22
  let M60 := M37 && T20
  let M61 := M42 && T1
  let M62 := M45 && T4
  let M63 := M41 && T2
  let L0 := xor M61 M62
  let L1 := xor M50 M56
  let L2 := xor M46 M48
  let L3 := xor M47 M55
  let L4 := xor M54 M58
  let L5 := xor M49 M61
  let L6 := xor M62 L5
  let L7 := xor M46 L3
  let L8 := xor M51 M59
  let L9 := xor M52 M53
  let L10 := xor M53 L4
  let L11 := xor M60 L2
  let L12 := xor M48 M51
  let L13 := xor M50 L0
  let L14 := xor M52 M61
  let L15 := xor M55 L1
  let L16 := xor M56 L0
  let L17 := xor M57 L1
  let L18 := xor M58 L8
  let L19 := xor M63 L4
  let L20 := xor L0 L1
  let L21 := xor L1 L7
  let L22 := xor L3 L12
  let L23 := xor L18 L2
  let L24 := xor L15 L9
  let L25 := xor L6 L10
  let L26 := xor L7 L9
  let L27 := xor L8 L10
  let L28 := xor L11 L14
  let L29 := xor L11 L17
  let r7 := xor L6 L24
  let r6 := !(xor L16 L26)
  let r5 := !(xor L19 L28)
  let r4 := xor L6 L21
  let r3 := xor L20 L22
  let r2 := xor L25 L29
  let r1 := !(xor L13 L27)
  let r0 := !(xor L6 L23)
  { b0 := r0, b1 := r1, b2 := r2, b3 := r3, b4 := r4, b5 := r5, b6 := r6, b7 := r7 }

def invSubBytesBit (a0 a1 a2 a3 a4 a5 a6 a7 : Bool) : Bits8 :=
  let U0 := a7
  let U1 := a6
  let U2 := a5
  let U3 := a4
  let U4 := a3
  let U5 := a2
  let U6 := a1
  let U7 := a0
  let T23 := xor U0 U3
  let T22 := !(xor U1 U3)
  let T2 := !(xor U0 U1)
  let T1 := xor U3 U4
  let T24 := !(xor U4 U7)
  let R5 := xor U6 U7
  let T8 := !(xor U1 T23)
  let T19 := xor T22 R5
  let T9 := !(xor U7 T1)
  let T10 := xor T2 T24
  let T13 := xor T2 R5
  let T3 := xor T1 R5
  let T25 := !(xor U2 T1)
  let R13 := xor U1 U6
  let T17 := !(xor U2 T19)
  let T20 := xor T24 R13
  let T4 := xor U4 T8
  let R17 := !(xor U2 U5)
  let R18 := !(xor U5 U6)
  let R19 := !(xor U2 U4)
  let D := xor U0 R17
  let T6 := xor T22 R17
  let T16 := xor R13 R19
  let T27 := xor T1 R18
  let T15 := xor T10 T27
  let T14 := xor T10 R18
  let T26 := xor T3 T16
  let M1 := T13 && T6
  let M6 := T3 && T16
  let M11 := T1 && T15
  let M13 := xor (T4 && T27) M11
  let M15 := xor (T2 && T10) M11
  let M20 := xor (xor (xor T14 M1) (T23 && T8)) M13
  let M21 := xor (xor (xor (T19 && D) M1) T24) M15
  let M22 := xor (xor (xor T26 M6) (T22 && T9)) M13
  let M23 := xor (xor (xor (T20 && T17) M6) M15) T25
  let M25 := M22 && M20
  let M37 := xor M21 ((xor M20 M21) && (xor M23 M25))
  let M38 := xor (xor M20 M25) (M21 || (M20 && M23))
  let M39 := xor M23 ((xor M22 M23) && (xor M21 M25))
  let M40 := xor (xor M22 M25) (M23 || (M21 && M22))
  let M41 := xor M38 M40
  let M42 := xor M37 M39
  let M43 := xor M37 M38
  let M44 := xor M39 M40
  let M45 := xor M42 M41
  let M46 := M44 && T6
  let M47 := M40 && T8
  let M48 := M39 && D
  let M49 := M43 && T16
  let M50 := M38 && T9
  let M51 := M37 && T17
  let M52 := M42 && T15
  let M53 := M45 && T27
  let M54 := M41 && T10
  let M55 := M44 && T13
  let M56 := M40 && T23
  let M57 := M39 && T19
  let M58 := M43 && T3
  let M59 := M38 && T22
  let M60 := M37 && T20
  let M61 := M42 && T1
  let M62 := M45 && T4
  let M63 := M41 && T2
  let P0 := xor M52 M61
  let P1 := xor M58 M59
  let P2 := xor M54 M62
  let P3 := xor M47 M50
  let P4 := xor M48 M56
  let P5 := xor M46 M51
  let P6 := xor M49 M60
  let P7 := xor P0 P1
  let P8 := xor M50 M53
  let P9 := xor M55 M63
  let P10 := xor M57 P4
  let P11 := xor P0 P3
  let P12 := xor M46 M48
  let P13 := xor M49 M51
  let P14 := xor M49 M62
  let P15 := xor M54 M59
  let P16 := xor M57 M61
  let P17 := xor M58 P2
  let P18 := xor M63 P5
  let P19 := xor P2 P3
  let P20 := xor P4 P6
  let P22 := xor P2 P7
  let P23 := xor P7 P8
  let P24 := xor P5 P7
  let P25 := xor P6 P10
  let P26 := xor P9 P11
  let P27 := xor P10 P18
  let P28 := xor P11 P25
  let P29 := xor P15 P20
  let r7 := xor P13 P22
  let r6 := xor P26 P29
  let r5 := xor P17 P28
  let r4 := xor P12 P22
  let r3 := xor P23 P27
  let r2 := xor P19 P24
  let r1 := xor P14 P23
  let r0 := xor P9 P16
  { b0 := r0, b1 := r1, b2 := r2, b3 := r3, b4 := r4, b5 := r5, b6 := r6, b7 := r7 }

/-- C macro `ROT(x,b)`: the 16-bit value is promoted to `int`, so the raw
expression does not truncate; truncation happens at each `uint16_t` store. -/
def rotC (x b : Nat) : Nat := (x >>> (b * 4)) ||| (x <<< ((4 - b) * 4))

/-- C `ShiftRows` applied to a single slice word. -/
def shiftRowsW (v : Nat) : Nat :=
  (v &&& 0xF) ||| ((v &&& 0x10) <<< 3) ||| ((v &&& 0xE0) >>> 1) ||| ((v &&& 0x300) <<< 2) |||
  ((v &&& 0xC00) >>> 2) ||| ((v &&& 0x7000) <<< 1) ||| ((v &&& 0x8000) >>> 3)

/-- C `InvShiftRows` applied to a single slice word. -/
def invShiftRowsW (v : Nat) : Nat :=
  (v &&& 0xF) ||| ((v &&& 0x70) <<< 1) ||| ((v &&& 0x80) >>> 3) ||| ((v &&& 0x300) <<< 2) |||
  ((v &&& 0xC00) >>> 2) ||| ((v &&& 0x1000) <<< 3) ||| ((v &&& 0xE000) >>> 1)

/-- C `ShiftRows`: the same shuffle applied to each of the 8 slices. -/
def ShiftRows (s : AES_state) : AES_state :=
  { s0 := shiftRowsW s.s0, s1 := shiftRowsW s.s1, s2 := shiftRowsW s.s2, s3 := shiftRowsW s.s3,
    s4 := shiftRowsW s.s4, s5 := shiftRowsW s.s5, s6 := shiftRowsW s.s6, s7 := shiftRowsW s.s7 }

/-- C `InvShiftRows`. -/
def InvShiftRows (s : AES_state) : AES_state :=
  { s0 := invShiftRowsW s.s0, s1 := invShiftRowsW s.s1, s2 := invShiftRowsW s.s2,
    s3 := invShiftRowsW s.s3, s4 := invShiftRowsW s.s4, s5 := invShiftRowsW s.s5,
    s6 := invShiftRowsW s.s6, s7 := invShiftRowsW s.s7 }

/-- C `a01[i] = a ^ ROT(a,1)` with the `uint16_t` store truncation. -/
def mc01 (a : Nat) : Nat := (a ^^^ rotC a 1) &&& 0xFFFF

/-- C `a123[i] = ROT(a01[i],1) ^ ROT(a, 3)` with the store truncation. -/
def mc123 (a : Nat) : Nat := (rotC (mc01 a) 1 ^^^ rotC a 3) &&& 0xFFFF

/-- C `MixColumns` (ctaes.c lines 346-369). -/
def MixColumns (s : AES_state) : AES_state :=
  let a0 := s.s0
  let a1 := s.s1
  let a2 := s.s2
  let a3 := s.s3
  let a4 := s.s4
  let a5 := s.s5
  let a6 := s.s6
  let a7 := s.s7
  { s0 := mc01 a7 ^^^ mc123 a0,
    s1 := mc01 a7 ^^^ mc01 a0 ^^^ mc123 a1,
    s2 := mc01 a1 ^^^ mc123 a2,
    s3 := mc01 a7 ^^^ mc01 a2 ^^^ mc123 a3,
    s4 := mc01 a7 ^^^ mc01 a3 ^^^ mc123 a4,
    s5 := mc01 a4 ^^^ mc123 a5,
    s6 := mc01 a5 ^^^ mc123 a6,
    s7 := mc01 a6 ^^^ mc123 a7 }

/-- C `a12[i] = ROT(a01[i], 1)` with the store truncation. -/
def im12 (a : Nat) : Nat := (rotC (mc01 a) 1) &&& 0xFFFF

/-- C `a123[i] = a12[i] ^ ROT(a, 3)` (InvMixColumns form) with truncation. -/
def im123 (a : Nat) : Nat := (im12 a ^^^ rotC a 3) &&& 0xFFFF

/-- C `a0123[i] = a ^ a123[i]`. -/
def im0123 (a : Nat) : Nat := a ^^^ im123 a

/-- C `a02[i] = a01[i] ^ a12[i]`. -/
def im02 (a : Nat) : Nat := mc01 a ^^^ im12 a

/-- C `InvMixColumns` (ctaes.c lines 371-399). -/
def InvMixColumns (s : AES_state) : AES_state :=
  let a0 := s.s0
  let a1 := s.s1
  let a2 := s.s2
  let a3 := s.s3
  let a4 := s.s4
  let a5 := s.s5
  let a6 := s.s6
  let a7 := s.s7
  { s0 := im123 a0 ^^^ mc01 a7 ^^^ im02 a6 ^^^ im0123 a5,
    s1 := im123 a1 ^^^ mc01 a0 ^^^ im12 a7 ^^^ im02 a6 ^^^ im0123 a5 ^^^ im0123 a6,
    s2 := im123 a2 ^^^ mc01 a1 ^^^ im02 a0 ^^^ im02 a7 ^^^ im0123 a6 ^^^ im0123 a7,
    s3 := im123 a3 ^^^ mc01 a2 ^^^ mc01 a7 ^^^ im02 a1 ^^^ im02 a6 ^^^ im0123 a0 ^^^
          im0123 a5 ^^^ im0123 a7,
    s4 := im123 a4 ^^^ mc01 a3 ^^^ im12 a7 ^^^ im02 a2 ^^^ im02 a6 ^^^ im0123 a1 ^^^
          im0123 a5 ^^^ im0123 a6,
    s5 := im123 a5 ^^^ mc01 a4 ^^^ im02 a3 ^^^ im02 a7 ^^^ im0123 a2 ^^^ im0123 a6 ^^^
          im0123 a7,
    s6 := im123 a6 ^^^ mc01 a5 ^^^ im02 a4 ^^^ im0123 a3 ^^^ im0123 a7,
    s7 := im123 a7 ^^^ mc01 a6 ^^^ im02 a5 ^^^ im0123 a4 }

/-- C `AddRoundKey`: slicewise XOR of a round key into the state. -/
def AddRoundKey (s k : AES_state) : AES_state :=
  { s0 := s.s0 ^^^ k.s0, s1 := s.s1 ^^^ k.s1, s2 := s.s2 ^^^ k.s2, s3 := s.s3 ^^^ k.s3,
    s4 := s.s4 ^^^ k.s4, s5 := s.s5 ^^^ k.s5, s6 := s.s6 ^^^ k.s6, s7 := s.s7 ^^^ k.s7 }

/-- C `SubWord`: pack the 4 bytes of a 32-bit word into the low 4 lanes of a
bit-sliced state (`s.slice[b] = (x & 1) | ((x >> 7) & 2) | ((x >> 14) & 4) |
((x >> 21) & 8)` with `x >>= 1` between slices), apply `SubBytes`, unpack. -/
def SubWord (x : Nat) : Nat :=
  let pack := fun (b : Nat) =>
    ((x >>> b) &&& 1) ||| (((x >>> b) >>> 7) &&& 2) |||
    (((x >>> b) >>> 14) &&& 4) ||| (((x >>> b) >>> 21) &&& 8)
  let t := SubBytes
    { s0 := pack 0, s1 := pack 1, s2 := pack 2, s3 := pack 3,
      s4 := pack 4, s5 := pack 5, s6 := pack 6, s7 := pack 7 }
  let unpack := fun (u b : Nat) =>
    ((u &&& 1) ||| ((u &&& 2) <<< 7) ||| ((u &&& 4) <<< 14) ||| ((u &&& 8) <<< 21)) <<< b
  unpack t.s0 0 ||| unpack t.s1 1 ||| unpack t.s2 2 ||| unpack t.s3 3 |||
  unpack t.s4 4 ||| unpack t.s5 5 ||| unpack t.s6 6 ||| unpack t.s7 7

/-- Key word `i` read big-endian from the key bytes
(C: `rk[i] = key[0] << 24 | key[1] << 16 | key[2] << 8 | key[3]`). -/
def keyWord (key : List Nat) (i : Nat) : Nat :=
  (key.getD (4 * i) 0) <<< 24 ||| (key.getD (4 * i + 1) 0) <<< 16 |||
  (key.getD (4 * i + 2) 0) <<< 8 ||| key.getD (4 * i + 3) 0

/-- C round-constant step `rcon = ((-(rcon >> 7)) & 0x1B) ^ (rcon << 1)` in
`uint8_t` arithmetic; the `int` negation is two's complement, truncated mod 256
at the store. -/
def rconStep (rcon : Nat) : Nat :=
  ((((256 - (rcon >>> 7)) % 256) &&& 0x1B) ^^^ (rcon <<< 1)) % 256

/-- C `temp << 8 | temp >> 24` on `uint32_t`: rotate the word left by 8 bits. -/
def RotWord (w : Nat) : Nat := ((w <<< 8) % (2 ^ 32)) ||| (w >>> 24)

/-- The main key-expansion loop of C `AES_setup` (`i` from `nkeywords` to
`4 * (nrounds + 1)`), with the 8-word ring buffer `rk`, the running round
constant, and `pos = i mod nkeywords`; `fuel` counts the remaining iterations. -/
def setupGo (nk : Nat) : Nat → List Nat → Nat → Nat → Nat → List AES_state → List AES_state
  | 0, _, _, _, _, acc => acc
  | fuel + 1, rk, rcon, pos, i, acc =>
    let temp0 := rk.getD ((i + 7) % 8) 0
    let temp :=
      if pos = 0 then SubWord (RotWord temp0) ^^^ (rcon <<< 24)
      else if 6 < nk ∧ pos = 4 then SubWord temp0
      else temp0
    let rcon2 := if pos = 0 then rconStep rcon else rcon
    let pos2 := if pos + 1 = nk then 0 else pos + 1
    let rk2 := rk.set (i % 8) ((rk.getD ((i + 8 - nk) % 8) 0) ^^^ temp)
    let acc2 :=
      if i % 4 = 3 then
        acc ++ [LoadWords (rk2.getD ((i + 5) % 8) 0) (rk2.getD ((i + 6) % 8) 0)
          (rk2.getD ((i + 7) % 8) 0) (rk2.getD (i % 8) 0)]
      else acc
    setupGo nk fuel rk2 rcon2 pos2 (i + 1) acc2

/-- C `AES_setup`: the first `nkeywords` round-key words are the raw key, with a
bit-sliced round key emitted after every fourth word; then the main loop.
For `nkeywords` in {4, 6, 8} the first loop emits one round key (two when
`nkeywords = 8`). -/
def AES_setup (key : List Nat) (nkeywords nrounds : Nat) : List AES_state :=
  let rk0 := (List.range 8).map (fun i => if i < nkeywords then keyWord key i else 0)
  let acc0 := [LoadWords (keyWord key 0) (keyWord key 1) (keyWord key 2) (keyWord key 3)] ++
    (if nkeywords = 8 then
      [LoadWords (keyWord key 4) (keyWord key 5) (keyWord key 6) (keyWord key 7)] else [])
  setupGo nkeywords (4 * (nrounds + 1) - nkeywords) rk0 1 0 nkeywords acc0

/-- One full encryption round (body of the C `AES_encrypt` loop). -/
def encRound (s k : AES_state) : AES_state := AddRoundKey (MixColumns (ShiftRows (SubBytes s))) k

/-- One full decryption round (body of the C `AES_decrypt` loop): note the
deliberate order AddRoundKey then InvMixColumns. -/
def decRound (s k : AES_state) : AES_state :=
  InvMixColumns (AddRoundKey (InvSubBytes (InvShiftRows s)) k)

/-- C `AES_encrypt`: initial AddRoundKey with round key 0, `nrounds - 1` full
rounds with round keys 1 .. nrounds-1, final round without MixColumns. -/
def AES_encrypt (rounds : List AES_state) (nrounds : Nat) (plain16 : List Nat) : List Nat :=
  let m0 := AddRoundKey (LoadBytes plain16) (rounds.getD 0 default)
  let m1 := List.foldl encRound m0 ((rounds.drop 1).take (nrounds - 1))
  SaveBytes (AddRoundKey (ShiftRows (SubBytes m1)) (rounds.getD nrounds default))

/-- C `AES_decrypt`: round keys are consumed from `nrounds` downward. -/
def AES_decrypt (rounds : List AES_state) (nrounds : Nat) (cipher16 : List Nat) : List Nat :=
  let m0 := AddRoundKey (LoadBytes cipher16) (rounds.getD nrounds default)
  let m1 := List.foldl decRound m0 (((rounds.drop 1).take (nrounds - 1)).reverse)
  SaveBytes (AddRoundKey (InvSubBytes (InvShiftRows m1)) (rounds.getD 0 default))

/-- C `AES128_init`. -/
def AES128_init (key16 : List Nat) : List AES_state := AES_setup key16 4 10

/-- C `AES128_encrypt`. -/
def AES128_encrypt (ctx : List AES_state) (plain16 : List Nat) : List Nat :=
  AES_encrypt ctx 10 plain16

/-- C `AES128_decrypt`. -/
def AES128_decrypt (ctx : List AES_state) (cipher16 : List Nat) : List Nat :=
  AES_decrypt ctx 10 cipher16

/-- C `AES192_init`. -/
def AES192_init (key24 : List Nat) : List AES_state := AES_setup key24 6 12

/-- C `AES192_encrypt`. -/
def AES192_encrypt (ctx : List AES_state) (plain16 : List Nat) : List Nat :=
  AES_encrypt ctx 12 plain16

/-- C `AES192_decrypt`. -/
def AES192_decrypt (ctx : List AES_state) (cipher16 : List Nat) : List Nat :=
  AES_decrypt ctx 12 cipher16

/-- C `AES256_init`. -/
def AES256_init (key32 : List Nat) : List AES_state := AES_setup key32 8 14

/-- C `AES256_encrypt`. -/
def AES256_encrypt (ctx : List AES_state) (plain16 : List Nat) : List Nat :=
  AES_encrypt ctx 14 plain16

/-- C `AES256_decrypt`. -/
def AES256_decrypt (ctx : List AES_state) (cipher16 : List Nat) : List Nat :=
  AES_decrypt ctx 14 cipher16

/-! ### Bit-plane infrastructure -/

/-- The bits of the 8 slices of a state at lane position `p`. -/
def sliceBits (s : AES_state) (p : Nat) : Bits8 :=
  { b0 := s.s0.testBit p, b1 := s.s1.testBit p, b2 := s.s2.testBit p, b3 := s.s3.testBit p,
    b4 := s.s4.testBit p, b5 := s.s5.testBit p, b6 := s.s6.testBit p, b7 := s.s7.testBit p }

/-- Assemble 8 bits into a byte, bit 0 least significant. -/
def byteAssemble (b : Bits8) : Nat :=
  b.b0.toNat ||| (b.b1.toNat <<< 1) ||| (b.b2.toNat <<< 2) ||| (b.b3.toNat <<< 3) |||
  (b.b4.toNat <<< 4) ||| (b.b5.toNat <<< 5) ||| (b.b6.toNat <<< 6) ||| (b.b7.toNat <<< 7)

/-- The byte held by lane `p` of a bit-sliced state (bit `i` comes from slice `i`),
the decoding map of the bit-sliced representation. -/
def byteAt (s : AES_state) (p : Nat) : Nat := byteAssemble (sliceBits s p)

/-- The bits of a lane byte. -/
def byteBits (v : Nat) : Bits8 :=
  { b0 := v.testBit 0, b1 := v.testBit 1, b2 := v.testBit 2, b3 := v.testBit 3,
    b4 := v.testBit 4, b5 := v.testBit 5, b6 := v.testBit 6, b7 := v.testBit 7 }

def sboxTable : List Nat := [
  0x63, 0x7c, 0x77, 0x7b, 0xf2, 0x6b, 0x6f, 0xc5, 0x30, 0x01, 0x67, 0x2b, 0xfe, 0xd7, 0xab, 0x76,
  0xca, 0x82, 0xc9, 0x7d, 0xfa, 0x59, 0x47, 0xf0, 0xad, 0xd4, 0xa2, 0xaf, 0x9c, 0xa4, 0x72, 0xc0,
  0xb7, 0xfd, 0x93, 0x26, 0x36, 0x3f, 0xf7, 0xcc, 0x34, 0xa5, 0xe5, 0xf1, 0x71, 0xd8, 0x31, 0x15,
  0x04, 0xc7, 0x23, 0xc3, 0x18, 0x96, 0x05, 0x9a, 0x07, 0x12, 0x80, 0xe2, 0xeb, 0x27, 0xb2, 0x75,
  0x09, 0x83, 0x2c, 0x1a, 0x1b, 0x6e, 0x5a, 0xa0, 0x52, 0x3b, 0xd6, 0xb3, 0x29, 0xe3, 0x2f, 0x84,
  0x53, 0xd1, 0x00, 0xed, 0x20, 0xfc, 0xb1, 0x5b, 0x6a, 0xcb, 0xbe, 0x39, 0x4a, 0x4c, 0x58, 0xcf,
  0xd0, 0xef, 0xaa, 0xfb, 0x43, 0x4d, 0x33, 0x85, 0x45, 0xf9, 0x02, 0x7f, 0x50, 0x3c, 0x9f, 0xa8,
  0x51, 0xa3, 0x40, 0x8f, 0x92, 0x9d, 0x38, 0xf5, 0xbc, 0xb6, 0xda, 0x21, 0x10, 0xff, 0xf3, 0xd2,
  0xcd, 0x0c, 0x13, 0xec, 0x5f, 0x97, 0x44, 0x17, 0xc4, 0xa7, 0x7e, 0x3d, 0x64, 0x5d, 0x19, 0x73,
  0x60, 0x81, 0x4f, 0xdc, 0x22, 0x2a, 0x90, 0x88, 0x46, 0xee, 0xb8, 0x14, 0xde, 0x5e, 0x0b, 0xdb,
  0xe0, 0x32, 0x3a, 0x0a, 0x49, 0x06, 0x24, 0x5c, 0xc2, 0xd3, 0xac, 0x62, 0x91, 0x95, 0xe4, 0x79,
  0xe7, 0xc8, 0x37, 0x6d, 0x8d, 0xd5, 0x4e, 0xa9, 0x6c, 0x56, 0xf4, 0xea, 0x65, 0x7a, 0xae, 0x08,
  0xba, 0x78, 0x25, 0x2e, 0x1c, 0xa6, 0xb4, 0xc6, 0xe8, 0xdd, 0x74, 0x1f, 0x4b, 0xbd, 0x8b, 0x8a,
  0x70, 0x3e, 0xb5, 0x66, 0x48, 0x03, 0xf6, 0x0e, 0x61, 0x35, 0x57, 0xb9, 0x86, 0xc1, 0x1d, 0x9e,
  0xe1, 0xf8, 0x98, 0x11, 0x69, 0xd9, 0x8e, 0x94, 0x9b, 0x1e, 0x87, 0xe9, 0xce, 0x55, 0x28, 0xdf,
  0x8c, 0xa1, 0x89, 0x0d, 0xbf, 0xe6, 0x42, 0x68, 0x41, 0x99, 0x2d, 0x0f, 0xb0, 0x54, 0xbb, 0x16]

def invSboxTable : List Nat := [
  0x52, 0x09, 0x6a, 0xd5, 0x30, 0x36, 0xa5, 0x38, 0xbf, 0x40, 0xa3, 0x9e, 0x81, 0xf3, 0xd7, 0xfb,
  0x7c, 0xe3, 0x39, 0x82, 0x9b, 0x2f, 0xff, 0x87, 0x34, 0x8e, 0x43, 0x44, 0xc4, 0xde, 0xe9, 0xcb,
  0x54, 0x7b, 0x94, 0x32, 0xa6, 0xc2, 0x23, 0x3d, 0xee, 0x4c, 0x95, 0x0b, 0x42, 0xfa, 0xc3, 0x4e,
  0x08, 0x2e, 0xa1, 0x66, 0x28, 0xd9, 0x24, 0xb2, 0x76, 0x5b, 0xa2, 0x49, 0x6d, 0x8b, 0xd1, 0x25,
  0x72, 0xf8, 0xf6, 0x64, 0x86, 0x68, 0x98, 0x16, 0xd4, 0xa4, 0x5c, 0xcc, 0x5d, 0x65, 0xb6, 0x92,
  0x6c, 0x70, 0x48, 0x50, 0xfd, 0xed, 0xb9, 0xda, 0x5e, 0x15, 0x46, 0x57, 0xa7, 0x8d, 0x9d, 0x84,
  0x90, 0xd8, 0xab, 0x00, 0x8c, 0xbc, 0xd3, 0x0a, 0xf7, 0xe4, 0x58, 0x05, 0xb8, 0xb3, 0x45, 0x06,
  0xd0, 0x2c, 0x1e, 0x8f, 0xca, 0x3f, 0x0f, 0x02, 0xc1, 0xaf, 0xbd, 0x03, 0x01, 0x13, 0x8a, 0x6b,
  0x3a, 0x91, 0x11, 0x41, 0x4f, 0x67, 0xdc, 0xea, 0x97, 0xf2, 0xcf, 0xce, 0xf0, 0xb4, 0xe6, 0x73,
  0x96, 0xac, 0x74, 0x22, 0xe7, 0xad, 0x35, 0x85, 0xe2, 0xf9, 0x37, 0xe8, 0x1c, 0x75, 0xdf, 0x6e,
  0x47, 0xf1, 0x1a, 0x71, 0x1d, 0x29, 0xc5, 0x89, 0x6f, 0xb7, 0x62, 0x0e, 0xaa, 0x18, 0xbe, 0x1b,
  0xfc, 0x56, 0x3e, 0x4b, 0xc6, 0xd2, 0x79, 0x20, 0x9a, 0xdb, 0xc0, 0xfe, 0x78, 0xcd, 0x5a, 0xf4,
  0x1f, 0xdd, 0xa8, 0x33, 0x88, 0x07, 0xc7, 0x31, 0xb1, 0x12, 0x10, 0x59, 0x27, 0x80, 0xec, 0x5f,
  0x60, 0x51, 0x7f, 0xa9, 0x19, 0xb5, 0x4a, 0x0d, 0x2d, 0xe5, 0x7a, 0x9f, 0x93, 0xc9, 0x9c, 0xef,
  0xa0, 0xe0, 0x3b, 0x4d, 0xae, 0x2a, 0xf5, 0xb0, 0xc8, 0xeb, 0xbb, 0x3c, 0x83, 0x53, 0x99, 0x61,
  0x17, 0x2b, 0x04, 0x7e, 0xba, 0x77, 0xd6, 0x26, 0xe1, 0x69, 0x14, 0x63, 0x55, 0x21, 0x0c, 0x7d]

/-! ### Bit-level characterization of the S-box circuits -/

/-- Multiplication by `x` (i.e. by 02) in GF(2^8) modulo x^8+x^4+x^3+x+1
(FIPS-197 `xtime`): shift left, reduce by the AES polynomial if bit 7 was set. -/
def xtime (a : Nat) : Nat := ((a <<< 1) ^^^ (if a.testBit 7 then 0x1B else 0)) &&& 0xFF

/-- Interpret a bit in GF(2) to turn XOR identities into ring identities. -/
def bitZ (b : Bool) : ZMod 2 := cond b 1 0

/-- Byte `j` of a 32-bit word. -/
def byteOf (w j : Nat) : Nat := (w >>> (8 * j)) &&& 0xFF

/-- The packing step of C `SubWord`: byte `p` of the word goes to lane `p` of a
bit-sliced state (only the low 4 lanes are used). -/
def packState (x : Nat) : AES_state :=
  let pack := fun (b : Nat) =>
    ((x >>> b) &&& 1) ||| (((x >>> b) >>> 7) &&& 2) |||
    (((x >>> b) >>> 14) &&& 4) ||| (((x >>> b) >>> 21) &&& 8)
  { s0 := pack 0, s1 := pack 1, s2 := pack 2, s3 := pack 3,
    s4 := pack 4, s5 := pack 5, s6 := pack 6, s7 := pack 7 }

/-- The unpacking step of C `SubWord`: read lane `j` of the state back as byte
`j` of the word, from the low 4 bits of each slice. -/
def swUnpack (t : AES_state) : Nat :=
  let unpack := fun (u b : Nat) =>
    ((u &&& 1) ||| ((u &&& 2) <<< 7) ||| ((u &&& 4) <<< 14) ||| ((u &&& 8) <<< 21)) <<< b
  unpack t.s0 0 ||| unpack t.s1 1 ||| unpack t.s2 2 ||| unpack t.s3 3 |||
  unpack t.s4 4 ||| unpack t.s5 5 ||| unpack t.s6 6 ||| unpack t.s7 7

/- C `SubBytes` of the merged-direction variant (src/unnamed/part_000 lines
76-264): one function with an `inv` flag; the branch taken on `inv` fills the
shared temporaries `T1..T27, D` (collected in a list here; the six of them the
inverse branch never assigns or reads are left 0), the nonlinear middle
section is shared, and a final branch on `inv` applies the matching linear
postprocessing. -/
def SubBytes2 (s : AES_state) (inv : Nat) : AES_state :=
  let U0 := s.s7
  let U1 := s.s6
  let U2 := s.s5
  let U3 := s.s4
  let U4 := s.s3
  let U5 := s.s2
  let U6 := s.s1
  let U7 := s.s0
  let tv : List Nat :=
    if inv ≠ 0 then
      let T23 := U0 ^^^ U3
      let T22 := cnot (U1 ^^^ U3)
      let T2 := cnot (U0 ^^^ U1)
      let T1 := U3 ^^^ U4
      let T24 := cnot (U4 ^^^ U7)
      let R5 := U6 ^^^ U7
      let T8 := cnot (U1 ^^^ T23)
      let T19 := T22 ^^^ R5
      let T9 := cnot (U7 ^^^ T1)
      let T10 := T2 ^^^ T24
      let T13 := T2 ^^^ R5
      let T3 := T1 ^^^ R5
      let T25 := cnot (U2 ^^^ T1)
      let R13 := U1 ^^^ U6
      let T17 := cnot (U2 ^^^ T19)
      let T20 := T24 ^^^ R13
      let T4 := U4 ^^^ T8
      let R17 := cnot (U2 ^^^ U5)
      let R18 := cnot (U5 ^^^ U6)
      let R19 := cnot (U2 ^^^ U4)
      let D := U0 ^^^ R17
      let T6 := T22 ^^^ R17
      let T16 := R13 ^^^ R19
      let T27 := T1 ^^^ R18
      let T15 := T10 ^^^ T27
      let T14 := T10 ^^^ R18
      let T26 := T3 ^^^ T16
      [T1, T2, T3, T4, 0, T6, 0, T8, T9, T10, 0, 0, T13, T14, T15, T16, T17, 0, T19, T20, 0, T22, T23, T24, T25, T26, T27, D]
    else
      let T1 := U0 ^^^ U3
      let T2 := U0 ^^^ U5
      let T3 := U0 ^^^ U6
      let T4 := U3 ^^^ U5
      let T5 := U4 ^^^ U6
      let T6 := T1 ^^^ T5
      let T7 := U1 ^^^ U2
      let T8 := U7 ^^^ T6
      let T9 := U7 ^^^ T7
      let T10 := T6 ^^^ T7
      let T11 := U1 ^^^ U5
      let T12 := U2 ^^^ U5
      let T13 := T3 ^^^ T4
      let T14 := T6 ^^^ T11
      let T15 := T5 ^^^ T11
      let T16 := T5 ^^^ T12
      let T17 := T9 ^^^ T16
      let T18 := U3 ^^^ U7
      let T19 := T7 ^^^ T18
      let T20 := T1 ^^^ T19
      let T21 := U6 ^^^ U7
      let T22 := T7 ^^^ T21
      let T23 := T2 ^^^ T22
      let T24 := T2 ^^^ T10
      let T25 := T20 ^^^ T17
      let T26 := T3 ^^^ T16
      let T27 := T1 ^^^ T12
      let D := U7
      [T1, T2, T3, T4, T5, T6, T7, T8, T9, T10, T11, T12, T13, T14, T15, T16, T17, T18, T19, T20, T21, T22, T23, T24, T25, T26, T27, D]
  let T1 := tv.getD 0 0
  let T2 := tv.getD 1 0
  let T3 := tv.getD 2 0
  let T4 := tv.getD 3 0
  let T5 := tv.getD 4 0
  let T6 := tv.getD 5 0
  let T7 := tv.getD 6 0
  let T8 := tv.getD 7 0
  let T9 := tv.getD 8 0
  let T10 := tv.getD 9 0
  let T11 := tv.getD 10 0
  let T12 := tv.getD 11 0
  let T13 := tv.getD 12 0
  let T14 := tv.getD 13 0
  let T15 := tv.getD 14 0
  let T16 := tv.getD 15 0
  let T17 := tv.getD 16 0
  let T18 := tv.getD 17 0
  let T19 := tv.getD 18 0
  let T20 := tv.getD 19 0
  let T21 := tv.getD 20 0
  let T22 := tv.getD 21 0
  let T23 := tv.getD 22 0
  let T24 := tv.getD 23 0
  let T25 := tv.getD 24 0
  let T26 := tv.getD 25 0
  let T27 := tv.getD 26 0
  let D := tv.getD 27 0
  let M1 := T13 &&& T6
  let M6 := T3 &&& T16
  let M11 := T1 &&& T15
  let M13 := (T4 &&& T27) ^^^ M11
  let M15 := (T2 &&& T10) ^^^ M11
  let M20 := ((T14 ^^^ M1) ^^^ (T23 &&& T8)) ^^^ M13
  let M21 := (((T19 &&& D) ^^^ M1) ^^^ T24) ^^^ M15
  let M22 := ((T26 ^^^ M6) ^^^ (T22 &&& T9)) ^^^ M13
  let M23 := (((T20 &&& T17) ^^^ M6) ^^^ M15) ^^^ T25
  let M25 := M22 &&& M20
  let M37 := M21 ^^^ ((M20 ^^^ M21) &&& (M23 ^^^ M25))
  let M38 := (M20 ^^^ M25) ^^^ (M21 ||| (M20 &&& M23))
  let M39 := M23 ^^^ ((M22 ^^^ M23) &&& (M21 ^^^ M25))
  let M40 := (M22 ^^^ M25) ^^^ (M23 ||| (M21 &&& M22))
  let M41 := M38 ^^^ M40
  let M42 := M37 ^^^ M39
  let M43 := M37 ^^^ M38
  let M44 := M39 ^^^ M40
  let M45 := M42 ^^^ M41
  let M46 := M44 &&& T6
  let M47 := M40 &&& T8
  let M48 := M39 &&& D
  let M49 := M43 &&& T16
  let M50 := M38 &&& T9
  let M51 := M37 &&& T17
  let M52 := M42 &&& T15
  let M53 := M45 &&& T27
  let M54 := M41 &&& T10
  let M55 := M44 &&& T13
  let M56 := M40 &&& T23
  let M57 := M39 &&& T19
  let M58 := M43 &&& T3
  let M59 := M38 &&& T22
  let M60 := M37 &&& T20
  let M61 := M42 &&& T1
  let M62 := M45 &&& T4
  let M63 := M41 &&& T2
  if inv ≠ 0 then
    let P0 := M52 ^^^ M61
    let P1 := M58 ^^^ M59
    let P2 := M54 ^^^ M62
    let P3 := M47 ^^^ M50
    let P4 := M48 ^^^ M56
    let P5 := M46 ^^^ M51
    let P6 := M49 ^^^ M60
    let P7 := P0 ^^^ P1
    let P8 := M50 ^^^ M53
    let P9 := M55 ^^^ M63
    let P10 := M57 ^^^ P4
    let P11 := P0 ^^^ P3
    let P12 := M46 ^^^ M48
    let P13 := M49 ^^^ M51
    let P14 := M49 ^^^ M62
    let P15 := M54 ^^^ M59
    let P16 := M57 ^^^ M61
    let P17 := M58 ^^^ P2
    let P18 := M63 ^^^ P5
    let P19 := P2 ^^^ P3
    let P20 := P4 ^^^ P6
    let P22 := P2 ^^^ P7
    let P23 := P7 ^^^ P8
    let P24 := P5 ^^^ P7
    let P25 := P6 ^^^ P10
    let P26 := P9 ^^^ P11
    let P27 := P10 ^^^ P18
    let P28 := P11 ^^^ P25
    let P29 := P15 ^^^ P20
    let r7 := P13 ^^^ P22
    let r6 := P26 ^^^ P29
    let r5 := P17 ^^^ P28
    let r4 := P12 ^^^ P22
    let r3 := P23 ^^^ P27
    let r2 := P19 ^^^ P24
    let r1 := P14 ^^^ P23
    let r0 := P9 ^^^ P16
    { s0 := r0, s1 := r1, s2 := r2, s3 := r3, s4 := r4, s5 := r5, s6 := r6, s7 := r7 }
  else
    let L0 := M61 ^^^ M62
    let L1 := M50 ^^^ M56
    let L2 := M46 ^^^ M48
    let L3 := M47 ^^^ M55
    let L4 := M54 ^^^ M58
    let L5 := M49 ^^^ M61
    let L6 := M62 ^^^ L5
    let L7 := M46 ^^^ L3
    let L8 := M51 ^^^ M59
    let L9 := M52 ^^^ M53
    let L10 := M53 ^^^ L4
    let L11 := M60 ^^^ L2
    let L12 := M48 ^^^ M51
    let L13 := M50 ^^^ L0
    let L14 := M52 ^^^ M61
    let L15 := M55 ^^^ L1
    let L16 := M56 ^^^ L0
    let L17 := M57 ^^^ L1
    let L18 := M58 ^^^ L8
    let L19 := M63 ^^^ L4
    let L20 := L0 ^^^ L1
    let L21 := L1 ^^^ L7
    let L22 := L3 ^^^ L12
    let L23 := L18 ^^^ L2
    let L24 := L15 ^^^ L9
    let L25 := L6 ^^^ L10
    let L26 := L7 ^^^ L9
    let L27 := L8 ^^^ L10
    let L28 := L11 ^^^ L14
    let L29 := L11 ^^^ L17
    let r7 := L6 ^^^ L24
    let r6 := cnot (L16 ^^^ L26)
    let r5 := cnot (L19 ^^^ L28)
    let r4 := L6 ^^^ L21
    let r3 := L20 ^^^ L22
    let r2 := L25 ^^^ L29
    let r1 := cnot (L13 ^^^ L27)
    let r0 := cnot (L6 ^^^ L23)
    { s0 := r0, s1 := r1, s2 := r2, s3 := r3, s4 := r4, s5 := r5, s6 := r6, s7 := r7 }

/-- C `LoadBytes` of the variant: the four column words are built by a loop
into an array `w[4]`. -/
def LoadBytes2 (data16 : List Nat) : AES_state :=
  let w := (List.range 4).map (fun i =>
    (data16.getD (4 * i) 0) <<< 24 ||| (data16.getD (4 * i + 1) 0) <<< 16 |||
    (data16.getD (4 * i + 2) 0) <<< 8 ||| data16.getD (4 * i + 3) 0)
  LoadWords (w.getD 0 0) (w.getD 1 0) (w.getD 2 0) (w.getD 3 0)

/-- C `MixColumns` of the variant: `a01[i]`, `a123[i]` computed by a loop into
arrays indexed by slice, with the `uint16_t` store truncations. -/
def MixColumns2 (s : AES_state) : AES_state :=
  let sl := [s.s0, s.s1, s.s2, s.s3, s.s4, s.s5, s.s6, s.s7]
  let a01 := sl.map (fun a => (a ^^^ rotC a 1) &&& 0xFFFF)
  let a123 := (List.range 8).map (fun i =>
    (rotC (a01.getD i 0) 1 ^^^ rotC (sl.getD i 0) 3) &&& 0xFFFF)
  { s0 := a01.getD 7 0 ^^^ a123.getD 0 0,
    s1 := a01.getD 7 0 ^^^ a01.getD 0 0 ^^^ a123.getD 1 0,
    s2 := a01.getD 1 0 ^^^ a123.getD 2 0,
    s3 := a01.getD 7 0 ^^^ a01.getD 2 0 ^^^ a123.getD 3 0,
    s4 := a01.getD 7 0 ^^^ a01.getD 3 0 ^^^ a123.getD 4 0,
    s5 := a01.getD 4 0 ^^^ a123.getD 5 0,
    s6 := a01.getD 5 0 ^^^ a123.getD 6 0,
    s7 := a01.getD 6 0 ^^^ a123.getD 7 0 }

/-- C `InvMixColumns` of the variant: the five per-slice values computed by a
loop into arrays. -/
def InvMixColumns2 (s : AES_state) : AES_state :=
  let sl := [s.s0, s.s1, s.s2, s.s3, s.s4, s.s5, s.s6, s.s7]
  let a01 := sl.map (fun a => (a ^^^ rotC a 1) &&& 0xFFFF)
  let a12 := (List.range 8).map (fun i => (rotC (a01.getD i 0) 1) &&& 0xFFFF)
  let a123 := (List.range 8).map (fun i =>
    (a12.getD i 0 ^^^ rotC (sl.getD i 0) 3) &&& 0xFFFF)
  let a0123 := (List.range 8).map (fun i => sl.getD i 0 ^^^ a123.getD i 0)
  let a02 := (List.range 8).map (fun i => a01.getD i 0 ^^^ a12.getD i 0)
  { s0 := a123.getD 0 0 ^^^ a01.getD 7 0 ^^^ a02.getD 6 0 ^^^ a0123.getD 5 0,
    s1 := a123.getD 1 0 ^^^ a01.getD 0 0 ^^^ a12.getD 7 0 ^^^ a02.getD 6 0 ^^^
          a0123.getD 5 0 ^^^ a0123.getD 6 0,
    s2 := a123.getD 2 0 ^^^ a01.getD 1 0 ^^^ a02.getD 0 0 ^^^ a02.getD 7 0 ^^^
          a0123.getD 6 0 ^^^ a0123.getD 7 0,
    s3 := a123.getD 3 0 ^^^ a01.getD 2 0 ^^^ a01.getD 7 0 ^^^ a02.getD 1 0 ^^^
          a02.getD 6 0 ^^^ a0123.getD 0 0 ^^^ a0123.getD 5 0 ^^^ a0123.getD 7 0,
    s4 := a123.getD 4 0 ^^^ a01.getD 3 0 ^^^ a12.getD 7 0 ^^^ a02.getD 2 0 ^^^
          a02.getD 6 0 ^^^ a0123.getD 1 0 ^^^ a0123.getD 5 0 ^^^ a0123.getD 6 0,
    s5 := a123.getD 5 0 ^^^ a01.getD 4 0 ^^^ a02.getD 3 0 ^^^ a02.getD 7 0 ^^^
          a0123.getD 2 0 ^^^ a0123.getD 6 0 ^^^ a0123.getD 7 0,
    s6 := a123.getD 6 0 ^^^ a01.getD 5 0 ^^^ a02.getD 4 0 ^^^ a0123.getD 3 0 ^^^
          a0123.getD 7 0,
    s7 := a123.getD 7 0 ^^^ a01.getD 6 0 ^^^ a02.getD 5 0 ^^^ a0123.getD 4 0 }

/-- C `SubWord` of the variant: identical packing, calling the merged
`SubBytes` with `inv = 0`. -/
def SubWord2 (x : Nat) : Nat :=
  let pack := fun (b : Nat) =>
    ((x >>> b) &&& 1) ||| (((x >>> b) >>> 7) &&& 2) |||
    (((x >>> b) >>> 14) &&& 4) ||| (((x >>> b) >>> 21) &&& 8)
  let t := SubBytes2
    { s0 := pack 0, s1 := pack 1, s2 := pack 2, s3 := pack 3,
      s4 := pack 4, s5 := pack 5, s6 := pack 6, s7 := pack 7 } 0
  let unpack := fun (u b : Nat) =>
    ((u &&& 1) ||| ((u &&& 2) <<< 7) ||| ((u &&& 4) <<< 14) ||| ((u &&& 8) <<< 21)) <<< b
  unpack t.s0 0 ||| unpack t.s1 1 ||| unpack t.s2 2 ||| unpack t.s3 3 |||
  unpack t.s4 4 ||| unpack t.s5 5 ||| unpack t.s6 6 ||| unpack t.s7 7

/-- The main key-expansion loop of the variant, using its `SubWord`. -/
def setupGo2 (nk : Nat) : Nat → List Nat → Nat → Nat → Nat → List AES_state → List AES_state
  | 0, _, _, _, _, acc => acc
  | fuel + 1, rk, rcon, pos, i, acc =>
    let temp0 := rk.getD ((i + 7) % 8) 0
    let temp :=
      if pos = 0 then SubWord2 (RotWord temp0) ^^^ (rcon <<< 24)
      else if 6 < nk ∧ pos = 4 then SubWord2 temp0
      else temp0
    let rcon2 := if pos = 0 then rconStep rcon else rcon
    let pos2 := if pos + 1 = nk then 0 else pos + 1
    let rk2 := rk.set (i % 8) ((rk.getD ((i + 8 - nk) % 8) 0) ^^^ temp)
    let acc2 :=
      if i % 4 = 3 then
        acc ++ [LoadWords (rk2.getD ((i + 5) % 8) 0) (rk2.getD ((i + 6) % 8) 0)
          (rk2.getD ((i + 7) % 8) 0) (rk2.getD (i % 8) 0)]
      else acc
    setupGo2 nk fuel rk2 rcon2 pos2 (i + 1) acc2

/-- C `AES_setup` of the variant. -/
def AES_setup2 (key : List Nat) (nkeywords nrounds : Nat) : List AES_state :=
  let rk0 := (List.range 8).map (fun i => if i < nkeywords then keyWord key i else 0)
  let acc0 := [LoadWords (keyWord key 0) (keyWord key 1) (keyWord key 2) (keyWord key 3)] ++
    (if nkeywords = 8 then
      [LoadWords (keyWord key 4) (keyWord key 5) (keyWord key 6) (keyWord key 7)] else [])
  setupGo2 nkeywords (4 * (nrounds + 1) - nkeywords) rk0 1 0 nkeywords acc0

/-- One full encryption round of the variant (`SubBytes(&s, 0)`). -/
def encRound2 (s k : AES_state) : AES_state :=
  AddRoundKey (MixColumns2 (ShiftRows (SubBytes2 s 0))) k

/-- One full decryption round of the variant (`SubBytes(&s, 1)`). -/
def decRound2 (s k : AES_state) : AES_state :=
  InvMixColumns2 (AddRoundKey (SubBytes2 (InvShiftRows s) 1) k)

/-- C `AES_encrypt` of the variant. -/
def AES_encrypt2 (rounds : List AES_state) (nrounds : Nat) (plain16 : List Nat) : List Nat :=
  let m0 := AddRoundKey (LoadBytes2 plain16) (rounds.getD 0 default)
  let m1 := List.foldl encRound2 m0 ((rounds.drop 1).take (nrounds - 1))
  SaveBytes (AddRoundKey (ShiftRows (SubBytes2 m1 0)) (rounds.getD nrounds default))

/-- C `AES_decrypt` of the variant. -/
def AES_decrypt2 (rounds : List AES_state) (nrounds : Nat) (cipher16 : List Nat) : List Nat :=
  let m0 := AddRoundKey (LoadBytes2 cipher16) (rounds.getD nrounds default)
  let m1 := List.foldl decRound2 m0 (((rounds.drop 1).take (nrounds - 1)).reverse)
  SaveBytes (AddRoundKey (SubBytes2 (InvShiftRows m1) 1) (rounds.getD 0 default))

/-- C `AES128_init` of the variant. -/
def AES128_init2 (key16 : List Nat) : List AES_state := AES_setup2 key16 4 10

/-- C `AES128_encrypt` of the variant. -/
def AES128_encrypt2 (ctx : List AES_state) (plain16 : List Nat) : List Nat :=
  AES_encrypt2 ctx 10 plain16

/-- C `AES128_decrypt` of the variant. -/
def AES128_decrypt2 (ctx : List AES_state) (cipher16 : List Nat) : List Nat :=
  AES_decrypt2 ctx 10 cipher16

/-- C `AES192_init` of the variant. -/
def AES192_init2 (key24 : List Nat) : List AES_state := AES_setup2 key24 6 12

/-- C `AES192_encrypt` of the variant. -/
def AES192_encrypt2 (ctx : List AES_state) (plain16 : List Nat) : List Nat :=
  AES_encrypt2 ctx 12 plain16

/-- C `AES192_decrypt` of the variant. -/
def AES192_decrypt2 (ctx : List AES_state) (cipher16 : List Nat) : List Nat :=
  AES_decrypt2 ctx 12 cipher16

/-- C `AES256_init` of the variant. -/
def AES256_init2 (key32 : List Nat) : List AES_state := AES_setup2 key32 8 14

/-- C `AES256_encrypt` of the variant. -/
def AES256_encrypt2 (ctx : List AES_state) (plain16 : List Nat) : List Nat :=
  AES_encrypt2 ctx 14 plain16

/-- C `AES256_decrypt` of the variant. -/
def AES256_decrypt2 (ctx : List AES_state) (cipher16 : List Nat) : List Nat :=
  AES_decrypt2 ctx 14 cipher16

/-- Spec side (C4): key word `i` read big-endian, 4 bytes per word. -/
def specKeyWord (key : List Nat) (i : Nat) : Nat :=
  (key.getD (4 * i) 0) <<< 24 ||| (key.getD (4 * i + 1) 0) <<< 16 |||
  (key.getD (4 * i + 2) 0) <<< 8 ||| key.getD (4 * i + 3) 0

/-- Spec side (C4): the round constant starts at 0x01 and advances by the
GF(2^8) xtime map. -/
def specRcon : Nat → Nat
  | 0 => 1
  | n + 1 => xtime (specRcon n)

/-- Spec side (C4): the first `n` words of the classical FIPS-197 expanded key:
words below `Nk` are the raw key, then `w[i] = w[i-Nk] ^ temp` with the
three-way `temp` rule on `w[i-1]`. -/
def specWords (key : List Nat) (nk : Nat) : Nat → List Nat
  | 0 => []
  | n + 1 =>
    let w := specWords key nk n
    if n < nk then w ++ [specKeyWord key n]
    else
      let prev := w.getD (n - 1) 0
      let temp :=
        if n % nk = 0 then SubWord (RotWord prev) ^^^ (specRcon (n / nk - 1) <<< 24)
        else if 6 < nk ∧ n % nk = 4 then SubWord prev
        else prev
      w ++ [w.getD (n - nk) 0 ^^^ temp]

/-- Spec side (C4): round key `r` of the context is `LoadWords` of words
`4r .. 4r+3` of the expanded key. -/
def specSchedule (key : List Nat) (nk nr : Nat) : List AES_state :=
  let w := specWords key nk (4 * (nr + 1))
  (List.range (nr + 1)).map (fun r =>
    LoadWords (w.getD (4 * r) 0) (w.getD (4 * r + 1) 0)
      (w.getD (4 * r + 2) 0) (w.getD (4 * r + 3) 0))

/-- Word `i` of the expanded key. -/
def wv (key : List Nat) (nk i : Nat) : Nat := (specWords key nk (i + 1)).getD i 0

/-- Round key `r` built from the expanded key words. -/
def specRoundKey (key : List Nat) (nk : Nat) (r : Nat) : AES_state :=
  LoadWords (wv key nk (4 * r)) (wv key nk (4 * r + 1)) (wv key nk (4 * r + 2))
    (wv key nk (4 * r + 3))

/-- The 16-bit mask is all-ones below bit 16. -/
theorem testBit_ffff (p : Nat) (hp : p < 16) : Nat.testBit 0xFFFF p = true := by
  have h : (0xFFFF : Nat) = 2 ^ 16 - 1 := by norm_num
  rw [h, Nat.testBit_two_pow_sub_one]
  simpa using hp

/-- Bits above position 15 of a 16-bit value are clear. -/
theorem testBit_high {x : Nat} (h : x < 65536) {i : Nat} (hi : 16 ≤ i) :
    x.testBit i = false :=
  Nat.testBit_lt_two_pow (lt_of_lt_of_le h (Nat.pow_le_pow_right (by norm_num : 0 < 2) hi))

/-- Bits above position 7 of a byte are clear. -/
theorem testBit_byte_high {x : Nat} (h : x < 256) {i : Nat} (hi : 8 ≤ i) :
    x.testBit i = false :=
  Nat.testBit_lt_two_pow (lt_of_lt_of_le h (Nat.pow_le_pow_right (by norm_num : 0 < 2) hi))

/-- A value all of whose bits above position 15 are clear fits in 16 bits. -/
theorem lt_two_pow_16 {x : Nat} (h : ∀ i, 16 ≤ i → x.testBit i = false) : x < 65536 :=
  Nat.lt_pow_two_of_testBit x (fun i hi => h i hi)

theorem byteAssemble_lt (b : Bits8) : byteAssemble b < 256 := by
  rcases b with ⟨b0, b1, b2, b3, b4, b5, b6, b7⟩
  cases b0 <;> cases b1 <;> cases b2 <;> cases b3 <;> cases b4 <;> cases b5 <;> cases b6 <;>
    cases b7 <;> decide

theorem byteAt_lt (s : AES_state) (p : Nat) : byteAt s p < 256 := byteAssemble_lt _

set_option maxRecDepth 4096 in
/-- Reassembling the bits of a byte gives the byte back. -/
theorem byteAssemble_byteBits : ∀ v : Fin 256, byteAssemble (byteBits v.val) = v.val := by decide

theorem byteAssemble_byteBits_of_lt {v : Nat} (h : v < 256) : byteAssemble (byteBits v) = v :=
  byteAssemble_byteBits ⟨v, h⟩

/-- Extracting the bits of an assembled byte gives the bits back. -/
theorem byteBits_byteAssemble : ∀ b : Bits8, byteBits (byteAssemble b) = b := by
  intro ⟨b0, b1, b2, b3, b4, b5, b6, b7⟩
  revert b0 b1 b2 b3 b4 b5 b6 b7
  decide

/-- At every lane `p < 16`, the slices produced by `SubBytes` carry exactly the
bits of the Boolean gate network applied to the lane's input bits. -/
theorem subBytes_testBit (s : AES_state) (p : Nat) (hp : p < 16) :
    sliceBits (SubBytes s) p = subBytesBit (s.s0.testBit p) (s.s1.testBit p) (s.s2.testBit p)
      (s.s3.testBit p) (s.s4.testBit p) (s.s5.testBit p) (s.s6.testBit p) (s.s7.testBit p) := by
  simp only [sliceBits, SubBytes, subBytesBit, cnot, Nat.testBit_xor, Nat.testBit_and,
    Nat.testBit_or, testBit_ffff p hp, Bool.true_xor]

/-- Same for `InvSubBytes`. -/
theorem invSubBytes_testBit (s : AES_state) (p : Nat) (hp : p < 16) :
    sliceBits (InvSubBytes s) p = invSubBytesBit (s.s0.testBit p) (s.s1.testBit p)
      (s.s2.testBit p) (s.s3.testBit p) (s.s4.testBit p) (s.s5.testBit p) (s.s6.testBit p)
      (s.s7.testBit p) := by
  simp only [sliceBits, InvSubBytes, invSubBytesBit, cnot, Nat.testBit_xor, Nat.testBit_and,
    Nat.testBit_or, testBit_ffff p hp, Bool.true_xor]

/-- Above lane 15 the `SubBytes` output slices have no bits set (for a valid input). -/
theorem subBytes_high {s : AES_state} (hs : s.Valid) {i : Nat} (hi : 16 ≤ i) :
    sliceBits (SubBytes s) i =
      ⟨false, false, false, false, false, false, false, false⟩ := by
  obtain ⟨h0, h1, h2, h3, h4, h5, h6, h7⟩ := hs
  simp only [sliceBits, SubBytes, cnot, Nat.testBit_xor, Nat.testBit_and, Nat.testBit_or,
    testBit_high h0 hi, testBit_high h1 hi, testBit_high h2 hi, testBit_high h3 hi,
    testBit_high h4 hi, testBit_high h5 hi, testBit_high h6 hi, testBit_high h7 hi,
    testBit_high (by norm_num : (0xFFFF : Nat) < 65536) hi]
  simp

/-- Above lane 15 the `InvSubBytes` output slices have no bits set. -/
theorem invSubBytes_high {s : AES_state} (hs : s.Valid) {i : Nat} (hi : 16 ≤ i) :
    sliceBits (InvSubBytes s) i =
      ⟨false, false, false, false, false, false, false, false⟩ := by
  obtain ⟨h0, h1, h2, h3, h4, h5, h6, h7⟩ := hs
  simp only [sliceBits, InvSubBytes, cnot, Nat.testBit_xor, Nat.testBit_and, Nat.testBit_or,
    testBit_high h0 hi, testBit_high h1 hi, testBit_high h2 hi, testBit_high h3 hi,
    testBit_high h4 hi, testBit_high h5 hi, testBit_high h6 hi, testBit_high h7 hi,
    testBit_high (by norm_num : (0xFFFF : Nat) < 65536) hi]
  simp

theorem subBytes_valid {s : AES_state} (hs : s.Valid) : (SubBytes s).Valid :=
  ⟨lt_two_pow_16 (fun _ hi => congrArg Bits8.b0 (subBytes_high hs hi)),
   lt_two_pow_16 (fun _ hi => congrArg Bits8.b1 (subBytes_high hs hi)),
   lt_two_pow_16 (fun _ hi => congrArg Bits8.b2 (subBytes_high hs hi)),
   lt_two_pow_16 (fun _ hi => congrArg Bits8.b3 (subBytes_high hs hi)),
   lt_two_pow_16 (fun _ hi => congrArg Bits8.b4 (subBytes_high hs hi)),
   lt_two_pow_16 (fun _ hi => congrArg Bits8.b5 (subBytes_high hs hi)),
   lt_two_pow_16 (fun _ hi => congrArg Bits8.b6 (subBytes_high hs hi)),
   lt_two_pow_16 (fun _ hi => congrArg Bits8.b7 (subBytes_high hs hi))⟩

theorem invSubBytes_valid {s : AES_state} (hs : s.Valid) : (InvSubBytes s).Valid :=
  ⟨lt_two_pow_16 (fun _ hi => congrArg Bits8.b0 (invSubBytes_high hs hi)),
   lt_two_pow_16 (fun _ hi => congrArg Bits8.b1 (invSubBytes_high hs hi)),
   lt_two_pow_16 (fun _ hi => congrArg Bits8.b2 (invSubBytes_high hs hi)),
   lt_two_pow_16 (fun _ hi => congrArg Bits8.b3 (invSubBytes_high hs hi)),
   lt_two_pow_16 (fun _ hi => congrArg Bits8.b4 (invSubBytes_high hs hi)),
   lt_two_pow_16 (fun _ hi => congrArg Bits8.b5 (invSubBytes_high hs hi)),
   lt_two_pow_16 (fun _ hi => congrArg Bits8.b6 (invSubBytes_high hs hi)),
   lt_two_pow_16 (fun _ hi => congrArg Bits8.b7 (invSubBytes_high hs hi))⟩

set_option maxRecDepth 8192 in
/-- The Boolean S-box circuit computes the FIPS-197 S-box table on assembled bytes. -/
theorem subBytesBit_table : ∀ a0 a1 a2 a3 a4 a5 a6 a7 : Bool,
    byteAssemble (subBytesBit a0 a1 a2 a3 a4 a5 a6 a7) =
      sboxTable.getD (byteAssemble ⟨a0, a1, a2, a3, a4, a5, a6, a7⟩) 0 := by decide

set_option maxRecDepth 8192 in
/-- The Boolean inverse S-box circuit computes the inverse FIPS-197 table. -/
theorem invSubBytesBit_table : ∀ a0 a1 a2 a3 a4 a5 a6 a7 : Bool,
    byteAssemble (invSubBytesBit a0 a1 a2 a3 a4 a5 a6 a7) =
      invSboxTable.getD (byteAssemble ⟨a0, a1, a2, a3, a4, a5, a6, a7⟩) 0 := by decide

theorem subBytes_byteAt (s : AES_state) (p : Nat) (hp : p < 16) :
    byteAt (SubBytes s) p = sboxTable.getD (byteAt s p) 0 := by
  unfold byteAt
  rw [subBytes_testBit s p hp]
  exact subBytesBit_table _ _ _ _ _ _ _ _

theorem invSubBytes_byteAt (s : AES_state) (p : Nat) (hp : p < 16) :
    byteAt (InvSubBytes s) p = invSboxTable.getD (byteAt s p) 0 := by
  unfold byteAt
  rw [invSubBytes_testBit s p hp]
  exact invSubBytesBit_table _ _ _ _ _ _ _ _

/-- C3: for every bit-sliced state and every lane, `SubBytes` decodes to the AES
S-box on that lane's byte and `InvSubBytes` decodes to the inverse S-box. -/
theorem claim3_subBytes_is_sbox (s : AES_state) (j : Nat) (hj : j < 16) :
    byteAt (SubBytes s) j = sboxTable.getD (byteAt s j) 0 ∧
    byteAt (InvSubBytes s) j = invSboxTable.getD (byteAt s j) 0 :=
  ⟨subBytes_byteAt s j hj, invSubBytes_byteAt s j hj⟩

/-- Witness for C3 at a concrete state and lane. -/
theorem claim3_subBytes_is_sbox_witness :
    byteAt (SubBytes ⟨1, 0, 0, 0, 0, 0, 0, 0⟩) 0 =
      sboxTable.getD (byteAt ⟨1, 0, 0, 0, 0, 0, 0, 0⟩ 0) 0 ∧
    byteAt (InvSubBytes ⟨1, 0, 0, 0, 0, 0, 0, 0⟩) 0 =
      invSboxTable.getD (byteAt ⟨1, 0, 0, 0, 0, 0, 0, 0⟩ 0) 0 :=
  claim3_subBytes_is_sbox ⟨1, 0, 0, 0, 0, 0, 0, 0⟩ 0 (by norm_num)

set_option maxRecDepth 100000 in
/-- C2: the FIPS-197 Appendix B and C known-answer vectors. -/
theorem claim2_fips197_kats :
    (AES128_encrypt (AES128_init
        [0x00, 0x01, 0x02, 0x03, 0x04, 0x05, 0x06, 0x07,
         0x08, 0x09, 0x0a, 0x0b, 0x0c, 0x0d, 0x0e, 0x0f])
        [0x00, 0x11, 0x22, 0x33, 0x44, 0x55, 0x66, 0x77,
         0x88, 0x99, 0xaa, 0xbb, 0xcc, 0xdd, 0xee, 0xff] =
      [0x69, 0xc4, 0xe0, 0xd8, 0x6a, 0x7b, 0x04, 0x30,
       0xd8, 0xcd, 0xb7, 0x80, 0x70, 0xb4, 0xc5, 0x5a]) ∧
    (AES192_encrypt (AES192_init
        [0x00, 0x01, 0x02, 0x03, 0x04, 0x05, 0x06, 0x07,
         0x08, 0x09, 0x0a, 0x0b, 0x0c, 0x0d, 0x0e, 0x0f,
         0x10, 0x11, 0x12, 0x13, 0x14, 0x15, 0x16, 0x17])
        [0x00, 0x11, 0x22, 0x33, 0x44, 0x55, 0x66, 0x77,
         0x88, 0x99, 0xaa, 0xbb, 0xcc, 0xdd, 0xee, 0xff] =
      [0xdd, 0xa9, 0x7c, 0xa4, 0x86, 0x4c, 0xdf, 0xe0,
       0x6e, 0xaf, 0x70, 0xa0, 0xec, 0x0d, 0x71, 0x91]) ∧
    (AES256_encrypt (AES256_init
        [0x00, 0x01, 0x02, 0x03, 0x04, 0x05, 0x06, 0x07,
         0x08, 0x09, 0x0a, 0x0b, 0x0c, 0x0d, 0x0e, 0x0f,
         0x10, 0x11, 0x12, 0x13, 0x14, 0x15, 0x16, 0x17,
         0x18, 0x19, 0x1a, 0x1b, 0x1c, 0x1d, 0x1e, 0x1f])
        [0x00, 0x11, 0x22, 0x33, 0x44, 0x55, 0x66, 0x77,
         0x88, 0x99, 0xaa, 0xbb, 0xcc, 0xdd, 0xee, 0xff] =
      [0x8e, 0xa2, 0xb7, 0xca, 0x51, 0x67, 0x45, 0xbf,
       0xea, 0xfc, 0x49, 0x90, 0x4b, 0x49, 0x60, 0x89]) ∧
    (AES128_encrypt (AES128_init
        [0x2b, 0x7e, 0x15, 0x16, 0x28, 0xae, 0xd2, 0xa6,
         0xab, 0xf7, 0x15, 0x88, 0x09, 0xcf, 0x4f, 0x3c])
        [0x32, 0x43, 0xf6, 0xa8, 0x88, 0x5a, 0x30, 0x8d,
         0x31, 0x31, 0x98, 0xa2, 0xe0, 0x37, 0x07, 0x34] =
      [0x39, 0x25, 0x84, 0x1d, 0x02, 0xdc, 0x09, 0xfb,
       0xdc, 0x11, 0x85, 0x97, 0x19, 0x6a, 0x0b, 0x32]) := by
  refine ⟨by decide, by decide, by decide, by decide⟩

/-! ### ShiftRows -/

theorem shl_le_shl {a b : Nat} (k : Nat) (h : a ≤ b) : a <<< k ≤ b <<< k := by
  simp only [Nat.shiftLeft_eq]
  exact Nat.mul_le_mul_right _ h

theorem or_lt_65536 {a b : Nat} (ha : a < 65536) (hb : b < 65536) : a ||| b < 65536 := by
  have ha2 : a < 2 ^ 16 := by simpa using ha
  have hb2 : b < 2 ^ 16 := by simpa using hb
  simpa using Nat.or_lt_two_pow ha2 hb2

theorem xor_lt_65536 {a b : Nat} (ha : a < 65536) (hb : b < 65536) : a ^^^ b < 65536 := by
  have ha2 : a < 2 ^ 16 := by simpa using ha
  have hb2 : b < 2 ^ 16 := by simpa using hb
  simpa using Nat.xor_lt_two_pow ha2 hb2

theorem masked_lt {v m : Nat} (c : Nat) (hm : m ≤ c) (hc : c < 65536) : v &&& m < 65536 :=
  lt_of_le_of_lt (le_trans Nat.and_le_right hm) hc

theorem masked_shl_lt {v m k c : Nat} (hm : m <<< k ≤ c) (hc : c < 65536) :
    (v &&& m) <<< k < 65536 :=
  lt_of_le_of_lt (le_trans (shl_le_shl k Nat.and_le_right) hm) hc

theorem masked_shr_lt {v m k c : Nat} (hm : m ≤ c) (hc : c < 65536) :
    (v &&& m) >>> k < 65536 :=
  lt_of_le_of_lt (le_trans (by rw [Nat.shiftRight_eq_div_pow]; exact Nat.div_le_self _ _)
    (le_trans Nat.and_le_right hm)) hc

theorem shiftRowsW_lt (v : Nat) : shiftRowsW v < 65536 := by
  unfold shiftRowsW
  exact or_lt_65536 (or_lt_65536 (or_lt_65536 (or_lt_65536 (or_lt_65536 (or_lt_65536
    (masked_lt 0xF (by norm_num) (by norm_num))
    (masked_shl_lt (by decide) (by norm_num : (0x80 : Nat) < 65536)))
    (masked_shr_lt (by norm_num) (by norm_num : (0xE0 : Nat) < 65536)))
    (masked_shl_lt (by decide) (by norm_num : (0xC00 : Nat) < 65536)))
    (masked_shr_lt (by norm_num) (by norm_num : (0xC00 : Nat) < 65536)))
    (masked_shl_lt (by decide) (by norm_num : (0xE000 : Nat) < 65536)))
    (masked_shr_lt (by norm_num) (by norm_num : (0x8000 : Nat) < 65536))

theorem invShiftRowsW_lt (v : Nat) : invShiftRowsW v < 65536 := by
  unfold invShiftRowsW
  exact or_lt_65536 (or_lt_65536 (or_lt_65536 (or_lt_65536 (or_lt_65536 (or_lt_65536
    (masked_lt 0xF (by norm_num) (by norm_num))
    (masked_shl_lt (by decide) (by norm_num : (0xE0 : Nat) < 65536)))
    (masked_shr_lt (by norm_num) (by norm_num : (0x80 : Nat) < 65536)))
    (masked_shl_lt (by decide) (by norm_num : (0xC00 : Nat) < 65536)))
    (masked_shr_lt (by norm_num) (by norm_num : (0xC00 : Nat) < 65536)))
    (masked_shl_lt (by decide) (by norm_num : (0x8000 : Nat) < 65536)))
    (masked_shr_lt (by norm_num) (by norm_num : (0xE000 : Nat) < 65536))

theorem shiftRows_valid {s : AES_state} (_ : True) : (ShiftRows s).Valid :=
  ⟨shiftRowsW_lt _, shiftRowsW_lt _, shiftRowsW_lt _, shiftRowsW_lt _,
   shiftRowsW_lt _, shiftRowsW_lt _, shiftRowsW_lt _, shiftRowsW_lt _⟩

theorem invShiftRows_valid {s : AES_state} (_ : True) : (InvShiftRows s).Valid :=
  ⟨invShiftRowsW_lt _, invShiftRowsW_lt _, invShiftRowsW_lt _, invShiftRowsW_lt _,
   invShiftRowsW_lt _, invShiftRowsW_lt _, invShiftRowsW_lt _, invShiftRowsW_lt _⟩

theorem invShiftRowsW_shiftRowsW_testBit (v p : Nat) (hp : p < 16) :
    (invShiftRowsW (shiftRowsW v)).testBit p = v.testBit p := by
  interval_cases p <;>
  · simp only [shiftRowsW, invShiftRowsW, Nat.testBit_or, Nat.testBit_and,
      Nat.testBit_shiftLeft, Nat.testBit_shiftRight]
    norm_num
    simp [Nat.testBit]

theorem invShiftRowsW_shiftRowsW {v : Nat} (hv : v < 65536) :
    invShiftRowsW (shiftRowsW v) = v := by
  apply Nat.eq_of_testBit_eq
  intro p
  by_cases hp : p < 16
  · exact invShiftRowsW_shiftRowsW_testBit v p hp
  · rw [testBit_high (invShiftRowsW_lt _) (by omega), testBit_high hv (by omega)]

theorem invShiftRows_shiftRows {s : AES_state} (hs : s.Valid) :
    InvShiftRows (ShiftRows s) = s := by
  obtain ⟨h0, h1, h2, h3, h4, h5, h6, h7⟩ := hs
  cases s
  simp [ShiftRows, InvShiftRows, invShiftRowsW_shiftRowsW h0, invShiftRowsW_shiftRowsW h1,
    invShiftRowsW_shiftRowsW h2, invShiftRowsW_shiftRowsW h3, invShiftRowsW_shiftRowsW h4,
    invShiftRowsW_shiftRowsW h5, invShiftRowsW_shiftRowsW h6, invShiftRowsW_shiftRowsW h7]

/-! ### The bit-slice codec: LoadBytes / SaveBytes -/

theorem bit_shl_lt {y : Nat} {k : Nat} (hk : 1 <<< k < 65536) : (y &&& 1) <<< k < 65536 :=
  lt_of_le_of_lt (shl_le_shl k Nat.and_le_right) hk

theorem lwSlice_lt (w0 w1 w2 w3 i : Nat) : lwSlice w0 w1 w2 w3 i < 65536 := by
  simp only [lwSlice, lwByte, List.foldl]
  repeat' apply or_lt_65536
  all_goals first
    | decide
    | exact bit_shl_lt (by decide)

theorem loadWords_valid (w0 w1 w2 w3 : Nat) : (LoadWords w0 w1 w2 w3).Valid :=
  ⟨lwSlice_lt _ _ _ _ _, lwSlice_lt _ _ _ _ _, lwSlice_lt _ _ _ _ _, lwSlice_lt _ _ _ _ _,
   lwSlice_lt _ _ _ _ _, lwSlice_lt _ _ _ _ _, lwSlice_lt _ _ _ _ _, lwSlice_lt _ _ _ _ _⟩

theorem loadBytes_valid (data16 : List Nat) : (LoadBytes data16).Valid := by
  unfold LoadBytes
  exact loadWords_valid _ _ _ _

theorem shr_and_one (x p : Nat) : (x >>> p) &&& 1 = (x.testBit p).toNat := by
  rw [Nat.and_one_is_mod]
  rcases Nat.mod_two_eq_zero_or_one (x >>> p) with h | h <;>
    simp [Nat.testBit, Nat.and_one_is_mod, Nat.land_comm 1, h]

/-- `SaveBytes` writes at position `pos` exactly the decoded lane byte. -/
theorem saveByte_eq (s : AES_state) (pos : Nat) : saveByte s pos = byteAt s pos := by
  simp only [saveByte, byteAt, byteAssemble, sliceBits, shr_and_one]

theorem state_ext_bits {s t : AES_state} (hs : s.Valid) (ht : t.Valid)
    (h : ∀ p, p < 16 → sliceBits s p = sliceBits t p) : s = t := by
  obtain ⟨a0, a1, a2, a3, a4, a5, a6, a7⟩ := hs
  obtain ⟨c0, c1, c2, c3, c4, c5, c6, c7⟩ := ht
  have hb : ∀ p, p < 16 → ∀ k : Bits8 → Bool, k (sliceBits s p) = k (sliceBits t p) :=
    fun p hp k => congrArg k (h p hp)
  cases s
  cases t
  simp only [AES_state.mk.injEq]
  refine ⟨?_, ?_, ?_, ?_, ?_, ?_, ?_, ?_⟩ <;>
    apply Nat.eq_of_testBit_eq <;>
    intro p <;>
    rcases Nat.lt_or_ge p 16 with hp | hp
  · exact hb p hp Bits8.b0
  · rw [testBit_high a0 hp, testBit_high c0 hp]
  · exact hb p hp Bits8.b1
  · rw [testBit_high a1 hp, testBit_high c1 hp]
  · exact hb p hp Bits8.b2
  · rw [testBit_high a2 hp, testBit_high c2 hp]
  · exact hb p hp Bits8.b3
  · rw [testBit_high a3 hp, testBit_high c3 hp]
  · exact hb p hp Bits8.b4
  · rw [testBit_high a4 hp, testBit_high c4 hp]
  · exact hb p hp Bits8.b5
  · rw [testBit_high a5 hp, testBit_high c5 hp]
  · exact hb p hp Bits8.b6
  · rw [testBit_high a6 hp, testBit_high c6 hp]
  · exact hb p hp Bits8.b7
  · rw [testBit_high a7 hp, testBit_high c7 hp]

theorem testBit_mod_two (x i : Nat) :
    (x % 2).testBit i = (decide (i < 1) && x.testBit i) := by
  rw [show (2 : Nat) = 2 ^ 1 by norm_num]
  exact Nat.testBit_mod_two_pow x 1 i

theorem testBit_mod_2_32 (x i : Nat) :
    (x % 4294967296).testBit i = (decide (i < 32) && x.testBit i) := by
  rw [show (4294967296 : Nat) = 2 ^ 32 by norm_num]
  exact Nat.testBit_mod_two_pow x 32 i

set_option linter.unusedVariables false in
theorem loadBytes_lane_0 (b0 b1 b2 b3 b4 b5 b6 b7 b8 b9 b10 b11 b12 b13 b14 b15 : Nat)
    (h0 : b0 < 256)
    (h1 : b1 < 256)
    (h2 : b2 < 256)
    (h3 : b3 < 256)
    (h4 : b4 < 256)
    (h5 : b5 < 256)
    (h6 : b6 < 256)
    (h7 : b7 < 256)
    (h8 : b8 < 256)
    (h9 : b9 < 256)
    (h10 : b10 < 256)
    (h11 : b11 < 256)
    (h12 : b12 < 256)
    (h13 : b13 < 256)
    (h14 : b14 < 256)
    (h15 : b15 < 256) :
    sliceBits (LoadBytes [b0, b1, b2, b3, b4, b5, b6, b7, b8, b9, b10, b11, b12, b13, b14, b15]) 0
      = byteBits b0 := by
  simp only [sliceBits, byteBits, LoadBytes, LoadWords, lwSlice, lwByte, List.getD, List.foldl,
    List.get?, Nat.testBit_or, Nat.testBit_and, Nat.testBit_shiftLeft, Nat.testBit_shiftRight,
    Nat.testBit_mod_two_pow]
  norm_num [testBit_byte_high h0, testBit_byte_high h1, testBit_byte_high h2, testBit_byte_high h3, testBit_byte_high h4, testBit_byte_high h5, testBit_byte_high h6, testBit_byte_high h7, testBit_byte_high h8, testBit_byte_high h9, testBit_byte_high h10, testBit_byte_high h11, testBit_byte_high h12, testBit_byte_high h13, testBit_byte_high h14, testBit_byte_high h15]
  simp [Nat.testBit]

set_option linter.unusedVariables false in
theorem loadBytes_lane_1 (b0 b1 b2 b3 b4 b5 b6 b7 b8 b9 b10 b11 b12 b13 b14 b15 : Nat)
    (h0 : b0 < 256)
    (h1 : b1 < 256)
    (h2 : b2 < 256)
    (h3 : b3 < 256)
    (h4 : b4 < 256)
    (h5 : b5 < 256)
    (h6 : b6 < 256)
    (h7 : b7 < 256)
    (h8 : b8 < 256)
    (h9 : b9 < 256)
    (h10 : b10 < 256)
    (h11 : b11 < 256)
    (h12 : b12 < 256)
    (h13 : b13 < 256)
    (h14 : b14 < 256)
    (h15 : b15 < 256) :
    sliceBits (LoadBytes [b0, b1, b2, b3, b4, b5, b6, b7, b8, b9, b10, b11, b12, b13, b14, b15]) 1
      = byteBits b4 := by
  simp only [sliceBits, byteBits, LoadBytes, LoadWords, lwSlice, lwByte, List.getD, List.foldl,
    List.get?, Nat.testBit_or, Nat.testBit_and, Nat.testBit_shiftLeft, Nat.testBit_shiftRight,
    Nat.testBit_mod_two_pow]
  norm_num [testBit_byte_high h0, testBit_byte_high h1, testBit_byte_high h2, testBit_byte_high h3, testBit_byte_high h4, testBit_byte_high h5, testBit_byte_high h6, testBit_byte_high h7, testBit_byte_high h8, testBit_byte_high h9, testBit_byte_high h10, testBit_byte_high h11, testBit_byte_high h12, testBit_byte_high h13, testBit_byte_high h14, testBit_byte_high h15]
  simp [Nat.testBit]

set_option linter.unusedVariables false in
theorem loadBytes_lane_2 (b0 b1 b2 b3 b4 b5 b6 b7 b8 b9 b10 b11 b12 b13 b14 b15 : Nat)
    (h0 : b0 < 256)
    (h1 : b1 < 256)
    (h2 : b2 < 256)
    (h3 : b3 < 256)
    (h4 : b4 < 256)
    (h5 : b5 < 256)
    (h6 : b6 < 256)
    (h7 : b7 < 256)
    (h8 : b8 < 256)
    (h9 : b9 < 256)
    (h10 : b10 < 256)
    (h11 : b11 < 256)
    (h12 : b12 < 256)
    (h13 : b13 < 256)
    (h14 : b14 < 256)
    (h15 : b15 < 256) :
    sliceBits (LoadBytes [b0, b1, b2, b3, b4, b5, b6, b7, b8, b9, b10, b11, b12, b13, b14, b15]) 2
      = byteBits b8 := by
  simp only [sliceBits, byteBits, LoadBytes, LoadWords, lwSlice, lwByte, List.getD, List.foldl,
    List.get?, Nat.testBit_or, Nat.testBit_and, Nat.testBit_shiftLeft, Nat.testBit_shiftRight,
    Nat.testBit_mod_two_pow]
  norm_num [testBit_byte_high h0, testBit_byte_high h1, testBit_byte_high h2, testBit_byte_high h3, testBit_byte_high h4, testBit_byte_high h5, testBit_byte_high h6, testBit_byte_high h7, testBit_byte_high h8, testBit_byte_high h9, testBit_byte_high h10, testBit_byte_high h11, testBit_byte_high h12, testBit_byte_high h13, testBit_byte_high h14, testBit_byte_high h15]
  simp [Nat.testBit]

set_option linter.unusedVariables false in
theorem loadBytes_lane_3 (b0 b1 b2 b3 b4 b5 b6 b7 b8 b9 b10 b11 b12 b13 b14 b15 : Nat)
    (h0 : b0 < 256)
    (h1 : b1 < 256)
    (h2 : b2 < 256)
    (h3 : b3 < 256)
    (h4 : b4 < 256)
    (h5 : b5 < 256)
    (h6 : b6 < 256)
    (h7 : b7 < 256)
    (h8 : b8 < 256)
    (h9 : b9 < 256)
    (h10 : b10 < 256)
    (h11 : b11 < 256)
    (h12 : b12 < 256)
    (h13 : b13 < 256)
    (h14 : b14 < 256)
    (h15 : b15 < 256) :
    sliceBits (LoadBytes [b0, b1, b2, b3, b4, b5, b6, b7, b8, b9, b10, b11, b12, b13, b14, b15]) 3
      = byteBits b12 := by
  simp only [sliceBits, byteBits, LoadBytes, LoadWords, lwSlice, lwByte, List.getD, List.foldl,
    List.get?, Nat.testBit_or, Nat.testBit_and, Nat.testBit_shiftLeft, Nat.testBit_shiftRight,
    Nat.testBit_mod_two_pow]
  norm_num [testBit_byte_high h0, testBit_byte_high h1, testBit_byte_high h2, testBit_byte_high h3, testBit_byte_high h4, testBit_byte_high h5, testBit_byte_high h6, testBit_byte_high h7, testBit_byte_high h8, testBit_byte_high h9, testBit_byte_high h10, testBit_byte_high h11, testBit_byte_high h12, testBit_byte_high h13, testBit_byte_high h14, testBit_byte_high h15]
  simp [Nat.testBit]

set_option linter.unusedVariables false in
theorem loadBytes_lane_4 (b0 b1 b2 b3 b4 b5 b6 b7 b8 b9 b10 b11 b12 b13 b14 b15 : Nat)
    (h0 : b0 < 256)
    (h1 : b1 < 256)
    (h2 : b2 < 256)
    (h3 : b3 < 256)
    (h4 : b4 < 256)
    (h5 : b5 < 256)
    (h6 : b6 < 256)
    (h7 : b7 < 256)
    (h8 : b8 < 256)
    (h9 : b9 < 256)
    (h10 : b10 < 256)
    (h11 : b11 < 256)
    (h12 : b12 < 256)
    (h13 : b13 < 256)
    (h14 : b14 < 256)
    (h15 : b15 < 256) :
    sliceBits (LoadBytes [b0, b1, b2, b3, b4, b5, b6, b7, b8, b9, b10, b11, b12, b13, b14, b15]) 4
      = byteBits b1 := by
  simp only [sliceBits, byteBits, LoadBytes, LoadWords, lwSlice, lwByte, List.getD, List.foldl,
    List.get?, Nat.testBit_or, Nat.testBit_and, Nat.testBit_shiftLeft, Nat.testBit_shiftRight,
    Nat.testBit_mod_two_pow]
  norm_num [testBit_byte_high h0, testBit_byte_high h1, testBit_byte_high h2, testBit_byte_high h3, testBit_byte_high h4, testBit_byte_high h5, testBit_byte_high h6, testBit_byte_high h7, testBit_byte_high h8, testBit_byte_high h9, testBit_byte_high h10, testBit_byte_high h11, testBit_byte_high h12, testBit_byte_high h13, testBit_byte_high h14, testBit_byte_high h15]
  simp [Nat.testBit]

set_option linter.unusedVariables false in
theorem loadBytes_lane_5 (b0 b1 b2 b3 b4 b5 b6 b7 b8 b9 b10 b11 b12 b13 b14 b15 : Nat)
    (h0 : b0 < 256)
    (h1 : b1 < 256)
    (h2 : b2 < 256)
    (h3 : b3 < 256)
    (h4 : b4 < 256)
    (h5 : b5 < 256)
    (h6 : b6 < 256)
    (h7 : b7 < 256)
    (h8 : b8 < 256)
    (h9 : b9 < 256)
    (h10 : b10 < 256)
    (h11 : b11 < 256)
    (h12 : b12 < 256)
    (h13 : b13 < 256)
    (h14 : b14 < 256)
    (h15 : b15 < 256) :
    sliceBits (LoadBytes [b0, b1, b2, b3, b4, b5, b6, b7, b8, b9, b10, b11, b12, b13, b14, b15]) 5
      = byteBits b5 := by
  simp only [sliceBits, byteBits, LoadBytes, LoadWords, lwSlice, lwByte, List.getD, List.foldl,
    List.get?, Nat.testBit_or, Nat.testBit_and, Nat.testBit_shiftLeft, Nat.testBit_shiftRight,
    Nat.testBit_mod_two_pow]
  norm_num [testBit_byte_high h0, testBit_byte_high h1, testBit_byte_high h2, testBit_byte_high h3, testBit_byte_high h4, testBit_byte_high h5, testBit_byte_high h6, testBit_byte_high h7, testBit_byte_high h8, testBit_byte_high h9, testBit_byte_high h10, testBit_byte_high h11, testBit_byte_high h12, testBit_byte_high h13, testBit_byte_high h14, testBit_byte_high h15]
  simp [Nat.testBit]

set_option linter.unusedVariables false in
theorem loadBytes_lane_6 (b0 b1 b2 b3 b4 b5 b6 b7 b8 b9 b10 b11 b12 b13 b14 b15 : Nat)
    (h0 : b0 < 256)
    (h1 : b1 < 256)
    (h2 : b2 < 256)
    (h3 : b3 < 256)
    (h4 : b4 < 256)
    (h5 : b5 < 256)
    (h6 : b6 < 256)
    (h7 : b7 < 256)
    (h8 : b8 < 256)
    (h9 : b9 < 256)
    (h10 : b10 < 256)
    (h11 : b11 < 256)
    (h12 : b12 < 256)
    (h13 : b13 < 256)
    (h14 : b14 < 256)
    (h15 : b15 < 256) :
    sliceBits (LoadBytes [b0, b1, b2, b3, b4, b5, b6, b7, b8, b9, b10, b11, b12, b13, b14, b15]) 6
      = byteBits b9 := by
  simp only [sliceBits, byteBits, LoadBytes, LoadWords, lwSlice, lwByte, List.getD, List.foldl,
    List.get?, Nat.testBit_or, Nat.testBit_and, Nat.testBit_shiftLeft, Nat.testBit_shiftRight,
    Nat.testBit_mod_two_pow]
  norm_num [testBit_byte_high h0, testBit_byte_high h1, testBit_byte_high h2, testBit_byte_high h3, testBit_byte_high h4, testBit_byte_high h5, testBit_byte_high h6, testBit_byte_high h7, testBit_byte_high h8, testBit_byte_high h9, testBit_byte_high h10, testBit_byte_high h11, testBit_byte_high h12, testBit_byte_high h13, testBit_byte_high h14, testBit_byte_high h15]
  simp [Nat.testBit]

set_option linter.unusedVariables false in
theorem loadBytes_lane_7 (b0 b1 b2 b3 b4 b5 b6 b7 b8 b9 b10 b11 b12 b13 b14 b15 : Nat)
    (h0 : b0 < 256)
    (h1 : b1 < 256)
    (h2 : b2 < 256)
    (h3 : b3 < 256)
    (h4 : b4 < 256)
    (h5 : b5 < 256)
    (h6 : b6 < 256)
    (h7 : b7 < 256)
    (h8 : b8 < 256)
    (h9 : b9 < 256)
    (h10 : b10 < 256)
    (h11 : b11 < 256)
    (h12 : b12 < 256)
    (h13 : b13 < 256)
    (h14 : b14 < 256)
    (h15 : b15 < 256) :
    sliceBits (LoadBytes [b0, b1, b2, b3, b4, b5, b6, b7, b8, b9, b10, b11, b12, b13, b14, b15]) 7
      = byteBits b13 := by
  simp only [sliceBits, byteBits, LoadBytes, LoadWords, lwSlice, lwByte, List.getD, List.foldl,
    List.get?, Nat.testBit_or, Nat.testBit_and, Nat.testBit_shiftLeft, Nat.testBit_shiftRight,
    Nat.testBit_mod_two_pow]
  norm_num [testBit_byte_high h0, testBit_byte_high h1, testBit_byte_high h2, testBit_byte_high h3, testBit_byte_high h4, testBit_byte_high h5, testBit_byte_high h6, testBit_byte_high h7, testBit_byte_high h8, testBit_byte_high h9, testBit_byte_high h10, testBit_byte_high h11, testBit_byte_high h12, testBit_byte_high h13, testBit_byte_high h14, testBit_byte_high h15]
  simp [Nat.testBit]

set_option linter.unusedVariables false in
theorem loadBytes_lane_8 (b0 b1 b2 b3 b4 b5 b6 b7 b8 b9 b10 b11 b12 b13 b14 b15 : Nat)
    (h0 : b0 < 256)
    (h1 : b1 < 256)
    (h2 : b2 < 256)
    (h3 : b3 < 256)
    (h4 : b4 < 256)
    (h5 : b5 < 256)
    (h6 : b6 < 256)
    (h7 : b7 < 256)
    (h8 : b8 < 256)
    (h9 : b9 < 256)
    (h10 : b10 < 256)
    (h11 : b11 < 256)
    (h12 : b12 < 256)
    (h13 : b13 < 256)
    (h14 : b14 < 256)
    (h15 : b15 < 256) :
    sliceBits (LoadBytes [b0, b1, b2, b3, b4, b5, b6, b7, b8, b9, b10, b11, b12, b13, b14, b15]) 8
      = byteBits b2 := by
  simp only [sliceBits, byteBits, LoadBytes, LoadWords, lwSlice, lwByte, List.getD, List.foldl,
    List.get?, Nat.testBit_or, Nat.testBit_and, Nat.testBit_shiftLeft, Nat.testBit_shiftRight,
    Nat.testBit_mod_two_pow]
  norm_num [testBit_byte_high h0, testBit_byte_high h1, testBit_byte_high h2, testBit_byte_high h3, testBit_byte_high h4, testBit_byte_high h5, testBit_byte_high h6, testBit_byte_high h7, testBit_byte_high h8, testBit_byte_high h9, testBit_byte_high h10, testBit_byte_high h11, testBit_byte_high h12, testBit_byte_high h13, testBit_byte_high h14, testBit_byte_high h15]
  simp [Nat.testBit]

set_option linter.unusedVariables false in
theorem loadBytes_lane_9 (b0 b1 b2 b3 b4 b5 b6 b7 b8 b9 b10 b11 b12 b13 b14 b15 : Nat)
    (h0 : b0 < 256)
    (h1 : b1 < 256)
    (h2 : b2 < 256)
    (h3 : b3 < 256)
    (h4 : b4 < 256)
    (h5 : b5 < 256)
    (h6 : b6 < 256)
    (h7 : b7 < 256)
    (h8 : b8 < 256)
    (h9 : b9 < 256)
    (h10 : b10 < 256)
    (h11 : b11 < 256)
    (h12 : b12 < 256)
    (h13 : b13 < 256)
    (h14 : b14 < 256)
    (h15 : b15 < 256) :
    sliceBits (LoadBytes [b0, b1, b2, b3, b4, b5, b6, b7, b8, b9, b10, b11, b12, b13, b14, b15]) 9
      = byteBits b6 := by
  simp only [sliceBits, byteBits, LoadBytes, LoadWords, lwSlice, lwByte, List.getD, List.foldl,
    List.get?, Nat.testBit_or, Nat.testBit_and, Nat.testBit_shiftLeft, Nat.testBit_shiftRight,
    Nat.testBit_mod_two_pow]
  norm_num [testBit_byte_high h0, testBit_byte_high h1, testBit_byte_high h2, testBit_byte_high h3, testBit_byte_high h4, testBit_byte_high h5, testBit_byte_high h6, testBit_byte_high h7, testBit_byte_high h8, testBit_byte_high h9, testBit_byte_high h10, testBit_byte_high h11, testBit_byte_high h12, testBit_byte_high h13, testBit_byte_high h14, testBit_byte_high h15]
  simp [Nat.testBit]

set_option linter.unusedVariables false in
theorem loadBytes_lane_10 (b0 b1 b2 b3 b4 b5 b6 b7 b8 b9 b10 b11 b12 b13 b14 b15 : Nat)
    (h0 : b0 < 256)
    (h1 : b1 < 256)
    (h2 : b2 < 256)
    (h3 : b3 < 256)
    (h4 : b4 < 256)
    (h5 : b5 < 256)
    (h6 : b6 < 256)
    (h7 : b7 < 256)
    (h8 : b8 < 256)
    (h9 : b9 < 256)
    (h10 : b10 < 256)
    (h11 : b11 < 256)
    (h12 : b12 < 256)
    (h13 : b13 < 256)
    (h14 : b14 < 256)
    (h15 : b15 < 256) :
    sliceBits (LoadBytes [b0, b1, b2, b3, b4, b5, b6, b7, b8, b9, b10, b11, b12, b13, b14, b15]) 10
      = byteBits b10 := by
  simp only [sliceBits, byteBits, LoadBytes, LoadWords, lwSlice, lwByte, List.getD, List.foldl,
    List.get?, Nat.testBit_or, Nat.testBit_and, Nat.testBit_shiftLeft, Nat.testBit_shiftRight,
    Nat.testBit_mod_two_pow]
  norm_num [testBit_byte_high h0, testBit_byte_high h1, testBit_byte_high h2, testBit_byte_high h3, testBit_byte_high h4, testBit_byte_high h5, testBit_byte_high h6, testBit_byte_high h7, testBit_byte_high h8, testBit_byte_high h9, testBit_byte_high h10, testBit_byte_high h11, testBit_byte_high h12, testBit_byte_high h13, testBit_byte_high h14, testBit_byte_high h15]
  simp [Nat.testBit]

set_option linter.unusedVariables false in
theorem loadBytes_lane_11 (b0 b1 b2 b3 b4 b5 b6 b7 b8 b9 b10 b11 b12 b13 b14 b15 : Nat)
    (h0 : b0 < 256)
    (h1 : b1 < 256)
    (h2 : b2 < 256)
    (h3 : b3 < 256)
    (h4 : b4 < 256)
    (h5 : b5 < 256)
    (h6 : b6 < 256)
    (h7 : b7 < 256)
    (h8 : b8 < 256)
    (h9 : b9 < 256)
    (h10 : b10 < 256)
    (h11 : b11 < 256)
    (h12 : b12 < 256)
    (h13 : b13 < 256)
    (h14 : b14 < 256)
    (h15 : b15 < 256) :
    sliceBits (LoadBytes [b0, b1, b2, b3, b4, b5, b6, b7, b8, b9, b10, b11, b12, b13, b14, b15]) 11
      = byteBits b14 := by
  simp only [sliceBits, byteBits, LoadBytes, LoadWords, lwSlice, lwByte, List.getD, List.foldl,
    List.get?, Nat.testBit_or, Nat.testBit_and, Nat.testBit_shiftLeft, Nat.testBit_shiftRight,
    Nat.testBit_mod_two_pow]
  norm_num [testBit_byte_high h0, testBit_byte_high h1, testBit_byte_high h2, testBit_byte_high h3, testBit_byte_high h4, testBit_byte_high h5, testBit_byte_high h6, testBit_byte_high h7, testBit_byte_high h8, testBit_byte_high h9, testBit_byte_high h10, testBit_byte_high h11, testBit_byte_high h12, testBit_byte_high h13, testBit_byte_high h14, testBit_byte_high h15]
  simp [Nat.testBit]

set_option linter.unusedVariables false in
theorem loadBytes_lane_12 (b0 b1 b2 b3 b4 b5 b6 b7 b8 b9 b10 b11 b12 b13 b14 b15 : Nat)
    (h0 : b0 < 256)
    (h1 : b1 < 256)
    (h2 : b2 < 256)
    (h3 : b3 < 256)
    (h4 : b4 < 256)
    (h5 : b5 < 256)
    (h6 : b6 < 256)
    (h7 : b7 < 256)
    (h8 : b8 < 256)
    (h9 : b9 < 256)
    (h10 : b10 < 256)
    (h11 : b11 < 256)
    (h12 : b12 < 256)
    (h13 : b13 < 256)
    (h14 : b14 < 256)
    (h15 : b15 < 256) :
    sliceBits (LoadBytes [b0, b1, b2, b3, b4, b5, b6, b7, b8, b9, b10, b11, b12, b13, b14, b15]) 12
      = byteBits b3 := by
  simp only [sliceBits, byteBits, LoadBytes, LoadWords, lwSlice, lwByte, List.getD, List.foldl,
    List.get?, Nat.testBit_or, Nat.testBit_and, Nat.testBit_shiftLeft, Nat.testBit_shiftRight,
    Nat.testBit_mod_two_pow]
  norm_num [testBit_byte_high h0, testBit_byte_high h1, testBit_byte_high h2, testBit_byte_high h3, testBit_byte_high h4, testBit_byte_high h5, testBit_byte_high h6, testBit_byte_high h7, testBit_byte_high h8, testBit_byte_high h9, testBit_byte_high h10, testBit_byte_high h11, testBit_byte_high h12, testBit_byte_high h13, testBit_byte_high h14, testBit_byte_high h15]
  simp [Nat.testBit]

set_option linter.unusedVariables false in
theorem loadBytes_lane_13 (b0 b1 b2 b3 b4 b5 b6 b7 b8 b9 b10 b11 b12 b13 b14 b15 : Nat)
    (h0 : b0 < 256)
    (h1 : b1 < 256)
    (h2 : b2 < 256)
    (h3 : b3 < 256)
    (h4 : b4 < 256)
    (h5 : b5 < 256)
    (h6 : b6 < 256)
    (h7 : b7 < 256)
    (h8 : b8 < 256)
    (h9 : b9 < 256)
    (h10 : b10 < 256)
    (h11 : b11 < 256)
    (h12 : b12 < 256)
    (h13 : b13 < 256)
    (h14 : b14 < 256)
    (h15 : b15 < 256) :
    sliceBits (LoadBytes [b0, b1, b2, b3, b4, b5, b6, b7, b8, b9, b10, b11, b12, b13, b14, b15]) 13
      = byteBits b7 := by
  simp only [sliceBits, byteBits, LoadBytes, LoadWords, lwSlice, lwByte, List.getD, List.foldl,
    List.get?, Nat.testBit_or, Nat.testBit_and, Nat.testBit_shiftLeft, Nat.testBit_shiftRight,
    Nat.testBit_mod_two_pow]
  norm_num [testBit_byte_high h0, testBit_byte_high h1, testBit_byte_high h2, testBit_byte_high h3, testBit_byte_high h4, testBit_byte_high h5, testBit_byte_high h6, testBit_byte_high h7, testBit_byte_high h8, testBit_byte_high h9, testBit_byte_high h10, testBit_byte_high h11, testBit_byte_high h12, testBit_byte_high h13, testBit_byte_high h14, testBit_byte_high h15]
  simp [Nat.testBit]

set_option linter.unusedVariables false in
theorem loadBytes_lane_14 (b0 b1 b2 b3 b4 b5 b6 b7 b8 b9 b10 b11 b12 b13 b14 b15 : Nat)
    (h0 : b0 < 256)
    (h1 : b1 < 256)
    (h2 : b2 < 256)
    (h3 : b3 < 256)
    (h4 : b4 < 256)
    (h5 : b5 < 256)
    (h6 : b6 < 256)
    (h7 : b7 < 256)
    (h8 : b8 < 256)
    (h9 : b9 < 256)
    (h10 : b10 < 256)
    (h11 : b11 < 256)
    (h12 : b12 < 256)
    (h13 : b13 < 256)
    (h14 : b14 < 256)
    (h15 : b15 < 256) :
    sliceBits (LoadBytes [b0, b1, b2, b3, b4, b5, b6, b7, b8, b9, b10, b11, b12, b13, b14, b15]) 14
      = byteBits b11 := by
  simp only [sliceBits, byteBits, LoadBytes, LoadWords, lwSlice, lwByte, List.getD, List.foldl,
    List.get?, Nat.testBit_or, Nat.testBit_and, Nat.testBit_shiftLeft, Nat.testBit_shiftRight,
    Nat.testBit_mod_two_pow]
  norm_num [testBit_byte_high h0, testBit_byte_high h1, testBit_byte_high h2, testBit_byte_high h3, testBit_byte_high h4, testBit_byte_high h5, testBit_byte_high h6, testBit_byte_high h7, testBit_byte_high h8, testBit_byte_high h9, testBit_byte_high h10, testBit_byte_high h11, testBit_byte_high h12, testBit_byte_high h13, testBit_byte_high h14, testBit_byte_high h15]
  simp [Nat.testBit]

set_option linter.unusedVariables false in
theorem loadBytes_lane_15 (b0 b1 b2 b3 b4 b5 b6 b7 b8 b9 b10 b11 b12 b13 b14 b15 : Nat)
    (h0 : b0 < 256)
    (h1 : b1 < 256)
    (h2 : b2 < 256)
    (h3 : b3 < 256)
    (h4 : b4 < 256)
    (h5 : b5 < 256)
    (h6 : b6 < 256)
    (h7 : b7 < 256)
    (h8 : b8 < 256)
    (h9 : b9 < 256)
    (h10 : b10 < 256)
    (h11 : b11 < 256)
    (h12 : b12 < 256)
    (h13 : b13 < 256)
    (h14 : b14 < 256)
    (h15 : b15 < 256) :
    sliceBits (LoadBytes [b0, b1, b2, b3, b4, b5, b6, b7, b8, b9, b10, b11, b12, b13, b14, b15]) 15
      = byteBits b15 := by
  simp only [sliceBits, byteBits, LoadBytes, LoadWords, lwSlice, lwByte, List.getD, List.foldl,
    List.get?, Nat.testBit_or, Nat.testBit_and, Nat.testBit_shiftLeft, Nat.testBit_shiftRight,
    Nat.testBit_mod_two_pow]
  norm_num [testBit_byte_high h0, testBit_byte_high h1, testBit_byte_high h2, testBit_byte_high h3, testBit_byte_high h4, testBit_byte_high h5, testBit_byte_high h6, testBit_byte_high h7, testBit_byte_high h8, testBit_byte_high h9, testBit_byte_high h10, testBit_byte_high h11, testBit_byte_high h12, testBit_byte_high h13, testBit_byte_high h14, testBit_byte_high h15]
  simp [Nat.testBit]

/-- The bit-slice codec round-trips on every 16-byte block (helper form). -/
theorem saveBytes_loadBytes (b0 b1 b2 b3 b4 b5 b6 b7 b8 b9 b10 b11 b12 b13 b14 b15 : Nat)
    (h0 : b0 < 256) (h1 : b1 < 256) (h2 : b2 < 256) (h3 : b3 < 256)
    (h4 : b4 < 256) (h5 : b5 < 256) (h6 : b6 < 256) (h7 : b7 < 256)
    (h8 : b8 < 256) (h9 : b9 < 256) (h10 : b10 < 256) (h11 : b11 < 256)
    (h12 : b12 < 256) (h13 : b13 < 256) (h14 : b14 < 256) (h15 : b15 < 256) :
    SaveBytes (LoadBytes [b0, b1, b2, b3, b4, b5, b6, b7, b8, b9, b10, b11, b12, b13, b14, b15])
      = [b0, b1, b2, b3, b4, b5, b6, b7, b8, b9, b10, b11, b12, b13, b14, b15] := by
  simp only [SaveBytes, saveByte_eq, byteAt]
  rw [loadBytes_lane_0 b0 b1 b2 b3 b4 b5 b6 b7 b8 b9 b10 b11 b12 b13 b14 b15 h0 h1 h2 h3 h4 h5 h6 h7 h8 h9 h10 h11 h12 h13 h14 h15, loadBytes_lane_4 b0 b1 b2 b3 b4 b5 b6 b7 b8 b9 b10 b11 b12 b13 b14 b15 h0 h1 h2 h3 h4 h5 h6 h7 h8 h9 h10 h11 h12 h13 h14 h15, loadBytes_lane_8 b0 b1 b2 b3 b4 b5 b6 b7 b8 b9 b10 b11 b12 b13 b14 b15 h0 h1 h2 h3 h4 h5 h6 h7 h8 h9 h10 h11 h12 h13 h14 h15, loadBytes_lane_12 b0 b1 b2 b3 b4 b5 b6 b7 b8 b9 b10 b11 b12 b13 b14 b15 h0 h1 h2 h3 h4 h5 h6 h7 h8 h9 h10 h11 h12 h13 h14 h15, loadBytes_lane_1 b0 b1 b2 b3 b4 b5 b6 b7 b8 b9 b10 b11 b12 b13 b14 b15 h0 h1 h2 h3 h4 h5 h6 h7 h8 h9 h10 h11 h12 h13 h14 h15, loadBytes_lane_5 b0 b1 b2 b3 b4 b5 b6 b7 b8 b9 b10 b11 b12 b13 b14 b15 h0 h1 h2 h3 h4 h5 h6 h7 h8 h9 h10 h11 h12 h13 h14 h15, loadBytes_lane_9 b0 b1 b2 b3 b4 b5 b6 b7 b8 b9 b10 b11 b12 b13 b14 b15 h0 h1 h2 h3 h4 h5 h6 h7 h8 h9 h10 h11 h12 h13 h14 h15, loadBytes_lane_13 b0 b1 b2 b3 b4 b5 b6 b7 b8 b9 b10 b11 b12 b13 b14 b15 h0 h1 h2 h3 h4 h5 h6 h7 h8 h9 h10 h11 h12 h13 h14 h15, loadBytes_lane_2 b0 b1 b2 b3 b4 b5 b6 b7 b8 b9 b10 b11 b12 b13 b14 b15 h0 h1 h2 h3 h4 h5 h6 h7 h8 h9 h10 h11 h12 h13 h14 h15, loadBytes_lane_6 b0 b1 b2 b3 b4 b5 b6 b7 b8 b9 b10 b11 b12 b13 b14 b15 h0 h1 h2 h3 h4 h5 h6 h7 h8 h9 h10 h11 h12 h13 h14 h15, loadBytes_lane_10 b0 b1 b2 b3 b4 b5 b6 b7 b8 b9 b10 b11 b12 b13 b14 b15 h0 h1 h2 h3 h4 h5 h6 h7 h8 h9 h10 h11 h12 h13 h14 h15, loadBytes_lane_14 b0 b1 b2 b3 b4 b5 b6 b7 b8 b9 b10 b11 b12 b13 b14 b15 h0 h1 h2 h3 h4 h5 h6 h7 h8 h9 h10 h11 h12 h13 h14 h15, loadBytes_lane_3 b0 b1 b2 b3 b4 b5 b6 b7 b8 b9 b10 b11 b12 b13 b14 b15 h0 h1 h2 h3 h4 h5 h6 h7 h8 h9 h10 h11 h12 h13 h14 h15, loadBytes_lane_7 b0 b1 b2 b3 b4 b5 b6 b7 b8 b9 b10 b11 b12 b13 b14 b15 h0 h1 h2 h3 h4 h5 h6 h7 h8 h9 h10 h11 h12 h13 h14 h15, loadBytes_lane_11 b0 b1 b2 b3 b4 b5 b6 b7 b8 b9 b10 b11 b12 b13 b14 b15 h0 h1 h2 h3 h4 h5 h6 h7 h8 h9 h10 h11 h12 h13 h14 h15, loadBytes_lane_15 b0 b1 b2 b3 b4 b5 b6 b7 b8 b9 b10 b11 b12 b13 b14 b15 h0 h1 h2 h3 h4 h5 h6 h7 h8 h9 h10 h11 h12 h13 h14 h15]
  simp only [List.cons.injEq, and_true]
  exact ⟨byteAssemble_byteBits_of_lt h0, byteAssemble_byteBits_of_lt h1, byteAssemble_byteBits_of_lt h2, byteAssemble_byteBits_of_lt h3, byteAssemble_byteBits_of_lt h4, byteAssemble_byteBits_of_lt h5, byteAssemble_byteBits_of_lt h6, byteAssemble_byteBits_of_lt h7, byteAssemble_byteBits_of_lt h8, byteAssemble_byteBits_of_lt h9, byteAssemble_byteBits_of_lt h10, byteAssemble_byteBits_of_lt h11, byteAssemble_byteBits_of_lt h12, byteAssemble_byteBits_of_lt h13, byteAssemble_byteBits_of_lt h14, byteAssemble_byteBits_of_lt h15⟩

/-- C8: the bit-slice codec round-trips: SaveBytes (LoadBytes B) = B for every
16-byte block B. -/
theorem claim8_codec_roundtrip (b0 b1 b2 b3 b4 b5 b6 b7 b8 b9 b10 b11 b12 b13 b14 b15 : Nat)
    (h0 : b0 < 256) (h1 : b1 < 256) (h2 : b2 < 256) (h3 : b3 < 256)
    (h4 : b4 < 256) (h5 : b5 < 256) (h6 : b6 < 256) (h7 : b7 < 256)
    (h8 : b8 < 256) (h9 : b9 < 256) (h10 : b10 < 256) (h11 : b11 < 256)
    (h12 : b12 < 256) (h13 : b13 < 256) (h14 : b14 < 256) (h15 : b15 < 256) :
    SaveBytes (LoadBytes [b0, b1, b2, b3, b4, b5, b6, b7, b8, b9, b10, b11, b12, b13, b14, b15])
      = [b0, b1, b2, b3, b4, b5, b6, b7, b8, b9, b10, b11, b12, b13, b14, b15] :=
  saveBytes_loadBytes b0 b1 b2 b3 b4 b5 b6 b7 b8 b9 b10 b11 b12 b13 b14 b15
    h0 h1 h2 h3 h4 h5 h6 h7 h8 h9 h10 h11 h12 h13 h14 h15

/-- Witness for C8 on the all-zero block. -/
theorem claim8_codec_roundtrip_witness :
    SaveBytes (LoadBytes [0, 0, 0, 0, 0, 0, 0, 0, 0, 0, 0, 0, 0, 0, 0, 0])
      = [0, 0, 0, 0, 0, 0, 0, 0, 0, 0, 0, 0, 0, 0, 0, 0] :=
  claim8_codec_roundtrip 0 0 0 0 0 0 0 0 0 0 0 0 0 0 0 0
    (by norm_num) (by norm_num) (by norm_num) (by norm_num) (by norm_num) (by norm_num)
    (by norm_num) (by norm_num) (by norm_num) (by norm_num) (by norm_num) (by norm_num)
    (by norm_num) (by norm_num) (by norm_num) (by norm_num)

/-- Loading the saved bytes of a valid state restores the state. -/
theorem loadBytes_saveBytes {s : AES_state} (hs : s.Valid) : LoadBytes (SaveBytes s) = s := by
  apply state_ext_bits (loadBytes_valid _) hs
  intro p hp
  simp only [SaveBytes, saveByte_eq]
  interval_cases p
  · exact (loadBytes_lane_0 (byteAt s 0) (byteAt s 4) (byteAt s 8) (byteAt s 12)
      (byteAt s 1) (byteAt s 5) (byteAt s 9) (byteAt s 13) (byteAt s 2) (byteAt s 6)
      (byteAt s 10) (byteAt s 14) (byteAt s 3) (byteAt s 7) (byteAt s 11) (byteAt s 15)
      (byteAt_lt s 0) (byteAt_lt s 4) (byteAt_lt s 8) (byteAt_lt s 12) (byteAt_lt s 1)
      (byteAt_lt s 5) (byteAt_lt s 9) (byteAt_lt s 13) (byteAt_lt s 2) (byteAt_lt s 6)
      (byteAt_lt s 10) (byteAt_lt s 14) (byteAt_lt s 3) (byteAt_lt s 7) (byteAt_lt s 11)
      (byteAt_lt s 15)).trans (byteBits_byteAssemble (sliceBits s 0))
  · exact (loadBytes_lane_1 (byteAt s 0) (byteAt s 4) (byteAt s 8) (byteAt s 12)
      (byteAt s 1) (byteAt s 5) (byteAt s 9) (byteAt s 13) (byteAt s 2) (byteAt s 6)
      (byteAt s 10) (byteAt s 14) (byteAt s 3) (byteAt s 7) (byteAt s 11) (byteAt s 15)
      (byteAt_lt s 0) (byteAt_lt s 4) (byteAt_lt s 8) (byteAt_lt s 12) (byteAt_lt s 1)
      (byteAt_lt s 5) (byteAt_lt s 9) (byteAt_lt s 13) (byteAt_lt s 2) (byteAt_lt s 6)
      (byteAt_lt s 10) (byteAt_lt s 14) (byteAt_lt s 3) (byteAt_lt s 7) (byteAt_lt s 11)
      (byteAt_lt s 15)).trans (byteBits_byteAssemble (sliceBits s 1))
  · exact (loadBytes_lane_2 (byteAt s 0) (byteAt s 4) (byteAt s 8) (byteAt s 12)
      (byteAt s 1) (byteAt s 5) (byteAt s 9) (byteAt s 13) (byteAt s 2) (byteAt s 6)
      (byteAt s 10) (byteAt s 14) (byteAt s 3) (byteAt s 7) (byteAt s 11) (byteAt s 15)
      (byteAt_lt s 0) (byteAt_lt s 4) (byteAt_lt s 8) (byteAt_lt s 12) (byteAt_lt s 1)
      (byteAt_lt s 5) (byteAt_lt s 9) (byteAt_lt s 13) (byteAt_lt s 2) (byteAt_lt s 6)
      (byteAt_lt s 10) (byteAt_lt s 14) (byteAt_lt s 3) (byteAt_lt s 7) (byteAt_lt s 11)
      (byteAt_lt s 15)).trans (byteBits_byteAssemble (sliceBits s 2))
  · exact (loadBytes_lane_3 (byteAt s 0) (byteAt s 4) (byteAt s 8) (byteAt s 12)
      (byteAt s 1) (byteAt s 5) (byteAt s 9) (byteAt s 13) (byteAt s 2) (byteAt s 6)
      (byteAt s 10) (byteAt s 14) (byteAt s 3) (byteAt s 7) (byteAt s 11) (byteAt s 15)
      (byteAt_lt s 0) (byteAt_lt s 4) (byteAt_lt s 8) (byteAt_lt s 12) (byteAt_lt s 1)
      (byteAt_lt s 5) (byteAt_lt s 9) (byteAt_lt s 13) (byteAt_lt s 2) (byteAt_lt s 6)
      (byteAt_lt s 10) (byteAt_lt s 14) (byteAt_lt s 3) (byteAt_lt s 7) (byteAt_lt s 11)
      (byteAt_lt s 15)).trans (byteBits_byteAssemble (sliceBits s 3))
  · exact (loadBytes_lane_4 (byteAt s 0) (byteAt s 4) (byteAt s 8) (byteAt s 12)
      (byteAt s 1) (byteAt s 5) (byteAt s 9) (byteAt s 13) (byteAt s 2) (byteAt s 6)
      (byteAt s 10) (byteAt s 14) (byteAt s 3) (byteAt s 7) (byteAt s 11) (byteAt s 15)
      (byteAt_lt s 0) (byteAt_lt s 4) (byteAt_lt s 8) (byteAt_lt s 12) (byteAt_lt s 1)
      (byteAt_lt s 5) (byteAt_lt s 9) (byteAt_lt s 13) (byteAt_lt s 2) (byteAt_lt s 6)
      (byteAt_lt s 10) (byteAt_lt s 14) (byteAt_lt s 3) (byteAt_lt s 7) (byteAt_lt s 11)
      (byteAt_lt s 15)).trans (byteBits_byteAssemble (sliceBits s 4))
  · exact (loadBytes_lane_5 (byteAt s 0) (byteAt s 4) (byteAt s 8) (byteAt s 12)
      (byteAt s 1) (byteAt s 5) (byteAt s 9) (byteAt s 13) (byteAt s 2) (byteAt s 6)
      (byteAt s 10) (byteAt s 14) (byteAt s 3) (byteAt s 7) (byteAt s 11) (byteAt s 15)
      (byteAt_lt s 0) (byteAt_lt s 4) (byteAt_lt s 8) (byteAt_lt s 12) (byteAt_lt s 1)
      (byteAt_lt s 5) (byteAt_lt s 9) (byteAt_lt s 13) (byteAt_lt s 2) (byteAt_lt s 6)
      (byteAt_lt s 10) (byteAt_lt s 14) (byteAt_lt s 3) (byteAt_lt s 7) (byteAt_lt s 11)
      (byteAt_lt s 15)).trans (byteBits_byteAssemble (sliceBits s 5))
  · exact (loadBytes_lane_6 (byteAt s 0) (byteAt s 4) (byteAt s 8) (byteAt s 12)
      (byteAt s 1) (byteAt s 5) (byteAt s 9) (byteAt s 13) (byteAt s 2) (byteAt s 6)
      (byteAt s 10) (byteAt s 14) (byteAt s 3) (byteAt s 7) (byteAt s 11) (byteAt s 15)
      (byteAt_lt s 0) (byteAt_lt s 4) (byteAt_lt s 8) (byteAt_lt s 12) (byteAt_lt s 1)
      (byteAt_lt s 5) (byteAt_lt s 9) (byteAt_lt s 13) (byteAt_lt s 2) (byteAt_lt s 6)
      (byteAt_lt s 10) (byteAt_lt s 14) (byteAt_lt s 3) (byteAt_lt s 7) (byteAt_lt s 11)
      (byteAt_lt s 15)).trans (byteBits_byteAssemble (sliceBits s 6))
  · exact (loadBytes_lane_7 (byteAt s 0) (byteAt s 4) (byteAt s 8) (byteAt s 12)
      (byteAt s 1) (byteAt s 5) (byteAt s 9) (byteAt s 13) (byteAt s 2) (byteAt s 6)
      (byteAt s 10) (byteAt s 14) (byteAt s 3) (byteAt s 7) (byteAt s 11) (byteAt s 15)
      (byteAt_lt s 0) (byteAt_lt s 4) (byteAt_lt s 8) (byteAt_lt s 12) (byteAt_lt s 1)
      (byteAt_lt s 5) (byteAt_lt s 9) (byteAt_lt s 13) (byteAt_lt s 2) (byteAt_lt s 6)
      (byteAt_lt s 10) (byteAt_lt s 14) (byteAt_lt s 3) (byteAt_lt s 7) (byteAt_lt s 11)
      (byteAt_lt s 15)).trans (byteBits_byteAssemble (sliceBits s 7))
  · exact (loadBytes_lane_8 (byteAt s 0) (byteAt s 4) (byteAt s 8) (byteAt s 12)
      (byteAt s 1) (byteAt s 5) (byteAt s 9) (byteAt s 13) (byteAt s 2) (byteAt s 6)
      (byteAt s 10) (byteAt s 14) (byteAt s 3) (byteAt s 7) (byteAt s 11) (byteAt s 15)
      (byteAt_lt s 0) (byteAt_lt s 4) (byteAt_lt s 8) (byteAt_lt s 12) (byteAt_lt s 1)
      (byteAt_lt s 5) (byteAt_lt s 9) (byteAt_lt s 13) (byteAt_lt s 2) (byteAt_lt s 6)
      (byteAt_lt s 10) (byteAt_lt s 14) (byteAt_lt s 3) (byteAt_lt s 7) (byteAt_lt s 11)
      (byteAt_lt s 15)).trans (byteBits_byteAssemble (sliceBits s 8))
  · exact (loadBytes_lane_9 (byteAt s 0) (byteAt s 4) (byteAt s 8) (byteAt s 12)
      (byteAt s 1) (byteAt s 5) (byteAt s 9) (byteAt s 13) (byteAt s 2) (byteAt s 6)
      (byteAt s 10) (byteAt s 14) (byteAt s 3) (byteAt s 7) (byteAt s 11) (byteAt s 15)
      (byteAt_lt s 0) (byteAt_lt s 4) (byteAt_lt s 8) (byteAt_lt s 12) (byteAt_lt s 1)
      (byteAt_lt s 5) (byteAt_lt s 9) (byteAt_lt s 13) (byteAt_lt s 2) (byteAt_lt s 6)
      (byteAt_lt s 10) (byteAt_lt s 14) (byteAt_lt s 3) (byteAt_lt s 7) (byteAt_lt s 11)
      (byteAt_lt s 15)).trans (byteBits_byteAssemble (sliceBits s 9))
  · exact (loadBytes_lane_10 (byteAt s 0) (byteAt s 4) (byteAt s 8) (byteAt s 12)
      (byteAt s 1) (byteAt s 5) (byteAt s 9) (byteAt s 13) (byteAt s 2) (byteAt s 6)
      (byteAt s 10) (byteAt s 14) (byteAt s 3) (byteAt s 7) (byteAt s 11) (byteAt s 15)
      (byteAt_lt s 0) (byteAt_lt s 4) (byteAt_lt s 8) (byteAt_lt s 12) (byteAt_lt s 1)
      (byteAt_lt s 5) (byteAt_lt s 9) (byteAt_lt s 13) (byteAt_lt s 2) (byteAt_lt s 6)
      (byteAt_lt s 10) (byteAt_lt s 14) (byteAt_lt s 3) (byteAt_lt s 7) (byteAt_lt s 11)
      (byteAt_lt s 15)).trans (byteBits_byteAssemble (sliceBits s 10))
  · exact (loadBytes_lane_11 (byteAt s 0) (byteAt s 4) (byteAt s 8) (byteAt s 12)
      (byteAt s 1) (byteAt s 5) (byteAt s 9) (byteAt s 13) (byteAt s 2) (byteAt s 6)
      (byteAt s 10) (byteAt s 14) (byteAt s 3) (byteAt s 7) (byteAt s 11) (byteAt s 15)
      (byteAt_lt s 0) (byteAt_lt s 4) (byteAt_lt s 8) (byteAt_lt s 12) (byteAt_lt s 1)
      (byteAt_lt s 5) (byteAt_lt s 9) (byteAt_lt s 13) (byteAt_lt s 2) (byteAt_lt s 6)
      (byteAt_lt s 10) (byteAt_lt s 14) (byteAt_lt s 3) (byteAt_lt s 7) (byteAt_lt s 11)
      (byteAt_lt s 15)).trans (byteBits_byteAssemble (sliceBits s 11))
  · exact (loadBytes_lane_12 (byteAt s 0) (byteAt s 4) (byteAt s 8) (byteAt s 12)
      (byteAt s 1) (byteAt s 5) (byteAt s 9) (byteAt s 13) (byteAt s 2) (byteAt s 6)
      (byteAt s 10) (byteAt s 14) (byteAt s 3) (byteAt s 7) (byteAt s 11) (byteAt s 15)
      (byteAt_lt s 0) (byteAt_lt s 4) (byteAt_lt s 8) (byteAt_lt s 12) (byteAt_lt s 1)
      (byteAt_lt s 5) (byteAt_lt s 9) (byteAt_lt s 13) (byteAt_lt s 2) (byteAt_lt s 6)
      (byteAt_lt s 10) (byteAt_lt s 14) (byteAt_lt s 3) (byteAt_lt s 7) (byteAt_lt s 11)
      (byteAt_lt s 15)).trans (byteBits_byteAssemble (sliceBits s 12))
  · exact (loadBytes_lane_13 (byteAt s 0) (byteAt s 4) (byteAt s 8) (byteAt s 12)
      (byteAt s 1) (byteAt s 5) (byteAt s 9) (byteAt s 13) (byteAt s 2) (byteAt s 6)
      (byteAt s 10) (byteAt s 14) (byteAt s 3) (byteAt s 7) (byteAt s 11) (byteAt s 15)
      (byteAt_lt s 0) (byteAt_lt s 4) (byteAt_lt s 8) (byteAt_lt s 12) (byteAt_lt s 1)
      (byteAt_lt s 5) (byteAt_lt s 9) (byteAt_lt s 13) (byteAt_lt s 2) (byteAt_lt s 6)
      (byteAt_lt s 10) (byteAt_lt s 14) (byteAt_lt s 3) (byteAt_lt s 7) (byteAt_lt s 11)
      (byteAt_lt s 15)).trans (byteBits_byteAssemble (sliceBits s 13))
  · exact (loadBytes_lane_14 (byteAt s 0) (byteAt s 4) (byteAt s 8) (byteAt s 12)
      (byteAt s 1) (byteAt s 5) (byteAt s 9) (byteAt s 13) (byteAt s 2) (byteAt s 6)
      (byteAt s 10) (byteAt s 14) (byteAt s 3) (byteAt s 7) (byteAt s 11) (byteAt s 15)
      (byteAt_lt s 0) (byteAt_lt s 4) (byteAt_lt s 8) (byteAt_lt s 12) (byteAt_lt s 1)
      (byteAt_lt s 5) (byteAt_lt s 9) (byteAt_lt s 13) (byteAt_lt s 2) (byteAt_lt s 6)
      (byteAt_lt s 10) (byteAt_lt s 14) (byteAt_lt s 3) (byteAt_lt s 7) (byteAt_lt s 11)
      (byteAt_lt s 15)).trans (byteBits_byteAssemble (sliceBits s 14))
  · exact (loadBytes_lane_15 (byteAt s 0) (byteAt s 4) (byteAt s 8) (byteAt s 12)
      (byteAt s 1) (byteAt s 5) (byteAt s 9) (byteAt s 13) (byteAt s 2) (byteAt s 6)
      (byteAt s 10) (byteAt s 14) (byteAt s 3) (byteAt s 7) (byteAt s 11) (byteAt s 15)
      (byteAt_lt s 0) (byteAt_lt s 4) (byteAt_lt s 8) (byteAt_lt s 12) (byteAt_lt s 1)
      (byteAt_lt s 5) (byteAt_lt s 9) (byteAt_lt s 13) (byteAt_lt s 2) (byteAt_lt s 6)
      (byteAt_lt s 10) (byteAt_lt s 14) (byteAt_lt s 3) (byteAt_lt s 7) (byteAt_lt s 11)
      (byteAt_lt s 15)).trans (byteBits_byteAssemble (sliceBits s 15))


/-! ### MixColumns: byte-level characterization -/

theorem byte_xor_lt {x y : Nat} (hx : x < 256) (hy : y < 256) : x ^^^ y < 256 := by
  have hx2 : x < 2 ^ 8 := by simpa using hx
  have hy2 : y < 2 ^ 8 := by simpa using hy
  simpa using Nat.xor_lt_two_pow hx2 hy2

set_option maxRecDepth 4096 in
/-- Bit-level action of `xtime` on an assembled byte. -/
theorem xtime_byteAssemble : ∀ a0 a1 a2 a3 a4 a5 a6 a7 : Bool,
    xtime (byteAssemble ⟨a0, a1, a2, a3, a4, a5, a6, a7⟩) =
      byteAssemble ⟨a7, xor a0 a7, a1, xor a2 a7, xor a3 a7, a4, a5, a6⟩ := by decide

/-- XOR acts bitwise on assembled bytes. -/
theorem byteAssemble_xor (A B : Bits8) :
    byteAssemble A ^^^ byteAssemble B =
      byteAssemble ⟨xor A.b0 B.b0, xor A.b1 B.b1, xor A.b2 B.b2, xor A.b3 B.b3,
        xor A.b4 B.b4, xor A.b5 B.b5, xor A.b6 B.b6, xor A.b7 B.b7⟩ := by
  have h : byteAssemble A ^^^ byteAssemble B < 256 :=
    byte_xor_lt (byteAssemble_lt A) (byteAssemble_lt B)
  have hA := byteBits_byteAssemble A
  have hB := byteBits_byteAssemble B
  have ea0 : (byteAssemble A).testBit 0 = A.b0 := congrArg Bits8.b0 hA
  have ea1 : (byteAssemble A).testBit 1 = A.b1 := congrArg Bits8.b1 hA
  have ea2 : (byteAssemble A).testBit 2 = A.b2 := congrArg Bits8.b2 hA
  have ea3 : (byteAssemble A).testBit 3 = A.b3 := congrArg Bits8.b3 hA
  have ea4 : (byteAssemble A).testBit 4 = A.b4 := congrArg Bits8.b4 hA
  have ea5 : (byteAssemble A).testBit 5 = A.b5 := congrArg Bits8.b5 hA
  have ea6 : (byteAssemble A).testBit 6 = A.b6 := congrArg Bits8.b6 hA
  have ea7 : (byteAssemble A).testBit 7 = A.b7 := congrArg Bits8.b7 hA
  have eb0 : (byteAssemble B).testBit 0 = B.b0 := congrArg Bits8.b0 hB
  have eb1 : (byteAssemble B).testBit 1 = B.b1 := congrArg Bits8.b1 hB
  have eb2 : (byteAssemble B).testBit 2 = B.b2 := congrArg Bits8.b2 hB
  have eb3 : (byteAssemble B).testBit 3 = B.b3 := congrArg Bits8.b3 hB
  have eb4 : (byteAssemble B).testBit 4 = B.b4 := congrArg Bits8.b4 hB
  have eb5 : (byteAssemble B).testBit 5 = B.b5 := congrArg Bits8.b5 hB
  have eb6 : (byteAssemble B).testBit 6 = B.b6 := congrArg Bits8.b6 hB
  have eb7 : (byteAssemble B).testBit 7 = B.b7 := congrArg Bits8.b7 hB
  conv_lhs => rw [← byteAssemble_byteBits_of_lt h]
  apply congrArg byteAssemble
  simp only [byteBits, Nat.testBit_xor, ea0, ea1, ea2, ea3, ea4, ea5, ea6, ea7,
    eb0, eb1, eb2, eb3, eb4, eb5, eb6, eb7]

/-- Pattern form of `byteAssemble_xor` for literal bit structures. -/
theorem byteAssemble_xorP (a0 a1 a2 a3 a4 a5 a6 a7 c0 c1 c2 c3 c4 c5 c6 c7 : Bool) :
    byteAssemble ⟨a0, a1, a2, a3, a4, a5, a6, a7⟩ ^^^
      byteAssemble ⟨c0, c1, c2, c3, c4, c5, c6, c7⟩ =
      byteAssemble ⟨xor a0 c0, xor a1 c1, xor a2 c2, xor a3 c3, xor a4 c4, xor a5 c5,
        xor a6 c6, xor a7 c7⟩ :=
  byteAssemble_xor ⟨a0, a1, a2, a3, a4, a5, a6, a7⟩ ⟨c0, c1, c2, c3, c4, c5, c6, c7⟩

theorem bitZ_inj {a b : Bool} (h : bitZ a = bitZ b) : a = b := by
  cases a <;> cases b <;> first | rfl | exact absurd h (by decide)

theorem bitZ_xor (a b : Bool) : bitZ (xor a b) = bitZ a + bitZ b := by
  cases a <;> cases b <;> decide

theorem bitZ_bne (a b : Bool) : bitZ (a != b) = bitZ a + bitZ b := by
  cases a <;> cases b <;> decide

theorem mask16_lt (x : Nat) : x &&& 0xFFFF < 65536 :=
  masked_lt 0xFFFF (le_refl _) (by norm_num)

theorem mc01_lt (a : Nat) : mc01 a < 65536 := mask16_lt _

theorem mc123_lt (a : Nat) : mc123 a < 65536 := mask16_lt _

theorem im12_lt (a : Nat) : im12 a < 65536 := mask16_lt _

theorem im123_lt (a : Nat) : im123 a < 65536 := mask16_lt _

theorem im0123_lt {a : Nat} (h : a < 65536) : im0123 a < 65536 :=
  xor_lt_65536 h (im123_lt a)

theorem im02_lt (a : Nat) : im02 a < 65536 := xor_lt_65536 (mc01_lt a) (im12_lt a)

theorem mixColumns_valid (s : AES_state) : (MixColumns s).Valid := by
  refine ⟨?_, ?_, ?_, ?_, ?_, ?_, ?_, ?_⟩ <;>
    simp only [MixColumns] <;>
    repeat' apply xor_lt_65536
  all_goals first
    | exact mask16_lt _
    | exact mc01_lt _
    | exact mc123_lt _

theorem invMixColumns_valid {s : AES_state} (hs : s.Valid) : (InvMixColumns s).Valid := by
  obtain ⟨v0, v1, v2, v3, v4, v5, v6, v7⟩ := hs
  refine ⟨?_, ?_, ?_, ?_, ?_, ?_, ?_, ?_⟩ <;>
    simp only [InvMixColumns] <;>
    repeat' apply xor_lt_65536
  all_goals first
    | exact v0
    | exact v1
    | exact v2
    | exact v3
    | exact v4
    | exact v5
    | exact v6
    | exact v7
    | exact mask16_lt _
    | exact mc01_lt _
    | exact mc123_lt _
    | exact im12_lt _
    | exact im123_lt _
    | exact im02_lt _
    | exact im0123_lt v0
    | exact im0123_lt v1
    | exact im0123_lt v2
    | exact im0123_lt v3
    | exact im0123_lt v4
    | exact im0123_lt v5
    | exact im0123_lt v6
    | exact im0123_lt v7

theorem rotC1_eq (x : Nat) : rotC x 1 = (x >>> 4) ||| (x <<< 12) := by
  norm_num [rotC]

theorem rotC3_eq (x : Nat) : rotC x 3 = (x >>> 12) ||| (x <<< 4) := by
  norm_num [rotC]

theorem shr4_tb_0 (x : Nat) : (x >>> 4).testBit 0 = x.testBit 4 := by
  simp [Nat.testBit_shiftRight]

theorem shr4_tb_1 (x : Nat) : (x >>> 4).testBit 1 = x.testBit 5 := by
  simp [Nat.testBit_shiftRight]

theorem shr4_tb_2 (x : Nat) : (x >>> 4).testBit 2 = x.testBit 6 := by
  simp [Nat.testBit_shiftRight]

theorem shr4_tb_3 (x : Nat) : (x >>> 4).testBit 3 = x.testBit 7 := by
  simp [Nat.testBit_shiftRight]

theorem shr4_tb_4 (x : Nat) : (x >>> 4).testBit 4 = x.testBit 8 := by
  simp [Nat.testBit_shiftRight]

theorem shr4_tb_5 (x : Nat) : (x >>> 4).testBit 5 = x.testBit 9 := by
  simp [Nat.testBit_shiftRight]

theorem shr4_tb_6 (x : Nat) : (x >>> 4).testBit 6 = x.testBit 10 := by
  simp [Nat.testBit_shiftRight]

theorem shr4_tb_7 (x : Nat) : (x >>> 4).testBit 7 = x.testBit 11 := by
  simp [Nat.testBit_shiftRight]

theorem shr4_tb_8 (x : Nat) : (x >>> 4).testBit 8 = x.testBit 12 := by
  simp [Nat.testBit_shiftRight]

theorem shr4_tb_9 (x : Nat) : (x >>> 4).testBit 9 = x.testBit 13 := by
  simp [Nat.testBit_shiftRight]

theorem shr4_tb_10 (x : Nat) : (x >>> 4).testBit 10 = x.testBit 14 := by
  simp [Nat.testBit_shiftRight]

theorem shr4_tb_11 (x : Nat) : (x >>> 4).testBit 11 = x.testBit 15 := by
  simp [Nat.testBit_shiftRight]

theorem shr4_tb_12 (x : Nat) : (x >>> 4).testBit 12 = x.testBit 16 := by
  simp [Nat.testBit_shiftRight]

theorem shr4_tb_13 (x : Nat) : (x >>> 4).testBit 13 = x.testBit 17 := by
  simp [Nat.testBit_shiftRight]

theorem shr4_tb_14 (x : Nat) : (x >>> 4).testBit 14 = x.testBit 18 := by
  simp [Nat.testBit_shiftRight]

theorem shr4_tb_15 (x : Nat) : (x >>> 4).testBit 15 = x.testBit 19 := by
  simp [Nat.testBit_shiftRight]

theorem shr12_tb_0 (x : Nat) : (x >>> 12).testBit 0 = x.testBit 12 := by
  simp [Nat.testBit_shiftRight]

theorem shr12_tb_1 (x : Nat) : (x >>> 12).testBit 1 = x.testBit 13 := by
  simp [Nat.testBit_shiftRight]

theorem shr12_tb_2 (x : Nat) : (x >>> 12).testBit 2 = x.testBit 14 := by
  simp [Nat.testBit_shiftRight]

theorem shr12_tb_3 (x : Nat) : (x >>> 12).testBit 3 = x.testBit 15 := by
  simp [Nat.testBit_shiftRight]

theorem shr12_tb_4 (x : Nat) : (x >>> 12).testBit 4 = x.testBit 16 := by
  simp [Nat.testBit_shiftRight]

theorem shr12_tb_5 (x : Nat) : (x >>> 12).testBit 5 = x.testBit 17 := by
  simp [Nat.testBit_shiftRight]

theorem shr12_tb_6 (x : Nat) : (x >>> 12).testBit 6 = x.testBit 18 := by
  simp [Nat.testBit_shiftRight]

theorem shr12_tb_7 (x : Nat) : (x >>> 12).testBit 7 = x.testBit 19 := by
  simp [Nat.testBit_shiftRight]

theorem shr12_tb_8 (x : Nat) : (x >>> 12).testBit 8 = x.testBit 20 := by
  simp [Nat.testBit_shiftRight]

theorem shr12_tb_9 (x : Nat) : (x >>> 12).testBit 9 = x.testBit 21 := by
  simp [Nat.testBit_shiftRight]

theorem shr12_tb_10 (x : Nat) : (x >>> 12).testBit 10 = x.testBit 22 := by
  simp [Nat.testBit_shiftRight]

theorem shr12_tb_11 (x : Nat) : (x >>> 12).testBit 11 = x.testBit 23 := by
  simp [Nat.testBit_shiftRight]

theorem shr12_tb_12 (x : Nat) : (x >>> 12).testBit 12 = x.testBit 24 := by
  simp [Nat.testBit_shiftRight]

theorem shr12_tb_13 (x : Nat) : (x >>> 12).testBit 13 = x.testBit 25 := by
  simp [Nat.testBit_shiftRight]

theorem shr12_tb_14 (x : Nat) : (x >>> 12).testBit 14 = x.testBit 26 := by
  simp [Nat.testBit_shiftRight]

theorem shr12_tb_15 (x : Nat) : (x >>> 12).testBit 15 = x.testBit 27 := by
  simp [Nat.testBit_shiftRight]

theorem shl12_tb_0 (x : Nat) : (x <<< 12).testBit 0 = false := by
  simp [Nat.testBit_shiftLeft]

theorem shl12_tb_1 (x : Nat) : (x <<< 12).testBit 1 = false := by
  simp [Nat.testBit_shiftLeft]

theorem shl12_tb_2 (x : Nat) : (x <<< 12).testBit 2 = false := by
  simp [Nat.testBit_shiftLeft]

theorem shl12_tb_3 (x : Nat) : (x <<< 12).testBit 3 = false := by
  simp [Nat.testBit_shiftLeft]

theorem shl12_tb_4 (x : Nat) : (x <<< 12).testBit 4 = false := by
  simp [Nat.testBit_shiftLeft]

theorem shl12_tb_5 (x : Nat) : (x <<< 12).testBit 5 = false := by
  simp [Nat.testBit_shiftLeft]

theorem shl12_tb_6 (x : Nat) : (x <<< 12).testBit 6 = false := by
  simp [Nat.testBit_shiftLeft]

theorem shl12_tb_7 (x : Nat) : (x <<< 12).testBit 7 = false := by
  simp [Nat.testBit_shiftLeft]

theorem shl12_tb_8 (x : Nat) : (x <<< 12).testBit 8 = false := by
  simp [Nat.testBit_shiftLeft]

theorem shl12_tb_9 (x : Nat) : (x <<< 12).testBit 9 = false := by
  simp [Nat.testBit_shiftLeft]

theorem shl12_tb_10 (x : Nat) : (x <<< 12).testBit 10 = false := by
  simp [Nat.testBit_shiftLeft]

theorem shl12_tb_11 (x : Nat) : (x <<< 12).testBit 11 = false := by
  simp [Nat.testBit_shiftLeft]

theorem shl12_tb_12 (x : Nat) : (x <<< 12).testBit 12 = x.testBit 0 := by
  simp [Nat.testBit_shiftLeft]

theorem shl12_tb_13 (x : Nat) : (x <<< 12).testBit 13 = x.testBit 1 := by
  simp [Nat.testBit_shiftLeft]

theorem shl12_tb_14 (x : Nat) : (x <<< 12).testBit 14 = x.testBit 2 := by
  simp [Nat.testBit_shiftLeft]

theorem shl12_tb_15 (x : Nat) : (x <<< 12).testBit 15 = x.testBit 3 := by
  simp [Nat.testBit_shiftLeft]

theorem shl4_tb_0 (x : Nat) : (x <<< 4).testBit 0 = false := by
  simp [Nat.testBit_shiftLeft]

theorem shl4_tb_1 (x : Nat) : (x <<< 4).testBit 1 = false := by
  simp [Nat.testBit_shiftLeft]

theorem shl4_tb_2 (x : Nat) : (x <<< 4).testBit 2 = false := by
  simp [Nat.testBit_shiftLeft]

theorem shl4_tb_3 (x : Nat) : (x <<< 4).testBit 3 = false := by
  simp [Nat.testBit_shiftLeft]

theorem shl4_tb_4 (x : Nat) : (x <<< 4).testBit 4 = x.testBit 0 := by
  simp [Nat.testBit_shiftLeft]

theorem shl4_tb_5 (x : Nat) : (x <<< 4).testBit 5 = x.testBit 1 := by
  simp [Nat.testBit_shiftLeft]

theorem shl4_tb_6 (x : Nat) : (x <<< 4).testBit 6 = x.testBit 2 := by
  simp [Nat.testBit_shiftLeft]

theorem shl4_tb_7 (x : Nat) : (x <<< 4).testBit 7 = x.testBit 3 := by
  simp [Nat.testBit_shiftLeft]

theorem shl4_tb_8 (x : Nat) : (x <<< 4).testBit 8 = x.testBit 4 := by
  simp [Nat.testBit_shiftLeft]

theorem shl4_tb_9 (x : Nat) : (x <<< 4).testBit 9 = x.testBit 5 := by
  simp [Nat.testBit_shiftLeft]

theorem shl4_tb_10 (x : Nat) : (x <<< 4).testBit 10 = x.testBit 6 := by
  simp [Nat.testBit_shiftLeft]

theorem shl4_tb_11 (x : Nat) : (x <<< 4).testBit 11 = x.testBit 7 := by
  simp [Nat.testBit_shiftLeft]

theorem shl4_tb_12 (x : Nat) : (x <<< 4).testBit 12 = x.testBit 8 := by
  simp [Nat.testBit_shiftLeft]

theorem shl4_tb_13 (x : Nat) : (x <<< 4).testBit 13 = x.testBit 9 := by
  simp [Nat.testBit_shiftLeft]

theorem shl4_tb_14 (x : Nat) : (x <<< 4).testBit 14 = x.testBit 10 := by
  simp [Nat.testBit_shiftLeft]

theorem shl4_tb_15 (x : Nat) : (x <<< 4).testBit 15 = x.testBit 11 := by
  simp [Nat.testBit_shiftLeft]

theorem mask16_tb_0 (x : Nat) : (x &&& 65535).testBit 0 = x.testBit 0 := by
  simp [Nat.testBit_and, show Nat.testBit 65535 0 = true from by decide]

theorem mask16_tb_1 (x : Nat) : (x &&& 65535).testBit 1 = x.testBit 1 := by
  simp [Nat.testBit_and, show Nat.testBit 65535 1 = true from by decide]

theorem mask16_tb_2 (x : Nat) : (x &&& 65535).testBit 2 = x.testBit 2 := by
  simp [Nat.testBit_and, show Nat.testBit 65535 2 = true from by decide]

theorem mask16_tb_3 (x : Nat) : (x &&& 65535).testBit 3 = x.testBit 3 := by
  simp [Nat.testBit_and, show Nat.testBit 65535 3 = true from by decide]

theorem mask16_tb_4 (x : Nat) : (x &&& 65535).testBit 4 = x.testBit 4 := by
  simp [Nat.testBit_and, show Nat.testBit 65535 4 = true from by decide]

theorem mask16_tb_5 (x : Nat) : (x &&& 65535).testBit 5 = x.testBit 5 := by
  simp [Nat.testBit_and, show Nat.testBit 65535 5 = true from by decide]

theorem mask16_tb_6 (x : Nat) : (x &&& 65535).testBit 6 = x.testBit 6 := by
  simp [Nat.testBit_and, show Nat.testBit 65535 6 = true from by decide]

theorem mask16_tb_7 (x : Nat) : (x &&& 65535).testBit 7 = x.testBit 7 := by
  simp [Nat.testBit_and, show Nat.testBit 65535 7 = true from by decide]

theorem mask16_tb_8 (x : Nat) : (x &&& 65535).testBit 8 = x.testBit 8 := by
  simp [Nat.testBit_and, show Nat.testBit 65535 8 = true from by decide]

theorem mask16_tb_9 (x : Nat) : (x &&& 65535).testBit 9 = x.testBit 9 := by
  simp [Nat.testBit_and, show Nat.testBit 65535 9 = true from by decide]

theorem mask16_tb_10 (x : Nat) : (x &&& 65535).testBit 10 = x.testBit 10 := by
  simp [Nat.testBit_and, show Nat.testBit 65535 10 = true from by decide]

theorem mask16_tb_11 (x : Nat) : (x &&& 65535).testBit 11 = x.testBit 11 := by
  simp [Nat.testBit_and, show Nat.testBit 65535 11 = true from by decide]

theorem mask16_tb_12 (x : Nat) : (x &&& 65535).testBit 12 = x.testBit 12 := by
  simp [Nat.testBit_and, show Nat.testBit 65535 12 = true from by decide]

theorem mask16_tb_13 (x : Nat) : (x &&& 65535).testBit 13 = x.testBit 13 := by
  simp [Nat.testBit_and, show Nat.testBit 65535 13 = true from by decide]

theorem mask16_tb_14 (x : Nat) : (x &&& 65535).testBit 14 = x.testBit 14 := by
  simp [Nat.testBit_and, show Nat.testBit 65535 14 = true from by decide]

theorem mask16_tb_15 (x : Nat) : (x &&& 65535).testBit 15 = x.testBit 15 := by
  simp [Nat.testBit_and, show Nat.testBit 65535 15 = true from by decide]

theorem mask16_tb_16 (x : Nat) : (x &&& 65535).testBit 16 = false := by
  simp [Nat.testBit_and, show Nat.testBit 65535 16 = false from by decide]

theorem mask16_tb_17 (x : Nat) : (x &&& 65535).testBit 17 = false := by
  simp [Nat.testBit_and, show Nat.testBit 65535 17 = false from by decide]

theorem mask16_tb_18 (x : Nat) : (x &&& 65535).testBit 18 = false := by
  simp [Nat.testBit_and, show Nat.testBit 65535 18 = false from by decide]

theorem mask16_tb_19 (x : Nat) : (x &&& 65535).testBit 19 = false := by
  simp [Nat.testBit_and, show Nat.testBit 65535 19 = false from by decide]

theorem hi_tb_16 {x : Nat} (h : x < 65536) : x.testBit 16 = false :=
  testBit_high h (by norm_num)

theorem hi_tb_17 {x : Nat} (h : x < 65536) : x.testBit 17 = false :=
  testBit_high h (by norm_num)

theorem hi_tb_18 {x : Nat} (h : x < 65536) : x.testBit 18 = false :=
  testBit_high h (by norm_num)

theorem hi_tb_19 {x : Nat} (h : x < 65536) : x.testBit 19 = false :=
  testBit_high h (by norm_num)

theorem hi_tb_20 {x : Nat} (h : x < 65536) : x.testBit 20 = false :=
  testBit_high h (by norm_num)

theorem hi_tb_21 {x : Nat} (h : x < 65536) : x.testBit 21 = false :=
  testBit_high h (by norm_num)

theorem hi_tb_22 {x : Nat} (h : x < 65536) : x.testBit 22 = false :=
  testBit_high h (by norm_num)

theorem hi_tb_23 {x : Nat} (h : x < 65536) : x.testBit 23 = false :=
  testBit_high h (by norm_num)

theorem hi_tb_24 {x : Nat} (h : x < 65536) : x.testBit 24 = false :=
  testBit_high h (by norm_num)

theorem hi_tb_25 {x : Nat} (h : x < 65536) : x.testBit 25 = false :=
  testBit_high h (by norm_num)

theorem hi_tb_26 {x : Nat} (h : x < 65536) : x.testBit 26 = false :=
  testBit_high h (by norm_num)

theorem hi_tb_27 {x : Nat} (h : x < 65536) : x.testBit 27 = false :=
  testBit_high h (by norm_num)

set_option maxHeartbeats 1000000 in
theorem mixColumns_byteAt_0 {s : AES_state} (hs : s.Valid) :
    byteAt (MixColumns s) 0 =
      xtime (byteAt s 0) ^^^ (xtime (byteAt s 4) ^^^ byteAt s 4) ^^^ byteAt s 8 ^^^
        byteAt s 12 := by
  obtain ⟨v0, v1, v2, v3, v4, v5, v6, v7⟩ := hs
  unfold byteAt
  simp only [sliceBits, byteAssemble_xorP, xtime_byteAssemble]
  apply congrArg byteAssemble
  simp only [MixColumns, mc01, mc123, rotC1_eq, rotC3_eq, Bits8.mk.injEq]
  simp only [shr4_tb_0, shr4_tb_1, shr4_tb_2, shr4_tb_3, shr4_tb_4, shr4_tb_5, shr4_tb_6, shr4_tb_7, shr4_tb_8, shr4_tb_9, shr4_tb_10, shr4_tb_11, shr4_tb_12, shr4_tb_13, shr4_tb_14, shr4_tb_15,
    shr12_tb_0, shr12_tb_1, shr12_tb_2, shr12_tb_3, shr12_tb_4, shr12_tb_5, shr12_tb_6, shr12_tb_7, shr12_tb_8, shr12_tb_9, shr12_tb_10, shr12_tb_11, shr12_tb_12, shr12_tb_13, shr12_tb_14, shr12_tb_15,
    shl12_tb_0, shl12_tb_1, shl12_tb_2, shl12_tb_3, shl12_tb_4, shl12_tb_5, shl12_tb_6, shl12_tb_7, shl12_tb_8, shl12_tb_9, shl12_tb_10, shl12_tb_11, shl12_tb_12, shl12_tb_13, shl12_tb_14, shl12_tb_15,
    shl4_tb_0, shl4_tb_1, shl4_tb_2, shl4_tb_3, shl4_tb_4, shl4_tb_5, shl4_tb_6, shl4_tb_7, shl4_tb_8, shl4_tb_9, shl4_tb_10, shl4_tb_11, shl4_tb_12, shl4_tb_13, shl4_tb_14, shl4_tb_15,
    mask16_tb_0, mask16_tb_1, mask16_tb_2, mask16_tb_3, mask16_tb_4, mask16_tb_5, mask16_tb_6, mask16_tb_7, mask16_tb_8, mask16_tb_9, mask16_tb_10, mask16_tb_11, mask16_tb_12, mask16_tb_13, mask16_tb_14, mask16_tb_15, mask16_tb_16, mask16_tb_17, mask16_tb_18, mask16_tb_19,
    hi_tb_16 v0, hi_tb_17 v0, hi_tb_18 v0, hi_tb_19 v0, hi_tb_20 v0, hi_tb_21 v0, hi_tb_22 v0, hi_tb_23 v0, hi_tb_24 v0, hi_tb_25 v0, hi_tb_26 v0, hi_tb_27 v0, hi_tb_16 v1, hi_tb_17 v1, hi_tb_18 v1, hi_tb_19 v1, hi_tb_20 v1, hi_tb_21 v1, hi_tb_22 v1, hi_tb_23 v1, hi_tb_24 v1, hi_tb_25 v1, hi_tb_26 v1, hi_tb_27 v1, hi_tb_16 v2, hi_tb_17 v2, hi_tb_18 v2, hi_tb_19 v2, hi_tb_20 v2, hi_tb_21 v2, hi_tb_22 v2, hi_tb_23 v2, hi_tb_24 v2, hi_tb_25 v2, hi_tb_26 v2, hi_tb_27 v2, hi_tb_16 v3, hi_tb_17 v3, hi_tb_18 v3, hi_tb_19 v3, hi_tb_20 v3, hi_tb_21 v3, hi_tb_22 v3, hi_tb_23 v3, hi_tb_24 v3, hi_tb_25 v3, hi_tb_26 v3, hi_tb_27 v3, hi_tb_16 v4, hi_tb_17 v4, hi_tb_18 v4, hi_tb_19 v4, hi_tb_20 v4, hi_tb_21 v4, hi_tb_22 v4, hi_tb_23 v4, hi_tb_24 v4, hi_tb_25 v4, hi_tb_26 v4, hi_tb_27 v4, hi_tb_16 v5, hi_tb_17 v5, hi_tb_18 v5, hi_tb_19 v5, hi_tb_20 v5, hi_tb_21 v5, hi_tb_22 v5, hi_tb_23 v5, hi_tb_24 v5, hi_tb_25 v5, hi_tb_26 v5, hi_tb_27 v5, hi_tb_16 v6, hi_tb_17 v6, hi_tb_18 v6, hi_tb_19 v6, hi_tb_20 v6, hi_tb_21 v6, hi_tb_22 v6, hi_tb_23 v6, hi_tb_24 v6, hi_tb_25 v6, hi_tb_26 v6, hi_tb_27 v6, hi_tb_16 v7, hi_tb_17 v7, hi_tb_18 v7, hi_tb_19 v7, hi_tb_20 v7, hi_tb_21 v7, hi_tb_22 v7, hi_tb_23 v7, hi_tb_24 v7, hi_tb_25 v7, hi_tb_26 v7, hi_tb_27 v7,
    Nat.testBit_xor, Nat.testBit_or,
    Bool.or_false, Bool.false_or, Bool.xor_false, Bool.false_xor, Bool.and_false,
    Bool.false_and, Bool.and_true, Bool.true_and]
  repeat' apply And.intro
  all_goals try (apply bitZ_inj; simp only [bitZ_xor, bitZ_bne]; abel_nf)
  all_goals try simp [show (2 : ZMod 2) = 0 by decide, show (3 : ZMod 2) = 1 by decide,
    show (4 : ZMod 2) = 0 by decide, show (5 : ZMod 2) = 1 by decide,
    show (6 : ZMod 2) = 0 by decide, show (7 : ZMod 2) = 1 by decide,
    show (8 : ZMod 2) = 0 by decide, show (9 : ZMod 2) = 1 by decide,
    show (10 : ZMod 2) = 0 by decide, show (11 : ZMod 2) = 1 by decide,
    show (12 : ZMod 2) = 0 by decide, show (13 : ZMod 2) = 1 by decide,
    show (14 : ZMod 2) = 0 by decide, show (15 : ZMod 2) = 1 by decide,
    show (16 : ZMod 2) = 0 by decide]

set_option maxHeartbeats 1000000 in
theorem mixColumns_byteAt_1 {s : AES_state} (hs : s.Valid) :
    byteAt (MixColumns s) 1 =
      xtime (byteAt s 1) ^^^ (xtime (byteAt s 5) ^^^ byteAt s 5) ^^^ byteAt s 9 ^^^
        byteAt s 13 := by
  obtain ⟨v0, v1, v2, v3, v4, v5, v6, v7⟩ := hs
  unfold byteAt
  simp only [sliceBits, byteAssemble_xorP, xtime_byteAssemble]
  apply congrArg byteAssemble
  simp only [MixColumns, mc01, mc123, rotC1_eq, rotC3_eq, Bits8.mk.injEq]
  simp only [shr4_tb_0, shr4_tb_1, shr4_tb_2, shr4_tb_3, shr4_tb_4, shr4_tb_5, shr4_tb_6, shr4_tb_7, shr4_tb_8, shr4_tb_9, shr4_tb_10, shr4_tb_11, shr4_tb_12, shr4_tb_13, shr4_tb_14, shr4_tb_15,
    shr12_tb_0, shr12_tb_1, shr12_tb_2, shr12_tb_3, shr12_tb_4, shr12_tb_5, shr12_tb_6, shr12_tb_7, shr12_tb_8, shr12_tb_9, shr12_tb_10, shr12_tb_11, shr12_tb_12, shr12_tb_13, shr12_tb_14, shr12_tb_15,
    shl12_tb_0, shl12_tb_1, shl12_tb_2, shl12_tb_3, shl12_tb_4, shl12_tb_5, shl12_tb_6, shl12_tb_7, shl12_tb_8, shl12_tb_9, shl12_tb_10, shl12_tb_11, shl12_tb_12, shl12_tb_13, shl12_tb_14, shl12_tb_15,
    shl4_tb_0, shl4_tb_1, shl4_tb_2, shl4_tb_3, shl4_tb_4, shl4_tb_5, shl4_tb_6, shl4_tb_7, shl4_tb_8, shl4_tb_9, shl4_tb_10, shl4_tb_11, shl4_tb_12, shl4_tb_13, shl4_tb_14, shl4_tb_15,
    mask16_tb_0, mask16_tb_1, mask16_tb_2, mask16_tb_3, mask16_tb_4, mask16_tb_5, mask16_tb_6, mask16_tb_7, mask16_tb_8, mask16_tb_9, mask16_tb_10, mask16_tb_11, mask16_tb_12, mask16_tb_13, mask16_tb_14, mask16_tb_15, mask16_tb_16, mask16_tb_17, mask16_tb_18, mask16_tb_19,
    hi_tb_16 v0, hi_tb_17 v0, hi_tb_18 v0, hi_tb_19 v0, hi_tb_20 v0, hi_tb_21 v0, hi_tb_22 v0, hi_tb_23 v0, hi_tb_24 v0, hi_tb_25 v0, hi_tb_26 v0, hi_tb_27 v0, hi_tb_16 v1, hi_tb_17 v1, hi_tb_18 v1, hi_tb_19 v1, hi_tb_20 v1, hi_tb_21 v1, hi_tb_22 v1, hi_tb_23 v1, hi_tb_24 v1, hi_tb_25 v1, hi_tb_26 v1, hi_tb_27 v1, hi_tb_16 v2, hi_tb_17 v2, hi_tb_18 v2, hi_tb_19 v2, hi_tb_20 v2, hi_tb_21 v2, hi_tb_22 v2, hi_tb_23 v2, hi_tb_24 v2, hi_tb_25 v2, hi_tb_26 v2, hi_tb_27 v2, hi_tb_16 v3, hi_tb_17 v3, hi_tb_18 v3, hi_tb_19 v3, hi_tb_20 v3, hi_tb_21 v3, hi_tb_22 v3, hi_tb_23 v3, hi_tb_24 v3, hi_tb_25 v3, hi_tb_26 v3, hi_tb_27 v3, hi_tb_16 v4, hi_tb_17 v4, hi_tb_18 v4, hi_tb_19 v4, hi_tb_20 v4, hi_tb_21 v4, hi_tb_22 v4, hi_tb_23 v4, hi_tb_24 v4, hi_tb_25 v4, hi_tb_26 v4, hi_tb_27 v4, hi_tb_16 v5, hi_tb_17 v5, hi_tb_18 v5, hi_tb_19 v5, hi_tb_20 v5, hi_tb_21 v5, hi_tb_22 v5, hi_tb_23 v5, hi_tb_24 v5, hi_tb_25 v5, hi_tb_26 v5, hi_tb_27 v5, hi_tb_16 v6, hi_tb_17 v6, hi_tb_18 v6, hi_tb_19 v6, hi_tb_20 v6, hi_tb_21 v6, hi_tb_22 v6, hi_tb_23 v6, hi_tb_24 v6, hi_tb_25 v6, hi_tb_26 v6, hi_tb_27 v6, hi_tb_16 v7, hi_tb_17 v7, hi_tb_18 v7, hi_tb_19 v7, hi_tb_20 v7, hi_tb_21 v7, hi_tb_22 v7, hi_tb_23 v7, hi_tb_24 v7, hi_tb_25 v7, hi_tb_26 v7, hi_tb_27 v7,
    Nat.testBit_xor, Nat.testBit_or,
    Bool.or_false, Bool.false_or, Bool.xor_false, Bool.false_xor, Bool.and_false,
    Bool.false_and, Bool.and_true, Bool.true_and]
  repeat' apply And.intro
  all_goals try (apply bitZ_inj; simp only [bitZ_xor, bitZ_bne]; abel_nf)
  all_goals try simp [show (2 : ZMod 2) = 0 by decide, show (3 : ZMod 2) = 1 by decide,
    show (4 : ZMod 2) = 0 by decide, show (5 : ZMod 2) = 1 by decide,
    show (6 : ZMod 2) = 0 by decide, show (7 : ZMod 2) = 1 by decide,
    show (8 : ZMod 2) = 0 by decide, show (9 : ZMod 2) = 1 by decide,
    show (10 : ZMod 2) = 0 by decide, show (11 : ZMod 2) = 1 by decide,
    show (12 : ZMod 2) = 0 by decide, show (13 : ZMod 2) = 1 by decide,
    show (14 : ZMod 2) = 0 by decide, show (15 : ZMod 2) = 1 by decide,
    show (16 : ZMod 2) = 0 by decide]

set_option maxHeartbeats 1000000 in
theorem mixColumns_byteAt_2 {s : AES_state} (hs : s.Valid) :
    byteAt (MixColumns s) 2 =
      xtime (byteAt s 2) ^^^ (xtime (byteAt s 6) ^^^ byteAt s 6) ^^^ byteAt s 10 ^^^
        byteAt s 14 := by
  obtain ⟨v0, v1, v2, v3, v4, v5, v6, v7⟩ := hs
  unfold byteAt
  simp only [sliceBits, byteAssemble_xorP, xtime_byteAssemble]
  apply congrArg byteAssemble
  simp only [MixColumns, mc01, mc123, rotC1_eq, rotC3_eq, Bits8.mk.injEq]
  simp only [shr4_tb_0, shr4_tb_1, shr4_tb_2, shr4_tb_3, shr4_tb_4, shr4_tb_5, shr4_tb_6, shr4_tb_7, shr4_tb_8, shr4_tb_9, shr4_tb_10, shr4_tb_11, shr4_tb_12, shr4_tb_13, shr4_tb_14, shr4_tb_15,
    shr12_tb_0, shr12_tb_1, shr12_tb_2, shr12_tb_3, shr12_tb_4, shr12_tb_5, shr12_tb_6, shr12_tb_7, shr12_tb_8, shr12_tb_9, shr12_tb_10, shr12_tb_11, shr12_tb_12, shr12_tb_13, shr12_tb_14, shr12_tb_15,
    shl12_tb_0, shl12_tb_1, shl12_tb_2, shl12_tb_3, shl12_tb_4, shl12_tb_5, shl12_tb_6, shl12_tb_7, shl12_tb_8, shl12_tb_9, shl12_tb_10, shl12_tb_11, shl12_tb_12, shl12_tb_13, shl12_tb_14, shl12_tb_15,
    shl4_tb_0, shl4_tb_1, shl4_tb_2, shl4_tb_3, shl4_tb_4, shl4_tb_5, shl4_tb_6, shl4_tb_7, shl4_tb_8, shl4_tb_9, shl4_tb_10, shl4_tb_11, shl4_tb_12, shl4_tb_13, shl4_tb_14, shl4_tb_15,
    mask16_tb_0, mask16_tb_1, mask16_tb_2, mask16_tb_3, mask16_tb_4, mask16_tb_5, mask16_tb_6, mask16_tb_7, mask16_tb_8, mask16_tb_9, mask16_tb_10, mask16_tb_11, mask16_tb_12, mask16_tb_13, mask16_tb_14, mask16_tb_15, mask16_tb_16, mask16_tb_17, mask16_tb_18, mask16_tb_19,
    hi_tb_16 v0, hi_tb_17 v0, hi_tb_18 v0, hi_tb_19 v0, hi_tb_20 v0, hi_tb_21 v0, hi_tb_22 v0, hi_tb_23 v0, hi_tb_24 v0, hi_tb_25 v0, hi_tb_26 v0, hi_tb_27 v0, hi_tb_16 v1, hi_tb_17 v1, hi_tb_18 v1, hi_tb_19 v1, hi_tb_20 v1, hi_tb_21 v1, hi_tb_22 v1, hi_tb_23 v1, hi_tb_24 v1, hi_tb_25 v1, hi_tb_26 v1, hi_tb_27 v1, hi_tb_16 v2, hi_tb_17 v2, hi_tb_18 v2, hi_tb_19 v2, hi_tb_20 v2, hi_tb_21 v2, hi_tb_22 v2, hi_tb_23 v2, hi_tb_24 v2, hi_tb_25 v2, hi_tb_26 v2, hi_tb_27 v2, hi_tb_16 v3, hi_tb_17 v3, hi_tb_18 v3, hi_tb_19 v3, hi_tb_20 v3, hi_tb_21 v3, hi_tb_22 v3, hi_tb_23 v3, hi_tb_24 v3, hi_tb_25 v3, hi_tb_26 v3, hi_tb_27 v3, hi_tb_16 v4, hi_tb_17 v4, hi_tb_18 v4, hi_tb_19 v4, hi_tb_20 v4, hi_tb_21 v4, hi_tb_22 v4, hi_tb_23 v4, hi_tb_24 v4, hi_tb_25 v4, hi_tb_26 v4, hi_tb_27 v4, hi_tb_16 v5, hi_tb_17 v5, hi_tb_18 v5, hi_tb_19 v5, hi_tb_20 v5, hi_tb_21 v5, hi_tb_22 v5, hi_tb_23 v5, hi_tb_24 v5, hi_tb_25 v5, hi_tb_26 v5, hi_tb_27 v5, hi_tb_16 v6, hi_tb_17 v6, hi_tb_18 v6, hi_tb_19 v6, hi_tb_20 v6, hi_tb_21 v6, hi_tb_22 v6, hi_tb_23 v6, hi_tb_24 v6, hi_tb_25 v6, hi_tb_26 v6, hi_tb_27 v6, hi_tb_16 v7, hi_tb_17 v7, hi_tb_18 v7, hi_tb_19 v7, hi_tb_20 v7, hi_tb_21 v7, hi_tb_22 v7, hi_tb_23 v7, hi_tb_24 v7, hi_tb_25 v7, hi_tb_26 v7, hi_tb_27 v7,
    Nat.testBit_xor, Nat.testBit_or,
    Bool.or_false, Bool.false_or, Bool.xor_false, Bool.false_xor, Bool.and_false,
    Bool.false_and, Bool.and_true, Bool.true_and]
  repeat' apply And.intro
  all_goals try (apply bitZ_inj; simp only [bitZ_xor, bitZ_bne]; abel_nf)
  all_goals try simp [show (2 : ZMod 2) = 0 by decide, show (3 : ZMod 2) = 1 by decide,
    show (4 : ZMod 2) = 0 by decide, show (5 : ZMod 2) = 1 by decide,
    show (6 : ZMod 2) = 0 by decide, show (7 : ZMod 2) = 1 by decide,
    show (8 : ZMod 2) = 0 by decide, show (9 : ZMod 2) = 1 by decide,
    show (10 : ZMod 2) = 0 by decide, show (11 : ZMod 2) = 1 by decide,
    show (12 : ZMod 2) = 0 by decide, show (13 : ZMod 2) = 1 by decide,
    show (14 : ZMod 2) = 0 by decide, show (15 : ZMod 2) = 1 by decide,
    show (16 : ZMod 2) = 0 by decide]

set_option maxHeartbeats 1000000 in
theorem mixColumns_byteAt_3 {s : AES_state} (hs : s.Valid) :
    byteAt (MixColumns s) 3 =
      xtime (byteAt s 3) ^^^ (xtime (byteAt s 7) ^^^ byteAt s 7) ^^^ byteAt s 11 ^^^
        byteAt s 15 := by
  obtain ⟨v0, v1, v2, v3, v4, v5, v6, v7⟩ := hs
  unfold byteAt
  simp only [sliceBits, byteAssemble_xorP, xtime_byteAssemble]
  apply congrArg byteAssemble
  simp only [MixColumns, mc01, mc123, rotC1_eq, rotC3_eq, Bits8.mk.injEq]
  simp only [shr4_tb_0, shr4_tb_1, shr4_tb_2, shr4_tb_3, shr4_tb_4, shr4_tb_5, shr4_tb_6, shr4_tb_7, shr4_tb_8, shr4_tb_9, shr4_tb_10, shr4_tb_11, shr4_tb_12, shr4_tb_13, shr4_tb_14, shr4_tb_15,
    shr12_tb_0, shr12_tb_1, shr12_tb_2, shr12_tb_3, shr12_tb_4, shr12_tb_5, shr12_tb_6, shr12_tb_7, shr12_tb_8, shr12_tb_9, shr12_tb_10, shr12_tb_11, shr12_tb_12, shr12_tb_13, shr12_tb_14, shr12_tb_15,
    shl12_tb_0, shl12_tb_1, shl12_tb_2, shl12_tb_3, shl12_tb_4, shl12_tb_5, shl12_tb_6, shl12_tb_7, shl12_tb_8, shl12_tb_9, shl12_tb_10, shl12_tb_11, shl12_tb_12, shl12_tb_13, shl12_tb_14, shl12_tb_15,
    shl4_tb_0, shl4_tb_1, shl4_tb_2, shl4_tb_3, shl4_tb_4, shl4_tb_5, shl4_tb_6, shl4_tb_7, shl4_tb_8, shl4_tb_9, shl4_tb_10, shl4_tb_11, shl4_tb_12, shl4_tb_13, shl4_tb_14, shl4_tb_15,
    mask16_tb_0, mask16_tb_1, mask16_tb_2, mask16_tb_3, mask16_tb_4, mask16_tb_5, mask16_tb_6, mask16_tb_7, mask16_tb_8, mask16_tb_9, mask16_tb_10, mask16_tb_11, mask16_tb_12, mask16_tb_13, mask16_tb_14, mask16_tb_15, mask16_tb_16, mask16_tb_17, mask16_tb_18, mask16_tb_19,
    hi_tb_16 v0, hi_tb_17 v0, hi_tb_18 v0, hi_tb_19 v0, hi_tb_20 v0, hi_tb_21 v0, hi_tb_22 v0, hi_tb_23 v0, hi_tb_24 v0, hi_tb_25 v0, hi_tb_26 v0, hi_tb_27 v0, hi_tb_16 v1, hi_tb_17 v1, hi_tb_18 v1, hi_tb_19 v1, hi_tb_20 v1, hi_tb_21 v1, hi_tb_22 v1, hi_tb_23 v1, hi_tb_24 v1, hi_tb_25 v1, hi_tb_26 v1, hi_tb_27 v1, hi_tb_16 v2, hi_tb_17 v2, hi_tb_18 v2, hi_tb_19 v2, hi_tb_20 v2, hi_tb_21 v2, hi_tb_22 v2, hi_tb_23 v2, hi_tb_24 v2, hi_tb_25 v2, hi_tb_26 v2, hi_tb_27 v2, hi_tb_16 v3, hi_tb_17 v3, hi_tb_18 v3, hi_tb_19 v3, hi_tb_20 v3, hi_tb_21 v3, hi_tb_22 v3, hi_tb_23 v3, hi_tb_24 v3, hi_tb_25 v3, hi_tb_26 v3, hi_tb_27 v3, hi_tb_16 v4, hi_tb_17 v4, hi_tb_18 v4, hi_tb_19 v4, hi_tb_20 v4, hi_tb_21 v4, hi_tb_22 v4, hi_tb_23 v4, hi_tb_24 v4, hi_tb_25 v4, hi_tb_26 v4, hi_tb_27 v4, hi_tb_16 v5, hi_tb_17 v5, hi_tb_18 v5, hi_tb_19 v5, hi_tb_20 v5, hi_tb_21 v5, hi_tb_22 v5, hi_tb_23 v5, hi_tb_24 v5, hi_tb_25 v5, hi_tb_26 v5, hi_tb_27 v5, hi_tb_16 v6, hi_tb_17 v6, hi_tb_18 v6, hi_tb_19 v6, hi_tb_20 v6, hi_tb_21 v6, hi_tb_22 v6, hi_tb_23 v6, hi_tb_24 v6, hi_tb_25 v6, hi_tb_26 v6, hi_tb_27 v6, hi_tb_16 v7, hi_tb_17 v7, hi_tb_18 v7, hi_tb_19 v7, hi_tb_20 v7, hi_tb_21 v7, hi_tb_22 v7, hi_tb_23 v7, hi_tb_24 v7, hi_tb_25 v7, hi_tb_26 v7, hi_tb_27 v7,
    Nat.testBit_xor, Nat.testBit_or,
    Bool.or_false, Bool.false_or, Bool.xor_false, Bool.false_xor, Bool.and_false,
    Bool.false_and, Bool.and_true, Bool.true_and]
  repeat' apply And.intro
  all_goals try (apply bitZ_inj; simp only [bitZ_xor, bitZ_bne]; abel_nf)
  all_goals try simp [show (2 : ZMod 2) = 0 by decide, show (3 : ZMod 2) = 1 by decide,
    show (4 : ZMod 2) = 0 by decide, show (5 : ZMod 2) = 1 by decide,
    show (6 : ZMod 2) = 0 by decide, show (7 : ZMod 2) = 1 by decide,
    show (8 : ZMod 2) = 0 by decide, show (9 : ZMod 2) = 1 by decide,
    show (10 : ZMod 2) = 0 by decide, show (11 : ZMod 2) = 1 by decide,
    show (12 : ZMod 2) = 0 by decide, show (13 : ZMod 2) = 1 by decide,
    show (14 : ZMod 2) = 0 by decide, show (15 : ZMod 2) = 1 by decide,
    show (16 : ZMod 2) = 0 by decide]

set_option maxHeartbeats 1000000 in
theorem mixColumns_byteAt_4 {s : AES_state} (hs : s.Valid) :
    byteAt (MixColumns s) 4 =
      xtime (byteAt s 4) ^^^ (xtime (byteAt s 8) ^^^ byteAt s 8) ^^^ byteAt s 12 ^^^
        byteAt s 0 := by
  obtain ⟨v0, v1, v2, v3, v4, v5, v6, v7⟩ := hs
  unfold byteAt
  simp only [sliceBits, byteAssemble_xorP, xtime_byteAssemble]
  apply congrArg byteAssemble
  simp only [MixColumns, mc01, mc123, rotC1_eq, rotC3_eq, Bits8.mk.injEq]
  simp only [shr4_tb_0, shr4_tb_1, shr4_tb_2, shr4_tb_3, shr4_tb_4, shr4_tb_5, shr4_tb_6, shr4_tb_7, shr4_tb_8, shr4_tb_9, shr4_tb_10, shr4_tb_11, shr4_tb_12, shr4_tb_13, shr4_tb_14, shr4_tb_15,
    shr12_tb_0, shr12_tb_1, shr12_tb_2, shr12_tb_3, shr12_tb_4, shr12_tb_5, shr12_tb_6, shr12_tb_7, shr12_tb_8, shr12_tb_9, shr12_tb_10, shr12_tb_11, shr12_tb_12, shr12_tb_13, shr12_tb_14, shr12_tb_15,
    shl12_tb_0, shl12_tb_1, shl12_tb_2, shl12_tb_3, shl12_tb_4, shl12_tb_5, shl12_tb_6, shl12_tb_7, shl12_tb_8, shl12_tb_9, shl12_tb_10, shl12_tb_11, shl12_tb_12, shl12_tb_13, shl12_tb_14, shl12_tb_15,
    shl4_tb_0, shl4_tb_1, shl4_tb_2, shl4_tb_3, shl4_tb_4, shl4_tb_5, shl4_tb_6, shl4_tb_7, shl4_tb_8, shl4_tb_9, shl4_tb_10, shl4_tb_11, shl4_tb_12, shl4_tb_13, shl4_tb_14, shl4_tb_15,
    mask16_tb_0, mask16_tb_1, mask16_tb_2, mask16_tb_3, mask16_tb_4, mask16_tb_5, mask16_tb_6, mask16_tb_7, mask16_tb_8, mask16_tb_9, mask16_tb_10, mask16_tb_11, mask16_tb_12, mask16_tb_13, mask16_tb_14, mask16_tb_15, mask16_tb_16, mask16_tb_17, mask16_tb_18, mask16_tb_19,
    hi_tb_16 v0, hi_tb_17 v0, hi_tb_18 v0, hi_tb_19 v0, hi_tb_20 v0, hi_tb_21 v0, hi_tb_22 v0, hi_tb_23 v0, hi_tb_24 v0, hi_tb_25 v0, hi_tb_26 v0, hi_tb_27 v0, hi_tb_16 v1, hi_tb_17 v1, hi_tb_18 v1, hi_tb_19 v1, hi_tb_20 v1, hi_tb_21 v1, hi_tb_22 v1, hi_tb_23 v1, hi_tb_24 v1, hi_tb_25 v1, hi_tb_26 v1, hi_tb_27 v1, hi_tb_16 v2, hi_tb_17 v2, hi_tb_18 v2, hi_tb_19 v2, hi_tb_20 v2, hi_tb_21 v2, hi_tb_22 v2, hi_tb_23 v2, hi_tb_24 v2, hi_tb_25 v2, hi_tb_26 v2, hi_tb_27 v2, hi_tb_16 v3, hi_tb_17 v3, hi_tb_18 v3, hi_tb_19 v3, hi_tb_20 v3, hi_tb_21 v3, hi_tb_22 v3, hi_tb_23 v3, hi_tb_24 v3, hi_tb_25 v3, hi_tb_26 v3, hi_tb_27 v3, hi_tb_16 v4, hi_tb_17 v4, hi_tb_18 v4, hi_tb_19 v4, hi_tb_20 v4, hi_tb_21 v4, hi_tb_22 v4, hi_tb_23 v4, hi_tb_24 v4, hi_tb_25 v4, hi_tb_26 v4, hi_tb_27 v4, hi_tb_16 v5, hi_tb_17 v5, hi_tb_18 v5, hi_tb_19 v5, hi_tb_20 v5, hi_tb_21 v5, hi_tb_22 v5, hi_tb_23 v5, hi_tb_24 v5, hi_tb_25 v5, hi_tb_26 v5, hi_tb_27 v5, hi_tb_16 v6, hi_tb_17 v6, hi_tb_18 v6, hi_tb_19 v6, hi_tb_20 v6, hi_tb_21 v6, hi_tb_22 v6, hi_tb_23 v6, hi_tb_24 v6, hi_tb_25 v6, hi_tb_26 v6, hi_tb_27 v6, hi_tb_16 v7, hi_tb_17 v7, hi_tb_18 v7, hi_tb_19 v7, hi_tb_20 v7, hi_tb_21 v7, hi_tb_22 v7, hi_tb_23 v7, hi_tb_24 v7, hi_tb_25 v7, hi_tb_26 v7, hi_tb_27 v7,
    Nat.testBit_xor, Nat.testBit_or,
    Bool.or_false, Bool.false_or, Bool.xor_false, Bool.false_xor, Bool.and_false,
    Bool.false_and, Bool.and_true, Bool.true_and]
  repeat' apply And.intro
  all_goals try (apply bitZ_inj; simp only [bitZ_xor, bitZ_bne]; abel_nf)
  all_goals try simp [show (2 : ZMod 2) = 0 by decide, show (3 : ZMod 2) = 1 by decide,
    show (4 : ZMod 2) = 0 by decide, show (5 : ZMod 2) = 1 by decide,
    show (6 : ZMod 2) = 0 by decide, show (7 : ZMod 2) = 1 by decide,
    show (8 : ZMod 2) = 0 by decide, show (9 : ZMod 2) = 1 by decide,
    show (10 : ZMod 2) = 0 by decide, show (11 : ZMod 2) = 1 by decide,
    show (12 : ZMod 2) = 0 by decide, show (13 : ZMod 2) = 1 by decide,
    show (14 : ZMod 2) = 0 by decide, show (15 : ZMod 2) = 1 by decide,
    show (16 : ZMod 2) = 0 by decide]

set_option maxHeartbeats 1000000 in
theorem mixColumns_byteAt_5 {s : AES_state} (hs : s.Valid) :
    byteAt (MixColumns s) 5 =
      xtime (byteAt s 5) ^^^ (xtime (byteAt s 9) ^^^ byteAt s 9) ^^^ byteAt s 13 ^^^
        byteAt s 1 := by
  obtain ⟨v0, v1, v2, v3, v4, v5, v6, v7⟩ := hs
  unfold byteAt
  simp only [sliceBits, byteAssemble_xorP, xtime_byteAssemble]
  apply congrArg byteAssemble
  simp only [MixColumns, mc01, mc123, rotC1_eq, rotC3_eq, Bits8.mk.injEq]
  simp only [shr4_tb_0, shr4_tb_1, shr4_tb_2, shr4_tb_3, shr4_tb_4, shr4_tb_5, shr4_tb_6, shr4_tb_7, shr4_tb_8, shr4_tb_9, shr4_tb_10, shr4_tb_11, shr4_tb_12, shr4_tb_13, shr4_tb_14, shr4_tb_15,
    shr12_tb_0, shr12_tb_1, shr12_tb_2, shr12_tb_3, shr12_tb_4, shr12_tb_5, shr12_tb_6, shr12_tb_7, shr12_tb_8, shr12_tb_9, shr12_tb_10, shr12_tb_11, shr12_tb_12, shr12_tb_13, shr12_tb_14, shr12_tb_15,
    shl12_tb_0, shl12_tb_1, shl12_tb_2, shl12_tb_3, shl12_tb_4, shl12_tb_5, shl12_tb_6, shl12_tb_7, shl12_tb_8, shl12_tb_9, shl12_tb_10, shl12_tb_11, shl12_tb_12, shl12_tb_13, shl12_tb_14, shl12_tb_15,
    shl4_tb_0, shl4_tb_1, shl4_tb_2, shl4_tb_3, shl4_tb_4, shl4_tb_5, shl4_tb_6, shl4_tb_7, shl4_tb_8, shl4_tb_9, shl4_tb_10, shl4_tb_11, shl4_tb_12, shl4_tb_13, shl4_tb_14, shl4_tb_15,
    mask16_tb_0, mask16_tb_1, mask16_tb_2, mask16_tb_3, mask16_tb_4, mask16_tb_5, mask16_tb_6, mask16_tb_7, mask16_tb_8, mask16_tb_9, mask16_tb_10, mask16_tb_11, mask16_tb_12, mask16_tb_13, mask16_tb_14, mask16_tb_15, mask16_tb_16, mask16_tb_17, mask16_tb_18, mask16_tb_19,
    hi_tb_16 v0, hi_tb_17 v0, hi_tb_18 v0, hi_tb_19 v0, hi_tb_20 v0, hi_tb_21 v0, hi_tb_22 v0, hi_tb_23 v0, hi_tb_24 v0, hi_tb_25 v0, hi_tb_26 v0, hi_tb_27 v0, hi_tb_16 v1, hi_tb_17 v1, hi_tb_18 v1, hi_tb_19 v1, hi_tb_20 v1, hi_tb_21 v1, hi_tb_22 v1, hi_tb_23 v1, hi_tb_24 v1, hi_tb_25 v1, hi_tb_26 v1, hi_tb_27 v1, hi_tb_16 v2, hi_tb_17 v2, hi_tb_18 v2, hi_tb_19 v2, hi_tb_20 v2, hi_tb_21 v2, hi_tb_22 v2, hi_tb_23 v2, hi_tb_24 v2, hi_tb_25 v2, hi_tb_26 v2, hi_tb_27 v2, hi_tb_16 v3, hi_tb_17 v3, hi_tb_18 v3, hi_tb_19 v3, hi_tb_20 v3, hi_tb_21 v3, hi_tb_22 v3, hi_tb_23 v3, hi_tb_24 v3, hi_tb_25 v3, hi_tb_26 v3, hi_tb_27 v3, hi_tb_16 v4, hi_tb_17 v4, hi_tb_18 v4, hi_tb_19 v4, hi_tb_20 v4, hi_tb_21 v4, hi_tb_22 v4, hi_tb_23 v4, hi_tb_24 v4, hi_tb_25 v4, hi_tb_26 v4, hi_tb_27 v4, hi_tb_16 v5, hi_tb_17 v5, hi_tb_18 v5, hi_tb_19 v5, hi_tb_20 v5, hi_tb_21 v5, hi_tb_22 v5, hi_tb_23 v5, hi_tb_24 v5, hi_tb_25 v5, hi_tb_26 v5, hi_tb_27 v5, hi_tb_16 v6, hi_tb_17 v6, hi_tb_18 v6, hi_tb_19 v6, hi_tb_20 v6, hi_tb_21 v6, hi_tb_22 v6, hi_tb_23 v6, hi_tb_24 v6, hi_tb_25 v6, hi_tb_26 v6, hi_tb_27 v6, hi_tb_16 v7, hi_tb_17 v7, hi_tb_18 v7, hi_tb_19 v7, hi_tb_20 v7, hi_tb_21 v7, hi_tb_22 v7, hi_tb_23 v7, hi_tb_24 v7, hi_tb_25 v7, hi_tb_26 v7, hi_tb_27 v7,
    Nat.testBit_xor, Nat.testBit_or,
    Bool.or_false, Bool.false_or, Bool.xor_false, Bool.false_xor, Bool.and_false,
    Bool.false_and, Bool.and_true, Bool.true_and]
  repeat' apply And.intro
  all_goals try (apply bitZ_inj; simp only [bitZ_xor, bitZ_bne]; abel_nf)
  all_goals try simp [show (2 : ZMod 2) = 0 by decide, show (3 : ZMod 2) = 1 by decide,
    show (4 : ZMod 2) = 0 by decide, show (5 : ZMod 2) = 1 by decide,
    show (6 : ZMod 2) = 0 by decide, show (7 : ZMod 2) = 1 by decide,
    show (8 : ZMod 2) = 0 by decide, show (9 : ZMod 2) = 1 by decide,
    show (10 : ZMod 2) = 0 by decide, show (11 : ZMod 2) = 1 by decide,
    show (12 : ZMod 2) = 0 by decide, show (13 : ZMod 2) = 1 by decide,
    show (14 : ZMod 2) = 0 by decide, show (15 : ZMod 2) = 1 by decide,
    show (16 : ZMod 2) = 0 by decide]

set_option maxHeartbeats 1000000 in
theorem mixColumns_byteAt_6 {s : AES_state} (hs : s.Valid) :
    byteAt (MixColumns s) 6 =
      xtime (byteAt s 6) ^^^ (xtime (byteAt s 10) ^^^ byteAt s 10) ^^^ byteAt s 14 ^^^
        byteAt s 2 := by
  obtain ⟨v0, v1, v2, v3, v4, v5, v6, v7⟩ := hs
  unfold byteAt
  simp only [sliceBits, byteAssemble_xorP, xtime_byteAssemble]
  apply congrArg byteAssemble
  simp only [MixColumns, mc01, mc123, rotC1_eq, rotC3_eq, Bits8.mk.injEq]
  simp only [shr4_tb_0, shr4_tb_1, shr4_tb_2, shr4_tb_3, shr4_tb_4, shr4_tb_5, shr4_tb_6, shr4_tb_7, shr4_tb_8, shr4_tb_9, shr4_tb_10, shr4_tb_11, shr4_tb_12, shr4_tb_13, shr4_tb_14, shr4_tb_15,
    shr12_tb_0, shr12_tb_1, shr12_tb_2, shr12_tb_3, shr12_tb_4, shr12_tb_5, shr12_tb_6, shr12_tb_7, shr12_tb_8, shr12_tb_9, shr12_tb_10, shr12_tb_11, shr12_tb_12, shr12_tb_13, shr12_tb_14, shr12_tb_15,
    shl12_tb_0, shl12_tb_1, shl12_tb_2, shl12_tb_3, shl12_tb_4, shl12_tb_5, shl12_tb_6, shl12_tb_7, shl12_tb_8, shl12_tb_9, shl12_tb_10, shl12_tb_11, shl12_tb_12, shl12_tb_13, shl12_tb_14, shl12_tb_15,
    shl4_tb_0, shl4_tb_1, shl4_tb_2, shl4_tb_3, shl4_tb_4, shl4_tb_5, shl4_tb_6, shl4_tb_7, shl4_tb_8, shl4_tb_9, shl4_tb_10, shl4_tb_11, shl4_tb_12, shl4_tb_13, shl4_tb_14, shl4_tb_15,
    mask16_tb_0, mask16_tb_1, mask16_tb_2, mask16_tb_3, mask16_tb_4, mask16_tb_5, mask16_tb_6, mask16_tb_7, mask16_tb_8, mask16_tb_9, mask16_tb_10, mask16_tb_11, mask16_tb_12, mask16_tb_13, mask16_tb_14, mask16_tb_15, mask16_tb_16, mask16_tb_17, mask16_tb_18, mask16_tb_19,
    hi_tb_16 v0, hi_tb_17 v0, hi_tb_18 v0, hi_tb_19 v0, hi_tb_20 v0, hi_tb_21 v0, hi_tb_22 v0, hi_tb_23 v0, hi_tb_24 v0, hi_tb_25 v0, hi_tb_26 v0, hi_tb_27 v0, hi_tb_16 v1, hi_tb_17 v1, hi_tb_18 v1, hi_tb_19 v1, hi_tb_20 v1, hi_tb_21 v1, hi_tb_22 v1, hi_tb_23 v1, hi_tb_24 v1, hi_tb_25 v1, hi_tb_26 v1, hi_tb_27 v1, hi_tb_16 v2, hi_tb_17 v2, hi_tb_18 v2, hi_tb_19 v2, hi_tb_20 v2, hi_tb_21 v2, hi_tb_22 v2, hi_tb_23 v2, hi_tb_24 v2, hi_tb_25 v2, hi_tb_26 v2, hi_tb_27 v2, hi_tb_16 v3, hi_tb_17 v3, hi_tb_18 v3, hi_tb_19 v3, hi_tb_20 v3, hi_tb_21 v3, hi_tb_22 v3, hi_tb_23 v3, hi_tb_24 v3, hi_tb_25 v3, hi_tb_26 v3, hi_tb_27 v3, hi_tb_16 v4, hi_tb_17 v4, hi_tb_18 v4, hi_tb_19 v4, hi_tb_20 v4, hi_tb_21 v4, hi_tb_22 v4, hi_tb_23 v4, hi_tb_24 v4, hi_tb_25 v4, hi_tb_26 v4, hi_tb_27 v4, hi_tb_16 v5, hi_tb_17 v5, hi_tb_18 v5, hi_tb_19 v5, hi_tb_20 v5, hi_tb_21 v5, hi_tb_22 v5, hi_tb_23 v5, hi_tb_24 v5, hi_tb_25 v5, hi_tb_26 v5, hi_tb_27 v5, hi_tb_16 v6, hi_tb_17 v6, hi_tb_18 v6, hi_tb_19 v6, hi_tb_20 v6, hi_tb_21 v6, hi_tb_22 v6, hi_tb_23 v6, hi_tb_24 v6, hi_tb_25 v6, hi_tb_26 v6, hi_tb_27 v6, hi_tb_16 v7, hi_tb_17 v7, hi_tb_18 v7, hi_tb_19 v7, hi_tb_20 v7, hi_tb_21 v7, hi_tb_22 v7, hi_tb_23 v7, hi_tb_24 v7, hi_tb_25 v7, hi_tb_26 v7, hi_tb_27 v7,
    Nat.testBit_xor, Nat.testBit_or,
    Bool.or_false, Bool.false_or, Bool.xor_false, Bool.false_xor, Bool.and_false,
    Bool.false_and, Bool.and_true, Bool.true_and]
  repeat' apply And.intro
  all_goals try (apply bitZ_inj; simp only [bitZ_xor, bitZ_bne]; abel_nf)
  all_goals try simp [show (2 : ZMod 2) = 0 by decide, show (3 : ZMod 2) = 1 by decide,
    show (4 : ZMod 2) = 0 by decide, show (5 : ZMod 2) = 1 by decide,
    show (6 : ZMod 2) = 0 by decide, show (7 : ZMod 2) = 1 by decide,
    show (8 : ZMod 2) = 0 by decide, show (9 : ZMod 2) = 1 by decide,
    show (10 : ZMod 2) = 0 by decide, show (11 : ZMod 2) = 1 by decide,
    show (12 : ZMod 2) = 0 by decide, show (13 : ZMod 2) = 1 by decide,
    show (14 : ZMod 2) = 0 by decide, show (15 : ZMod 2) = 1 by decide,
    show (16 : ZMod 2) = 0 by decide]

set_option maxHeartbeats 1000000 in
theorem mixColumns_byteAt_7 {s : AES_state} (hs : s.Valid) :
    byteAt (MixColumns s) 7 =
      xtime (byteAt s 7) ^^^ (xtime (byteAt s 11) ^^^ byteAt s 11) ^^^ byteAt s 15 ^^^
        byteAt s 3 := by
  obtain ⟨v0, v1, v2, v3, v4, v5, v6, v7⟩ := hs
  unfold byteAt
  simp only [sliceBits, byteAssemble_xorP, xtime_byteAssemble]
  apply congrArg byteAssemble
  simp only [MixColumns, mc01, mc123, rotC1_eq, rotC3_eq, Bits8.mk.injEq]
  simp only [shr4_tb_0, shr4_tb_1, shr4_tb_2, shr4_tb_3, shr4_tb_4, shr4_tb_5, shr4_tb_6, shr4_tb_7, shr4_tb_8, shr4_tb_9, shr4_tb_10, shr4_tb_11, shr4_tb_12, shr4_tb_13, shr4_tb_14, shr4_tb_15,
    shr12_tb_0, shr12_tb_1, shr12_tb_2, shr12_tb_3, shr12_tb_4, shr12_tb_5, shr12_tb_6, shr12_tb_7, shr12_tb_8, shr12_tb_9, shr12_tb_10, shr12_tb_11, shr12_tb_12, shr12_tb_13, shr12_tb_14, shr12_tb_15,
    shl12_tb_0, shl12_tb_1, shl12_tb_2, shl12_tb_3, shl12_tb_4, shl12_tb_5, shl12_tb_6, shl12_tb_7, shl12_tb_8, shl12_tb_9, shl12_tb_10, shl12_tb_11, shl12_tb_12, shl12_tb_13, shl12_tb_14, shl12_tb_15,
    shl4_tb_0, shl4_tb_1, shl4_tb_2, shl4_tb_3, shl4_tb_4, shl4_tb_5, shl4_tb_6, shl4_tb_7, shl4_tb_8, shl4_tb_9, shl4_tb_10, shl4_tb_11, shl4_tb_12, shl4_tb_13, shl4_tb_14, shl4_tb_15,
    mask16_tb_0, mask16_tb_1, mask16_tb_2, mask16_tb_3, mask16_tb_4, mask16_tb_5, mask16_tb_6, mask16_tb_7, mask16_tb_8, mask16_tb_9, mask16_tb_10, mask16_tb_11, mask16_tb_12, mask16_tb_13, mask16_tb_14, mask16_tb_15, mask16_tb_16, mask16_tb_17, mask16_tb_18, mask16_tb_19,
    hi_tb_16 v0, hi_tb_17 v0, hi_tb_18 v0, hi_tb_19 v0, hi_tb_20 v0, hi_tb_21 v0, hi_tb_22 v0, hi_tb_23 v0, hi_tb_24 v0, hi_tb_25 v0, hi_tb_26 v0, hi_tb_27 v0, hi_tb_16 v1, hi_tb_17 v1, hi_tb_18 v1, hi_tb_19 v1, hi_tb_20 v1, hi_tb_21 v1, hi_tb_22 v1, hi_tb_23 v1, hi_tb_24 v1, hi_tb_25 v1, hi_tb_26 v1, hi_tb_27 v1, hi_tb_16 v2, hi_tb_17 v2, hi_tb_18 v2, hi_tb_19 v2, hi_tb_20 v2, hi_tb_21 v2, hi_tb_22 v2, hi_tb_23 v2, hi_tb_24 v2, hi_tb_25 v2, hi_tb_26 v2, hi_tb_27 v2, hi_tb_16 v3, hi_tb_17 v3, hi_tb_18 v3, hi_tb_19 v3, hi_tb_20 v3, hi_tb_21 v3, hi_tb_22 v3, hi_tb_23 v3, hi_tb_24 v3, hi_tb_25 v3, hi_tb_26 v3, hi_tb_27 v3, hi_tb_16 v4, hi_tb_17 v4, hi_tb_18 v4, hi_tb_19 v4, hi_tb_20 v4, hi_tb_21 v4, hi_tb_22 v4, hi_tb_23 v4, hi_tb_24 v4, hi_tb_25 v4, hi_tb_26 v4, hi_tb_27 v4, hi_tb_16 v5, hi_tb_17 v5, hi_tb_18 v5, hi_tb_19 v5, hi_tb_20 v5, hi_tb_21 v5, hi_tb_22 v5, hi_tb_23 v5, hi_tb_24 v5, hi_tb_25 v5, hi_tb_26 v5, hi_tb_27 v5, hi_tb_16 v6, hi_tb_17 v6, hi_tb_18 v6, hi_tb_19 v6, hi_tb_20 v6, hi_tb_21 v6, hi_tb_22 v6, hi_tb_23 v6, hi_tb_24 v6, hi_tb_25 v6, hi_tb_26 v6, hi_tb_27 v6, hi_tb_16 v7, hi_tb_17 v7, hi_tb_18 v7, hi_tb_19 v7, hi_tb_20 v7, hi_tb_21 v7, hi_tb_22 v7, hi_tb_23 v7, hi_tb_24 v7, hi_tb_25 v7, hi_tb_26 v7, hi_tb_27 v7,
    Nat.testBit_xor, Nat.testBit_or,
    Bool.or_false, Bool.false_or, Bool.xor_false, Bool.false_xor, Bool.and_false,
    Bool.false_and, Bool.and_true, Bool.true_and]
  repeat' apply And.intro
  all_goals try (apply bitZ_inj; simp only [bitZ_xor, bitZ_bne]; abel_nf)
  all_goals try simp [show (2 : ZMod 2) = 0 by decide, show (3 : ZMod 2) = 1 by decide,
    show (4 : ZMod 2) = 0 by decide, show (5 : ZMod 2) = 1 by decide,
    show (6 : ZMod 2) = 0 by decide, show (7 : ZMod 2) = 1 by decide,
    show (8 : ZMod 2) = 0 by decide, show (9 : ZMod 2) = 1 by decide,
    show (10 : ZMod 2) = 0 by decide, show (11 : ZMod 2) = 1 by decide,
    show (12 : ZMod 2) = 0 by decide, show (13 : ZMod 2) = 1 by decide,
    show (14 : ZMod 2) = 0 by decide, show (15 : ZMod 2) = 1 by decide,
    show (16 : ZMod 2) = 0 by decide]

set_option maxHeartbeats 1000000 in
theorem mixColumns_byteAt_8 {s : AES_state} (hs : s.Valid) :
    byteAt (MixColumns s) 8 =
      xtime (byteAt s 8) ^^^ (xtime (byteAt s 12) ^^^ byteAt s 12) ^^^ byteAt s 0 ^^^
        byteAt s 4 := by
  obtain ⟨v0, v1, v2, v3, v4, v5, v6, v7⟩ := hs
  unfold byteAt
  simp only [sliceBits, byteAssemble_xorP, xtime_byteAssemble]
  apply congrArg byteAssemble
  simp only [MixColumns, mc01, mc123, rotC1_eq, rotC3_eq, Bits8.mk.injEq]
  simp only [shr4_tb_0, shr4_tb_1, shr4_tb_2, shr4_tb_3, shr4_tb_4, shr4_tb_5, shr4_tb_6, shr4_tb_7, shr4_tb_8, shr4_tb_9, shr4_tb_10, shr4_tb_11, shr4_tb_12, shr4_tb_13, shr4_tb_14, shr4_tb_15,
    shr12_tb_0, shr12_tb_1, shr12_tb_2, shr12_tb_3, shr12_tb_4, shr12_tb_5, shr12_tb_6, shr12_tb_7, shr12_tb_8, shr12_tb_9, shr12_tb_10, shr12_tb_11, shr12_tb_12, shr12_tb_13, shr12_tb_14, shr12_tb_15,
    shl12_tb_0, shl12_tb_1, shl12_tb_2, shl12_tb_3, shl12_tb_4, shl12_tb_5, shl12_tb_6, shl12_tb_7, shl12_tb_8, shl12_tb_9, shl12_tb_10, shl12_tb_11, shl12_tb_12, shl12_tb_13, shl12_tb_14, shl12_tb_15,
    shl4_tb_0, shl4_tb_1, shl4_tb_2, shl4_tb_3, shl4_tb_4, shl4_tb_5, shl4_tb_6, shl4_tb_7, shl4_tb_8, shl4_tb_9, shl4_tb_10, shl4_tb_11, shl4_tb_12, shl4_tb_13, shl4_tb_14, shl4_tb_15,
    mask16_tb_0, mask16_tb_1, mask16_tb_2, mask16_tb_3, mask16_tb_4, mask16_tb_5, mask16_tb_6, mask16_tb_7, mask16_tb_8, mask16_tb_9, mask16_tb_10, mask16_tb_11, mask16_tb_12, mask16_tb_13, mask16_tb_14, mask16_tb_15, mask16_tb_16, mask16_tb_17, mask16_tb_18, mask16_tb_19,
    hi_tb_16 v0, hi_tb_17 v0, hi_tb_18 v0, hi_tb_19 v0, hi_tb_20 v0, hi_tb_21 v0, hi_tb_22 v0, hi_tb_23 v0, hi_tb_24 v0, hi_tb_25 v0, hi_tb_26 v0, hi_tb_27 v0, hi_tb_16 v1, hi_tb_17 v1, hi_tb_18 v1, hi_tb_19 v1, hi_tb_20 v1, hi_tb_21 v1, hi_tb_22 v1, hi_tb_23 v1, hi_tb_24 v1, hi_tb_25 v1, hi_tb_26 v1, hi_tb_27 v1, hi_tb_16 v2, hi_tb_17 v2, hi_tb_18 v2, hi_tb_19 v2, hi_tb_20 v2, hi_tb_21 v2, hi_tb_22 v2, hi_tb_23 v2, hi_tb_24 v2, hi_tb_25 v2, hi_tb_26 v2, hi_tb_27 v2, hi_tb_16 v3, hi_tb_17 v3, hi_tb_18 v3, hi_tb_19 v3, hi_tb_20 v3, hi_tb_21 v3, hi_tb_22 v3, hi_tb_23 v3, hi_tb_24 v3, hi_tb_25 v3, hi_tb_26 v3, hi_tb_27 v3, hi_tb_16 v4, hi_tb_17 v4, hi_tb_18 v4, hi_tb_19 v4, hi_tb_20 v4, hi_tb_21 v4, hi_tb_22 v4, hi_tb_23 v4, hi_tb_24 v4, hi_tb_25 v4, hi_tb_26 v4, hi_tb_27 v4, hi_tb_16 v5, hi_tb_17 v5, hi_tb_18 v5, hi_tb_19 v5, hi_tb_20 v5, hi_tb_21 v5, hi_tb_22 v5, hi_tb_23 v5, hi_tb_24 v5, hi_tb_25 v5, hi_tb_26 v5, hi_tb_27 v5, hi_tb_16 v6, hi_tb_17 v6, hi_tb_18 v6, hi_tb_19 v6, hi_tb_20 v6, hi_tb_21 v6, hi_tb_22 v6, hi_tb_23 v6, hi_tb_24 v6, hi_tb_25 v6, hi_tb_26 v6, hi_tb_27 v6, hi_tb_16 v7, hi_tb_17 v7, hi_tb_18 v7, hi_tb_19 v7, hi_tb_20 v7, hi_tb_21 v7, hi_tb_22 v7, hi_tb_23 v7, hi_tb_24 v7, hi_tb_25 v7, hi_tb_26 v7, hi_tb_27 v7,
    Nat.testBit_xor, Nat.testBit_or,
    Bool.or_false, Bool.false_or, Bool.xor_false, Bool.false_xor, Bool.and_false,
    Bool.false_and, Bool.and_true, Bool.true_and]
  repeat' apply And.intro
  all_goals try (apply bitZ_inj; simp only [bitZ_xor, bitZ_bne]; abel_nf)
  all_goals try simp [show (2 : ZMod 2) = 0 by decide, show (3 : ZMod 2) = 1 by decide,
    show (4 : ZMod 2) = 0 by decide, show (5 : ZMod 2) = 1 by decide,
    show (6 : ZMod 2) = 0 by decide, show (7 : ZMod 2) = 1 by decide,
    show (8 : ZMod 2) = 0 by decide, show (9 : ZMod 2) = 1 by decide,
    show (10 : ZMod 2) = 0 by decide, show (11 : ZMod 2) = 1 by decide,
    show (12 : ZMod 2) = 0 by decide, show (13 : ZMod 2) = 1 by decide,
    show (14 : ZMod 2) = 0 by decide, show (15 : ZMod 2) = 1 by decide,
    show (16 : ZMod 2) = 0 by decide]

set_option maxHeartbeats 1000000 in
theorem mixColumns_byteAt_9 {s : AES_state} (hs : s.Valid) :
    byteAt (MixColumns s) 9 =
      xtime (byteAt s 9) ^^^ (xtime (byteAt s 13) ^^^ byteAt s 13) ^^^ byteAt s 1 ^^^
        byteAt s 5 := by
  obtain ⟨v0, v1, v2, v3, v4, v5, v6, v7⟩ := hs
  unfold byteAt
  simp only [sliceBits, byteAssemble_xorP, xtime_byteAssemble]
  apply congrArg byteAssemble
  simp only [MixColumns, mc01, mc123, rotC1_eq, rotC3_eq, Bits8.mk.injEq]
  simp only [shr4_tb_0, shr4_tb_1, shr4_tb_2, shr4_tb_3, shr4_tb_4, shr4_tb_5, shr4_tb_6, shr4_tb_7, shr4_tb_8, shr4_tb_9, shr4_tb_10, shr4_tb_11, shr4_tb_12, shr4_tb_13, shr4_tb_14, shr4_tb_15,
    shr12_tb_0, shr12_tb_1, shr12_tb_2, shr12_tb_3, shr12_tb_4, shr12_tb_5, shr12_tb_6, shr12_tb_7, shr12_tb_8, shr12_tb_9, shr12_tb_10, shr12_tb_11, shr12_tb_12, shr12_tb_13, shr12_tb_14, shr12_tb_15,
    shl12_tb_0, shl12_tb_1, shl12_tb_2, shl12_tb_3, shl12_tb_4, shl12_tb_5, shl12_tb_6, shl12_tb_7, shl12_tb_8, shl12_tb_9, shl12_tb_10, shl12_tb_11, shl12_tb_12, shl12_tb_13, shl12_tb_14, shl12_tb_15,
    shl4_tb_0, shl4_tb_1, shl4_tb_2, shl4_tb_3, shl4_tb_4, shl4_tb_5, shl4_tb_6, shl4_tb_7, shl4_tb_8, shl4_tb_9, shl4_tb_10, shl4_tb_11, shl4_tb_12, shl4_tb_13, shl4_tb_14, shl4_tb_15,
    mask16_tb_0, mask16_tb_1, mask16_tb_2, mask16_tb_3, mask16_tb_4, mask16_tb_5, mask16_tb_6, mask16_tb_7, mask16_tb_8, mask16_tb_9, mask16_tb_10, mask16_tb_11, mask16_tb_12, mask16_tb_13, mask16_tb_14, mask16_tb_15, mask16_tb_16, mask16_tb_17, mask16_tb_18, mask16_tb_19,
    hi_tb_16 v0, hi_tb_17 v0, hi_tb_18 v0, hi_tb_19 v0, hi_tb_20 v0, hi_tb_21 v0, hi_tb_22 v0, hi_tb_23 v0, hi_tb_24 v0, hi_tb_25 v0, hi_tb_26 v0, hi_tb_27 v0, hi_tb_16 v1, hi_tb_17 v1, hi_tb_18 v1, hi_tb_19 v1, hi_tb_20 v1, hi_tb_21 v1, hi_tb_22 v1, hi_tb_23 v1, hi_tb_24 v1, hi_tb_25 v1, hi_tb_26 v1, hi_tb_27 v1, hi_tb_16 v2, hi_tb_17 v2, hi_tb_18 v2, hi_tb_19 v2, hi_tb_20 v2, hi_tb_21 v2, hi_tb_22 v2, hi_tb_23 v2, hi_tb_24 v2, hi_tb_25 v2, hi_tb_26 v2, hi_tb_27 v2, hi_tb_16 v3, hi_tb_17 v3, hi_tb_18 v3, hi_tb_19 v3, hi_tb_20 v3, hi_tb_21 v3, hi_tb_22 v3, hi_tb_23 v3, hi_tb_24 v3, hi_tb_25 v3, hi_tb_26 v3, hi_tb_27 v3, hi_tb_16 v4, hi_tb_17 v4, hi_tb_18 v4, hi_tb_19 v4, hi_tb_20 v4, hi_tb_21 v4, hi_tb_22 v4, hi_tb_23 v4, hi_tb_24 v4, hi_tb_25 v4, hi_tb_26 v4, hi_tb_27 v4, hi_tb_16 v5, hi_tb_17 v5, hi_tb_18 v5, hi_tb_19 v5, hi_tb_20 v5, hi_tb_21 v5, hi_tb_22 v5, hi_tb_23 v5, hi_tb_24 v5, hi_tb_25 v5, hi_tb_26 v5, hi_tb_27 v5, hi_tb_16 v6, hi_tb_17 v6, hi_tb_18 v6, hi_tb_19 v6, hi_tb_20 v6, hi_tb_21 v6, hi_tb_22 v6, hi_tb_23 v6, hi_tb_24 v6, hi_tb_25 v6, hi_tb_26 v6, hi_tb_27 v6, hi_tb_16 v7, hi_tb_17 v7, hi_tb_18 v7, hi_tb_19 v7, hi_tb_20 v7, hi_tb_21 v7, hi_tb_22 v7, hi_tb_23 v7, hi_tb_24 v7, hi_tb_25 v7, hi_tb_26 v7, hi_tb_27 v7,
    Nat.testBit_xor, Nat.testBit_or,
    Bool.or_false, Bool.false_or, Bool.xor_false, Bool.false_xor, Bool.and_false,
    Bool.false_and, Bool.and_true, Bool.true_and]
  repeat' apply And.intro
  all_goals try (apply bitZ_inj; simp only [bitZ_xor, bitZ_bne]; abel_nf)
  all_goals try simp [show (2 : ZMod 2) = 0 by decide, show (3 : ZMod 2) = 1 by decide,
    show (4 : ZMod 2) = 0 by decide, show (5 : ZMod 2) = 1 by decide,
    show (6 : ZMod 2) = 0 by decide, show (7 : ZMod 2) = 1 by decide,
    show (8 : ZMod 2) = 0 by decide, show (9 : ZMod 2) = 1 by decide,
    show (10 : ZMod 2) = 0 by decide, show (11 : ZMod 2) = 1 by decide,
    show (12 : ZMod 2) = 0 by decide, show (13 : ZMod 2) = 1 by decide,
    show (14 : ZMod 2) = 0 by decide, show (15 : ZMod 2) = 1 by decide,
    show (16 : ZMod 2) = 0 by decide]

set_option maxHeartbeats 1000000 in
theorem mixColumns_byteAt_10 {s : AES_state} (hs : s.Valid) :
    byteAt (MixColumns s) 10 =
      xtime (byteAt s 10) ^^^ (xtime (byteAt s 14) ^^^ byteAt s 14) ^^^ byteAt s 2 ^^^
        byteAt s 6 := by
  obtain ⟨v0, v1, v2, v3, v4, v5, v6, v7⟩ := hs
  unfold byteAt
  simp only [sliceBits, byteAssemble_xorP, xtime_byteAssemble]
  apply congrArg byteAssemble
  simp only [MixColumns, mc01, mc123, rotC1_eq, rotC3_eq, Bits8.mk.injEq]
  simp only [shr4_tb_0, shr4_tb_1, shr4_tb_2, shr4_tb_3, shr4_tb_4, shr4_tb_5, shr4_tb_6, shr4_tb_7, shr4_tb_8, shr4_tb_9, shr4_tb_10, shr4_tb_11, shr4_tb_12, shr4_tb_13, shr4_tb_14, shr4_tb_15,
    shr12_tb_0, shr12_tb_1, shr12_tb_2, shr12_tb_3, shr12_tb_4, shr12_tb_5, shr12_tb_6, shr12_tb_7, shr12_tb_8, shr12_tb_9, shr12_tb_10, shr12_tb_11, shr12_tb_12, shr12_tb_13, shr12_tb_14, shr12_tb_15,
    shl12_tb_0, shl12_tb_1, shl12_tb_2, shl12_tb_3, shl12_tb_4, shl12_tb_5, shl12_tb_6, shl12_tb_7, shl12_tb_8, shl12_tb_9, shl12_tb_10, shl12_tb_11, shl12_tb_12, shl12_tb_13, shl12_tb_14, shl12_tb_15,
    shl4_tb_0, shl4_tb_1, shl4_tb_2, shl4_tb_3, shl4_tb_4, shl4_tb_5, shl4_tb_6, shl4_tb_7, shl4_tb_8, shl4_tb_9, shl4_tb_10, shl4_tb_11, shl4_tb_12, shl4_tb_13, shl4_tb_14, shl4_tb_15,
    mask16_tb_0, mask16_tb_1, mask16_tb_2, mask16_tb_3, mask16_tb_4, mask16_tb_5, mask16_tb_6, mask16_tb_7, mask16_tb_8, mask16_tb_9, mask16_tb_10, mask16_tb_11, mask16_tb_12, mask16_tb_13, mask16_tb_14, mask16_tb_15, mask16_tb_16, mask16_tb_17, mask16_tb_18, mask16_tb_19,
    hi_tb_16 v0, hi_tb_17 v0, hi_tb_18 v0, hi_tb_19 v0, hi_tb_20 v0, hi_tb_21 v0, hi_tb_22 v0, hi_tb_23 v0, hi_tb_24 v0, hi_tb_25 v0, hi_tb_26 v0, hi_tb_27 v0, hi_tb_16 v1, hi_tb_17 v1, hi_tb_18 v1, hi_tb_19 v1, hi_tb_20 v1, hi_tb_21 v1, hi_tb_22 v1, hi_tb_23 v1, hi_tb_24 v1, hi_tb_25 v1, hi_tb_26 v1, hi_tb_27 v1, hi_tb_16 v2, hi_tb_17 v2, hi_tb_18 v2, hi_tb_19 v2, hi_tb_20 v2, hi_tb_21 v2, hi_tb_22 v2, hi_tb_23 v2, hi_tb_24 v2, hi_tb_25 v2, hi_tb_26 v2, hi_tb_27 v2, hi_tb_16 v3, hi_tb_17 v3, hi_tb_18 v3, hi_tb_19 v3, hi_tb_20 v3, hi_tb_21 v3, hi_tb_22 v3, hi_tb_23 v3, hi_tb_24 v3, hi_tb_25 v3, hi_tb_26 v3, hi_tb_27 v3, hi_tb_16 v4, hi_tb_17 v4, hi_tb_18 v4, hi_tb_19 v4, hi_tb_20 v4, hi_tb_21 v4, hi_tb_22 v4, hi_tb_23 v4, hi_tb_24 v4, hi_tb_25 v4, hi_tb_26 v4, hi_tb_27 v4, hi_tb_16 v5, hi_tb_17 v5, hi_tb_18 v5, hi_tb_19 v5, hi_tb_20 v5, hi_tb_21 v5, hi_tb_22 v5, hi_tb_23 v5, hi_tb_24 v5, hi_tb_25 v5, hi_tb_26 v5, hi_tb_27 v5, hi_tb_16 v6, hi_tb_17 v6, hi_tb_18 v6, hi_tb_19 v6, hi_tb_20 v6, hi_tb_21 v6, hi_tb_22 v6, hi_tb_23 v6, hi_tb_24 v6, hi_tb_25 v6, hi_tb_26 v6, hi_tb_27 v6, hi_tb_16 v7, hi_tb_17 v7, hi_tb_18 v7, hi_tb_19 v7, hi_tb_20 v7, hi_tb_21 v7, hi_tb_22 v7, hi_tb_23 v7, hi_tb_24 v7, hi_tb_25 v7, hi_tb_26 v7, hi_tb_27 v7,
    Nat.testBit_xor, Nat.testBit_or,
    Bool.or_false, Bool.false_or, Bool.xor_false, Bool.false_xor, Bool.and_false,
    Bool.false_and, Bool.and_true, Bool.true_and]
  repeat' apply And.intro
  all_goals try (apply bitZ_inj; simp only [bitZ_xor, bitZ_bne]; abel_nf)
  all_goals try simp [show (2 : ZMod 2) = 0 by decide, show (3 : ZMod 2) = 1 by decide,
    show (4 : ZMod 2) = 0 by decide, show (5 : ZMod 2) = 1 by decide,
    show (6 : ZMod 2) = 0 by decide, show (7 : ZMod 2) = 1 by decide,
    show (8 : ZMod 2) = 0 by decide, show (9 : ZMod 2) = 1 by decide,
    show (10 : ZMod 2) = 0 by decide, show (11 : ZMod 2) = 1 by decide,
    show (12 : ZMod 2) = 0 by decide, show (13 : ZMod 2) = 1 by decide,
    show (14 : ZMod 2) = 0 by decide, show (15 : ZMod 2) = 1 by decide,
    show (16 : ZMod 2) = 0 by decide]

set_option maxHeartbeats 1000000 in
theorem mixColumns_byteAt_11 {s : AES_state} (hs : s.Valid) :
    byteAt (MixColumns s) 11 =
      xtime (byteAt s 11) ^^^ (xtime (byteAt s 15) ^^^ byteAt s 15) ^^^ byteAt s 3 ^^^
        byteAt s 7 := by
  obtain ⟨v0, v1, v2, v3, v4, v5, v6, v7⟩ := hs
  unfold byteAt
  simp only [sliceBits, byteAssemble_xorP, xtime_byteAssemble]
  apply congrArg byteAssemble
  simp only [MixColumns, mc01, mc123, rotC1_eq, rotC3_eq, Bits8.mk.injEq]
  simp only [shr4_tb_0, shr4_tb_1, shr4_tb_2, shr4_tb_3, shr4_tb_4, shr4_tb_5, shr4_tb_6, shr4_tb_7, shr4_tb_8, shr4_tb_9, shr4_tb_10, shr4_tb_11, shr4_tb_12, shr4_tb_13, shr4_tb_14, shr4_tb_15,
    shr12_tb_0, shr12_tb_1, shr12_tb_2, shr12_tb_3, shr12_tb_4, shr12_tb_5, shr12_tb_6, shr12_tb_7, shr12_tb_8, shr12_tb_9, shr12_tb_10, shr12_tb_11, shr12_tb_12, shr12_tb_13, shr12_tb_14, shr12_tb_15,
    shl12_tb_0, shl12_tb_1, shl12_tb_2, shl12_tb_3, shl12_tb_4, shl12_tb_5, shl12_tb_6, shl12_tb_7, shl12_tb_8, shl12_tb_9, shl12_tb_10, shl12_tb_11, shl12_tb_12, shl12_tb_13, shl12_tb_14, shl12_tb_15,
    shl4_tb_0, shl4_tb_1, shl4_tb_2, shl4_tb_3, shl4_tb_4, shl4_tb_5, shl4_tb_6, shl4_tb_7, shl4_tb_8, shl4_tb_9, shl4_tb_10, shl4_tb_11, shl4_tb_12, shl4_tb_13, shl4_tb_14, shl4_tb_15,
    mask16_tb_0, mask16_tb_1, mask16_tb_2, mask16_tb_3, mask16_tb_4, mask16_tb_5, mask16_tb_6, mask16_tb_7, mask16_tb_8, mask16_tb_9, mask16_tb_10, mask16_tb_11, mask16_tb_12, mask16_tb_13, mask16_tb_14, mask16_tb_15, mask16_tb_16, mask16_tb_17, mask16_tb_18, mask16_tb_19,
    hi_tb_16 v0, hi_tb_17 v0, hi_tb_18 v0, hi_tb_19 v0, hi_tb_20 v0, hi_tb_21 v0, hi_tb_22 v0, hi_tb_23 v0, hi_tb_24 v0, hi_tb_25 v0, hi_tb_26 v0, hi_tb_27 v0, hi_tb_16 v1, hi_tb_17 v1, hi_tb_18 v1, hi_tb_19 v1, hi_tb_20 v1, hi_tb_21 v1, hi_tb_22 v1, hi_tb_23 v1, hi_tb_24 v1, hi_tb_25 v1, hi_tb_26 v1, hi_tb_27 v1, hi_tb_16 v2, hi_tb_17 v2, hi_tb_18 v2, hi_tb_19 v2, hi_tb_20 v2, hi_tb_21 v2, hi_tb_22 v2, hi_tb_23 v2, hi_tb_24 v2, hi_tb_25 v2, hi_tb_26 v2, hi_tb_27 v2, hi_tb_16 v3, hi_tb_17 v3, hi_tb_18 v3, hi_tb_19 v3, hi_tb_20 v3, hi_tb_21 v3, hi_tb_22 v3, hi_tb_23 v3, hi_tb_24 v3, hi_tb_25 v3, hi_tb_26 v3, hi_tb_27 v3, hi_tb_16 v4, hi_tb_17 v4, hi_tb_18 v4, hi_tb_19 v4, hi_tb_20 v4, hi_tb_21 v4, hi_tb_22 v4, hi_tb_23 v4, hi_tb_24 v4, hi_tb_25 v4, hi_tb_26 v4, hi_tb_27 v4, hi_tb_16 v5, hi_tb_17 v5, hi_tb_18 v5, hi_tb_19 v5, hi_tb_20 v5, hi_tb_21 v5, hi_tb_22 v5, hi_tb_23 v5, hi_tb_24 v5, hi_tb_25 v5, hi_tb_26 v5, hi_tb_27 v5, hi_tb_16 v6, hi_tb_17 v6, hi_tb_18 v6, hi_tb_19 v6, hi_tb_20 v6, hi_tb_21 v6, hi_tb_22 v6, hi_tb_23 v6, hi_tb_24 v6, hi_tb_25 v6, hi_tb_26 v6, hi_tb_27 v6, hi_tb_16 v7, hi_tb_17 v7, hi_tb_18 v7, hi_tb_19 v7, hi_tb_20 v7, hi_tb_21 v7, hi_tb_22 v7, hi_tb_23 v7, hi_tb_24 v7, hi_tb_25 v7, hi_tb_26 v7, hi_tb_27 v7,
    Nat.testBit_xor, Nat.testBit_or,
    Bool.or_false, Bool.false_or, Bool.xor_false, Bool.false_xor, Bool.and_false,
    Bool.false_and, Bool.and_true, Bool.true_and]
  repeat' apply And.intro
  all_goals try (apply bitZ_inj; simp only [bitZ_xor, bitZ_bne]; abel_nf)
  all_goals try simp [show (2 : ZMod 2) = 0 by decide, show (3 : ZMod 2) = 1 by decide,
    show (4 : ZMod 2) = 0 by decide, show (5 : ZMod 2) = 1 by decide,
    show (6 : ZMod 2) = 0 by decide, show (7 : ZMod 2) = 1 by decide,
    show (8 : ZMod 2) = 0 by decide, show (9 : ZMod 2) = 1 by decide,
    show (10 : ZMod 2) = 0 by decide, show (11 : ZMod 2) = 1 by decide,
    show (12 : ZMod 2) = 0 by decide, show (13 : ZMod 2) = 1 by decide,
    show (14 : ZMod 2) = 0 by decide, show (15 : ZMod 2) = 1 by decide,
    show (16 : ZMod 2) = 0 by decide]

set_option maxHeartbeats 1000000 in
theorem mixColumns_byteAt_12 {s : AES_state} (hs : s.Valid) :
    byteAt (MixColumns s) 12 =
      xtime (byteAt s 12) ^^^ (xtime (byteAt s 0) ^^^ byteAt s 0) ^^^ byteAt s 4 ^^^
        byteAt s 8 := by
  obtain ⟨v0, v1, v2, v3, v4, v5, v6, v7⟩ := hs
  unfold byteAt
  simp only [sliceBits, byteAssemble_xorP, xtime_byteAssemble]
  apply congrArg byteAssemble
  simp only [MixColumns, mc01, mc123, rotC1_eq, rotC3_eq, Bits8.mk.injEq]
  simp only [shr4_tb_0, shr4_tb_1, shr4_tb_2, shr4_tb_3, shr4_tb_4, shr4_tb_5, shr4_tb_6, shr4_tb_7, shr4_tb_8, shr4_tb_9, shr4_tb_10, shr4_tb_11, shr4_tb_12, shr4_tb_13, shr4_tb_14, shr4_tb_15,
    shr12_tb_0, shr12_tb_1, shr12_tb_2, shr12_tb_3, shr12_tb_4, shr12_tb_5, shr12_tb_6, shr12_tb_7, shr12_tb_8, shr12_tb_9, shr12_tb_10, shr12_tb_11, shr12_tb_12, shr12_tb_13, shr12_tb_14, shr12_tb_15,
    shl12_tb_0, shl12_tb_1, shl12_tb_2, shl12_tb_3, shl12_tb_4, shl12_tb_5, shl12_tb_6, shl12_tb_7, shl12_tb_8, shl12_tb_9, shl12_tb_10, shl12_tb_11, shl12_tb_12, shl12_tb_13, shl12_tb_14, shl12_tb_15,
    shl4_tb_0, shl4_tb_1, shl4_tb_2, shl4_tb_3, shl4_tb_4, shl4_tb_5, shl4_tb_6, shl4_tb_7, shl4_tb_8, shl4_tb_9, shl4_tb_10, shl4_tb_11, shl4_tb_12, shl4_tb_13, shl4_tb_14, shl4_tb_15,
    mask16_tb_0, mask16_tb_1, mask16_tb_2, mask16_tb_3, mask16_tb_4, mask16_tb_5, mask16_tb_6, mask16_tb_7, mask16_tb_8, mask16_tb_9, mask16_tb_10, mask16_tb_11, mask16_tb_12, mask16_tb_13, mask16_tb_14, mask16_tb_15, mask16_tb_16, mask16_tb_17, mask16_tb_18, mask16_tb_19,
    hi_tb_16 v0, hi_tb_17 v0, hi_tb_18 v0, hi_tb_19 v0, hi_tb_20 v0, hi_tb_21 v0, hi_tb_22 v0, hi_tb_23 v0, hi_tb_24 v0, hi_tb_25 v0, hi_tb_26 v0, hi_tb_27 v0, hi_tb_16 v1, hi_tb_17 v1, hi_tb_18 v1, hi_tb_19 v1, hi_tb_20 v1, hi_tb_21 v1, hi_tb_22 v1, hi_tb_23 v1, hi_tb_24 v1, hi_tb_25 v1, hi_tb_26 v1, hi_tb_27 v1, hi_tb_16 v2, hi_tb_17 v2, hi_tb_18 v2, hi_tb_19 v2, hi_tb_20 v2, hi_tb_21 v2, hi_tb_22 v2, hi_tb_23 v2, hi_tb_24 v2, hi_tb_25 v2, hi_tb_26 v2, hi_tb_27 v2, hi_tb_16 v3, hi_tb_17 v3, hi_tb_18 v3, hi_tb_19 v3, hi_tb_20 v3, hi_tb_21 v3, hi_tb_22 v3, hi_tb_23 v3, hi_tb_24 v3, hi_tb_25 v3, hi_tb_26 v3, hi_tb_27 v3, hi_tb_16 v4, hi_tb_17 v4, hi_tb_18 v4, hi_tb_19 v4, hi_tb_20 v4, hi_tb_21 v4, hi_tb_22 v4, hi_tb_23 v4, hi_tb_24 v4, hi_tb_25 v4, hi_tb_26 v4, hi_tb_27 v4, hi_tb_16 v5, hi_tb_17 v5, hi_tb_18 v5, hi_tb_19 v5, hi_tb_20 v5, hi_tb_21 v5, hi_tb_22 v5, hi_tb_23 v5, hi_tb_24 v5, hi_tb_25 v5, hi_tb_26 v5, hi_tb_27 v5, hi_tb_16 v6, hi_tb_17 v6, hi_tb_18 v6, hi_tb_19 v6, hi_tb_20 v6, hi_tb_21 v6, hi_tb_22 v6, hi_tb_23 v6, hi_tb_24 v6, hi_tb_25 v6, hi_tb_26 v6, hi_tb_27 v6, hi_tb_16 v7, hi_tb_17 v7, hi_tb_18 v7, hi_tb_19 v7, hi_tb_20 v7, hi_tb_21 v7, hi_tb_22 v7, hi_tb_23 v7, hi_tb_24 v7, hi_tb_25 v7, hi_tb_26 v7, hi_tb_27 v7,
    Nat.testBit_xor, Nat.testBit_or,
    Bool.or_false, Bool.false_or, Bool.xor_false, Bool.false_xor, Bool.and_false,
    Bool.false_and, Bool.and_true, Bool.true_and]
  repeat' apply And.intro
  all_goals try (apply bitZ_inj; simp only [bitZ_xor, bitZ_bne]; abel_nf)
  all_goals try simp [show (2 : ZMod 2) = 0 by decide, show (3 : ZMod 2) = 1 by decide,
    show (4 : ZMod 2) = 0 by decide, show (5 : ZMod 2) = 1 by decide,
    show (6 : ZMod 2) = 0 by decide, show (7 : ZMod 2) = 1 by decide,
    show (8 : ZMod 2) = 0 by decide, show (9 : ZMod 2) = 1 by decide,
    show (10 : ZMod 2) = 0 by decide, show (11 : ZMod 2) = 1 by decide,
    show (12 : ZMod 2) = 0 by decide, show (13 : ZMod 2) = 1 by decide,
    show (14 : ZMod 2) = 0 by decide, show (15 : ZMod 2) = 1 by decide,
    show (16 : ZMod 2) = 0 by decide]

set_option maxHeartbeats 1000000 in
theorem mixColumns_byteAt_13 {s : AES_state} (hs : s.Valid) :
    byteAt (MixColumns s) 13 =
      xtime (byteAt s 13) ^^^ (xtime (byteAt s 1) ^^^ byteAt s 1) ^^^ byteAt s 5 ^^^
        byteAt s 9 := by
  obtain ⟨v0, v1, v2, v3, v4, v5, v6, v7⟩ := hs
  unfold byteAt
  simp only [sliceBits, byteAssemble_xorP, xtime_byteAssemble]
  apply congrArg byteAssemble
  simp only [MixColumns, mc01, mc123, rotC1_eq, rotC3_eq, Bits8.mk.injEq]
  simp only [shr4_tb_0, shr4_tb_1, shr4_tb_2, shr4_tb_3, shr4_tb_4, shr4_tb_5, shr4_tb_6, shr4_tb_7, shr4_tb_8, shr4_tb_9, shr4_tb_10, shr4_tb_11, shr4_tb_12, shr4_tb_13, shr4_tb_14, shr4_tb_15,
    shr12_tb_0, shr12_tb_1, shr12_tb_2, shr12_tb_3, shr12_tb_4, shr12_tb_5, shr12_tb_6, shr12_tb_7, shr12_tb_8, shr12_tb_9, shr12_tb_10, shr12_tb_11, shr12_tb_12, shr12_tb_13, shr12_tb_14, shr12_tb_15,
    shl12_tb_0, shl12_tb_1, shl12_tb_2, shl12_tb_3, shl12_tb_4, shl12_tb_5, shl12_tb_6, shl12_tb_7, shl12_tb_8, shl12_tb_9, shl12_tb_10, shl12_tb_11, shl12_tb_12, shl12_tb_13, shl12_tb_14, shl12_tb_15,
    shl4_tb_0, shl4_tb_1, shl4_tb_2, shl4_tb_3, shl4_tb_4, shl4_tb_5, shl4_tb_6, shl4_tb_7, shl4_tb_8, shl4_tb_9, shl4_tb_10, shl4_tb_11, shl4_tb_12, shl4_tb_13, shl4_tb_14, shl4_tb_15,
    mask16_tb_0, mask16_tb_1, mask16_tb_2, mask16_tb_3, mask16_tb_4, mask16_tb_5, mask16_tb_6, mask16_tb_7, mask16_tb_8, mask16_tb_9, mask16_tb_10, mask16_tb_11, mask16_tb_12, mask16_tb_13, mask16_tb_14, mask16_tb_15, mask16_tb_16, mask16_tb_17, mask16_tb_18, mask16_tb_19,
    hi_tb_16 v0, hi_tb_17 v0, hi_tb_18 v0, hi_tb_19 v0, hi_tb_20 v0, hi_tb_21 v0, hi_tb_22 v0, hi_tb_23 v0, hi_tb_24 v0, hi_tb_25 v0, hi_tb_26 v0, hi_tb_27 v0, hi_tb_16 v1, hi_tb_17 v1, hi_tb_18 v1, hi_tb_19 v1, hi_tb_20 v1, hi_tb_21 v1, hi_tb_22 v1, hi_tb_23 v1, hi_tb_24 v1, hi_tb_25 v1, hi_tb_26 v1, hi_tb_27 v1, hi_tb_16 v2, hi_tb_17 v2, hi_tb_18 v2, hi_tb_19 v2, hi_tb_20 v2, hi_tb_21 v2, hi_tb_22 v2, hi_tb_23 v2, hi_tb_24 v2, hi_tb_25 v2, hi_tb_26 v2, hi_tb_27 v2, hi_tb_16 v3, hi_tb_17 v3, hi_tb_18 v3, hi_tb_19 v3, hi_tb_20 v3, hi_tb_21 v3, hi_tb_22 v3, hi_tb_23 v3, hi_tb_24 v3, hi_tb_25 v3, hi_tb_26 v3, hi_tb_27 v3, hi_tb_16 v4, hi_tb_17 v4, hi_tb_18 v4, hi_tb_19 v4, hi_tb_20 v4, hi_tb_21 v4, hi_tb_22 v4, hi_tb_23 v4, hi_tb_24 v4, hi_tb_25 v4, hi_tb_26 v4, hi_tb_27 v4, hi_tb_16 v5, hi_tb_17 v5, hi_tb_18 v5, hi_tb_19 v5, hi_tb_20 v5, hi_tb_21 v5, hi_tb_22 v5, hi_tb_23 v5, hi_tb_24 v5, hi_tb_25 v5, hi_tb_26 v5, hi_tb_27 v5, hi_tb_16 v6, hi_tb_17 v6, hi_tb_18 v6, hi_tb_19 v6, hi_tb_20 v6, hi_tb_21 v6, hi_tb_22 v6, hi_tb_23 v6, hi_tb_24 v6, hi_tb_25 v6, hi_tb_26 v6, hi_tb_27 v6, hi_tb_16 v7, hi_tb_17 v7, hi_tb_18 v7, hi_tb_19 v7, hi_tb_20 v7, hi_tb_21 v7, hi_tb_22 v7, hi_tb_23 v7, hi_tb_24 v7, hi_tb_25 v7, hi_tb_26 v7, hi_tb_27 v7,
    Nat.testBit_xor, Nat.testBit_or,
    Bool.or_false, Bool.false_or, Bool.xor_false, Bool.false_xor, Bool.and_false,
    Bool.false_and, Bool.and_true, Bool.true_and]
  repeat' apply And.intro
  all_goals try (apply bitZ_inj; simp only [bitZ_xor, bitZ_bne]; abel_nf)
  all_goals try simp [show (2 : ZMod 2) = 0 by decide, show (3 : ZMod 2) = 1 by decide,
    show (4 : ZMod 2) = 0 by decide, show (5 : ZMod 2) = 1 by decide,
    show (6 : ZMod 2) = 0 by decide, show (7 : ZMod 2) = 1 by decide,
    show (8 : ZMod 2) = 0 by decide, show (9 : ZMod 2) = 1 by decide,
    show (10 : ZMod 2) = 0 by decide, show (11 : ZMod 2) = 1 by decide,
    show (12 : ZMod 2) = 0 by decide, show (13 : ZMod 2) = 1 by decide,
    show (14 : ZMod 2) = 0 by decide, show (15 : ZMod 2) = 1 by decide,
    show (16 : ZMod 2) = 0 by decide]

set_option maxHeartbeats 1000000 in
theorem mixColumns_byteAt_14 {s : AES_state} (hs : s.Valid) :
    byteAt (MixColumns s) 14 =
      xtime (byteAt s 14) ^^^ (xtime (byteAt s 2) ^^^ byteAt s 2) ^^^ byteAt s 6 ^^^
        byteAt s 10 := by
  obtain ⟨v0, v1, v2, v3, v4, v5, v6, v7⟩ := hs
  unfold byteAt
  simp only [sliceBits, byteAssemble_xorP, xtime_byteAssemble]
  apply congrArg byteAssemble
  simp only [MixColumns, mc01, mc123, rotC1_eq, rotC3_eq, Bits8.mk.injEq]
  simp only [shr4_tb_0, shr4_tb_1, shr4_tb_2, shr4_tb_3, shr4_tb_4, shr4_tb_5, shr4_tb_6, shr4_tb_7, shr4_tb_8, shr4_tb_9, shr4_tb_10, shr4_tb_11, shr4_tb_12, shr4_tb_13, shr4_tb_14, shr4_tb_15,
    shr12_tb_0, shr12_tb_1, shr12_tb_2, shr12_tb_3, shr12_tb_4, shr12_tb_5, shr12_tb_6, shr12_tb_7, shr12_tb_8, shr12_tb_9, shr12_tb_10, shr12_tb_11, shr12_tb_12, shr12_tb_13, shr12_tb_14, shr12_tb_15,
    shl12_tb_0, shl12_tb_1, shl12_tb_2, shl12_tb_3, shl12_tb_4, shl12_tb_5, shl12_tb_6, shl12_tb_7, shl12_tb_8, shl12_tb_9, shl12_tb_10, shl12_tb_11, shl12_tb_12, shl12_tb_13, shl12_tb_14, shl12_tb_15,
    shl4_tb_0, shl4_tb_1, shl4_tb_2, shl4_tb_3, shl4_tb_4, shl4_tb_5, shl4_tb_6, shl4_tb_7, shl4_tb_8, shl4_tb_9, shl4_tb_10, shl4_tb_11, shl4_tb_12, shl4_tb_13, shl4_tb_14, shl4_tb_15,
    mask16_tb_0, mask16_tb_1, mask16_tb_2, mask16_tb_3, mask16_tb_4, mask16_tb_5, mask16_tb_6, mask16_tb_7, mask16_tb_8, mask16_tb_9, mask16_tb_10, mask16_tb_11, mask16_tb_12, mask16_tb_13, mask16_tb_14, mask16_tb_15, mask16_tb_16, mask16_tb_17, mask16_tb_18, mask16_tb_19,
    hi_tb_16 v0, hi_tb_17 v0, hi_tb_18 v0, hi_tb_19 v0, hi_tb_20 v0, hi_tb_21 v0, hi_tb_22 v0, hi_tb_23 v0, hi_tb_24 v0, hi_tb_25 v0, hi_tb_26 v0, hi_tb_27 v0, hi_tb_16 v1, hi_tb_17 v1, hi_tb_18 v1, hi_tb_19 v1, hi_tb_20 v1, hi_tb_21 v1, hi_tb_22 v1, hi_tb_23 v1, hi_tb_24 v1, hi_tb_25 v1, hi_tb_26 v1, hi_tb_27 v1, hi_tb_16 v2, hi_tb_17 v2, hi_tb_18 v2, hi_tb_19 v2, hi_tb_20 v2, hi_tb_21 v2, hi_tb_22 v2, hi_tb_23 v2, hi_tb_24 v2, hi_tb_25 v2, hi_tb_26 v2, hi_tb_27 v2, hi_tb_16 v3, hi_tb_17 v3, hi_tb_18 v3, hi_tb_19 v3, hi_tb_20 v3, hi_tb_21 v3, hi_tb_22 v3, hi_tb_23 v3, hi_tb_24 v3, hi_tb_25 v3, hi_tb_26 v3, hi_tb_27 v3, hi_tb_16 v4, hi_tb_17 v4, hi_tb_18 v4, hi_tb_19 v4, hi_tb_20 v4, hi_tb_21 v4, hi_tb_22 v4, hi_tb_23 v4, hi_tb_24 v4, hi_tb_25 v4, hi_tb_26 v4, hi_tb_27 v4, hi_tb_16 v5, hi_tb_17 v5, hi_tb_18 v5, hi_tb_19 v5, hi_tb_20 v5, hi_tb_21 v5, hi_tb_22 v5, hi_tb_23 v5, hi_tb_24 v5, hi_tb_25 v5, hi_tb_26 v5, hi_tb_27 v5, hi_tb_16 v6, hi_tb_17 v6, hi_tb_18 v6, hi_tb_19 v6, hi_tb_20 v6, hi_tb_21 v6, hi_tb_22 v6, hi_tb_23 v6, hi_tb_24 v6, hi_tb_25 v6, hi_tb_26 v6, hi_tb_27 v6, hi_tb_16 v7, hi_tb_17 v7, hi_tb_18 v7, hi_tb_19 v7, hi_tb_20 v7, hi_tb_21 v7, hi_tb_22 v7, hi_tb_23 v7, hi_tb_24 v7, hi_tb_25 v7, hi_tb_26 v7, hi_tb_27 v7,
    Nat.testBit_xor, Nat.testBit_or,
    Bool.or_false, Bool.false_or, Bool.xor_false, Bool.false_xor, Bool.and_false,
    Bool.false_and, Bool.and_true, Bool.true_and]
  repeat' apply And.intro
  all_goals try (apply bitZ_inj; simp only [bitZ_xor, bitZ_bne]; abel_nf)
  all_goals try simp [show (2 : ZMod 2) = 0 by decide, show (3 : ZMod 2) = 1 by decide,
    show (4 : ZMod 2) = 0 by decide, show (5 : ZMod 2) = 1 by decide,
    show (6 : ZMod 2) = 0 by decide, show (7 : ZMod 2) = 1 by decide,
    show (8 : ZMod 2) = 0 by decide, show (9 : ZMod 2) = 1 by decide,
    show (10 : ZMod 2) = 0 by decide, show (11 : ZMod 2) = 1 by decide,
    show (12 : ZMod 2) = 0 by decide, show (13 : ZMod 2) = 1 by decide,
    show (14 : ZMod 2) = 0 by decide, show (15 : ZMod 2) = 1 by decide,
    show (16 : ZMod 2) = 0 by decide]

set_option maxHeartbeats 1000000 in
theorem mixColumns_byteAt_15 {s : AES_state} (hs : s.Valid) :
    byteAt (MixColumns s) 15 =
      xtime (byteAt s 15) ^^^ (xtime (byteAt s 3) ^^^ byteAt s 3) ^^^ byteAt s 7 ^^^
        byteAt s 11 := by
  obtain ⟨v0, v1, v2, v3, v4, v5, v6, v7⟩ := hs
  unfold byteAt
  simp only [sliceBits, byteAssemble_xorP, xtime_byteAssemble]
  apply congrArg byteAssemble
  simp only [MixColumns, mc01, mc123, rotC1_eq, rotC3_eq, Bits8.mk.injEq]
  simp only [shr4_tb_0, shr4_tb_1, shr4_tb_2, shr4_tb_3, shr4_tb_4, shr4_tb_5, shr4_tb_6, shr4_tb_7, shr4_tb_8, shr4_tb_9, shr4_tb_10, shr4_tb_11, shr4_tb_12, shr4_tb_13, shr4_tb_14, shr4_tb_15,
    shr12_tb_0, shr12_tb_1, shr12_tb_2, shr12_tb_3, shr12_tb_4, shr12_tb_5, shr12_tb_6, shr12_tb_7, shr12_tb_8, shr12_tb_9, shr12_tb_10, shr12_tb_11, shr12_tb_12, shr12_tb_13, shr12_tb_14, shr12_tb_15,
    shl12_tb_0, shl12_tb_1, shl12_tb_2, shl12_tb_3, shl12_tb_4, shl12_tb_5, shl12_tb_6, shl12_tb_7, shl12_tb_8, shl12_tb_9, shl12_tb_10, shl12_tb_11, shl12_tb_12, shl12_tb_13, shl12_tb_14, shl12_tb_15,
    shl4_tb_0, shl4_tb_1, shl4_tb_2, shl4_tb_3, shl4_tb_4, shl4_tb_5, shl4_tb_6, shl4_tb_7, shl4_tb_8, shl4_tb_9, shl4_tb_10, shl4_tb_11, shl4_tb_12, shl4_tb_13, shl4_tb_14, shl4_tb_15,
    mask16_tb_0, mask16_tb_1, mask16_tb_2, mask16_tb_3, mask16_tb_4, mask16_tb_5, mask16_tb_6, mask16_tb_7, mask16_tb_8, mask16_tb_9, mask16_tb_10, mask16_tb_11, mask16_tb_12, mask16_tb_13, mask16_tb_14, mask16_tb_15, mask16_tb_16, mask16_tb_17, mask16_tb_18, mask16_tb_19,
    hi_tb_16 v0, hi_tb_17 v0, hi_tb_18 v0, hi_tb_19 v0, hi_tb_20 v0, hi_tb_21 v0, hi_tb_22 v0, hi_tb_23 v0, hi_tb_24 v0, hi_tb_25 v0, hi_tb_26 v0, hi_tb_27 v0, hi_tb_16 v1, hi_tb_17 v1, hi_tb_18 v1, hi_tb_19 v1, hi_tb_20 v1, hi_tb_21 v1, hi_tb_22 v1, hi_tb_23 v1, hi_tb_24 v1, hi_tb_25 v1, hi_tb_26 v1, hi_tb_27 v1, hi_tb_16 v2, hi_tb_17 v2, hi_tb_18 v2, hi_tb_19 v2, hi_tb_20 v2, hi_tb_21 v2, hi_tb_22 v2, hi_tb_23 v2, hi_tb_24 v2, hi_tb_25 v2, hi_tb_26 v2, hi_tb_27 v2, hi_tb_16 v3, hi_tb_17 v3, hi_tb_18 v3, hi_tb_19 v3, hi_tb_20 v3, hi_tb_21 v3, hi_tb_22 v3, hi_tb_23 v3, hi_tb_24 v3, hi_tb_25 v3, hi_tb_26 v3, hi_tb_27 v3, hi_tb_16 v4, hi_tb_17 v4, hi_tb_18 v4, hi_tb_19 v4, hi_tb_20 v4, hi_tb_21 v4, hi_tb_22 v4, hi_tb_23 v4, hi_tb_24 v4, hi_tb_25 v4, hi_tb_26 v4, hi_tb_27 v4, hi_tb_16 v5, hi_tb_17 v5, hi_tb_18 v5, hi_tb_19 v5, hi_tb_20 v5, hi_tb_21 v5, hi_tb_22 v5, hi_tb_23 v5, hi_tb_24 v5, hi_tb_25 v5, hi_tb_26 v5, hi_tb_27 v5, hi_tb_16 v6, hi_tb_17 v6, hi_tb_18 v6, hi_tb_19 v6, hi_tb_20 v6, hi_tb_21 v6, hi_tb_22 v6, hi_tb_23 v6, hi_tb_24 v6, hi_tb_25 v6, hi_tb_26 v6, hi_tb_27 v6, hi_tb_16 v7, hi_tb_17 v7, hi_tb_18 v7, hi_tb_19 v7, hi_tb_20 v7, hi_tb_21 v7, hi_tb_22 v7, hi_tb_23 v7, hi_tb_24 v7, hi_tb_25 v7, hi_tb_26 v7, hi_tb_27 v7,
    Nat.testBit_xor, Nat.testBit_or,
    Bool.or_false, Bool.false_or, Bool.xor_false, Bool.false_xor, Bool.and_false,
    Bool.false_and, Bool.and_true, Bool.true_and]
  repeat' apply And.intro
  all_goals try (apply bitZ_inj; simp only [bitZ_xor, bitZ_bne]; abel_nf)
  all_goals try simp [show (2 : ZMod 2) = 0 by decide, show (3 : ZMod 2) = 1 by decide,
    show (4 : ZMod 2) = 0 by decide, show (5 : ZMod 2) = 1 by decide,
    show (6 : ZMod 2) = 0 by decide, show (7 : ZMod 2) = 1 by decide,
    show (8 : ZMod 2) = 0 by decide, show (9 : ZMod 2) = 1 by decide,
    show (10 : ZMod 2) = 0 by decide, show (11 : ZMod 2) = 1 by decide,
    show (12 : ZMod 2) = 0 by decide, show (13 : ZMod 2) = 1 by decide,
    show (14 : ZMod 2) = 0 by decide, show (15 : ZMod 2) = 1 by decide,
    show (16 : ZMod 2) = 0 by decide]

set_option maxHeartbeats 1000000 in
theorem invMixColumns_byteAt_0 {s : AES_state} (hs : s.Valid) :
    byteAt (InvMixColumns s) 0 =
      xtime (xtime (xtime (byteAt s 0 ^^^ byteAt s 4 ^^^ byteAt s 8 ^^^ byteAt s 12))) ^^^
        xtime (xtime (byteAt s 0 ^^^ byteAt s 8)) ^^^
        xtime (byteAt s 0 ^^^ byteAt s 4) ^^^
        (byteAt s 4 ^^^ byteAt s 8 ^^^ byteAt s 12) := by
  obtain ⟨v0, v1, v2, v3, v4, v5, v6, v7⟩ := hs
  unfold byteAt
  simp only [sliceBits, byteAssemble_xorP, xtime_byteAssemble]
  apply congrArg byteAssemble
  simp only [InvMixColumns, im12, im123, im0123, im02, mc01, mc123, rotC1_eq, rotC3_eq, Bits8.mk.injEq]
  simp only [shr4_tb_0, shr4_tb_1, shr4_tb_2, shr4_tb_3, shr4_tb_4, shr4_tb_5, shr4_tb_6, shr4_tb_7, shr4_tb_8, shr4_tb_9, shr4_tb_10, shr4_tb_11, shr4_tb_12, shr4_tb_13, shr4_tb_14, shr4_tb_15,
    shr12_tb_0, shr12_tb_1, shr12_tb_2, shr12_tb_3, shr12_tb_4, shr12_tb_5, shr12_tb_6, shr12_tb_7, shr12_tb_8, shr12_tb_9, shr12_tb_10, shr12_tb_11, shr12_tb_12, shr12_tb_13, shr12_tb_14, shr12_tb_15,
    shl12_tb_0, shl12_tb_1, shl12_tb_2, shl12_tb_3, shl12_tb_4, shl12_tb_5, shl12_tb_6, shl12_tb_7, shl12_tb_8, shl12_tb_9, shl12_tb_10, shl12_tb_11, shl12_tb_12, shl12_tb_13, shl12_tb_14, shl12_tb_15,
    shl4_tb_0, shl4_tb_1, shl4_tb_2, shl4_tb_3, shl4_tb_4, shl4_tb_5, shl4_tb_6, shl4_tb_7, shl4_tb_8, shl4_tb_9, shl4_tb_10, shl4_tb_11, shl4_tb_12, shl4_tb_13, shl4_tb_14, shl4_tb_15,
    mask16_tb_0, mask16_tb_1, mask16_tb_2, mask16_tb_3, mask16_tb_4, mask16_tb_5, mask16_tb_6, mask16_tb_7, mask16_tb_8, mask16_tb_9, mask16_tb_10, mask16_tb_11, mask16_tb_12, mask16_tb_13, mask16_tb_14, mask16_tb_15, mask16_tb_16, mask16_tb_17, mask16_tb_18, mask16_tb_19,
    hi_tb_16 v0, hi_tb_17 v0, hi_tb_18 v0, hi_tb_19 v0, hi_tb_20 v0, hi_tb_21 v0, hi_tb_22 v0, hi_tb_23 v0, hi_tb_24 v0, hi_tb_25 v0, hi_tb_26 v0, hi_tb_27 v0, hi_tb_16 v1, hi_tb_17 v1, hi_tb_18 v1, hi_tb_19 v1, hi_tb_20 v1, hi_tb_21 v1, hi_tb_22 v1, hi_tb_23 v1, hi_tb_24 v1, hi_tb_25 v1, hi_tb_26 v1, hi_tb_27 v1, hi_tb_16 v2, hi_tb_17 v2, hi_tb_18 v2, hi_tb_19 v2, hi_tb_20 v2, hi_tb_21 v2, hi_tb_22 v2, hi_tb_23 v2, hi_tb_24 v2, hi_tb_25 v2, hi_tb_26 v2, hi_tb_27 v2, hi_tb_16 v3, hi_tb_17 v3, hi_tb_18 v3, hi_tb_19 v3, hi_tb_20 v3, hi_tb_21 v3, hi_tb_22 v3, hi_tb_23 v3, hi_tb_24 v3, hi_tb_25 v3, hi_tb_26 v3, hi_tb_27 v3, hi_tb_16 v4, hi_tb_17 v4, hi_tb_18 v4, hi_tb_19 v4, hi_tb_20 v4, hi_tb_21 v4, hi_tb_22 v4, hi_tb_23 v4, hi_tb_24 v4, hi_tb_25 v4, hi_tb_26 v4, hi_tb_27 v4, hi_tb_16 v5, hi_tb_17 v5, hi_tb_18 v5, hi_tb_19 v5, hi_tb_20 v5, hi_tb_21 v5, hi_tb_22 v5, hi_tb_23 v5, hi_tb_24 v5, hi_tb_25 v5, hi_tb_26 v5, hi_tb_27 v5, hi_tb_16 v6, hi_tb_17 v6, hi_tb_18 v6, hi_tb_19 v6, hi_tb_20 v6, hi_tb_21 v6, hi_tb_22 v6, hi_tb_23 v6, hi_tb_24 v6, hi_tb_25 v6, hi_tb_26 v6, hi_tb_27 v6, hi_tb_16 v7, hi_tb_17 v7, hi_tb_18 v7, hi_tb_19 v7, hi_tb_20 v7, hi_tb_21 v7, hi_tb_22 v7, hi_tb_23 v7, hi_tb_24 v7, hi_tb_25 v7, hi_tb_26 v7, hi_tb_27 v7,
    Nat.testBit_xor, Nat.testBit_or,
    Bool.or_false, Bool.false_or, Bool.xor_false, Bool.false_xor, Bool.and_false,
    Bool.false_and, Bool.and_true, Bool.true_and]
  repeat' apply And.intro
  all_goals try (apply bitZ_inj; simp only [bitZ_xor, bitZ_bne]; abel_nf)
  all_goals try simp [show (2 : ZMod 2) = 0 by decide, show (3 : ZMod 2) = 1 by decide,
    show (4 : ZMod 2) = 0 by decide, show (5 : ZMod 2) = 1 by decide,
    show (6 : ZMod 2) = 0 by decide, show (7 : ZMod 2) = 1 by decide,
    show (8 : ZMod 2) = 0 by decide, show (9 : ZMod 2) = 1 by decide,
    show (10 : ZMod 2) = 0 by decide, show (11 : ZMod 2) = 1 by decide,
    show (12 : ZMod 2) = 0 by decide, show (13 : ZMod 2) = 1 by decide,
    show (14 : ZMod 2) = 0 by decide, show (15 : ZMod 2) = 1 by decide,
    show (16 : ZMod 2) = 0 by decide]

set_option maxHeartbeats 1000000 in
theorem invMixColumns_byteAt_1 {s : AES_state} (hs : s.Valid) :
    byteAt (InvMixColumns s) 1 =
      xtime (xtime (xtime (byteAt s 1 ^^^ byteAt s 5 ^^^ byteAt s 9 ^^^ byteAt s 13))) ^^^
        xtime (xtime (byteAt s 1 ^^^ byteAt s 9)) ^^^
        xtime (byteAt s 1 ^^^ byteAt s 5) ^^^
        (byteAt s 5 ^^^ byteAt s 9 ^^^ byteAt s 13) := by
  obtain ⟨v0, v1, v2, v3, v4, v5, v6, v7⟩ := hs
  unfold byteAt
  simp only [sliceBits, byteAssemble_xorP, xtime_byteAssemble]
  apply congrArg byteAssemble
  simp only [InvMixColumns, im12, im123, im0123, im02, mc01, mc123, rotC1_eq, rotC3_eq, Bits8.mk.injEq]
  simp only [shr4_tb_0, shr4_tb_1, shr4_tb_2, shr4_tb_3, shr4_tb_4, shr4_tb_5, shr4_tb_6, shr4_tb_7, shr4_tb_8, shr4_tb_9, shr4_tb_10, shr4_tb_11, shr4_tb_12, shr4_tb_13, shr4_tb_14, shr4_tb_15,
    shr12_tb_0, shr12_tb_1, shr12_tb_2, shr12_tb_3, shr12_tb_4, shr12_tb_5, shr12_tb_6, shr12_tb_7, shr12_tb_8, shr12_tb_9, shr12_tb_10, shr12_tb_11, shr12_tb_12, shr12_tb_13, shr12_tb_14, shr12_tb_15,
    shl12_tb_0, shl12_tb_1, shl12_tb_2, shl12_tb_3, shl12_tb_4, shl12_tb_5, shl12_tb_6, shl12_tb_7, shl12_tb_8, shl12_tb_9, shl12_tb_10, shl12_tb_11, shl12_tb_12, shl12_tb_13, shl12_tb_14, shl12_tb_15,
    shl4_tb_0, shl4_tb_1, shl4_tb_2, shl4_tb_3, shl4_tb_4, shl4_tb_5, shl4_tb_6, shl4_tb_7, shl4_tb_8, shl4_tb_9, shl4_tb_10, shl4_tb_11, shl4_tb_12, shl4_tb_13, shl4_tb_14, shl4_tb_15,
    mask16_tb_0, mask16_tb_1, mask16_tb_2, mask16_tb_3, mask16_tb_4, mask16_tb_5, mask16_tb_6, mask16_tb_7, mask16_tb_8, mask16_tb_9, mask16_tb_10, mask16_tb_11, mask16_tb_12, mask16_tb_13, mask16_tb_14, mask16_tb_15, mask16_tb_16, mask16_tb_17, mask16_tb_18, mask16_tb_19,
    hi_tb_16 v0, hi_tb_17 v0, hi_tb_18 v0, hi_tb_19 v0, hi_tb_20 v0, hi_tb_21 v0, hi_tb_22 v0, hi_tb_23 v0, hi_tb_24 v0, hi_tb_25 v0, hi_tb_26 v0, hi_tb_27 v0, hi_tb_16 v1, hi_tb_17 v1, hi_tb_18 v1, hi_tb_19 v1, hi_tb_20 v1, hi_tb_21 v1, hi_tb_22 v1, hi_tb_23 v1, hi_tb_24 v1, hi_tb_25 v1, hi_tb_26 v1, hi_tb_27 v1, hi_tb_16 v2, hi_tb_17 v2, hi_tb_18 v2, hi_tb_19 v2, hi_tb_20 v2, hi_tb_21 v2, hi_tb_22 v2, hi_tb_23 v2, hi_tb_24 v2, hi_tb_25 v2, hi_tb_26 v2, hi_tb_27 v2, hi_tb_16 v3, hi_tb_17 v3, hi_tb_18 v3, hi_tb_19 v3, hi_tb_20 v3, hi_tb_21 v3, hi_tb_22 v3, hi_tb_23 v3, hi_tb_24 v3, hi_tb_25 v3, hi_tb_26 v3, hi_tb_27 v3, hi_tb_16 v4, hi_tb_17 v4, hi_tb_18 v4, hi_tb_19 v4, hi_tb_20 v4, hi_tb_21 v4, hi_tb_22 v4, hi_tb_23 v4, hi_tb_24 v4, hi_tb_25 v4, hi_tb_26 v4, hi_tb_27 v4, hi_tb_16 v5, hi_tb_17 v5, hi_tb_18 v5, hi_tb_19 v5, hi_tb_20 v5, hi_tb_21 v5, hi_tb_22 v5, hi_tb_23 v5, hi_tb_24 v5, hi_tb_25 v5, hi_tb_26 v5, hi_tb_27 v5, hi_tb_16 v6, hi_tb_17 v6, hi_tb_18 v6, hi_tb_19 v6, hi_tb_20 v6, hi_tb_21 v6, hi_tb_22 v6, hi_tb_23 v6, hi_tb_24 v6, hi_tb_25 v6, hi_tb_26 v6, hi_tb_27 v6, hi_tb_16 v7, hi_tb_17 v7, hi_tb_18 v7, hi_tb_19 v7, hi_tb_20 v7, hi_tb_21 v7, hi_tb_22 v7, hi_tb_23 v7, hi_tb_24 v7, hi_tb_25 v7, hi_tb_26 v7, hi_tb_27 v7,
    Nat.testBit_xor, Nat.testBit_or,
    Bool.or_false, Bool.false_or, Bool.xor_false, Bool.false_xor, Bool.and_false,
    Bool.false_and, Bool.and_true, Bool.true_and]
  repeat' apply And.intro
  all_goals try (apply bitZ_inj; simp only [bitZ_xor, bitZ_bne]; abel_nf)
  all_goals try simp [show (2 : ZMod 2) = 0 by decide, show (3 : ZMod 2) = 1 by decide,
    show (4 : ZMod 2) = 0 by decide, show (5 : ZMod 2) = 1 by decide,
    show (6 : ZMod 2) = 0 by decide, show (7 : ZMod 2) = 1 by decide,
    show (8 : ZMod 2) = 0 by decide, show (9 : ZMod 2) = 1 by decide,
    show (10 : ZMod 2) = 0 by decide, show (11 : ZMod 2) = 1 by decide,
    show (12 : ZMod 2) = 0 by decide, show (13 : ZMod 2) = 1 by decide,
    show (14 : ZMod 2) = 0 by decide, show (15 : ZMod 2) = 1 by decide,
    show (16 : ZMod 2) = 0 by decide]

set_option maxHeartbeats 1000000 in
theorem invMixColumns_byteAt_2 {s : AES_state} (hs : s.Valid) :
    byteAt (InvMixColumns s) 2 =
      xtime (xtime (xtime (byteAt s 2 ^^^ byteAt s 6 ^^^ byteAt s 10 ^^^ byteAt s 14))) ^^^
        xtime (xtime (byteAt s 2 ^^^ byteAt s 10)) ^^^
        xtime (byteAt s 2 ^^^ byteAt s 6) ^^^
        (byteAt s 6 ^^^ byteAt s 10 ^^^ byteAt s 14) := by
  obtain ⟨v0, v1, v2, v3, v4, v5, v6, v7⟩ := hs
  unfold byteAt
  simp only [sliceBits, byteAssemble_xorP, xtime_byteAssemble]
  apply congrArg byteAssemble
  simp only [InvMixColumns, im12, im123, im0123, im02, mc01, mc123, rotC1_eq, rotC3_eq, Bits8.mk.injEq]
  simp only [shr4_tb_0, shr4_tb_1, shr4_tb_2, shr4_tb_3, shr4_tb_4, shr4_tb_5, shr4_tb_6, shr4_tb_7, shr4_tb_8, shr4_tb_9, shr4_tb_10, shr4_tb_11, shr4_tb_12, shr4_tb_13, shr4_tb_14, shr4_tb_15,
    shr12_tb_0, shr12_tb_1, shr12_tb_2, shr12_tb_3, shr12_tb_4, shr12_tb_5, shr12_tb_6, shr12_tb_7, shr12_tb_8, shr12_tb_9, shr12_tb_10, shr12_tb_11, shr12_tb_12, shr12_tb_13, shr12_tb_14, shr12_tb_15,
    shl12_tb_0, shl12_tb_1, shl12_tb_2, shl12_tb_3, shl12_tb_4, shl12_tb_5, shl12_tb_6, shl12_tb_7, shl12_tb_8, shl12_tb_9, shl12_tb_10, shl12_tb_11, shl12_tb_12, shl12_tb_13, shl12_tb_14, shl12_tb_15,
    shl4_tb_0, shl4_tb_1, shl4_tb_2, shl4_tb_3, shl4_tb_4, shl4_tb_5, shl4_tb_6, shl4_tb_7, shl4_tb_8, shl4_tb_9, shl4_tb_10, shl4_tb_11, shl4_tb_12, shl4_tb_13, shl4_tb_14, shl4_tb_15,
    mask16_tb_0, mask16_tb_1, mask16_tb_2, mask16_tb_3, mask16_tb_4, mask16_tb_5, mask16_tb_6, mask16_tb_7, mask16_tb_8, mask16_tb_9, mask16_tb_10, mask16_tb_11, mask16_tb_12, mask16_tb_13, mask16_tb_14, mask16_tb_15, mask16_tb_16, mask16_tb_17, mask16_tb_18, mask16_tb_19,
    hi_tb_16 v0, hi_tb_17 v0, hi_tb_18 v0, hi_tb_19 v0, hi_tb_20 v0, hi_tb_21 v0, hi_tb_22 v0, hi_tb_23 v0, hi_tb_24 v0, hi_tb_25 v0, hi_tb_26 v0, hi_tb_27 v0, hi_tb_16 v1, hi_tb_17 v1, hi_tb_18 v1, hi_tb_19 v1, hi_tb_20 v1, hi_tb_21 v1, hi_tb_22 v1, hi_tb_23 v1, hi_tb_24 v1, hi_tb_25 v1, hi_tb_26 v1, hi_tb_27 v1, hi_tb_16 v2, hi_tb_17 v2, hi_tb_18 v2, hi_tb_19 v2, hi_tb_20 v2, hi_tb_21 v2, hi_tb_22 v2, hi_tb_23 v2, hi_tb_24 v2, hi_tb_25 v2, hi_tb_26 v2, hi_tb_27 v2, hi_tb_16 v3, hi_tb_17 v3, hi_tb_18 v3, hi_tb_19 v3, hi_tb_20 v3, hi_tb_21 v3, hi_tb_22 v3, hi_tb_23 v3, hi_tb_24 v3, hi_tb_25 v3, hi_tb_26 v3, hi_tb_27 v3, hi_tb_16 v4, hi_tb_17 v4, hi_tb_18 v4, hi_tb_19 v4, hi_tb_20 v4, hi_tb_21 v4, hi_tb_22 v4, hi_tb_23 v4, hi_tb_24 v4, hi_tb_25 v4, hi_tb_26 v4, hi_tb_27 v4, hi_tb_16 v5, hi_tb_17 v5, hi_tb_18 v5, hi_tb_19 v5, hi_tb_20 v5, hi_tb_21 v5, hi_tb_22 v5, hi_tb_23 v5, hi_tb_24 v5, hi_tb_25 v5, hi_tb_26 v5, hi_tb_27 v5, hi_tb_16 v6, hi_tb_17 v6, hi_tb_18 v6, hi_tb_19 v6, hi_tb_20 v6, hi_tb_21 v6, hi_tb_22 v6, hi_tb_23 v6, hi_tb_24 v6, hi_tb_25 v6, hi_tb_26 v6, hi_tb_27 v6, hi_tb_16 v7, hi_tb_17 v7, hi_tb_18 v7, hi_tb_19 v7, hi_tb_20 v7, hi_tb_21 v7, hi_tb_22 v7, hi_tb_23 v7, hi_tb_24 v7, hi_tb_25 v7, hi_tb_26 v7, hi_tb_27 v7,
    Nat.testBit_xor, Nat.testBit_or,
    Bool.or_false, Bool.false_or, Bool.xor_false, Bool.false_xor, Bool.and_false,
    Bool.false_and, Bool.and_true, Bool.true_and]
  repeat' apply And.intro
  all_goals try (apply bitZ_inj; simp only [bitZ_xor, bitZ_bne]; abel_nf)
  all_goals try simp [show (2 : ZMod 2) = 0 by decide, show (3 : ZMod 2) = 1 by decide,
    show (4 : ZMod 2) = 0 by decide, show (5 : ZMod 2) = 1 by decide,
    show (6 : ZMod 2) = 0 by decide, show (7 : ZMod 2) = 1 by decide,
    show (8 : ZMod 2) = 0 by decide, show (9 : ZMod 2) = 1 by decide,
    show (10 : ZMod 2) = 0 by decide, show (11 : ZMod 2) = 1 by decide,
    show (12 : ZMod 2) = 0 by decide, show (13 : ZMod 2) = 1 by decide,
    show (14 : ZMod 2) = 0 by decide, show (15 : ZMod 2) = 1 by decide,
    show (16 : ZMod 2) = 0 by decide]

set_option maxHeartbeats 1000000 in
theorem invMixColumns_byteAt_3 {s : AES_state} (hs : s.Valid) :
    byteAt (InvMixColumns s) 3 =
      xtime (xtime (xtime (byteAt s 3 ^^^ byteAt s 7 ^^^ byteAt s 11 ^^^ byteAt s 15))) ^^^
        xtime (xtime (byteAt s 3 ^^^ byteAt s 11)) ^^^
        xtime (byteAt s 3 ^^^ byteAt s 7) ^^^
        (byteAt s 7 ^^^ byteAt s 11 ^^^ byteAt s 15) := by
  obtain ⟨v0, v1, v2, v3, v4, v5, v6, v7⟩ := hs
  unfold byteAt
  simp only [sliceBits, byteAssemble_xorP, xtime_byteAssemble]
  apply congrArg byteAssemble
  simp only [InvMixColumns, im12, im123, im0123, im02, mc01, mc123, rotC1_eq, rotC3_eq, Bits8.mk.injEq]
  simp only [shr4_tb_0, shr4_tb_1, shr4_tb_2, shr4_tb_3, shr4_tb_4, shr4_tb_5, shr4_tb_6, shr4_tb_7, shr4_tb_8, shr4_tb_9, shr4_tb_10, shr4_tb_11, shr4_tb_12, shr4_tb_13, shr4_tb_14, shr4_tb_15,
    shr12_tb_0, shr12_tb_1, shr12_tb_2, shr12_tb_3, shr12_tb_4, shr12_tb_5, shr12_tb_6, shr12_tb_7, shr12_tb_8, shr12_tb_9, shr12_tb_10, shr12_tb_11, shr12_tb_12, shr12_tb_13, shr12_tb_14, shr12_tb_15,
    shl12_tb_0, shl12_tb_1, shl12_tb_2, shl12_tb_3, shl12_tb_4, shl12_tb_5, shl12_tb_6, shl12_tb_7, shl12_tb_8, shl12_tb_9, shl12_tb_10, shl12_tb_11, shl12_tb_12, shl12_tb_13, shl12_tb_14, shl12_tb_15,
    shl4_tb_0, shl4_tb_1, shl4_tb_2, shl4_tb_3, shl4_tb_4, shl4_tb_5, shl4_tb_6, shl4_tb_7, shl4_tb_8, shl4_tb_9, shl4_tb_10, shl4_tb_11, shl4_tb_12, shl4_tb_13, shl4_tb_14, shl4_tb_15,
    mask16_tb_0, mask16_tb_1, mask16_tb_2, mask16_tb_3, mask16_tb_4, mask16_tb_5, mask16_tb_6, mask16_tb_7, mask16_tb_8, mask16_tb_9, mask16_tb_10, mask16_tb_11, mask16_tb_12, mask16_tb_13, mask16_tb_14, mask16_tb_15, mask16_tb_16, mask16_tb_17, mask16_tb_18, mask16_tb_19,
    hi_tb_16 v0, hi_tb_17 v0, hi_tb_18 v0, hi_tb_19 v0, hi_tb_20 v0, hi_tb_21 v0, hi_tb_22 v0, hi_tb_23 v0, hi_tb_24 v0, hi_tb_25 v0, hi_tb_26 v0, hi_tb_27 v0, hi_tb_16 v1, hi_tb_17 v1, hi_tb_18 v1, hi_tb_19 v1, hi_tb_20 v1, hi_tb_21 v1, hi_tb_22 v1, hi_tb_23 v1, hi_tb_24 v1, hi_tb_25 v1, hi_tb_26 v1, hi_tb_27 v1, hi_tb_16 v2, hi_tb_17 v2, hi_tb_18 v2, hi_tb_19 v2, hi_tb_20 v2, hi_tb_21 v2, hi_tb_22 v2, hi_tb_23 v2, hi_tb_24 v2, hi_tb_25 v2, hi_tb_26 v2, hi_tb_27 v2, hi_tb_16 v3, hi_tb_17 v3, hi_tb_18 v3, hi_tb_19 v3, hi_tb_20 v3, hi_tb_21 v3, hi_tb_22 v3, hi_tb_23 v3, hi_tb_24 v3, hi_tb_25 v3, hi_tb_26 v3, hi_tb_27 v3, hi_tb_16 v4, hi_tb_17 v4, hi_tb_18 v4, hi_tb_19 v4, hi_tb_20 v4, hi_tb_21 v4, hi_tb_22 v4, hi_tb_23 v4, hi_tb_24 v4, hi_tb_25 v4, hi_tb_26 v4, hi_tb_27 v4, hi_tb_16 v5, hi_tb_17 v5, hi_tb_18 v5, hi_tb_19 v5, hi_tb_20 v5, hi_tb_21 v5, hi_tb_22 v5, hi_tb_23 v5, hi_tb_24 v5, hi_tb_25 v5, hi_tb_26 v5, hi_tb_27 v5, hi_tb_16 v6, hi_tb_17 v6, hi_tb_18 v6, hi_tb_19 v6, hi_tb_20 v6, hi_tb_21 v6, hi_tb_22 v6, hi_tb_23 v6, hi_tb_24 v6, hi_tb_25 v6, hi_tb_26 v6, hi_tb_27 v6, hi_tb_16 v7, hi_tb_17 v7, hi_tb_18 v7, hi_tb_19 v7, hi_tb_20 v7, hi_tb_21 v7, hi_tb_22 v7, hi_tb_23 v7, hi_tb_24 v7, hi_tb_25 v7, hi_tb_26 v7, hi_tb_27 v7,
    Nat.testBit_xor, Nat.testBit_or,
    Bool.or_false, Bool.false_or, Bool.xor_false, Bool.false_xor, Bool.and_false,
    Bool.false_and, Bool.and_true, Bool.true_and]
  repeat' apply And.intro
  all_goals try (apply bitZ_inj; simp only [bitZ_xor, bitZ_bne]; abel_nf)
  all_goals try simp [show (2 : ZMod 2) = 0 by decide, show (3 : ZMod 2) = 1 by decide,
    show (4 : ZMod 2) = 0 by decide, show (5 : ZMod 2) = 1 by decide,
    show (6 : ZMod 2) = 0 by decide, show (7 : ZMod 2) = 1 by decide,
    show (8 : ZMod 2) = 0 by decide, show (9 : ZMod 2) = 1 by decide,
    show (10 : ZMod 2) = 0 by decide, show (11 : ZMod 2) = 1 by decide,
    show (12 : ZMod 2) = 0 by decide, show (13 : ZMod 2) = 1 by decide,
    show (14 : ZMod 2) = 0 by decide, show (15 : ZMod 2) = 1 by decide,
    show (16 : ZMod 2) = 0 by decide]

set_option maxHeartbeats 1000000 in
theorem invMixColumns_byteAt_4 {s : AES_state} (hs : s.Valid) :
    byteAt (InvMixColumns s) 4 =
      xtime (xtime (xtime (byteAt s 4 ^^^ byteAt s 8 ^^^ byteAt s 12 ^^^ byteAt s 0))) ^^^
        xtime (xtime (byteAt s 4 ^^^ byteAt s 12)) ^^^
        xtime (byteAt s 4 ^^^ byteAt s 8) ^^^
        (byteAt s 8 ^^^ byteAt s 12 ^^^ byteAt s 0) := by
  obtain ⟨v0, v1, v2, v3, v4, v5, v6, v7⟩ := hs
  unfold byteAt
  simp only [sliceBits, byteAssemble_xorP, xtime_byteAssemble]
  apply congrArg byteAssemble
  simp only [InvMixColumns, im12, im123, im0123, im02, mc01, mc123, rotC1_eq, rotC3_eq, Bits8.mk.injEq]
  simp only [shr4_tb_0, shr4_tb_1, shr4_tb_2, shr4_tb_3, shr4_tb_4, shr4_tb_5, shr4_tb_6, shr4_tb_7, shr4_tb_8, shr4_tb_9, shr4_tb_10, shr4_tb_11, shr4_tb_12, shr4_tb_13, shr4_tb_14, shr4_tb_15,
    shr12_tb_0, shr12_tb_1, shr12_tb_2, shr12_tb_3, shr12_tb_4, shr12_tb_5, shr12_tb_6, shr12_tb_7, shr12_tb_8, shr12_tb_9, shr12_tb_10, shr12_tb_11, shr12_tb_12, shr12_tb_13, shr12_tb_14, shr12_tb_15,
    shl12_tb_0, shl12_tb_1, shl12_tb_2, shl12_tb_3, shl12_tb_4, shl12_tb_5, shl12_tb_6, shl12_tb_7, shl12_tb_8, shl12_tb_9, shl12_tb_10, shl12_tb_11, shl12_tb_12, shl12_tb_13, shl12_tb_14, shl12_tb_15,
    shl4_tb_0, shl4_tb_1, shl4_tb_2, shl4_tb_3, shl4_tb_4, shl4_tb_5, shl4_tb_6, shl4_tb_7, shl4_tb_8, shl4_tb_9, shl4_tb_10, shl4_tb_11, shl4_tb_12, shl4_tb_13, shl4_tb_14, shl4_tb_15,
    mask16_tb_0, mask16_tb_1, mask16_tb_2, mask16_tb_3, mask16_tb_4, mask16_tb_5, mask16_tb_6, mask16_tb_7, mask16_tb_8, mask16_tb_9, mask16_tb_10, mask16_tb_11, mask16_tb_12, mask16_tb_13, mask16_tb_14, mask16_tb_15, mask16_tb_16, mask16_tb_17, mask16_tb_18, mask16_tb_19,
    hi_tb_16 v0, hi_tb_17 v0, hi_tb_18 v0, hi_tb_19 v0, hi_tb_20 v0, hi_tb_21 v0, hi_tb_22 v0, hi_tb_23 v0, hi_tb_24 v0, hi_tb_25 v0, hi_tb_26 v0, hi_tb_27 v0, hi_tb_16 v1, hi_tb_17 v1, hi_tb_18 v1, hi_tb_19 v1, hi_tb_20 v1, hi_tb_21 v1, hi_tb_22 v1, hi_tb_23 v1, hi_tb_24 v1, hi_tb_25 v1, hi_tb_26 v1, hi_tb_27 v1, hi_tb_16 v2, hi_tb_17 v2, hi_tb_18 v2, hi_tb_19 v2, hi_tb_20 v2, hi_tb_21 v2, hi_tb_22 v2, hi_tb_23 v2, hi_tb_24 v2, hi_tb_25 v2, hi_tb_26 v2, hi_tb_27 v2, hi_tb_16 v3, hi_tb_17 v3, hi_tb_18 v3, hi_tb_19 v3, hi_tb_20 v3, hi_tb_21 v3, hi_tb_22 v3, hi_tb_23 v3, hi_tb_24 v3, hi_tb_25 v3, hi_tb_26 v3, hi_tb_27 v3, hi_tb_16 v4, hi_tb_17 v4, hi_tb_18 v4, hi_tb_19 v4, hi_tb_20 v4, hi_tb_21 v4, hi_tb_22 v4, hi_tb_23 v4, hi_tb_24 v4, hi_tb_25 v4, hi_tb_26 v4, hi_tb_27 v4, hi_tb_16 v5, hi_tb_17 v5, hi_tb_18 v5, hi_tb_19 v5, hi_tb_20 v5, hi_tb_21 v5, hi_tb_22 v5, hi_tb_23 v5, hi_tb_24 v5, hi_tb_25 v5, hi_tb_26 v5, hi_tb_27 v5, hi_tb_16 v6, hi_tb_17 v6, hi_tb_18 v6, hi_tb_19 v6, hi_tb_20 v6, hi_tb_21 v6, hi_tb_22 v6, hi_tb_23 v6, hi_tb_24 v6, hi_tb_25 v6, hi_tb_26 v6, hi_tb_27 v6, hi_tb_16 v7, hi_tb_17 v7, hi_tb_18 v7, hi_tb_19 v7, hi_tb_20 v7, hi_tb_21 v7, hi_tb_22 v7, hi_tb_23 v7, hi_tb_24 v7, hi_tb_25 v7, hi_tb_26 v7, hi_tb_27 v7,
    Nat.testBit_xor, Nat.testBit_or,
    Bool.or_false, Bool.false_or, Bool.xor_false, Bool.false_xor, Bool.and_false,
    Bool.false_and, Bool.and_true, Bool.true_and]
  repeat' apply And.intro
  all_goals try (apply bitZ_inj; simp only [bitZ_xor, bitZ_bne]; abel_nf)
  all_goals try simp [show (2 : ZMod 2) = 0 by decide, show (3 : ZMod 2) = 1 by decide,
    show (4 : ZMod 2) = 0 by decide, show (5 : ZMod 2) = 1 by decide,
    show (6 : ZMod 2) = 0 by decide, show (7 : ZMod 2) = 1 by decide,
    show (8 : ZMod 2) = 0 by decide, show (9 : ZMod 2) = 1 by decide,
    show (10 : ZMod 2) = 0 by decide, show (11 : ZMod 2) = 1 by decide,
    show (12 : ZMod 2) = 0 by decide, show (13 : ZMod 2) = 1 by decide,
    show (14 : ZMod 2) = 0 by decide, show (15 : ZMod 2) = 1 by decide,
    show (16 : ZMod 2) = 0 by decide]

set_option maxHeartbeats 1000000 in
theorem invMixColumns_byteAt_5 {s : AES_state} (hs : s.Valid) :
    byteAt (InvMixColumns s) 5 =
      xtime (xtime (xtime (byteAt s 5 ^^^ byteAt s 9 ^^^ byteAt s 13 ^^^ byteAt s 1))) ^^^
        xtime (xtime (byteAt s 5 ^^^ byteAt s 13)) ^^^
        xtime (byteAt s 5 ^^^ byteAt s 9) ^^^
        (byteAt s 9 ^^^ byteAt s 13 ^^^ byteAt s 1) := by
  obtain ⟨v0, v1, v2, v3, v4, v5, v6, v7⟩ := hs
  unfold byteAt
  simp only [sliceBits, byteAssemble_xorP, xtime_byteAssemble]
  apply congrArg byteAssemble
  simp only [InvMixColumns, im12, im123, im0123, im02, mc01, mc123, rotC1_eq, rotC3_eq, Bits8.mk.injEq]
  simp only [shr4_tb_0, shr4_tb_1, shr4_tb_2, shr4_tb_3, shr4_tb_4, shr4_tb_5, shr4_tb_6, shr4_tb_7, shr4_tb_8, shr4_tb_9, shr4_tb_10, shr4_tb_11, shr4_tb_12, shr4_tb_13, shr4_tb_14, shr4_tb_15,
    shr12_tb_0, shr12_tb_1, shr12_tb_2, shr12_tb_3, shr12_tb_4, shr12_tb_5, shr12_tb_6, shr12_tb_7, shr12_tb_8, shr12_tb_9, shr12_tb_10, shr12_tb_11, shr12_tb_12, shr12_tb_13, shr12_tb_14, shr12_tb_15,
    shl12_tb_0, shl12_tb_1, shl12_tb_2, shl12_tb_3, shl12_tb_4, shl12_tb_5, shl12_tb_6, shl12_tb_7, shl12_tb_8, shl12_tb_9, shl12_tb_10, shl12_tb_11, shl12_tb_12, shl12_tb_13, shl12_tb_14, shl12_tb_15,
    shl4_tb_0, shl4_tb_1, shl4_tb_2, shl4_tb_3, shl4_tb_4, shl4_tb_5, shl4_tb_6, shl4_tb_7, shl4_tb_8, shl4_tb_9, shl4_tb_10, shl4_tb_11, shl4_tb_12, shl4_tb_13, shl4_tb_14, shl4_tb_15,
    mask16_tb_0, mask16_tb_1, mask16_tb_2, mask16_tb_3, mask16_tb_4, mask16_tb_5, mask16_tb_6, mask16_tb_7, mask16_tb_8, mask16_tb_9, mask16_tb_10, mask16_tb_11, mask16_tb_12, mask16_tb_13, mask16_tb_14, mask16_tb_15, mask16_tb_16, mask16_tb_17, mask16_tb_18, mask16_tb_19,
    hi_tb_16 v0, hi_tb_17 v0, hi_tb_18 v0, hi_tb_19 v0, hi_tb_20 v0, hi_tb_21 v0, hi_tb_22 v0, hi_tb_23 v0, hi_tb_24 v0, hi_tb_25 v0, hi_tb_26 v0, hi_tb_27 v0, hi_tb_16 v1, hi_tb_17 v1, hi_tb_18 v1, hi_tb_19 v1, hi_tb_20 v1, hi_tb_21 v1, hi_tb_22 v1, hi_tb_23 v1, hi_tb_24 v1, hi_tb_25 v1, hi_tb_26 v1, hi_tb_27 v1, hi_tb_16 v2, hi_tb_17 v2, hi_tb_18 v2, hi_tb_19 v2, hi_tb_20 v2, hi_tb_21 v2, hi_tb_22 v2, hi_tb_23 v2, hi_tb_24 v2, hi_tb_25 v2, hi_tb_26 v2, hi_tb_27 v2, hi_tb_16 v3, hi_tb_17 v3, hi_tb_18 v3, hi_tb_19 v3, hi_tb_20 v3, hi_tb_21 v3, hi_tb_22 v3, hi_tb_23 v3, hi_tb_24 v3, hi_tb_25 v3, hi_tb_26 v3, hi_tb_27 v3, hi_tb_16 v4, hi_tb_17 v4, hi_tb_18 v4, hi_tb_19 v4, hi_tb_20 v4, hi_tb_21 v4, hi_tb_22 v4, hi_tb_23 v4, hi_tb_24 v4, hi_tb_25 v4, hi_tb_26 v4, hi_tb_27 v4, hi_tb_16 v5, hi_tb_17 v5, hi_tb_18 v5, hi_tb_19 v5, hi_tb_20 v5, hi_tb_21 v5, hi_tb_22 v5, hi_tb_23 v5, hi_tb_24 v5, hi_tb_25 v5, hi_tb_26 v5, hi_tb_27 v5, hi_tb_16 v6, hi_tb_17 v6, hi_tb_18 v6, hi_tb_19 v6, hi_tb_20 v6, hi_tb_21 v6, hi_tb_22 v6, hi_tb_23 v6, hi_tb_24 v6, hi_tb_25 v6, hi_tb_26 v6, hi_tb_27 v6, hi_tb_16 v7, hi_tb_17 v7, hi_tb_18 v7, hi_tb_19 v7, hi_tb_20 v7, hi_tb_21 v7, hi_tb_22 v7, hi_tb_23 v7, hi_tb_24 v7, hi_tb_25 v7, hi_tb_26 v7, hi_tb_27 v7,
    Nat.testBit_xor, Nat.testBit_or,
    Bool.or_false, Bool.false_or, Bool.xor_false, Bool.false_xor, Bool.and_false,
    Bool.false_and, Bool.and_true, Bool.true_and]
  repeat' apply And.intro
  all_goals try (apply bitZ_inj; simp only [bitZ_xor, bitZ_bne]; abel_nf)
  all_goals try simp [show (2 : ZMod 2) = 0 by decide, show (3 : ZMod 2) = 1 by decide,
    show (4 : ZMod 2) = 0 by decide, show (5 : ZMod 2) = 1 by decide,
    show (6 : ZMod 2) = 0 by decide, show (7 : ZMod 2) = 1 by decide,
    show (8 : ZMod 2) = 0 by decide, show (9 : ZMod 2) = 1 by decide,
    show (10 : ZMod 2) = 0 by decide, show (11 : ZMod 2) = 1 by decide,
    show (12 : ZMod 2) = 0 by decide, show (13 : ZMod 2) = 1 by decide,
    show (14 : ZMod 2) = 0 by decide, show (15 : ZMod 2) = 1 by decide,
    show (16 : ZMod 2) = 0 by decide]

set_option maxHeartbeats 1000000 in
theorem invMixColumns_byteAt_6 {s : AES_state} (hs : s.Valid) :
    byteAt (InvMixColumns s) 6 =
      xtime (xtime (xtime (byteAt s 6 ^^^ byteAt s 10 ^^^ byteAt s 14 ^^^ byteAt s 2))) ^^^
        xtime (xtime (byteAt s 6 ^^^ byteAt s 14)) ^^^
        xtime (byteAt s 6 ^^^ byteAt s 10) ^^^
        (byteAt s 10 ^^^ byteAt s 14 ^^^ byteAt s 2) := by
  obtain ⟨v0, v1, v2, v3, v4, v5, v6, v7⟩ := hs
  unfold byteAt
  simp only [sliceBits, byteAssemble_xorP, xtime_byteAssemble]
  apply congrArg byteAssemble
  simp only [InvMixColumns, im12, im123, im0123, im02, mc01, mc123, rotC1_eq, rotC3_eq, Bits8.mk.injEq]
  simp only [shr4_tb_0, shr4_tb_1, shr4_tb_2, shr4_tb_3, shr4_tb_4, shr4_tb_5, shr4_tb_6, shr4_tb_7, shr4_tb_8, shr4_tb_9, shr4_tb_10, shr4_tb_11, shr4_tb_12, shr4_tb_13, shr4_tb_14, shr4_tb_15,
    shr12_tb_0, shr12_tb_1, shr12_tb_2, shr12_tb_3, shr12_tb_4, shr12_tb_5, shr12_tb_6, shr12_tb_7, shr12_tb_8, shr12_tb_9, shr12_tb_10, shr12_tb_11, shr12_tb_12, shr12_tb_13, shr12_tb_14, shr12_tb_15,
    shl12_tb_0, shl12_tb_1, shl12_tb_2, shl12_tb_3, shl12_tb_4, shl12_tb_5, shl12_tb_6, shl12_tb_7, shl12_tb_8, shl12_tb_9, shl12_tb_10, shl12_tb_11, shl12_tb_12, shl12_tb_13, shl12_tb_14, shl12_tb_15,
    shl4_tb_0, shl4_tb_1, shl4_tb_2, shl4_tb_3, shl4_tb_4, shl4_tb_5, shl4_tb_6, shl4_tb_7, shl4_tb_8, shl4_tb_9, shl4_tb_10, shl4_tb_11, shl4_tb_12, shl4_tb_13, shl4_tb_14, shl4_tb_15,
    mask16_tb_0, mask16_tb_1, mask16_tb_2, mask16_tb_3, mask16_tb_4, mask16_tb_5, mask16_tb_6, mask16_tb_7, mask16_tb_8, mask16_tb_9, mask16_tb_10, mask16_tb_11, mask16_tb_12, mask16_tb_13, mask16_tb_14, mask16_tb_15, mask16_tb_16, mask16_tb_17, mask16_tb_18, mask16_tb_19,
    hi_tb_16 v0, hi_tb_17 v0, hi_tb_18 v0, hi_tb_19 v0, hi_tb_20 v0, hi_tb_21 v0, hi_tb_22 v0, hi_tb_23 v0, hi_tb_24 v0, hi_tb_25 v0, hi_tb_26 v0, hi_tb_27 v0, hi_tb_16 v1, hi_tb_17 v1, hi_tb_18 v1, hi_tb_19 v1, hi_tb_20 v1, hi_tb_21 v1, hi_tb_22 v1, hi_tb_23 v1, hi_tb_24 v1, hi_tb_25 v1, hi_tb_26 v1, hi_tb_27 v1, hi_tb_16 v2, hi_tb_17 v2, hi_tb_18 v2, hi_tb_19 v2, hi_tb_20 v2, hi_tb_21 v2, hi_tb_22 v2, hi_tb_23 v2, hi_tb_24 v2, hi_tb_25 v2, hi_tb_26 v2, hi_tb_27 v2, hi_tb_16 v3, hi_tb_17 v3, hi_tb_18 v3, hi_tb_19 v3, hi_tb_20 v3, hi_tb_21 v3, hi_tb_22 v3, hi_tb_23 v3, hi_tb_24 v3, hi_tb_25 v3, hi_tb_26 v3, hi_tb_27 v3, hi_tb_16 v4, hi_tb_17 v4, hi_tb_18 v4, hi_tb_19 v4, hi_tb_20 v4, hi_tb_21 v4, hi_tb_22 v4, hi_tb_23 v4, hi_tb_24 v4, hi_tb_25 v4, hi_tb_26 v4, hi_tb_27 v4, hi_tb_16 v5, hi_tb_17 v5, hi_tb_18 v5, hi_tb_19 v5, hi_tb_20 v5, hi_tb_21 v5, hi_tb_22 v5, hi_tb_23 v5, hi_tb_24 v5, hi_tb_25 v5, hi_tb_26 v5, hi_tb_27 v5, hi_tb_16 v6, hi_tb_17 v6, hi_tb_18 v6, hi_tb_19 v6, hi_tb_20 v6, hi_tb_21 v6, hi_tb_22 v6, hi_tb_23 v6, hi_tb_24 v6, hi_tb_25 v6, hi_tb_26 v6, hi_tb_27 v6, hi_tb_16 v7, hi_tb_17 v7, hi_tb_18 v7, hi_tb_19 v7, hi_tb_20 v7, hi_tb_21 v7, hi_tb_22 v7, hi_tb_23 v7, hi_tb_24 v7, hi_tb_25 v7, hi_tb_26 v7, hi_tb_27 v7,
    Nat.testBit_xor, Nat.testBit_or,
    Bool.or_false, Bool.false_or, Bool.xor_false, Bool.false_xor, Bool.and_false,
    Bool.false_and, Bool.and_true, Bool.true_and]
  repeat' apply And.intro
  all_goals try (apply bitZ_inj; simp only [bitZ_xor, bitZ_bne]; abel_nf)
  all_goals try simp [show (2 : ZMod 2) = 0 by decide, show (3 : ZMod 2) = 1 by decide,
    show (4 : ZMod 2) = 0 by decide, show (5 : ZMod 2) = 1 by decide,
    show (6 : ZMod 2) = 0 by decide, show (7 : ZMod 2) = 1 by decide,
    show (8 : ZMod 2) = 0 by decide, show (9 : ZMod 2) = 1 by decide,
    show (10 : ZMod 2) = 0 by decide, show (11 : ZMod 2) = 1 by decide,
    show (12 : ZMod 2) = 0 by decide, show (13 : ZMod 2) = 1 by decide,
    show (14 : ZMod 2) = 0 by decide, show (15 : ZMod 2) = 1 by decide,
    show (16 : ZMod 2) = 0 by decide]

set_option maxHeartbeats 1000000 in
theorem invMixColumns_byteAt_7 {s : AES_state} (hs : s.Valid) :
    byteAt (InvMixColumns s) 7 =
      xtime (xtime (xtime (byteAt s 7 ^^^ byteAt s 11 ^^^ byteAt s 15 ^^^ byteAt s 3))) ^^^
        xtime (xtime (byteAt s 7 ^^^ byteAt s 15)) ^^^
        xtime (byteAt s 7 ^^^ byteAt s 11) ^^^
        (byteAt s 11 ^^^ byteAt s 15 ^^^ byteAt s 3) := by
  obtain ⟨v0, v1, v2, v3, v4, v5, v6, v7⟩ := hs
  unfold byteAt
  simp only [sliceBits, byteAssemble_xorP, xtime_byteAssemble]
  apply congrArg byteAssemble
  simp only [InvMixColumns, im12, im123, im0123, im02, mc01, mc123, rotC1_eq, rotC3_eq, Bits8.mk.injEq]
  simp only [shr4_tb_0, shr4_tb_1, shr4_tb_2, shr4_tb_3, shr4_tb_4, shr4_tb_5, shr4_tb_6, shr4_tb_7, shr4_tb_8, shr4_tb_9, shr4_tb_10, shr4_tb_11, shr4_tb_12, shr4_tb_13, shr4_tb_14, shr4_tb_15,
    shr12_tb_0, shr12_tb_1, shr12_tb_2, shr12_tb_3, shr12_tb_4, shr12_tb_5, shr12_tb_6, shr12_tb_7, shr12_tb_8, shr12_tb_9, shr12_tb_10, shr12_tb_11, shr12_tb_12, shr12_tb_13, shr12_tb_14, shr12_tb_15,
    shl12_tb_0, shl12_tb_1, shl12_tb_2, shl12_tb_3, shl12_tb_4, shl12_tb_5, shl12_tb_6, shl12_tb_7, shl12_tb_8, shl12_tb_9, shl12_tb_10, shl12_tb_11, shl12_tb_12, shl12_tb_13, shl12_tb_14, shl12_tb_15,
    shl4_tb_0, shl4_tb_1, shl4_tb_2, shl4_tb_3, shl4_tb_4, shl4_tb_5, shl4_tb_6, shl4_tb_7, shl4_tb_8, shl4_tb_9, shl4_tb_10, shl4_tb_11, shl4_tb_12, shl4_tb_13, shl4_tb_14, shl4_tb_15,
    mask16_tb_0, mask16_tb_1, mask16_tb_2, mask16_tb_3, mask16_tb_4, mask16_tb_5, mask16_tb_6, mask16_tb_7, mask16_tb_8, mask16_tb_9, mask16_tb_10, mask16_tb_11, mask16_tb_12, mask16_tb_13, mask16_tb_14, mask16_tb_15, mask16_tb_16, mask16_tb_17, mask16_tb_18, mask16_tb_19,
    hi_tb_16 v0, hi_tb_17 v0, hi_tb_18 v0, hi_tb_19 v0, hi_tb_20 v0, hi_tb_21 v0, hi_tb_22 v0, hi_tb_23 v0, hi_tb_24 v0, hi_tb_25 v0, hi_tb_26 v0, hi_tb_27 v0, hi_tb_16 v1, hi_tb_17 v1, hi_tb_18 v1, hi_tb_19 v1, hi_tb_20 v1, hi_tb_21 v1, hi_tb_22 v1, hi_tb_23 v1, hi_tb_24 v1, hi_tb_25 v1, hi_tb_26 v1, hi_tb_27 v1, hi_tb_16 v2, hi_tb_17 v2, hi_tb_18 v2, hi_tb_19 v2, hi_tb_20 v2, hi_tb_21 v2, hi_tb_22 v2, hi_tb_23 v2, hi_tb_24 v2, hi_tb_25 v2, hi_tb_26 v2, hi_tb_27 v2, hi_tb_16 v3, hi_tb_17 v3, hi_tb_18 v3, hi_tb_19 v3, hi_tb_20 v3, hi_tb_21 v3, hi_tb_22 v3, hi_tb_23 v3, hi_tb_24 v3, hi_tb_25 v3, hi_tb_26 v3, hi_tb_27 v3, hi_tb_16 v4, hi_tb_17 v4, hi_tb_18 v4, hi_tb_19 v4, hi_tb_20 v4, hi_tb_21 v4, hi_tb_22 v4, hi_tb_23 v4, hi_tb_24 v4, hi_tb_25 v4, hi_tb_26 v4, hi_tb_27 v4, hi_tb_16 v5, hi_tb_17 v5, hi_tb_18 v5, hi_tb_19 v5, hi_tb_20 v5, hi_tb_21 v5, hi_tb_22 v5, hi_tb_23 v5, hi_tb_24 v5, hi_tb_25 v5, hi_tb_26 v5, hi_tb_27 v5, hi_tb_16 v6, hi_tb_17 v6, hi_tb_18 v6, hi_tb_19 v6, hi_tb_20 v6, hi_tb_21 v6, hi_tb_22 v6, hi_tb_23 v6, hi_tb_24 v6, hi_tb_25 v6, hi_tb_26 v6, hi_tb_27 v6, hi_tb_16 v7, hi_tb_17 v7, hi_tb_18 v7, hi_tb_19 v7, hi_tb_20 v7, hi_tb_21 v7, hi_tb_22 v7, hi_tb_23 v7, hi_tb_24 v7, hi_tb_25 v7, hi_tb_26 v7, hi_tb_27 v7,
    Nat.testBit_xor, Nat.testBit_or,
    Bool.or_false, Bool.false_or, Bool.xor_false, Bool.false_xor, Bool.and_false,
    Bool.false_and, Bool.and_true, Bool.true_and]
  repeat' apply And.intro
  all_goals try (apply bitZ_inj; simp only [bitZ_xor, bitZ_bne]; abel_nf)
  all_goals try simp [show (2 : ZMod 2) = 0 by decide, show (3 : ZMod 2) = 1 by decide,
    show (4 : ZMod 2) = 0 by decide, show (5 : ZMod 2) = 1 by decide,
    show (6 : ZMod 2) = 0 by decide, show (7 : ZMod 2) = 1 by decide,
    show (8 : ZMod 2) = 0 by decide, show (9 : ZMod 2) = 1 by decide,
    show (10 : ZMod 2) = 0 by decide, show (11 : ZMod 2) = 1 by decide,
    show (12 : ZMod 2) = 0 by decide, show (13 : ZMod 2) = 1 by decide,
    show (14 : ZMod 2) = 0 by decide, show (15 : ZMod 2) = 1 by decide,
    show (16 : ZMod 2) = 0 by decide]

set_option maxHeartbeats 1000000 in
theorem invMixColumns_byteAt_8 {s : AES_state} (hs : s.Valid) :
    byteAt (InvMixColumns s) 8 =
      xtime (xtime (xtime (byteAt s 8 ^^^ byteAt s 12 ^^^ byteAt s 0 ^^^ byteAt s 4))) ^^^
        xtime (xtime (byteAt s 8 ^^^ byteAt s 0)) ^^^
        xtime (byteAt s 8 ^^^ byteAt s 12) ^^^
        (byteAt s 12 ^^^ byteAt s 0 ^^^ byteAt s 4) := by
  obtain ⟨v0, v1, v2, v3, v4, v5, v6, v7⟩ := hs
  unfold byteAt
  simp only [sliceBits, byteAssemble_xorP, xtime_byteAssemble]
  apply congrArg byteAssemble
  simp only [InvMixColumns, im12, im123, im0123, im02, mc01, mc123, rotC1_eq, rotC3_eq, Bits8.mk.injEq]
  simp only [shr4_tb_0, shr4_tb_1, shr4_tb_2, shr4_tb_3, shr4_tb_4, shr4_tb_5, shr4_tb_6, shr4_tb_7, shr4_tb_8, shr4_tb_9, shr4_tb_10, shr4_tb_11, shr4_tb_12, shr4_tb_13, shr4_tb_14, shr4_tb_15,
    shr12_tb_0, shr12_tb_1, shr12_tb_2, shr12_tb_3, shr12_tb_4, shr12_tb_5, shr12_tb_6, shr12_tb_7, shr12_tb_8, shr12_tb_9, shr12_tb_10, shr12_tb_11, shr12_tb_12, shr12_tb_13, shr12_tb_14, shr12_tb_15,
    shl12_tb_0, shl12_tb_1, shl12_tb_2, shl12_tb_3, shl12_tb_4, shl12_tb_5, shl12_tb_6, shl12_tb_7, shl12_tb_8, shl12_tb_9, shl12_tb_10, shl12_tb_11, shl12_tb_12, shl12_tb_13, shl12_tb_14, shl12_tb_15,
    shl4_tb_0, shl4_tb_1, shl4_tb_2, shl4_tb_3, shl4_tb_4, shl4_tb_5, shl4_tb_6, shl4_tb_7, shl4_tb_8, shl4_tb_9, shl4_tb_10, shl4_tb_11, shl4_tb_12, shl4_tb_13, shl4_tb_14, shl4_tb_15,
    mask16_tb_0, mask16_tb_1, mask16_tb_2, mask16_tb_3, mask16_tb_4, mask16_tb_5, mask16_tb_6, mask16_tb_7, mask16_tb_8, mask16_tb_9, mask16_tb_10, mask16_tb_11, mask16_tb_12, mask16_tb_13, mask16_tb_14, mask16_tb_15, mask16_tb_16, mask16_tb_17, mask16_tb_18, mask16_tb_19,
    hi_tb_16 v0, hi_tb_17 v0, hi_tb_18 v0, hi_tb_19 v0, hi_tb_20 v0, hi_tb_21 v0, hi_tb_22 v0, hi_tb_23 v0, hi_tb_24 v0, hi_tb_25 v0, hi_tb_26 v0, hi_tb_27 v0, hi_tb_16 v1, hi_tb_17 v1, hi_tb_18 v1, hi_tb_19 v1, hi_tb_20 v1, hi_tb_21 v1, hi_tb_22 v1, hi_tb_23 v1, hi_tb_24 v1, hi_tb_25 v1, hi_tb_26 v1, hi_tb_27 v1, hi_tb_16 v2, hi_tb_17 v2, hi_tb_18 v2, hi_tb_19 v2, hi_tb_20 v2, hi_tb_21 v2, hi_tb_22 v2, hi_tb_23 v2, hi_tb_24 v2, hi_tb_25 v2, hi_tb_26 v2, hi_tb_27 v2, hi_tb_16 v3, hi_tb_17 v3, hi_tb_18 v3, hi_tb_19 v3, hi_tb_20 v3, hi_tb_21 v3, hi_tb_22 v3, hi_tb_23 v3, hi_tb_24 v3, hi_tb_25 v3, hi_tb_26 v3, hi_tb_27 v3, hi_tb_16 v4, hi_tb_17 v4, hi_tb_18 v4, hi_tb_19 v4, hi_tb_20 v4, hi_tb_21 v4, hi_tb_22 v4, hi_tb_23 v4, hi_tb_24 v4, hi_tb_25 v4, hi_tb_26 v4, hi_tb_27 v4, hi_tb_16 v5, hi_tb_17 v5, hi_tb_18 v5, hi_tb_19 v5, hi_tb_20 v5, hi_tb_21 v5, hi_tb_22 v5, hi_tb_23 v5, hi_tb_24 v5, hi_tb_25 v5, hi_tb_26 v5, hi_tb_27 v5, hi_tb_16 v6, hi_tb_17 v6, hi_tb_18 v6, hi_tb_19 v6, hi_tb_20 v6, hi_tb_21 v6, hi_tb_22 v6, hi_tb_23 v6, hi_tb_24 v6, hi_tb_25 v6, hi_tb_26 v6, hi_tb_27 v6, hi_tb_16 v7, hi_tb_17 v7, hi_tb_18 v7, hi_tb_19 v7, hi_tb_20 v7, hi_tb_21 v7, hi_tb_22 v7, hi_tb_23 v7, hi_tb_24 v7, hi_tb_25 v7, hi_tb_26 v7, hi_tb_27 v7,
    Nat.testBit_xor, Nat.testBit_or,
    Bool.or_false, Bool.false_or, Bool.xor_false, Bool.false_xor, Bool.and_false,
    Bool.false_and, Bool.and_true, Bool.true_and]
  repeat' apply And.intro
  all_goals try (apply bitZ_inj; simp only [bitZ_xor, bitZ_bne]; abel_nf)
  all_goals try simp [show (2 : ZMod 2) = 0 by decide, show (3 : ZMod 2) = 1 by decide,
    show (4 : ZMod 2) = 0 by decide, show (5 : ZMod 2) = 1 by decide,
    show (6 : ZMod 2) = 0 by decide, show (7 : ZMod 2) = 1 by decide,
    show (8 : ZMod 2) = 0 by decide, show (9 : ZMod 2) = 1 by decide,
    show (10 : ZMod 2) = 0 by decide, show (11 : ZMod 2) = 1 by decide,
    show (12 : ZMod 2) = 0 by decide, show (13 : ZMod 2) = 1 by decide,
    show (14 : ZMod 2) = 0 by decide, show (15 : ZMod 2) = 1 by decide,
    show (16 : ZMod 2) = 0 by decide]

set_option maxHeartbeats 1000000 in
theorem invMixColumns_byteAt_9 {s : AES_state} (hs : s.Valid) :
    byteAt (InvMixColumns s) 9 =
      xtime (xtime (xtime (byteAt s 9 ^^^ byteAt s 13 ^^^ byteAt s 1 ^^^ byteAt s 5))) ^^^
        xtime (xtime (byteAt s 9 ^^^ byteAt s 1)) ^^^
        xtime (byteAt s 9 ^^^ byteAt s 13) ^^^
        (byteAt s 13 ^^^ byteAt s 1 ^^^ byteAt s 5) := by
  obtain ⟨v0, v1, v2, v3, v4, v5, v6, v7⟩ := hs
  unfold byteAt
  simp only [sliceBits, byteAssemble_xorP, xtime_byteAssemble]
  apply congrArg byteAssemble
  simp only [InvMixColumns, im12, im123, im0123, im02, mc01, mc123, rotC1_eq, rotC3_eq, Bits8.mk.injEq]
  simp only [shr4_tb_0, shr4_tb_1, shr4_tb_2, shr4_tb_3, shr4_tb_4, shr4_tb_5, shr4_tb_6, shr4_tb_7, shr4_tb_8, shr4_tb_9, shr4_tb_10, shr4_tb_11, shr4_tb_12, shr4_tb_13, shr4_tb_14, shr4_tb_15,
    shr12_tb_0, shr12_tb_1, shr12_tb_2, shr12_tb_3, shr12_tb_4, shr12_tb_5, shr12_tb_6, shr12_tb_7, shr12_tb_8, shr12_tb_9, shr12_tb_10, shr12_tb_11, shr12_tb_12, shr12_tb_13, shr12_tb_14, shr12_tb_15,
    shl12_tb_0, shl12_tb_1, shl12_tb_2, shl12_tb_3, shl12_tb_4, shl12_tb_5, shl12_tb_6, shl12_tb_7, shl12_tb_8, shl12_tb_9, shl12_tb_10, shl12_tb_11, shl12_tb_12, shl12_tb_13, shl12_tb_14, shl12_tb_15,
    shl4_tb_0, shl4_tb_1, shl4_tb_2, shl4_tb_3, shl4_tb_4, shl4_tb_5, shl4_tb_6, shl4_tb_7, shl4_tb_8, shl4_tb_9, shl4_tb_10, shl4_tb_11, shl4_tb_12, shl4_tb_13, shl4_tb_14, shl4_tb_15,
    mask16_tb_0, mask16_tb_1, mask16_tb_2, mask16_tb_3, mask16_tb_4, mask16_tb_5, mask16_tb_6, mask16_tb_7, mask16_tb_8, mask16_tb_9, mask16_tb_10, mask16_tb_11, mask16_tb_12, mask16_tb_13, mask16_tb_14, mask16_tb_15, mask16_tb_16, mask16_tb_17, mask16_tb_18, mask16_tb_19,
    hi_tb_16 v0, hi_tb_17 v0, hi_tb_18 v0, hi_tb_19 v0, hi_tb_20 v0, hi_tb_21 v0, hi_tb_22 v0, hi_tb_23 v0, hi_tb_24 v0, hi_tb_25 v0, hi_tb_26 v0, hi_tb_27 v0, hi_tb_16 v1, hi_tb_17 v1, hi_tb_18 v1, hi_tb_19 v1, hi_tb_20 v1, hi_tb_21 v1, hi_tb_22 v1, hi_tb_23 v1, hi_tb_24 v1, hi_tb_25 v1, hi_tb_26 v1, hi_tb_27 v1, hi_tb_16 v2, hi_tb_17 v2, hi_tb_18 v2, hi_tb_19 v2, hi_tb_20 v2, hi_tb_21 v2, hi_tb_22 v2, hi_tb_23 v2, hi_tb_24 v2, hi_tb_25 v2, hi_tb_26 v2, hi_tb_27 v2, hi_tb_16 v3, hi_tb_17 v3, hi_tb_18 v3, hi_tb_19 v3, hi_tb_20 v3, hi_tb_21 v3, hi_tb_22 v3, hi_tb_23 v3, hi_tb_24 v3, hi_tb_25 v3, hi_tb_26 v3, hi_tb_27 v3, hi_tb_16 v4, hi_tb_17 v4, hi_tb_18 v4, hi_tb_19 v4, hi_tb_20 v4, hi_tb_21 v4, hi_tb_22 v4, hi_tb_23 v4, hi_tb_24 v4, hi_tb_25 v4, hi_tb_26 v4, hi_tb_27 v4, hi_tb_16 v5, hi_tb_17 v5, hi_tb_18 v5, hi_tb_19 v5, hi_tb_20 v5, hi_tb_21 v5, hi_tb_22 v5, hi_tb_23 v5, hi_tb_24 v5, hi_tb_25 v5, hi_tb_26 v5, hi_tb_27 v5, hi_tb_16 v6, hi_tb_17 v6, hi_tb_18 v6, hi_tb_19 v6, hi_tb_20 v6, hi_tb_21 v6, hi_tb_22 v6, hi_tb_23 v6, hi_tb_24 v6, hi_tb_25 v6, hi_tb_26 v6, hi_tb_27 v6, hi_tb_16 v7, hi_tb_17 v7, hi_tb_18 v7, hi_tb_19 v7, hi_tb_20 v7, hi_tb_21 v7, hi_tb_22 v7, hi_tb_23 v7, hi_tb_24 v7, hi_tb_25 v7, hi_tb_26 v7, hi_tb_27 v7,
    Nat.testBit_xor, Nat.testBit_or,
    Bool.or_false, Bool.false_or, Bool.xor_false, Bool.false_xor, Bool.and_false,
    Bool.false_and, Bool.and_true, Bool.true_and]
  repeat' apply And.intro
  all_goals try (apply bitZ_inj; simp only [bitZ_xor, bitZ_bne]; abel_nf)
  all_goals try simp [show (2 : ZMod 2) = 0 by decide, show (3 : ZMod 2) = 1 by decide,
    show (4 : ZMod 2) = 0 by decide, show (5 : ZMod 2) = 1 by decide,
    show (6 : ZMod 2) = 0 by decide, show (7 : ZMod 2) = 1 by decide,
    show (8 : ZMod 2) = 0 by decide, show (9 : ZMod 2) = 1 by decide,
    show (10 : ZMod 2) = 0 by decide, show (11 : ZMod 2) = 1 by decide,
    show (12 : ZMod 2) = 0 by decide, show (13 : ZMod 2) = 1 by decide,
    show (14 : ZMod 2) = 0 by decide, show (15 : ZMod 2) = 1 by decide,
    show (16 : ZMod 2) = 0 by decide]

set_option maxHeartbeats 1000000 in
theorem invMixColumns_byteAt_10 {s : AES_state} (hs : s.Valid) :
    byteAt (InvMixColumns s) 10 =
      xtime (xtime (xtime (byteAt s 10 ^^^ byteAt s 14 ^^^ byteAt s 2 ^^^ byteAt s 6))) ^^^
        xtime (xtime (byteAt s 10 ^^^ byteAt s 2)) ^^^
        xtime (byteAt s 10 ^^^ byteAt s 14) ^^^
        (byteAt s 14 ^^^ byteAt s 2 ^^^ byteAt s 6) := by
  obtain ⟨v0, v1, v2, v3, v4, v5, v6, v7⟩ := hs
  unfold byteAt
  simp only [sliceBits, byteAssemble_xorP, xtime_byteAssemble]
  apply congrArg byteAssemble
  simp only [InvMixColumns, im12, im123, im0123, im02, mc01, mc123, rotC1_eq, rotC3_eq, Bits8.mk.injEq]
  simp only [shr4_tb_0, shr4_tb_1, shr4_tb_2, shr4_tb_3, shr4_tb_4, shr4_tb_5, shr4_tb_6, shr4_tb_7, shr4_tb_8, shr4_tb_9, shr4_tb_10, shr4_tb_11, shr4_tb_12, shr4_tb_13, shr4_tb_14, shr4_tb_15,
    shr12_tb_0, shr12_tb_1, shr12_tb_2, shr12_tb_3, shr12_tb_4, shr12_tb_5, shr12_tb_6, shr12_tb_7, shr12_tb_8, shr12_tb_9, shr12_tb_10, shr12_tb_11, shr12_tb_12, shr12_tb_13, shr12_tb_14, shr12_tb_15,
    shl12_tb_0, shl12_tb_1, shl12_tb_2, shl12_tb_3, shl12_tb_4, shl12_tb_5, shl12_tb_6, shl12_tb_7, shl12_tb_8, shl12_tb_9, shl12_tb_10, shl12_tb_11, shl12_tb_12, shl12_tb_13, shl12_tb_14, shl12_tb_15,
    shl4_tb_0, shl4_tb_1, shl4_tb_2, shl4_tb_3, shl4_tb_4, shl4_tb_5, shl4_tb_6, shl4_tb_7, shl4_tb_8, shl4_tb_9, shl4_tb_10, shl4_tb_11, shl4_tb_12, shl4_tb_13, shl4_tb_14, shl4_tb_15,
    mask16_tb_0, mask16_tb_1, mask16_tb_2, mask16_tb_3, mask16_tb_4, mask16_tb_5, mask16_tb_6, mask16_tb_7, mask16_tb_8, mask16_tb_9, mask16_tb_10, mask16_tb_11, mask16_tb_12, mask16_tb_13, mask16_tb_14, mask16_tb_15, mask16_tb_16, mask16_tb_17, mask16_tb_18, mask16_tb_19,
    hi_tb_16 v0, hi_tb_17 v0, hi_tb_18 v0, hi_tb_19 v0, hi_tb_20 v0, hi_tb_21 v0, hi_tb_22 v0, hi_tb_23 v0, hi_tb_24 v0, hi_tb_25 v0, hi_tb_26 v0, hi_tb_27 v0, hi_tb_16 v1, hi_tb_17 v1, hi_tb_18 v1, hi_tb_19 v1, hi_tb_20 v1, hi_tb_21 v1, hi_tb_22 v1, hi_tb_23 v1, hi_tb_24 v1, hi_tb_25 v1, hi_tb_26 v1, hi_tb_27 v1, hi_tb_16 v2, hi_tb_17 v2, hi_tb_18 v2, hi_tb_19 v2, hi_tb_20 v2, hi_tb_21 v2, hi_tb_22 v2, hi_tb_23 v2, hi_tb_24 v2, hi_tb_25 v2, hi_tb_26 v2, hi_tb_27 v2, hi_tb_16 v3, hi_tb_17 v3, hi_tb_18 v3, hi_tb_19 v3, hi_tb_20 v3, hi_tb_21 v3, hi_tb_22 v3, hi_tb_23 v3, hi_tb_24 v3, hi_tb_25 v3, hi_tb_26 v3, hi_tb_27 v3, hi_tb_16 v4, hi_tb_17 v4, hi_tb_18 v4, hi_tb_19 v4, hi_tb_20 v4, hi_tb_21 v4, hi_tb_22 v4, hi_tb_23 v4, hi_tb_24 v4, hi_tb_25 v4, hi_tb_26 v4, hi_tb_27 v4, hi_tb_16 v5, hi_tb_17 v5, hi_tb_18 v5, hi_tb_19 v5, hi_tb_20 v5, hi_tb_21 v5, hi_tb_22 v5, hi_tb_23 v5, hi_tb_24 v5, hi_tb_25 v5, hi_tb_26 v5, hi_tb_27 v5, hi_tb_16 v6, hi_tb_17 v6, hi_tb_18 v6, hi_tb_19 v6, hi_tb_20 v6, hi_tb_21 v6, hi_tb_22 v6, hi_tb_23 v6, hi_tb_24 v6, hi_tb_25 v6, hi_tb_26 v6, hi_tb_27 v6, hi_tb_16 v7, hi_tb_17 v7, hi_tb_18 v7, hi_tb_19 v7, hi_tb_20 v7, hi_tb_21 v7, hi_tb_22 v7, hi_tb_23 v7, hi_tb_24 v7, hi_tb_25 v7, hi_tb_26 v7, hi_tb_27 v7,
    Nat.testBit_xor, Nat.testBit_or,
    Bool.or_false, Bool.false_or, Bool.xor_false, Bool.false_xor, Bool.and_false,
    Bool.false_and, Bool.and_true, Bool.true_and]
  repeat' apply And.intro
  all_goals try (apply bitZ_inj; simp only [bitZ_xor, bitZ_bne]; abel_nf)
  all_goals try simp [show (2 : ZMod 2) = 0 by decide, show (3 : ZMod 2) = 1 by decide,
    show (4 : ZMod 2) = 0 by decide, show (5 : ZMod 2) = 1 by decide,
    show (6 : ZMod 2) = 0 by decide, show (7 : ZMod 2) = 1 by decide,
    show (8 : ZMod 2) = 0 by decide, show (9 : ZMod 2) = 1 by decide,
    show (10 : ZMod 2) = 0 by decide, show (11 : ZMod 2) = 1 by decide,
    show (12 : ZMod 2) = 0 by decide, show (13 : ZMod 2) = 1 by decide,
    show (14 : ZMod 2) = 0 by decide, show (15 : ZMod 2) = 1 by decide,
    show (16 : ZMod 2) = 0 by decide]

set_option maxHeartbeats 1000000 in
theorem invMixColumns_byteAt_11 {s : AES_state} (hs : s.Valid) :
    byteAt (InvMixColumns s) 11 =
      xtime (xtime (xtime (byteAt s 11 ^^^ byteAt s 15 ^^^ byteAt s 3 ^^^ byteAt s 7))) ^^^
        xtime (xtime (byteAt s 11 ^^^ byteAt s 3)) ^^^
        xtime (byteAt s 11 ^^^ byteAt s 15) ^^^
        (byteAt s 15 ^^^ byteAt s 3 ^^^ byteAt s 7) := by
  obtain ⟨v0, v1, v2, v3, v4, v5, v6, v7⟩ := hs
  unfold byteAt
  simp only [sliceBits, byteAssemble_xorP, xtime_byteAssemble]
  apply congrArg byteAssemble
  simp only [InvMixColumns, im12, im123, im0123, im02, mc01, mc123, rotC1_eq, rotC3_eq, Bits8.mk.injEq]
  simp only [shr4_tb_0, shr4_tb_1, shr4_tb_2, shr4_tb_3, shr4_tb_4, shr4_tb_5, shr4_tb_6, shr4_tb_7, shr4_tb_8, shr4_tb_9, shr4_tb_10, shr4_tb_11, shr4_tb_12, shr4_tb_13, shr4_tb_14, shr4_tb_15,
    shr12_tb_0, shr12_tb_1, shr12_tb_2, shr12_tb_3, shr12_tb_4, shr12_tb_5, shr12_tb_6, shr12_tb_7, shr12_tb_8, shr12_tb_9, shr12_tb_10, shr12_tb_11, shr12_tb_12, shr12_tb_13, shr12_tb_14, shr12_tb_15,
    shl12_tb_0, shl12_tb_1, shl12_tb_2, shl12_tb_3, shl12_tb_4, shl12_tb_5, shl12_tb_6, shl12_tb_7, shl12_tb_8, shl12_tb_9, shl12_tb_10, shl12_tb_11, shl12_tb_12, shl12_tb_13, shl12_tb_14, shl12_tb_15,
    shl4_tb_0, shl4_tb_1, shl4_tb_2, shl4_tb_3, shl4_tb_4, shl4_tb_5, shl4_tb_6, shl4_tb_7, shl4_tb_8, shl4_tb_9, shl4_tb_10, shl4_tb_11, shl4_tb_12, shl4_tb_13, shl4_tb_14, shl4_tb_15,
    mask16_tb_0, mask16_tb_1, mask16_tb_2, mask16_tb_3, mask16_tb_4, mask16_tb_5, mask16_tb_6, mask16_tb_7, mask16_tb_8, mask16_tb_9, mask16_tb_10, mask16_tb_11, mask16_tb_12, mask16_tb_13, mask16_tb_14, mask16_tb_15, mask16_tb_16, mask16_tb_17, mask16_tb_18, mask16_tb_19,
    hi_tb_16 v0, hi_tb_17 v0, hi_tb_18 v0, hi_tb_19 v0, hi_tb_20 v0, hi_tb_21 v0, hi_tb_22 v0, hi_tb_23 v0, hi_tb_24 v0, hi_tb_25 v0, hi_tb_26 v0, hi_tb_27 v0, hi_tb_16 v1, hi_tb_17 v1, hi_tb_18 v1, hi_tb_19 v1, hi_tb_20 v1, hi_tb_21 v1, hi_tb_22 v1, hi_tb_23 v1, hi_tb_24 v1, hi_tb_25 v1, hi_tb_26 v1, hi_tb_27 v1, hi_tb_16 v2, hi_tb_17 v2, hi_tb_18 v2, hi_tb_19 v2, hi_tb_20 v2, hi_tb_21 v2, hi_tb_22 v2, hi_tb_23 v2, hi_tb_24 v2, hi_tb_25 v2, hi_tb_26 v2, hi_tb_27 v2, hi_tb_16 v3, hi_tb_17 v3, hi_tb_18 v3, hi_tb_19 v3, hi_tb_20 v3, hi_tb_21 v3, hi_tb_22 v3, hi_tb_23 v3, hi_tb_24 v3, hi_tb_25 v3, hi_tb_26 v3, hi_tb_27 v3, hi_tb_16 v4, hi_tb_17 v4, hi_tb_18 v4, hi_tb_19 v4, hi_tb_20 v4, hi_tb_21 v4, hi_tb_22 v4, hi_tb_23 v4, hi_tb_24 v4, hi_tb_25 v4, hi_tb_26 v4, hi_tb_27 v4, hi_tb_16 v5, hi_tb_17 v5, hi_tb_18 v5, hi_tb_19 v5, hi_tb_20 v5, hi_tb_21 v5, hi_tb_22 v5, hi_tb_23 v5, hi_tb_24 v5, hi_tb_25 v5, hi_tb_26 v5, hi_tb_27 v5, hi_tb_16 v6, hi_tb_17 v6, hi_tb_18 v6, hi_tb_19 v6, hi_tb_20 v6, hi_tb_21 v6, hi_tb_22 v6, hi_tb_23 v6, hi_tb_24 v6, hi_tb_25 v6, hi_tb_26 v6, hi_tb_27 v6, hi_tb_16 v7, hi_tb_17 v7, hi_tb_18 v7, hi_tb_19 v7, hi_tb_20 v7, hi_tb_21 v7, hi_tb_22 v7, hi_tb_23 v7, hi_tb_24 v7, hi_tb_25 v7, hi_tb_26 v7, hi_tb_27 v7,
    Nat.testBit_xor, Nat.testBit_or,
    Bool.or_false, Bool.false_or, Bool.xor_false, Bool.false_xor, Bool.and_false,
    Bool.false_and, Bool.and_true, Bool.true_and]
  repeat' apply And.intro
  all_goals try (apply bitZ_inj; simp only [bitZ_xor, bitZ_bne]; abel_nf)
  all_goals try simp [show (2 : ZMod 2) = 0 by decide, show (3 : ZMod 2) = 1 by decide,
    show (4 : ZMod 2) = 0 by decide, show (5 : ZMod 2) = 1 by decide,
    show (6 : ZMod 2) = 0 by decide, show (7 : ZMod 2) = 1 by decide,
    show (8 : ZMod 2) = 0 by decide, show (9 : ZMod 2) = 1 by decide,
    show (10 : ZMod 2) = 0 by decide, show (11 : ZMod 2) = 1 by decide,
    show (12 : ZMod 2) = 0 by decide, show (13 : ZMod 2) = 1 by decide,
    show (14 : ZMod 2) = 0 by decide, show (15 : ZMod 2) = 1 by decide,
    show (16 : ZMod 2) = 0 by decide]

set_option maxHeartbeats 1000000 in
theorem invMixColumns_byteAt_12 {s : AES_state} (hs : s.Valid) :
    byteAt (InvMixColumns s) 12 =
      xtime (xtime (xtime (byteAt s 12 ^^^ byteAt s 0 ^^^ byteAt s 4 ^^^ byteAt s 8))) ^^^
        xtime (xtime (byteAt s 12 ^^^ byteAt s 4)) ^^^
        xtime (byteAt s 12 ^^^ byteAt s 0) ^^^
        (byteAt s 0 ^^^ byteAt s 4 ^^^ byteAt s 8) := by
  obtain ⟨v0, v1, v2, v3, v4, v5, v6, v7⟩ := hs
  unfold byteAt
  simp only [sliceBits, byteAssemble_xorP, xtime_byteAssemble]
  apply congrArg byteAssemble
  simp only [InvMixColumns, im12, im123, im0123, im02, mc01, mc123, rotC1_eq, rotC3_eq, Bits8.mk.injEq]
  simp only [shr4_tb_0, shr4_tb_1, shr4_tb_2, shr4_tb_3, shr4_tb_4, shr4_tb_5, shr4_tb_6, shr4_tb_7, shr4_tb_8, shr4_tb_9, shr4_tb_10, shr4_tb_11, shr4_tb_12, shr4_tb_13, shr4_tb_14, shr4_tb_15,
    shr12_tb_0, shr12_tb_1, shr12_tb_2, shr12_tb_3, shr12_tb_4, shr12_tb_5, shr12_tb_6, shr12_tb_7, shr12_tb_8, shr12_tb_9, shr12_tb_10, shr12_tb_11, shr12_tb_12, shr12_tb_13, shr12_tb_14, shr12_tb_15,
    shl12_tb_0, shl12_tb_1, shl12_tb_2, shl12_tb_3, shl12_tb_4, shl12_tb_5, shl12_tb_6, shl12_tb_7, shl12_tb_8, shl12_tb_9, shl12_tb_10, shl12_tb_11, shl12_tb_12, shl12_tb_13, shl12_tb_14, shl12_tb_15,
    shl4_tb_0, shl4_tb_1, shl4_tb_2, shl4_tb_3, shl4_tb_4, shl4_tb_5, shl4_tb_6, shl4_tb_7, shl4_tb_8, shl4_tb_9, shl4_tb_10, shl4_tb_11, shl4_tb_12, shl4_tb_13, shl4_tb_14, shl4_tb_15,
    mask16_tb_0, mask16_tb_1, mask16_tb_2, mask16_tb_3, mask16_tb_4, mask16_tb_5, mask16_tb_6, mask16_tb_7, mask16_tb_8, mask16_tb_9, mask16_tb_10, mask16_tb_11, mask16_tb_12, mask16_tb_13, mask16_tb_14, mask16_tb_15, mask16_tb_16, mask16_tb_17, mask16_tb_18, mask16_tb_19,
    hi_tb_16 v0, hi_tb_17 v0, hi_tb_18 v0, hi_tb_19 v0, hi_tb_20 v0, hi_tb_21 v0, hi_tb_22 v0, hi_tb_23 v0, hi_tb_24 v0, hi_tb_25 v0, hi_tb_26 v0, hi_tb_27 v0, hi_tb_16 v1, hi_tb_17 v1, hi_tb_18 v1, hi_tb_19 v1, hi_tb_20 v1, hi_tb_21 v1, hi_tb_22 v1, hi_tb_23 v1, hi_tb_24 v1, hi_tb_25 v1, hi_tb_26 v1, hi_tb_27 v1, hi_tb_16 v2, hi_tb_17 v2, hi_tb_18 v2, hi_tb_19 v2, hi_tb_20 v2, hi_tb_21 v2, hi_tb_22 v2, hi_tb_23 v2, hi_tb_24 v2, hi_tb_25 v2, hi_tb_26 v2, hi_tb_27 v2, hi_tb_16 v3, hi_tb_17 v3, hi_tb_18 v3, hi_tb_19 v3, hi_tb_20 v3, hi_tb_21 v3, hi_tb_22 v3, hi_tb_23 v3, hi_tb_24 v3, hi_tb_25 v3, hi_tb_26 v3, hi_tb_27 v3, hi_tb_16 v4, hi_tb_17 v4, hi_tb_18 v4, hi_tb_19 v4, hi_tb_20 v4, hi_tb_21 v4, hi_tb_22 v4, hi_tb_23 v4, hi_tb_24 v4, hi_tb_25 v4, hi_tb_26 v4, hi_tb_27 v4, hi_tb_16 v5, hi_tb_17 v5, hi_tb_18 v5, hi_tb_19 v5, hi_tb_20 v5, hi_tb_21 v5, hi_tb_22 v5, hi_tb_23 v5, hi_tb_24 v5, hi_tb_25 v5, hi_tb_26 v5, hi_tb_27 v5, hi_tb_16 v6, hi_tb_17 v6, hi_tb_18 v6, hi_tb_19 v6, hi_tb_20 v6, hi_tb_21 v6, hi_tb_22 v6, hi_tb_23 v6, hi_tb_24 v6, hi_tb_25 v6, hi_tb_26 v6, hi_tb_27 v6, hi_tb_16 v7, hi_tb_17 v7, hi_tb_18 v7, hi_tb_19 v7, hi_tb_20 v7, hi_tb_21 v7, hi_tb_22 v7, hi_tb_23 v7, hi_tb_24 v7, hi_tb_25 v7, hi_tb_26 v7, hi_tb_27 v7,
    Nat.testBit_xor, Nat.testBit_or,
    Bool.or_false, Bool.false_or, Bool.xor_false, Bool.false_xor, Bool.and_false,
    Bool.false_and, Bool.and_true, Bool.true_and]
  repeat' apply And.intro
  all_goals try (apply bitZ_inj; simp only [bitZ_xor, bitZ_bne]; abel_nf)
  all_goals try simp [show (2 : ZMod 2) = 0 by decide, show (3 : ZMod 2) = 1 by decide,
    show (4 : ZMod 2) = 0 by decide, show (5 : ZMod 2) = 1 by decide,
    show (6 : ZMod 2) = 0 by decide, show (7 : ZMod 2) = 1 by decide,
    show (8 : ZMod 2) = 0 by decide, show (9 : ZMod 2) = 1 by decide,
    show (10 : ZMod 2) = 0 by decide, show (11 : ZMod 2) = 1 by decide,
    show (12 : ZMod 2) = 0 by decide, show (13 : ZMod 2) = 1 by decide,
    show (14 : ZMod 2) = 0 by decide, show (15 : ZMod 2) = 1 by decide,
    show (16 : ZMod 2) = 0 by decide]

set_option maxHeartbeats 1000000 in
theorem invMixColumns_byteAt_13 {s : AES_state} (hs : s.Valid) :
    byteAt (InvMixColumns s) 13 =
      xtime (xtime (xtime (byteAt s 13 ^^^ byteAt s 1 ^^^ byteAt s 5 ^^^ byteAt s 9))) ^^^
        xtime (xtime (byteAt s 13 ^^^ byteAt s 5)) ^^^
        xtime (byteAt s 13 ^^^ byteAt s 1) ^^^
        (byteAt s 1 ^^^ byteAt s 5 ^^^ byteAt s 9) := by
  obtain ⟨v0, v1, v2, v3, v4, v5, v6, v7⟩ := hs
  unfold byteAt
  simp only [sliceBits, byteAssemble_xorP, xtime_byteAssemble]
  apply congrArg byteAssemble
  simp only [InvMixColumns, im12, im123, im0123, im02, mc01, mc123, rotC1_eq, rotC3_eq, Bits8.mk.injEq]
  simp only [shr4_tb_0, shr4_tb_1, shr4_tb_2, shr4_tb_3, shr4_tb_4, shr4_tb_5, shr4_tb_6, shr4_tb_7, shr4_tb_8, shr4_tb_9, shr4_tb_10, shr4_tb_11, shr4_tb_12, shr4_tb_13, shr4_tb_14, shr4_tb_15,
    shr12_tb_0, shr12_tb_1, shr12_tb_2, shr12_tb_3, shr12_tb_4, shr12_tb_5, shr12_tb_6, shr12_tb_7, shr12_tb_8, shr12_tb_9, shr12_tb_10, shr12_tb_11, shr12_tb_12, shr12_tb_13, shr12_tb_14, shr12_tb_15,
    shl12_tb_0, shl12_tb_1, shl12_tb_2, shl12_tb_3, shl12_tb_4, shl12_tb_5, shl12_tb_6, shl12_tb_7, shl12_tb_8, shl12_tb_9, shl12_tb_10, shl12_tb_11, shl12_tb_12, shl12_tb_13, shl12_tb_14, shl12_tb_15,
    shl4_tb_0, shl4_tb_1, shl4_tb_2, shl4_tb_3, shl4_tb_4, shl4_tb_5, shl4_tb_6, shl4_tb_7, shl4_tb_8, shl4_tb_9, shl4_tb_10, shl4_tb_11, shl4_tb_12, shl4_tb_13, shl4_tb_14, shl4_tb_15,
    mask16_tb_0, mask16_tb_1, mask16_tb_2, mask16_tb_3, mask16_tb_4, mask16_tb_5, mask16_tb_6, mask16_tb_7, mask16_tb_8, mask16_tb_9, mask16_tb_10, mask16_tb_11, mask16_tb_12, mask16_tb_13, mask16_tb_14, mask16_tb_15, mask16_tb_16, mask16_tb_17, mask16_tb_18, mask16_tb_19,
    hi_tb_16 v0, hi_tb_17 v0, hi_tb_18 v0, hi_tb_19 v0, hi_tb_20 v0, hi_tb_21 v0, hi_tb_22 v0, hi_tb_23 v0, hi_tb_24 v0, hi_tb_25 v0, hi_tb_26 v0, hi_tb_27 v0, hi_tb_16 v1, hi_tb_17 v1, hi_tb_18 v1, hi_tb_19 v1, hi_tb_20 v1, hi_tb_21 v1, hi_tb_22 v1, hi_tb_23 v1, hi_tb_24 v1, hi_tb_25 v1, hi_tb_26 v1, hi_tb_27 v1, hi_tb_16 v2, hi_tb_17 v2, hi_tb_18 v2, hi_tb_19 v2, hi_tb_20 v2, hi_tb_21 v2, hi_tb_22 v2, hi_tb_23 v2, hi_tb_24 v2, hi_tb_25 v2, hi_tb_26 v2, hi_tb_27 v2, hi_tb_16 v3, hi_tb_17 v3, hi_tb_18 v3, hi_tb_19 v3, hi_tb_20 v3, hi_tb_21 v3, hi_tb_22 v3, hi_tb_23 v3, hi_tb_24 v3, hi_tb_25 v3, hi_tb_26 v3, hi_tb_27 v3, hi_tb_16 v4, hi_tb_17 v4, hi_tb_18 v4, hi_tb_19 v4, hi_tb_20 v4, hi_tb_21 v4, hi_tb_22 v4, hi_tb_23 v4, hi_tb_24 v4, hi_tb_25 v4, hi_tb_26 v4, hi_tb_27 v4, hi_tb_16 v5, hi_tb_17 v5, hi_tb_18 v5, hi_tb_19 v5, hi_tb_20 v5, hi_tb_21 v5, hi_tb_22 v5, hi_tb_23 v5, hi_tb_24 v5, hi_tb_25 v5, hi_tb_26 v5, hi_tb_27 v5, hi_tb_16 v6, hi_tb_17 v6, hi_tb_18 v6, hi_tb_19 v6, hi_tb_20 v6, hi_tb_21 v6, hi_tb_22 v6, hi_tb_23 v6, hi_tb_24 v6, hi_tb_25 v6, hi_tb_26 v6, hi_tb_27 v6, hi_tb_16 v7, hi_tb_17 v7, hi_tb_18 v7, hi_tb_19 v7, hi_tb_20 v7, hi_tb_21 v7, hi_tb_22 v7, hi_tb_23 v7, hi_tb_24 v7, hi_tb_25 v7, hi_tb_26 v7, hi_tb_27 v7,
    Nat.testBit_xor, Nat.testBit_or,
    Bool.or_false, Bool.false_or, Bool.xor_false, Bool.false_xor, Bool.and_false,
    Bool.false_and, Bool.and_true, Bool.true_and]
  repeat' apply And.intro
  all_goals try (apply bitZ_inj; simp only [bitZ_xor, bitZ_bne]; abel_nf)
  all_goals try simp [show (2 : ZMod 2) = 0 by decide, show (3 : ZMod 2) = 1 by decide,
    show (4 : ZMod 2) = 0 by decide, show (5 : ZMod 2) = 1 by decide,
    show (6 : ZMod 2) = 0 by decide, show (7 : ZMod 2) = 1 by decide,
    show (8 : ZMod 2) = 0 by decide, show (9 : ZMod 2) = 1 by decide,
    show (10 : ZMod 2) = 0 by decide, show (11 : ZMod 2) = 1 by decide,
    show (12 : ZMod 2) = 0 by decide, show (13 : ZMod 2) = 1 by decide,
    show (14 : ZMod 2) = 0 by decide, show (15 : ZMod 2) = 1 by decide,
    show (16 : ZMod 2) = 0 by decide]

set_option maxHeartbeats 1000000 in
theorem invMixColumns_byteAt_14 {s : AES_state} (hs : s.Valid) :
    byteAt (InvMixColumns s) 14 =
      xtime (xtime (xtime (byteAt s 14 ^^^ byteAt s 2 ^^^ byteAt s 6 ^^^ byteAt s 10))) ^^^
        xtime (xtime (byteAt s 14 ^^^ byteAt s 6)) ^^^
        xtime (byteAt s 14 ^^^ byteAt s 2) ^^^
        (byteAt s 2 ^^^ byteAt s 6 ^^^ byteAt s 10) := by
  obtain ⟨v0, v1, v2, v3, v4, v5, v6, v7⟩ := hs
  unfold byteAt
  simp only [sliceBits, byteAssemble_xorP, xtime_byteAssemble]
  apply congrArg byteAssemble
  simp only [InvMixColumns, im12, im123, im0123, im02, mc01, mc123, rotC1_eq, rotC3_eq, Bits8.mk.injEq]
  simp only [shr4_tb_0, shr4_tb_1, shr4_tb_2, shr4_tb_3, shr4_tb_4, shr4_tb_5, shr4_tb_6, shr4_tb_7, shr4_tb_8, shr4_tb_9, shr4_tb_10, shr4_tb_11, shr4_tb_12, shr4_tb_13, shr4_tb_14, shr4_tb_15,
    shr12_tb_0, shr12_tb_1, shr12_tb_2, shr12_tb_3, shr12_tb_4, shr12_tb_5, shr12_tb_6, shr12_tb_7, shr12_tb_8, shr12_tb_9, shr12_tb_10, shr12_tb_11, shr12_tb_12, shr12_tb_13, shr12_tb_14, shr12_tb_15,
    shl12_tb_0, shl12_tb_1, shl12_tb_2, shl12_tb_3, shl12_tb_4, shl12_tb_5, shl12_tb_6, shl12_tb_7, shl12_tb_8, shl12_tb_9, shl12_tb_10, shl12_tb_11, shl12_tb_12, shl12_tb_13, shl12_tb_14, shl12_tb_15,
    shl4_tb_0, shl4_tb_1, shl4_tb_2, shl4_tb_3, shl4_tb_4, shl4_tb_5, shl4_tb_6, shl4_tb_7, shl4_tb_8, shl4_tb_9, shl4_tb_10, shl4_tb_11, shl4_tb_12, shl4_tb_13, shl4_tb_14, shl4_tb_15,
    mask16_tb_0, mask16_tb_1, mask16_tb_2, mask16_tb_3, mask16_tb_4, mask16_tb_5, mask16_tb_6, mask16_tb_7, mask16_tb_8, mask16_tb_9, mask16_tb_10, mask16_tb_11, mask16_tb_12, mask16_tb_13, mask16_tb_14, mask16_tb_15, mask16_tb_16, mask16_tb_17, mask16_tb_18, mask16_tb_19,
    hi_tb_16 v0, hi_tb_17 v0, hi_tb_18 v0, hi_tb_19 v0, hi_tb_20 v0, hi_tb_21 v0, hi_tb_22 v0, hi_tb_23 v0, hi_tb_24 v0, hi_tb_25 v0, hi_tb_26 v0, hi_tb_27 v0, hi_tb_16 v1, hi_tb_17 v1, hi_tb_18 v1, hi_tb_19 v1, hi_tb_20 v1, hi_tb_21 v1, hi_tb_22 v1, hi_tb_23 v1, hi_tb_24 v1, hi_tb_25 v1, hi_tb_26 v1, hi_tb_27 v1, hi_tb_16 v2, hi_tb_17 v2, hi_tb_18 v2, hi_tb_19 v2, hi_tb_20 v2, hi_tb_21 v2, hi_tb_22 v2, hi_tb_23 v2, hi_tb_24 v2, hi_tb_25 v2, hi_tb_26 v2, hi_tb_27 v2, hi_tb_16 v3, hi_tb_17 v3, hi_tb_18 v3, hi_tb_19 v3, hi_tb_20 v3, hi_tb_21 v3, hi_tb_22 v3, hi_tb_23 v3, hi_tb_24 v3, hi_tb_25 v3, hi_tb_26 v3, hi_tb_27 v3, hi_tb_16 v4, hi_tb_17 v4, hi_tb_18 v4, hi_tb_19 v4, hi_tb_20 v4, hi_tb_21 v4, hi_tb_22 v4, hi_tb_23 v4, hi_tb_24 v4, hi_tb_25 v4, hi_tb_26 v4, hi_tb_27 v4, hi_tb_16 v5, hi_tb_17 v5, hi_tb_18 v5, hi_tb_19 v5, hi_tb_20 v5, hi_tb_21 v5, hi_tb_22 v5, hi_tb_23 v5, hi_tb_24 v5, hi_tb_25 v5, hi_tb_26 v5, hi_tb_27 v5, hi_tb_16 v6, hi_tb_17 v6, hi_tb_18 v6, hi_tb_19 v6, hi_tb_20 v6, hi_tb_21 v6, hi_tb_22 v6, hi_tb_23 v6, hi_tb_24 v6, hi_tb_25 v6, hi_tb_26 v6, hi_tb_27 v6, hi_tb_16 v7, hi_tb_17 v7, hi_tb_18 v7, hi_tb_19 v7, hi_tb_20 v7, hi_tb_21 v7, hi_tb_22 v7, hi_tb_23 v7, hi_tb_24 v7, hi_tb_25 v7, hi_tb_26 v7, hi_tb_27 v7,
    Nat.testBit_xor, Nat.testBit_or,
    Bool.or_false, Bool.false_or, Bool.xor_false, Bool.false_xor, Bool.and_false,
    Bool.false_and, Bool.and_true, Bool.true_and]
  repeat' apply And.intro
  all_goals try (apply bitZ_inj; simp only [bitZ_xor, bitZ_bne]; abel_nf)
  all_goals try simp [show (2 : ZMod 2) = 0 by decide, show (3 : ZMod 2) = 1 by decide,
    show (4 : ZMod 2) = 0 by decide, show (5 : ZMod 2) = 1 by decide,
    show (6 : ZMod 2) = 0 by decide, show (7 : ZMod 2) = 1 by decide,
    show (8 : ZMod 2) = 0 by decide, show (9 : ZMod 2) = 1 by decide,
    show (10 : ZMod 2) = 0 by decide, show (11 : ZMod 2) = 1 by decide,
    show (12 : ZMod 2) = 0 by decide, show (13 : ZMod 2) = 1 by decide,
    show (14 : ZMod 2) = 0 by decide, show (15 : ZMod 2) = 1 by decide,
    show (16 : ZMod 2) = 0 by decide]

set_option maxHeartbeats 1000000 in
theorem invMixColumns_byteAt_15 {s : AES_state} (hs : s.Valid) :
    byteAt (InvMixColumns s) 15 =
      xtime (xtime (xtime (byteAt s 15 ^^^ byteAt s 3 ^^^ byteAt s 7 ^^^ byteAt s 11))) ^^^
        xtime (xtime (byteAt s 15 ^^^ byteAt s 7)) ^^^
        xtime (byteAt s 15 ^^^ byteAt s 3) ^^^
        (byteAt s 3 ^^^ byteAt s 7 ^^^ byteAt s 11) := by
  obtain ⟨v0, v1, v2, v3, v4, v5, v6, v7⟩ := hs
  unfold byteAt
  simp only [sliceBits, byteAssemble_xorP, xtime_byteAssemble]
  apply congrArg byteAssemble
  simp only [InvMixColumns, im12, im123, im0123, im02, mc01, mc123, rotC1_eq, rotC3_eq, Bits8.mk.injEq]
  simp only [shr4_tb_0, shr4_tb_1, shr4_tb_2, shr4_tb_3, shr4_tb_4, shr4_tb_5, shr4_tb_6, shr4_tb_7, shr4_tb_8, shr4_tb_9, shr4_tb_10, shr4_tb_11, shr4_tb_12, shr4_tb_13, shr4_tb_14, shr4_tb_15,
    shr12_tb_0, shr12_tb_1, shr12_tb_2, shr12_tb_3, shr12_tb_4, shr12_tb_5, shr12_tb_6, shr12_tb_7, shr12_tb_8, shr12_tb_9, shr12_tb_10, shr12_tb_11, shr12_tb_12, shr12_tb_13, shr12_tb_14, shr12_tb_15,
    shl12_tb_0, shl12_tb_1, shl12_tb_2, shl12_tb_3, shl12_tb_4, shl12_tb_5, shl12_tb_6, shl12_tb_7, shl12_tb_8, shl12_tb_9, shl12_tb_10, shl12_tb_11, shl12_tb_12, shl12_tb_13, shl12_tb_14, shl12_tb_15,
    shl4_tb_0, shl4_tb_1, shl4_tb_2, shl4_tb_3, shl4_tb_4, shl4_tb_5, shl4_tb_6, shl4_tb_7, shl4_tb_8, shl4_tb_9, shl4_tb_10, shl4_tb_11, shl4_tb_12, shl4_tb_13, shl4_tb_14, shl4_tb_15,
    mask16_tb_0, mask16_tb_1, mask16_tb_2, mask16_tb_3, mask16_tb_4, mask16_tb_5, mask16_tb_6, mask16_tb_7, mask16_tb_8, mask16_tb_9, mask16_tb_10, mask16_tb_11, mask16_tb_12, mask16_tb_13, mask16_tb_14, mask16_tb_15, mask16_tb_16, mask16_tb_17, mask16_tb_18, mask16_tb_19,
    hi_tb_16 v0, hi_tb_17 v0, hi_tb_18 v0, hi_tb_19 v0, hi_tb_20 v0, hi_tb_21 v0, hi_tb_22 v0, hi_tb_23 v0, hi_tb_24 v0, hi_tb_25 v0, hi_tb_26 v0, hi_tb_27 v0, hi_tb_16 v1, hi_tb_17 v1, hi_tb_18 v1, hi_tb_19 v1, hi_tb_20 v1, hi_tb_21 v1, hi_tb_22 v1, hi_tb_23 v1, hi_tb_24 v1, hi_tb_25 v1, hi_tb_26 v1, hi_tb_27 v1, hi_tb_16 v2, hi_tb_17 v2, hi_tb_18 v2, hi_tb_19 v2, hi_tb_20 v2, hi_tb_21 v2, hi_tb_22 v2, hi_tb_23 v2, hi_tb_24 v2, hi_tb_25 v2, hi_tb_26 v2, hi_tb_27 v2, hi_tb_16 v3, hi_tb_17 v3, hi_tb_18 v3, hi_tb_19 v3, hi_tb_20 v3, hi_tb_21 v3, hi_tb_22 v3, hi_tb_23 v3, hi_tb_24 v3, hi_tb_25 v3, hi_tb_26 v3, hi_tb_27 v3, hi_tb_16 v4, hi_tb_17 v4, hi_tb_18 v4, hi_tb_19 v4, hi_tb_20 v4, hi_tb_21 v4, hi_tb_22 v4, hi_tb_23 v4, hi_tb_24 v4, hi_tb_25 v4, hi_tb_26 v4, hi_tb_27 v4, hi_tb_16 v5, hi_tb_17 v5, hi_tb_18 v5, hi_tb_19 v5, hi_tb_20 v5, hi_tb_21 v5, hi_tb_22 v5, hi_tb_23 v5, hi_tb_24 v5, hi_tb_25 v5, hi_tb_26 v5, hi_tb_27 v5, hi_tb_16 v6, hi_tb_17 v6, hi_tb_18 v6, hi_tb_19 v6, hi_tb_20 v6, hi_tb_21 v6, hi_tb_22 v6, hi_tb_23 v6, hi_tb_24 v6, hi_tb_25 v6, hi_tb_26 v6, hi_tb_27 v6, hi_tb_16 v7, hi_tb_17 v7, hi_tb_18 v7, hi_tb_19 v7, hi_tb_20 v7, hi_tb_21 v7, hi_tb_22 v7, hi_tb_23 v7, hi_tb_24 v7, hi_tb_25 v7, hi_tb_26 v7, hi_tb_27 v7,
    Nat.testBit_xor, Nat.testBit_or,
    Bool.or_false, Bool.false_or, Bool.xor_false, Bool.false_xor, Bool.and_false,
    Bool.false_and, Bool.and_true, Bool.true_and]
  repeat' apply And.intro
  all_goals try (apply bitZ_inj; simp only [bitZ_xor, bitZ_bne]; abel_nf)
  all_goals try simp [show (2 : ZMod 2) = 0 by decide, show (3 : ZMod 2) = 1 by decide,
    show (4 : ZMod 2) = 0 by decide, show (5 : ZMod 2) = 1 by decide,
    show (6 : ZMod 2) = 0 by decide, show (7 : ZMod 2) = 1 by decide,
    show (8 : ZMod 2) = 0 by decide, show (9 : ZMod 2) = 1 by decide,
    show (10 : ZMod 2) = 0 by decide, show (11 : ZMod 2) = 1 by decide,
    show (12 : ZMod 2) = 0 by decide, show (13 : ZMod 2) = 1 by decide,
    show (14 : ZMod 2) = 0 by decide, show (15 : ZMod 2) = 1 by decide,
    show (16 : ZMod 2) = 0 by decide]

set_option maxHeartbeats 1000000 in
/-- The InvMixColumns byte formula inverts the MixColumns byte formula on one
column (row-shift invariant form). -/
theorem invFormula_mixFormula (A0 A1 A2 A3 : Bits8) :
    xtime (xtime (xtime ((xtime (byteAssemble A0) ^^^ (xtime (byteAssemble A1) ^^^ byteAssemble A1) ^^^ byteAssemble A2 ^^^ byteAssemble A3) ^^^ (xtime (byteAssemble A1) ^^^ (xtime (byteAssemble A2) ^^^ byteAssemble A2) ^^^ byteAssemble A3 ^^^ byteAssemble A0) ^^^ (xtime (byteAssemble A2) ^^^ (xtime (byteAssemble A3) ^^^ byteAssemble A3) ^^^ byteAssemble A0 ^^^ byteAssemble A1) ^^^ (xtime (byteAssemble A3) ^^^ (xtime (byteAssemble A0) ^^^ byteAssemble A0) ^^^ byteAssemble A1 ^^^ byteAssemble A2)))) ^^^
      xtime (xtime ((xtime (byteAssemble A0) ^^^ (xtime (byteAssemble A1) ^^^ byteAssemble A1) ^^^ byteAssemble A2 ^^^ byteAssemble A3) ^^^ (xtime (byteAssemble A2) ^^^ (xtime (byteAssemble A3) ^^^ byteAssemble A3) ^^^ byteAssemble A0 ^^^ byteAssemble A1))) ^^^ xtime ((xtime (byteAssemble A0) ^^^ (xtime (byteAssemble A1) ^^^ byteAssemble A1) ^^^ byteAssemble A2 ^^^ byteAssemble A3) ^^^ (xtime (byteAssemble A1) ^^^ (xtime (byteAssemble A2) ^^^ byteAssemble A2) ^^^ byteAssemble A3 ^^^ byteAssemble A0)) ^^^ ((xtime (byteAssemble A1) ^^^ (xtime (byteAssemble A2) ^^^ byteAssemble A2) ^^^ byteAssemble A3 ^^^ byteAssemble A0) ^^^ (xtime (byteAssemble A2) ^^^ (xtime (byteAssemble A3) ^^^ byteAssemble A3) ^^^ byteAssemble A0 ^^^ byteAssemble A1) ^^^ (xtime (byteAssemble A3) ^^^ (xtime (byteAssemble A0) ^^^ byteAssemble A0) ^^^ byteAssemble A1 ^^^ byteAssemble A2)) = byteAssemble A0 := by
  obtain ⟨a0, a1, a2, a3, a4, a5, a6, a7⟩ := A0
  obtain ⟨b0, b1, b2, b3, b4, b5, b6, b7⟩ := A1
  obtain ⟨c0, c1, c2, c3, c4, c5, c6, c7⟩ := A2
  obtain ⟨d0, d1, d2, d3, d4, d5, d6, d7⟩ := A3
  simp only [byteAssemble_xorP, xtime_byteAssemble]
  apply congrArg byteAssemble
  simp only [Bits8.mk.injEq]
  repeat' apply And.intro
  all_goals try (apply bitZ_inj; simp only [bitZ_xor, bitZ_bne]; abel_nf)
  all_goals try simp [show (2 : ZMod 2) = 0 by decide, show (3 : ZMod 2) = 1 by decide,
    show (4 : ZMod 2) = 0 by decide, show (5 : ZMod 2) = 1 by decide,
    show (6 : ZMod 2) = 0 by decide, show (7 : ZMod 2) = 1 by decide,
    show (8 : ZMod 2) = 0 by decide, show (9 : ZMod 2) = 1 by decide,
    show (10 : ZMod 2) = 0 by decide, show (11 : ZMod 2) = 1 by decide,
    show (12 : ZMod 2) = 0 by decide, show (13 : ZMod 2) = 1 by decide,
    show (14 : ZMod 2) = 0 by decide, show (15 : ZMod 2) = 1 by decide,
    show (16 : ZMod 2) = 0 by decide]

theorem sliceBits_eq_of_byteAt {s t : AES_state} {p : Nat} (h : byteAt s p = byteAt t p) :
    sliceBits s p = sliceBits t p := by
  have h2 : byteBits (byteAssemble (sliceBits s p)) = byteBits (byteAssemble (sliceBits t p)) :=
    congrArg byteBits h
  rwa [byteBits_byteAssemble, byteBits_byteAssemble] at h2

/-- InvMixColumns undoes MixColumns on every valid bit-sliced state. -/
theorem invMixColumns_mixColumns {s : AES_state} (hs : s.Valid) :
    InvMixColumns (MixColumns s) = s := by
  have hv := mixColumns_valid s
  apply state_ext_bits (invMixColumns_valid hv) hs
  intro p hp
  apply sliceBits_eq_of_byteAt
  interval_cases p
  · rw [invMixColumns_byteAt_0 hv, mixColumns_byteAt_0 hs, mixColumns_byteAt_4 hs,
      mixColumns_byteAt_8 hs, mixColumns_byteAt_12 hs]
    exact invFormula_mixFormula (sliceBits s 0) (sliceBits s 4) (sliceBits s 8)
      (sliceBits s 12)
  · rw [invMixColumns_byteAt_1 hv, mixColumns_byteAt_1 hs, mixColumns_byteAt_5 hs,
      mixColumns_byteAt_9 hs, mixColumns_byteAt_13 hs]
    exact invFormula_mixFormula (sliceBits s 1) (sliceBits s 5) (sliceBits s 9)
      (sliceBits s 13)
  · rw [invMixColumns_byteAt_2 hv, mixColumns_byteAt_2 hs, mixColumns_byteAt_6 hs,
      mixColumns_byteAt_10 hs, mixColumns_byteAt_14 hs]
    exact invFormula_mixFormula (sliceBits s 2) (sliceBits s 6) (sliceBits s 10)
      (sliceBits s 14)
  · rw [invMixColumns_byteAt_3 hv, mixColumns_byteAt_3 hs, mixColumns_byteAt_7 hs,
      mixColumns_byteAt_11 hs, mixColumns_byteAt_15 hs]
    exact invFormula_mixFormula (sliceBits s 3) (sliceBits s 7) (sliceBits s 11)
      (sliceBits s 15)
  · rw [invMixColumns_byteAt_4 hv, mixColumns_byteAt_4 hs, mixColumns_byteAt_8 hs,
      mixColumns_byteAt_12 hs, mixColumns_byteAt_0 hs]
    exact invFormula_mixFormula (sliceBits s 4) (sliceBits s 8) (sliceBits s 12)
      (sliceBits s 0)
  · rw [invMixColumns_byteAt_5 hv, mixColumns_byteAt_5 hs, mixColumns_byteAt_9 hs,
      mixColumns_byteAt_13 hs, mixColumns_byteAt_1 hs]
    exact invFormula_mixFormula (sliceBits s 5) (sliceBits s 9) (sliceBits s 13)
      (sliceBits s 1)
  · rw [invMixColumns_byteAt_6 hv, mixColumns_byteAt_6 hs, mixColumns_byteAt_10 hs,
      mixColumns_byteAt_14 hs, mixColumns_byteAt_2 hs]
    exact invFormula_mixFormula (sliceBits s 6) (sliceBits s 10) (sliceBits s 14)
      (sliceBits s 2)
  · rw [invMixColumns_byteAt_7 hv, mixColumns_byteAt_7 hs, mixColumns_byteAt_11 hs,
      mixColumns_byteAt_15 hs, mixColumns_byteAt_3 hs]
    exact invFormula_mixFormula (sliceBits s 7) (sliceBits s 11) (sliceBits s 15)
      (sliceBits s 3)
  · rw [invMixColumns_byteAt_8 hv, mixColumns_byteAt_8 hs, mixColumns_byteAt_12 hs,
      mixColumns_byteAt_0 hs, mixColumns_byteAt_4 hs]
    exact invFormula_mixFormula (sliceBits s 8) (sliceBits s 12) (sliceBits s 0)
      (sliceBits s 4)
  · rw [invMixColumns_byteAt_9 hv, mixColumns_byteAt_9 hs, mixColumns_byteAt_13 hs,
      mixColumns_byteAt_1 hs, mixColumns_byteAt_5 hs]
    exact invFormula_mixFormula (sliceBits s 9) (sliceBits s 13) (sliceBits s 1)
      (sliceBits s 5)
  · rw [invMixColumns_byteAt_10 hv, mixColumns_byteAt_10 hs, mixColumns_byteAt_14 hs,
      mixColumns_byteAt_2 hs, mixColumns_byteAt_6 hs]
    exact invFormula_mixFormula (sliceBits s 10) (sliceBits s 14) (sliceBits s 2)
      (sliceBits s 6)
  · rw [invMixColumns_byteAt_11 hv, mixColumns_byteAt_11 hs, mixColumns_byteAt_15 hs,
      mixColumns_byteAt_3 hs, mixColumns_byteAt_7 hs]
    exact invFormula_mixFormula (sliceBits s 11) (sliceBits s 15) (sliceBits s 3)
      (sliceBits s 7)
  · rw [invMixColumns_byteAt_12 hv, mixColumns_byteAt_12 hs, mixColumns_byteAt_0 hs,
      mixColumns_byteAt_4 hs, mixColumns_byteAt_8 hs]
    exact invFormula_mixFormula (sliceBits s 12) (sliceBits s 0) (sliceBits s 4)
      (sliceBits s 8)
  · rw [invMixColumns_byteAt_13 hv, mixColumns_byteAt_13 hs, mixColumns_byteAt_1 hs,
      mixColumns_byteAt_5 hs, mixColumns_byteAt_9 hs]
    exact invFormula_mixFormula (sliceBits s 13) (sliceBits s 1) (sliceBits s 5)
      (sliceBits s 9)
  · rw [invMixColumns_byteAt_14 hv, mixColumns_byteAt_14 hs, mixColumns_byteAt_2 hs,
      mixColumns_byteAt_6 hs, mixColumns_byteAt_10 hs]
    exact invFormula_mixFormula (sliceBits s 14) (sliceBits s 2) (sliceBits s 6)
      (sliceBits s 10)
  · rw [invMixColumns_byteAt_15 hv, mixColumns_byteAt_15 hs, mixColumns_byteAt_3 hs,
      mixColumns_byteAt_7 hs, mixColumns_byteAt_11 hs]
    exact invFormula_mixFormula (sliceBits s 15) (sliceBits s 3) (sliceBits s 7)
      (sliceBits s 11)

/-- C5: on the decoded byte state, `MixColumns` is the FIPS-197 map
b(r,c) = 02*a(r,c) + (02*a(r+1,c) + a(r+1,c)) + a(r+2,c) + a(r+3,c) and
`InvMixColumns` is the 08/04/02/01 decomposition, with GF(2^8) multiplication
by 02 given by `xtime` and row indices mod 4. -/
theorem claim5_mix_columns_gf (s : AES_state) (hs : s.Valid) (r c : Fin 4) :
    byteAt (MixColumns s) (4 * r.val + c.val) =
      xtime (byteAt s (4 * r.val + c.val)) ^^^ (xtime (byteAt s (4 * ((r.val + 1) % 4) + c.val)) ^^^ byteAt s (4 * ((r.val + 1) % 4) + c.val)) ^^^ byteAt s (4 * ((r.val + 2) % 4) + c.val) ^^^ byteAt s (4 * ((r.val + 3) % 4) + c.val) ∧
    byteAt (InvMixColumns s) (4 * r.val + c.val) =
      xtime (xtime (xtime (byteAt s (4 * r.val + c.val) ^^^ byteAt s (4 * ((r.val + 1) % 4) + c.val) ^^^ byteAt s (4 * ((r.val + 2) % 4) + c.val) ^^^ byteAt s (4 * ((r.val + 3) % 4) + c.val)))) ^^^
        xtime (xtime (byteAt s (4 * r.val + c.val) ^^^ byteAt s (4 * ((r.val + 2) % 4) + c.val))) ^^^ xtime (byteAt s (4 * r.val + c.val) ^^^ byteAt s (4 * ((r.val + 1) % 4) + c.val)) ^^^ (byteAt s (4 * ((r.val + 1) % 4) + c.val) ^^^ byteAt s (4 * ((r.val + 2) % 4) + c.val) ^^^ byteAt s (4 * ((r.val + 3) % 4) + c.val)) := by
  fin_cases r <;> fin_cases c
  · exact ⟨mixColumns_byteAt_0 hs, invMixColumns_byteAt_0 hs⟩
  · exact ⟨mixColumns_byteAt_1 hs, invMixColumns_byteAt_1 hs⟩
  · exact ⟨mixColumns_byteAt_2 hs, invMixColumns_byteAt_2 hs⟩
  · exact ⟨mixColumns_byteAt_3 hs, invMixColumns_byteAt_3 hs⟩
  · exact ⟨mixColumns_byteAt_4 hs, invMixColumns_byteAt_4 hs⟩
  · exact ⟨mixColumns_byteAt_5 hs, invMixColumns_byteAt_5 hs⟩
  · exact ⟨mixColumns_byteAt_6 hs, invMixColumns_byteAt_6 hs⟩
  · exact ⟨mixColumns_byteAt_7 hs, invMixColumns_byteAt_7 hs⟩
  · exact ⟨mixColumns_byteAt_8 hs, invMixColumns_byteAt_8 hs⟩
  · exact ⟨mixColumns_byteAt_9 hs, invMixColumns_byteAt_9 hs⟩
  · exact ⟨mixColumns_byteAt_10 hs, invMixColumns_byteAt_10 hs⟩
  · exact ⟨mixColumns_byteAt_11 hs, invMixColumns_byteAt_11 hs⟩
  · exact ⟨mixColumns_byteAt_12 hs, invMixColumns_byteAt_12 hs⟩
  · exact ⟨mixColumns_byteAt_13 hs, invMixColumns_byteAt_13 hs⟩
  · exact ⟨mixColumns_byteAt_14 hs, invMixColumns_byteAt_14 hs⟩
  · exact ⟨mixColumns_byteAt_15 hs, invMixColumns_byteAt_15 hs⟩

/-- Witness for C5 at a concrete state and cell (0,0). -/
theorem claim5_mix_columns_gf_witness :
    byteAt (MixColumns ⟨1, 2, 3, 4, 5, 6, 7, 8⟩) 0 =
      xtime (byteAt ⟨1, 2, 3, 4, 5, 6, 7, 8⟩ 0) ^^^
        (xtime (byteAt ⟨1, 2, 3, 4, 5, 6, 7, 8⟩ 4) ^^^ byteAt ⟨1, 2, 3, 4, 5, 6, 7, 8⟩ 4) ^^^
        byteAt ⟨1, 2, 3, 4, 5, 6, 7, 8⟩ 8 ^^^ byteAt ⟨1, 2, 3, 4, 5, 6, 7, 8⟩ 12 ∧
    byteAt (InvMixColumns ⟨1, 2, 3, 4, 5, 6, 7, 8⟩) 0 =
      xtime (xtime (xtime (byteAt ⟨1, 2, 3, 4, 5, 6, 7, 8⟩ 0 ^^^ byteAt ⟨1, 2, 3, 4, 5, 6, 7, 8⟩ 4 ^^^
          byteAt ⟨1, 2, 3, 4, 5, 6, 7, 8⟩ 8 ^^^ byteAt ⟨1, 2, 3, 4, 5, 6, 7, 8⟩ 12))) ^^^
        xtime (xtime (byteAt ⟨1, 2, 3, 4, 5, 6, 7, 8⟩ 0 ^^^ byteAt ⟨1, 2, 3, 4, 5, 6, 7, 8⟩ 8)) ^^^
        xtime (byteAt ⟨1, 2, 3, 4, 5, 6, 7, 8⟩ 0 ^^^ byteAt ⟨1, 2, 3, 4, 5, 6, 7, 8⟩ 4) ^^^
        (byteAt ⟨1, 2, 3, 4, 5, 6, 7, 8⟩ 4 ^^^ byteAt ⟨1, 2, 3, 4, 5, 6, 7, 8⟩ 8 ^^^
          byteAt ⟨1, 2, 3, 4, 5, 6, 7, 8⟩ 12) :=
  claim5_mix_columns_gf ⟨1, 2, 3, 4, 5, 6, 7, 8⟩ (by decide) 0 0

/-- C10: each linear layer is directly undone by its inverse at the bit-sliced
level: InvShiftRows after ShiftRows and InvMixColumns after MixColumns restore
every valid state. -/
theorem claim10_linear_layer_inverses (s : AES_state) (hs : s.Valid) :
    InvShiftRows (ShiftRows s) = s ∧ InvMixColumns (MixColumns s) = s :=
  ⟨invShiftRows_shiftRows hs, invMixColumns_mixColumns hs⟩

/-- Witness for C10 at a concrete state. -/
theorem claim10_linear_layer_inverses_witness :
    InvShiftRows (ShiftRows ⟨1, 2, 3, 4, 5, 6, 7, 8⟩) = ⟨1, 2, 3, 4, 5, 6, 7, 8⟩ ∧
    InvMixColumns (MixColumns ⟨1, 2, 3, 4, 5, 6, 7, 8⟩) = ⟨1, 2, 3, 4, 5, 6, 7, 8⟩ :=
  claim10_linear_layer_inverses ⟨1, 2, 3, 4, 5, 6, 7, 8⟩ (by decide)
/-! ### C1: decrypt ∘ encrypt = id -/

set_option maxRecDepth 4096 in
/-- The inverse S-box gate network undoes the S-box gate network bitwise. -/
theorem invSubBytesBit_subBytesBit : ∀ a0 a1 a2 a3 a4 a5 a6 a7 : Bool,
    invSubBytesBit (subBytesBit a0 a1 a2 a3 a4 a5 a6 a7).b0
      (subBytesBit a0 a1 a2 a3 a4 a5 a6 a7).b1 (subBytesBit a0 a1 a2 a3 a4 a5 a6 a7).b2
      (subBytesBit a0 a1 a2 a3 a4 a5 a6 a7).b3 (subBytesBit a0 a1 a2 a3 a4 a5 a6 a7).b4
      (subBytesBit a0 a1 a2 a3 a4 a5 a6 a7).b5 (subBytesBit a0 a1 a2 a3 a4 a5 a6 a7).b6
      (subBytesBit a0 a1 a2 a3 a4 a5 a6 a7).b7 = ⟨a0, a1, a2, a3, a4, a5, a6, a7⟩ := by
  decide

/-- `InvSubBytes` undoes `SubBytes` on every valid state. -/
theorem invSubBytes_subBytes {s : AES_state} (hs : s.Valid) : InvSubBytes (SubBytes s) = s := by
  apply state_ext_bits (invSubBytes_valid (subBytes_valid hs)) hs
  intro p hp
  have h1 := subBytes_testBit s p hp
  have e0 : Nat.testBit (SubBytes s).s0 p = (subBytesBit (Nat.testBit s.s0 p)
      (Nat.testBit s.s1 p) (Nat.testBit s.s2 p) (Nat.testBit s.s3 p) (Nat.testBit s.s4 p)
      (Nat.testBit s.s5 p) (Nat.testBit s.s6 p) (Nat.testBit s.s7 p)).b0 :=
    congrArg Bits8.b0 h1
  have e1 : Nat.testBit (SubBytes s).s1 p = (subBytesBit (Nat.testBit s.s0 p)
      (Nat.testBit s.s1 p) (Nat.testBit s.s2 p) (Nat.testBit s.s3 p) (Nat.testBit s.s4 p)
      (Nat.testBit s.s5 p) (Nat.testBit s.s6 p) (Nat.testBit s.s7 p)).b1 :=
    congrArg Bits8.b1 h1
  have e2 : Nat.testBit (SubBytes s).s2 p = (subBytesBit (Nat.testBit s.s0 p)
      (Nat.testBit s.s1 p) (Nat.testBit s.s2 p) (Nat.testBit s.s3 p) (Nat.testBit s.s4 p)
      (Nat.testBit s.s5 p) (Nat.testBit s.s6 p) (Nat.testBit s.s7 p)).b2 :=
    congrArg Bits8.b2 h1
  have e3 : Nat.testBit (SubBytes s).s3 p = (subBytesBit (Nat.testBit s.s0 p)
      (Nat.testBit s.s1 p) (Nat.testBit s.s2 p) (Nat.testBit s.s3 p) (Nat.testBit s.s4 p)
      (Nat.testBit s.s5 p) (Nat.testBit s.s6 p) (Nat.testBit s.s7 p)).b3 :=
    congrArg Bits8.b3 h1
  have e4 : Nat.testBit (SubBytes s).s4 p = (subBytesBit (Nat.testBit s.s0 p)
      (Nat.testBit s.s1 p) (Nat.testBit s.s2 p) (Nat.testBit s.s3 p) (Nat.testBit s.s4 p)
      (Nat.testBit s.s5 p) (Nat.testBit s.s6 p) (Nat.testBit s.s7 p)).b4 :=
    congrArg Bits8.b4 h1
  have e5 : Nat.testBit (SubBytes s).s5 p = (subBytesBit (Nat.testBit s.s0 p)
      (Nat.testBit s.s1 p) (Nat.testBit s.s2 p) (Nat.testBit s.s3 p) (Nat.testBit s.s4 p)
      (Nat.testBit s.s5 p) (Nat.testBit s.s6 p) (Nat.testBit s.s7 p)).b5 :=
    congrArg Bits8.b5 h1
  have e6 : Nat.testBit (SubBytes s).s6 p = (subBytesBit (Nat.testBit s.s0 p)
      (Nat.testBit s.s1 p) (Nat.testBit s.s2 p) (Nat.testBit s.s3 p) (Nat.testBit s.s4 p)
      (Nat.testBit s.s5 p) (Nat.testBit s.s6 p) (Nat.testBit s.s7 p)).b6 :=
    congrArg Bits8.b6 h1
  have e7 : Nat.testBit (SubBytes s).s7 p = (subBytesBit (Nat.testBit s.s0 p)
      (Nat.testBit s.s1 p) (Nat.testBit s.s2 p) (Nat.testBit s.s3 p) (Nat.testBit s.s4 p)
      (Nat.testBit s.s5 p) (Nat.testBit s.s6 p) (Nat.testBit s.s7 p)).b7 :=
    congrArg Bits8.b7 h1
  rw [invSubBytes_testBit (SubBytes s) p hp, e0, e1, e2, e3, e4, e5, e6, e7]
  exact invSubBytesBit_subBytesBit _ _ _ _ _ _ _ _

/-- XORing the same round key twice is the identity. -/
theorem addRoundKey_addRoundKey (s k : AES_state) : AddRoundKey (AddRoundKey s k) k = s := by
  cases s
  simp [AddRoundKey, Nat.xor_assoc]

theorem addRoundKey_valid {s k : AES_state} (hs : s.Valid) (hk : k.Valid) :
    (AddRoundKey s k).Valid := by
  obtain ⟨a0, a1, a2, a3, a4, a5, a6, a7⟩ := hs
  obtain ⟨c0, c1, c2, c3, c4, c5, c6, c7⟩ := hk
  exact ⟨xor_lt_65536 a0 c0, xor_lt_65536 a1 c1, xor_lt_65536 a2 c2, xor_lt_65536 a3 c3,
    xor_lt_65536 a4 c4, xor_lt_65536 a5 c5, xor_lt_65536 a6 c6, xor_lt_65536 a7 c7⟩

theorem encRound_valid (s : AES_state) {k : AES_state} (hk : k.Valid) : (encRound s k).Valid :=
  addRoundKey_valid (mixColumns_valid _) hk

theorem foldl_encRound_valid : ∀ (ks : List AES_state) (s : AES_state), s.Valid →
    (∀ k ∈ ks, k.Valid) → (List.foldl encRound s ks).Valid
  | [], _, hs, _ => hs
  | k :: t, s, _, hk =>
    foldl_encRound_valid t (encRound s k) (encRound_valid s (hk k (List.mem_cons_self k t)))
      (fun x hx => hk x (List.mem_cons_of_mem k hx))

/-- Folding the decryption rounds over the reversed key list undoes the
encryption rounds, up to the trailing `ShiftRows ∘ SubBytes`. -/
theorem foldl_decRound_encRound : ∀ (ks : List AES_state) (s : AES_state), s.Valid →
    (∀ k ∈ ks, k.Valid) →
    List.foldl decRound (ShiftRows (SubBytes (List.foldl encRound s ks))) ks.reverse
      = ShiftRows (SubBytes s) := by
  intro ks
  induction ks with
  | nil => intro s _ _; rfl
  | cons k t ih =>
    intro s hs hk
    have hkv : k.Valid := hk k (List.mem_cons_self k t)
    have htv : ∀ x ∈ t, x.Valid := fun x hx => hk x (List.mem_cons_of_mem k hx)
    have harkv : (AddRoundKey (MixColumns (ShiftRows (SubBytes s))) k).Valid :=
      addRoundKey_valid (mixColumns_valid _) hkv
    simp only [List.foldl_cons, List.reverse_cons, List.foldl_append, List.foldl_nil]
    rw [ih (encRound s k) (encRound_valid s hkv) htv]
    unfold decRound encRound
    rw [invShiftRows_shiftRows (subBytes_valid harkv), invSubBytes_subBytes harkv,
      addRoundKey_addRoundKey]
    exact invMixColumns_mixColumns (shiftRows_valid trivial)

/-- A default-padded lookup in a list of valid states is valid. -/
theorem getD_valid {l : List AES_state} (hl : ∀ k ∈ l, k.Valid) (i : Nat) :
    (l.getD i default).Valid := by
  by_cases hi : i < l.length
  · rw [List.getD_eq_getElem l default hi]
    exact hl _ (List.getElem_mem hi)
  · rw [List.getD_eq_default l default (by omega)]
    decide

/-- Every state the key-expansion loop accumulates is valid. -/
theorem setupGo_valid (nk : Nat) : ∀ (fuel : Nat) (rk : List Nat) (rcon pos i : Nat)
    (acc : List AES_state), (∀ x ∈ acc, x.Valid) →
    ∀ x ∈ setupGo nk fuel rk rcon pos i acc, x.Valid := by
  intro fuel
  induction fuel with
  | zero => intro rk rcon pos i acc hacc x hx; exact hacc x hx
  | succ n ih =>
    intro rk rcon pos i acc hacc x hx
    simp only [setupGo] at hx
    refine ih _ _ _ _ _ (fun y hy => ?_) x hx
    split at hy
    · rcases List.mem_append.mp hy with h | h
      · exact hacc y h
      · rw [List.mem_singleton] at h
        subst h
        exact loadWords_valid _ _ _ _
    · exact hacc y hy

/-- Every round key produced by `AES_setup` is a valid bit-sliced state. -/
theorem aes_setup_valid (key : List Nat) (nk nr : Nat) : ∀ x ∈ AES_setup key nk nr, x.Valid := by
  intro x hx
  unfold AES_setup at hx
  refine setupGo_valid _ _ _ _ _ _ _ (fun y hy => ?_) x hx
  rcases List.mem_append.mp hy with h | h
  · rw [List.mem_singleton] at h
    subst h
    exact loadWords_valid _ _ _ _
  · split at h
    · rw [List.mem_singleton] at h
      subst h
      exact loadWords_valid _ _ _ _
    · simp at h

/-- `AES_decrypt` inverts `AES_encrypt` for any valid round-key list. -/
theorem aes_decrypt_encrypt (rounds : List AES_state) (nrounds : Nat)
    (hval : ∀ k ∈ rounds, k.Valid)
    (p0 p1 p2 p3 p4 p5 p6 p7 p8 p9 p10 p11 p12 p13 p14 p15 : Nat)
    (h0 : p0 < 256) (h1 : p1 < 256) (h2 : p2 < 256) (h3 : p3 < 256)
    (h4 : p4 < 256) (h5 : p5 < 256) (h6 : p6 < 256) (h7 : p7 < 256)
    (h8 : p8 < 256) (h9 : p9 < 256) (h10 : p10 < 256) (h11 : p11 < 256)
    (h12 : p12 < 256) (h13 : p13 < 256) (h14 : p14 < 256) (h15 : p15 < 256) :
    AES_decrypt rounds nrounds (AES_encrypt rounds nrounds
        [p0, p1, p2, p3, p4, p5, p6, p7, p8, p9, p10, p11, p12, p13, p14, p15])
      = [p0, p1, p2, p3, p4, p5, p6, p7, p8, p9, p10, p11, p12, p13, p14, p15] := by
  have hmid : ∀ k ∈ (rounds.drop 1).take (nrounds - 1), k.Valid := fun k hk =>
    hval k (List.mem_of_mem_drop (List.mem_of_mem_take hk))
  have hk0 := getD_valid hval 0
  have hkn := getD_valid hval nrounds
  have hm0 : (AddRoundKey (LoadBytes
      [p0, p1, p2, p3, p4, p5, p6, p7, p8, p9, p10, p11, p12, p13, p14, p15])
      (rounds.getD 0 default)).Valid :=
    addRoundKey_valid (loadBytes_valid _) hk0
  simp only [AES_encrypt, AES_decrypt]
  rw [loadBytes_saveBytes (addRoundKey_valid (shiftRows_valid trivial) hkn),
    addRoundKey_addRoundKey, foldl_decRound_encRound _ _ hm0 hmid,
    invShiftRows_shiftRows (subBytes_valid hm0), invSubBytes_subBytes hm0,
    addRoundKey_addRoundKey]
  exact saveBytes_loadBytes p0 p1 p2 p3 p4 p5 p6 p7 p8 p9 p10 p11 p12 p13 p14 p15
    h0 h1 h2 h3 h4 h5 h6 h7 h8 h9 h10 h11 h12 h13 h14 h15

/-- C1: for each variant, decrypting the encryption of any 16-byte block under
the key schedule of any key of the variant's length returns the block. -/
theorem claim1_decrypt_encrypt_roundtrip :
    (∀ (key : List Nat) (p0 p1 p2 p3 p4 p5 p6 p7 p8 p9 p10 p11 p12 p13 p14 p15 : Nat),
      key.length = 16 → p0 < 256 → p1 < 256 → p2 < 256 → p3 < 256 → p4 < 256 → p5 < 256 →
      p6 < 256 → p7 < 256 → p8 < 256 → p9 < 256 → p10 < 256 → p11 < 256 → p12 < 256 →
      p13 < 256 → p14 < 256 → p15 < 256 →
      AES128_decrypt (AES128_init key) (AES128_encrypt (AES128_init key)
          [p0, p1, p2, p3, p4, p5, p6, p7, p8, p9, p10, p11, p12, p13, p14, p15])
        = [p0, p1, p2, p3, p4, p5, p6, p7, p8, p9, p10, p11, p12, p13, p14, p15]) ∧
    (∀ (key : List Nat) (p0 p1 p2 p3 p4 p5 p6 p7 p8 p9 p10 p11 p12 p13 p14 p15 : Nat),
      key.length = 24 → p0 < 256 → p1 < 256 → p2 < 256 → p3 < 256 → p4 < 256 → p5 < 256 →
      p6 < 256 → p7 < 256 → p8 < 256 → p9 < 256 → p10 < 256 → p11 < 256 → p12 < 256 →
      p13 < 256 → p14 < 256 → p15 < 256 →
      AES192_decrypt (AES192_init key) (AES192_encrypt (AES192_init key)
          [p0, p1, p2, p3, p4, p5, p6, p7, p8, p9, p10, p11, p12, p13, p14, p15])
        = [p0, p1, p2, p3, p4, p5, p6, p7, p8, p9, p10, p11, p12, p13, p14, p15]) ∧
    (∀ (key : List Nat) (p0 p1 p2 p3 p4 p5 p6 p7 p8 p9 p10 p11 p12 p13 p14 p15 : Nat),
      key.length = 32 → p0 < 256 → p1 < 256 → p2 < 256 → p3 < 256 → p4 < 256 → p5 < 256 →
      p6 < 256 → p7 < 256 → p8 < 256 → p9 < 256 → p10 < 256 → p11 < 256 → p12 < 256 →
      p13 < 256 → p14 < 256 → p15 < 256 →
      AES256_decrypt (AES256_init key) (AES256_encrypt (AES256_init key)
          [p0, p1, p2, p3, p4, p5, p6, p7, p8, p9, p10, p11, p12, p13, p14, p15])
        = [p0, p1, p2, p3, p4, p5, p6, p7, p8, p9, p10, p11, p12, p13, p14, p15]) := by
  refine ⟨?_, ?_, ?_⟩ <;>
  · intro key p0 p1 p2 p3 p4 p5 p6 p7 p8 p9 p10 p11 p12 p13 p14 p15 _
      h0 h1 h2 h3 h4 h5 h6 h7 h8 h9 h10 h11 h12 h13 h14 h15
    exact aes_decrypt_encrypt _ _ (aes_setup_valid _ _ _) _ _ _ _ _ _ _ _ _ _ _ _ _ _ _ _
      h0 h1 h2 h3 h4 h5 h6 h7 h8 h9 h10 h11 h12 h13 h14 h15

/-- Witness for C1 on the all-zero key and all-zero block of every variant. -/
theorem claim1_decrypt_encrypt_roundtrip_witness :
    (AES128_decrypt (AES128_init (List.replicate 16 0))
        (AES128_encrypt (AES128_init (List.replicate 16 0))
          [0, 0, 0, 0, 0, 0, 0, 0, 0, 0, 0, 0, 0, 0, 0, 0])
      = [0, 0, 0, 0, 0, 0, 0, 0, 0, 0, 0, 0, 0, 0, 0, 0]) ∧
    (AES192_decrypt (AES192_init (List.replicate 24 0))
        (AES192_encrypt (AES192_init (List.replicate 24 0))
          [0, 0, 0, 0, 0, 0, 0, 0, 0, 0, 0, 0, 0, 0, 0, 0])
      = [0, 0, 0, 0, 0, 0, 0, 0, 0, 0, 0, 0, 0, 0, 0, 0]) ∧
    (AES256_decrypt (AES256_init (List.replicate 32 0))
        (AES256_encrypt (AES256_init (List.replicate 32 0))
          [0, 0, 0, 0, 0, 0, 0, 0, 0, 0, 0, 0, 0, 0, 0, 0])
      = [0, 0, 0, 0, 0, 0, 0, 0, 0, 0, 0, 0, 0, 0, 0, 0]) :=
  ⟨claim1_decrypt_encrypt_roundtrip.1 (List.replicate 16 0) 0 0 0 0 0 0 0 0 0 0 0 0 0 0 0 0
      rfl (by decide) (by decide) (by decide) (by decide) (by decide) (by decide) (by decide)
      (by decide) (by decide) (by decide) (by decide) (by decide) (by decide) (by decide)
      (by decide) (by decide),
   claim1_decrypt_encrypt_roundtrip.2.1 (List.replicate 24 0) 0 0 0 0 0 0 0 0 0 0 0 0 0 0 0 0
      rfl (by decide) (by decide) (by decide) (by decide) (by decide) (by decide) (by decide)
      (by decide) (by decide) (by decide) (by decide) (by decide) (by decide) (by decide)
      (by decide) (by decide),
   claim1_decrypt_encrypt_roundtrip.2.2 (List.replicate 32 0) 0 0 0 0 0 0 0 0 0 0 0 0 0 0 0 0
      rfl (by decide) (by decide) (by decide) (by decide) (by decide) (by decide) (by decide)
      (by decide) (by decide) (by decide) (by decide) (by decide) (by decide) (by decide)
      (by decide) (by decide)⟩
/-! ### C7: SubWord applies the S-box to each byte of the word -/

theorem byteOf_lt (w j : Nat) : byteOf w j < 256 :=
  lt_of_le_of_lt Nat.and_le_right (by norm_num)

/-- `SubWord` is pack, then `SubBytes`, then unpack. -/
theorem subWord_eq (x : Nat) : SubWord x = swUnpack (SubBytes (packState x)) := rfl

theorem byteAssemble_tb0 : ∀ a0 a1 a2 a3 a4 a5 a6 a7 : Bool,
    (byteAssemble ⟨a0, a1, a2, a3, a4, a5, a6, a7⟩).testBit 0 = a0 := by decide

theorem byteAssemble_tb1 : ∀ a0 a1 a2 a3 a4 a5 a6 a7 : Bool,
    (byteAssemble ⟨a0, a1, a2, a3, a4, a5, a6, a7⟩).testBit 1 = a1 := by decide

theorem byteAssemble_tb2 : ∀ a0 a1 a2 a3 a4 a5 a6 a7 : Bool,
    (byteAssemble ⟨a0, a1, a2, a3, a4, a5, a6, a7⟩).testBit 2 = a2 := by decide

theorem byteAssemble_tb3 : ∀ a0 a1 a2 a3 a4 a5 a6 a7 : Bool,
    (byteAssemble ⟨a0, a1, a2, a3, a4, a5, a6, a7⟩).testBit 3 = a3 := by decide

theorem byteAssemble_tb4 : ∀ a0 a1 a2 a3 a4 a5 a6 a7 : Bool,
    (byteAssemble ⟨a0, a1, a2, a3, a4, a5, a6, a7⟩).testBit 4 = a4 := by decide

theorem byteAssemble_tb5 : ∀ a0 a1 a2 a3 a4 a5 a6 a7 : Bool,
    (byteAssemble ⟨a0, a1, a2, a3, a4, a5, a6, a7⟩).testBit 5 = a5 := by decide

theorem byteAssemble_tb6 : ∀ a0 a1 a2 a3 a4 a5 a6 a7 : Bool,
    (byteAssemble ⟨a0, a1, a2, a3, a4, a5, a6, a7⟩).testBit 6 = a6 := by decide

theorem byteAssemble_tb7 : ∀ a0 a1 a2 a3 a4 a5 a6 a7 : Bool,
    (byteAssemble ⟨a0, a1, a2, a3, a4, a5, a6, a7⟩).testBit 7 = a7 := by decide

/-- Unpacking reads back exactly the lane bytes of the low 4 lanes. -/
theorem swUnpack_byteOf (t : AES_state) (j : Nat) (hj : j < 4) :
    byteOf (swUnpack t) j = byteAt t j := by
  apply Nat.eq_of_testBit_eq
  intro p
  by_cases hp : p < 8
  · interval_cases j <;> interval_cases p <;>
    · simp only [byteOf, swUnpack, byteAt, sliceBits, byteAssemble_tb0, byteAssemble_tb1,
        byteAssemble_tb2, byteAssemble_tb3, byteAssemble_tb4, byteAssemble_tb5,
        byteAssemble_tb6, byteAssemble_tb7, Nat.testBit_or, Nat.testBit_and,
        Nat.testBit_shiftRight, Nat.testBit_shiftLeft]
      norm_num
      all_goals simp [Nat.testBit]
  · rw [testBit_byte_high (byteOf_lt _ _) (by omega),
      testBit_byte_high (byteAt_lt _ _) (by omega)]

/-- Packing puts byte `j` of the word into lane `j` of the state. -/
theorem packState_byteAt (x : Nat) (j : Nat) (hj : j < 4) :
    byteAt (packState x) j = byteOf x j := by
  have h : sliceBits (packState x) j = byteBits (byteOf x j) := by
    interval_cases j <;>
    · simp only [sliceBits, packState, byteBits, byteOf, Nat.testBit_or, Nat.testBit_and,
        Nat.testBit_shiftRight]
      norm_num
      all_goals simp [Nat.testBit]
  rw [byteAt, h, byteAssemble_byteBits_of_lt (byteOf_lt x j)]

/-- C7: each byte of `SubWord x` is the AES S-box of the corresponding byte of
the 32-bit word `x`; the junk in the 12 unused lanes of the temporary state is
never read back. -/
theorem claim7_subword_sbox (x : Nat) (hx : x < 2 ^ 32) (j : Nat) (hj : j < 4) :
    byteOf (SubWord x) j = sboxTable.getD (byteOf x j) 0 := by
  rw [subWord_eq, swUnpack_byteOf _ j hj, subBytes_byteAt _ j (by omega),
    packState_byteAt x j hj]

/-- Witness for C7 at `x = 1`, byte 0. -/
theorem claim7_subword_sbox_witness :
    byteOf (SubWord 1) 0 = sboxTable.getD (byteOf 1 0) 0 :=
  claim7_subword_sbox 1 (by norm_num) 0 (by norm_num)

/-- The merged S-box with `inv = 0` is the split `SubBytes`. -/
theorem subBytes2_zero (s : AES_state) : SubBytes2 s 0 = SubBytes s := rfl

/-- The merged S-box with `inv = 1` is the split `InvSubBytes`. -/
theorem subBytes2_one (s : AES_state) : SubBytes2 s 1 = InvSubBytes s := rfl

theorem loadBytes2_eq (data16 : List Nat) : LoadBytes2 data16 = LoadBytes data16 := rfl

theorem mixColumns2_eq (s : AES_state) : MixColumns2 s = MixColumns s := rfl

theorem invMixColumns2_eq (s : AES_state) : InvMixColumns2 s = InvMixColumns s := rfl

theorem subWord2_subWord (x : Nat) : SubWord2 x = SubWord x := rfl

theorem encRound2_eq : encRound2 = encRound := rfl

theorem decRound2_eq : decRound2 = decRound := rfl

theorem setupGo2_setupGo (nk : Nat) : ∀ (fuel : Nat) (rk : List Nat) (rcon pos i : Nat)
    (acc : List AES_state), setupGo2 nk fuel rk rcon pos i acc = setupGo nk fuel rk rcon pos i acc := by
  intro fuel
  induction fuel with
  | zero => intro rk rcon pos i acc; rfl
  | succ n ih =>
    intro rk rcon pos i acc
    simp only [setupGo2, setupGo, subWord2_subWord]
    exact ih _ _ _ _ _

theorem aes_setup2_eq (key : List Nat) (nk nr : Nat) :
    AES_setup2 key nk nr = AES_setup key nk nr := by
  simp only [AES_setup2, AES_setup, setupGo2_setupGo]

theorem aes_encrypt2_eq (rounds : List AES_state) (nr : Nat) (p : List Nat) :
    AES_encrypt2 rounds nr p = AES_encrypt rounds nr p := by
  simp only [AES_encrypt2, AES_encrypt, encRound2_eq, loadBytes2_eq, subBytes2_zero]

theorem aes_decrypt2_eq (rounds : List AES_state) (nr : Nat) (c : List Nat) :
    AES_decrypt2 rounds nr c = AES_decrypt rounds nr c := by
  simp only [AES_decrypt2, AES_decrypt, decRound2_eq, loadBytes2_eq, subBytes2_one]

/-- C9: the merged-flag file and the split file compute the same functions:
the flagged `SubBytes` agrees with `SubBytes`/`InvSubBytes`, and all nine
public entry points agree on all inputs. -/
theorem claim9_variants_equal :
    (∀ s : AES_state, SubBytes2 s 0 = SubBytes s) ∧
    (∀ s : AES_state, SubBytes2 s 1 = InvSubBytes s) ∧
    (∀ key16 : List Nat, AES128_init2 key16 = AES128_init key16) ∧
    (∀ (ctx : List AES_state) (p : List Nat), AES128_encrypt2 ctx p = AES128_encrypt ctx p) ∧
    (∀ (ctx : List AES_state) (c : List Nat), AES128_decrypt2 ctx c = AES128_decrypt ctx c) ∧
    (∀ key24 : List Nat, AES192_init2 key24 = AES192_init key24) ∧
    (∀ (ctx : List AES_state) (p : List Nat), AES192_encrypt2 ctx p = AES192_encrypt ctx p) ∧
    (∀ (ctx : List AES_state) (c : List Nat), AES192_decrypt2 ctx c = AES192_decrypt ctx c) ∧
    (∀ key32 : List Nat, AES256_init2 key32 = AES256_init key32) ∧
    (∀ (ctx : List AES_state) (p : List Nat), AES256_encrypt2 ctx p = AES256_encrypt ctx p) ∧
    (∀ (ctx : List AES_state) (c : List Nat), AES256_decrypt2 ctx c = AES256_decrypt ctx c) :=
  ⟨subBytes2_zero, subBytes2_one,
   fun k => aes_setup2_eq k 4 10, fun ctx p => aes_encrypt2_eq ctx 10 p,
   fun ctx c => aes_decrypt2_eq ctx 10 c,
   fun k => aes_setup2_eq k 6 12, fun ctx p => aes_encrypt2_eq ctx 12 p,
   fun ctx c => aes_decrypt2_eq ctx 12 c,
   fun k => aes_setup2_eq k 8 14, fun ctx p => aes_encrypt2_eq ctx 14 p,
   fun ctx c => aes_decrypt2_eq ctx 14 c⟩
/-! ### C4: AES_setup computes the classical FIPS-197 key schedule -/

theorem specWords_length (key : List Nat) (nk : Nat) :
    ∀ n, (specWords key nk n).length = n := by
  intro n
  induction n with
  | zero => rfl
  | succ m ih =>
    simp only [specWords]
    split <;> simp [ih]

theorem getD_specWords (key : List Nat) (nk : Nat) :
    ∀ (n j : Nat), j < n → (specWords key nk n).getD j 0 = wv key nk j := by
  intro n
  induction n with
  | zero => intro j h; omega
  | succ m ih =>
    intro j hj
    by_cases hjm : j < m
    · have hlen : (specWords key nk m).length = m := specWords_length key nk m
      simp only [specWords]
      split <;>
      · rw [List.getD_eq_getElem?_getD, List.getElem?_append_left (by omega),
          ← List.getD_eq_getElem?_getD]
        exact ih j hjm
    · have hjm2 : j = m := by omega
      subst hjm2
      rfl

/-- The recurrence satisfied by the expanded key words above `nk`. -/
theorem wv_step (key : List Nat) (nk : Nat) {i : Nat} (h0 : 0 < nk) (h : nk ≤ i) :
    wv key nk i =
      wv key nk (i - nk) ^^^
        (if i % nk = 0 then
          SubWord (RotWord (wv key nk (i - 1))) ^^^ (specRcon (i / nk - 1) <<< 24)
        else if 6 < nk ∧ i % nk = 4 then SubWord (wv key nk (i - 1))
        else wv key nk (i - 1)) := by
  have hlen : (specWords key nk i).length = i := specWords_length key nk i
  show (specWords key nk (i + 1)).getD i 0 = _
  simp only [specWords]
  rw [if_neg (by omega)]
  rw [List.getD_eq_getElem?_getD, List.getElem?_append_right (by omega)]
  simp only [hlen, Nat.sub_self, List.getElem?_cons_zero, Option.getD_some]
  rw [getD_specWords key nk i (i - nk) (by omega), getD_specWords key nk i (i - 1) (by omega)]

theorem wv_base (key : List Nat) (nk : Nat) {j : Nat} (hj : j < nk) :
    wv key nk j = specKeyWord key j := by
  have hlen : (specWords key nk j).length = j := specWords_length key nk j
  show (specWords key nk (j + 1)).getD j 0 = _
  simp only [specWords]
  rw [if_pos hj, List.getD_eq_getElem?_getD, List.getElem?_append_right (by omega)]
  simp [hlen]

theorem xtime_lt (a : Nat) : xtime a < 256 :=
  lt_of_le_of_lt Nat.and_le_right (by norm_num)

theorem specRcon_lt : ∀ n, specRcon n < 256
  | 0 => by norm_num [specRcon]
  | n + 1 => xtime_lt _

set_option maxRecDepth 4096 in
theorem rconStep_xtime_fin : ∀ r : Fin 256, rconStep r.val = xtime r.val := by decide

theorem rconStep_xtime {r : Nat} (hr : r < 256) : rconStep r = xtime r :=
  rconStep_xtime_fin ⟨r, hr⟩

theorem getD_set_self (l : List Nat) (n v : Nat) (h : n < l.length) :
    (l.set n v).getD n 0 = v := by
  simp [List.getD_eq_getElem?_getD, List.getElem?_set, h]

theorem getD_set_ne (l : List Nat) (n m v : Nat) (h : n ≠ m) :
    (l.set n v).getD m 0 = l.getD m 0 := by
  simp [List.getD_eq_getElem?_getD, List.getElem?_set, h]

/-- Loop invariant for the key-expansion loop: if the ring buffer holds the
last 8 expanded-key words, the round constant and position match word `i`, and
the accumulator holds the first `i / 4` round keys, then running the loop to
word `i + fuel` yields the first `(i + fuel) / 4` round keys. -/
theorem setupGo_spec (key : List Nat) (nk : Nat) (h2 : 2 ≤ nk) (h8 : nk ≤ 8) :
    ∀ (fuel i : Nat) (rk : List Nat) (acc : List AES_state),
      nk ≤ i →
      rk.length = 8 →
      (∀ j, j < i → i ≤ j + 8 → rk.getD (j % 8) 0 = wv key nk j) →
      acc = (List.range (i / 4)).map (specRoundKey key nk) →
      setupGo nk fuel rk (specRcon ((i - 1) / nk)) (i % nk) i acc =
        (List.range ((i + fuel) / 4)).map (specRoundKey key nk) := by
  intro fuel
  induction fuel with
  | zero =>
    intro i rk acc hi hlen hrk hacc
    simpa [setupGo] using hacc
  | succ n ih =>
    intro i rk acc hi hlen hrk hacc
    simp only [setupGo]
    rw [show (i + 7) % 8 = (i - 1) % 8 by omega,
      hrk (i - 1) (by omega) (by omega),
      show (i + 8 - nk) % 8 = (i - nk) % 8 by omega,
      hrk (i - nk) (by omega) (by omega)]
    have hdvd : i % nk = 0 ↔ nk ∣ i := Iff.symm Nat.dvd_iff_mod_eq_zero
    have hite : (if i % nk = 0 then
          SubWord (RotWord (wv key nk (i - 1))) ^^^ (specRcon ((i - 1) / nk) <<< 24)
        else if 6 < nk ∧ i % nk = 4 then SubWord (wv key nk (i - 1))
        else wv key nk (i - 1)) =
        (if i % nk = 0 then
          SubWord (RotWord (wv key nk (i - 1))) ^^^ (specRcon (i / nk - 1) <<< 24)
        else if 6 < nk ∧ i % nk = 4 then SubWord (wv key nk (i - 1))
        else wv key nk (i - 1)) := by
      by_cases hc : i % nk = 0
      · have hq : 0 < i / nk := Nat.div_pos hi (by omega)
        have hd : nk ∣ i := hdvd.mp hc
        have hstep : i / nk = (i - 1) / nk + 1 := by
          obtain ⟨q, hq2⟩ := hd
          subst hq2
          have hq1 : 1 ≤ q := by
            by_contra hq0
            push_neg at hq0
            interval_cases q <;> omega
          rw [Nat.mul_div_cancel_left q (by omega)]
          have : nk * q - 1 = nk * (q - 1) + (nk - 1) := by
            cases q with
            | zero => omega
            | succ m => simp [Nat.mul_succ]; omega
          rw [this, Nat.mul_add_div (by omega), Nat.div_eq_of_lt (by omega)]
          omega
        rw [if_pos hc, if_pos hc, hstep, Nat.add_sub_cancel]
      · rw [if_neg hc, if_neg hc]
    rw [hite, ← wv_step key nk (by omega) hi]
    have hrcon2 : (if i % nk = 0 then rconStep (specRcon ((i - 1) / nk))
        else specRcon ((i - 1) / nk)) = specRcon (i / nk) := by
      have hsd : i / nk = (i - 1) / nk + if nk ∣ i then 1 else 0 := by
        have h1 : i = (i - 1) + 1 := by omega
        conv_lhs => rw [h1]
        rw [Nat.succ_div]
        congr 1
        rw [← h1]
      by_cases hc : i % nk = 0
      · rw [if_pos hc, hsd, if_pos (hdvd.mp hc)]
        rw [rconStep_xtime (specRcon_lt _)]
        rfl
      · rw [if_neg hc, hsd, if_neg (fun hd => hc (hdvd.mpr hd)), Nat.add_zero]
    have hpos2 : (if i % nk + 1 = nk then 0 else i % nk + 1) = (i + 1) % nk := by
      have h1 : (i + 1) % nk = (i % nk + 1) % nk := by
        conv_lhs => rw [Nat.add_mod]
        rw [Nat.mod_eq_of_lt (show 1 < nk by omega)]
      by_cases hc : i % nk + 1 = nk
      · rw [if_pos hc, h1, hc, Nat.mod_self]
      · have hlt : i % nk < nk := Nat.mod_lt i (by omega)
        rw [if_neg hc, h1, Nat.mod_eq_of_lt (show i % nk + 1 < nk by omega)]
    rw [hrcon2, hpos2]
    have hrk2 : ∀ j, j < i + 1 → i + 1 ≤ j + 8 →
        (rk.set (i % 8) (wv key nk i)).getD (j % 8) 0 = wv key nk j := by
      intro j hj hw
      by_cases hji : j = i
      · subst hji
        exact getD_set_self rk (j % 8) _ (by omega)
      · rw [getD_set_ne rk (i % 8) (j % 8) _ (by omega)]
        exact hrk j (by omega) (by omega)
    have hacc2 : (if i % 4 = 3 then
          acc ++ [LoadWords ((rk.set (i % 8) (wv key nk i)).getD ((i + 5) % 8) 0)
            ((rk.set (i % 8) (wv key nk i)).getD ((i + 6) % 8) 0)
            ((rk.set (i % 8) (wv key nk i)).getD ((i - 1) % 8) 0)
            ((rk.set (i % 8) (wv key nk i)).getD (i % 8) 0)]
        else acc) = (List.range ((i + 1) / 4)).map (specRoundKey key nk) := by
      by_cases hc : i % 4 = 3
      · rw [if_pos hc,
          show (i + 5) % 8 = (i - 3) % 8 by omega,
          hrk2 (i - 3) (by omega) (by omega),
          show (i + 6) % 8 = (i - 2) % 8 by omega,
          hrk2 (i - 2) (by omega) (by omega),
          hrk2 (i - 1) (by omega) (by omega),
          hrk2 i (by omega) (by omega)]
        have hr1 : (i + 1) / 4 = i / 4 + 1 := by omega
        rw [hr1, List.range_succ, List.map_append, hacc]
        congr 1
        simp only [List.map_cons, List.map_nil]
        congr 1
        unfold specRoundKey
        rw [show 4 * (i / 4) = i - 3 by omega, show i - 3 + 1 = i - 2 by omega,
          show i - 3 + 2 = i - 1 by omega, show i - 3 + 3 = i by omega]
      · rw [if_neg hc, hacc]
        congr 2
        omega
    rw [hacc2]
    have hfin : i + (n + 1) = (i + 1) + n := by omega
    rw [hfin]
    have := ih (i + 1) (rk.set (i % 8) (wv key nk i)) _ (by omega)
      (by simpa using hlen) hrk2 rfl
    simpa using this

/-- The spec schedule lists the round keys built from the expanded-key words. -/
theorem specSchedule_eq (key : List Nat) (nk nr : Nat) :
    specSchedule key nk nr = (List.range (nr + 1)).map (specRoundKey key nk) := by
  unfold specSchedule
  apply List.map_congr_left
  intro r hr
  rw [List.mem_range] at hr
  unfold specRoundKey
  rw [getD_specWords key nk _ _ (by omega), getD_specWords key nk _ _ (by omega),
    getD_specWords key nk _ _ (by omega), getD_specWords key nk _ _ (by omega)]

/-- `AES_setup` agrees with the classical schedule, AES-128 shape. -/
theorem aes_setup_spec_128 (key : List Nat) :
    AES_setup key 4 10 = specSchedule key 4 10 := by
  rw [specSchedule_eq]
  have h := setupGo_spec key 4 (by norm_num) (by norm_num) 40 4
    ((List.range 8).map (fun i => if i < 4 then keyWord key i else 0))
    [LoadWords (keyWord key 0) (keyWord key 1) (keyWord key 2) (keyWord key 3)]
    (by norm_num) (by simp)
    (by
      intro j hj hw
      interval_cases j <;> rfl)
    (by
      norm_num [List.range_succ, specRoundKey]
      rfl)
  unfold AES_setup
  norm_num at h ⊢
  convert h using 2 <;> rfl

/-- `AES_setup` agrees with the classical schedule, AES-192 shape. -/
theorem aes_setup_spec_192 (key : List Nat) :
    AES_setup key 6 12 = specSchedule key 6 12 := by
  rw [specSchedule_eq]
  have h := setupGo_spec key 6 (by norm_num) (by norm_num) 46 6
    ((List.range 8).map (fun i => if i < 6 then keyWord key i else 0))
    [LoadWords (keyWord key 0) (keyWord key 1) (keyWord key 2) (keyWord key 3)]
    (by norm_num) (by simp)
    (by
      intro j hj hw
      interval_cases j <;> rfl)
    (by
      norm_num [List.range_succ, specRoundKey]
      rfl)
  unfold AES_setup
  norm_num at h ⊢
  convert h using 2 <;> rfl

/-- `AES_setup` agrees with the classical schedule, AES-256 shape. -/
theorem aes_setup_spec_256 (key : List Nat) :
    AES_setup key 8 14 = specSchedule key 8 14 := by
  rw [specSchedule_eq]
  have h := setupGo_spec key 8 (by norm_num) (by norm_num) 52 8
    ((List.range 8).map (fun i => if i < 8 then keyWord key i else 0))
    [LoadWords (keyWord key 0) (keyWord key 1) (keyWord key 2) (keyWord key 3),
     LoadWords (keyWord key 4) (keyWord key 5) (keyWord key 6) (keyWord key 7)]
    (by norm_num) (by simp)
    (by
      intro j hj hw
      interval_cases j <;> rfl)
    (by
      norm_num [List.range_succ, specRoundKey]
      constructor <;> rfl)
  unfold AES_setup
  norm_num at h ⊢
  convert h using 2 <;> rfl

/-- C4: for each variant and every key of the right length, `AES_setup`
produces exactly the classical FIPS-197 key schedule. -/
theorem claim4_fips_key_schedule :
    (∀ key : List Nat, key.length = 16 → AES_setup key 4 10 = specSchedule key 4 10) ∧
    (∀ key : List Nat, key.length = 24 → AES_setup key 6 12 = specSchedule key 6 12) ∧
    (∀ key : List Nat, key.length = 32 → AES_setup key 8 14 = specSchedule key 8 14) :=
  ⟨fun key _ => aes_setup_spec_128 key, fun key _ => aes_setup_spec_192 key,
   fun key _ => aes_setup_spec_256 key⟩

/-- Witness for C4 on the all-zero keys. -/
theorem claim4_fips_key_schedule_witness :
    AES_setup (List.replicate 16 0) 4 10 = specSchedule (List.replicate 16 0) 4 10 ∧
    AES_setup (List.replicate 24 0) 6 12 = specSchedule (List.replicate 24 0) 6 12 ∧
    AES_setup (List.replicate 32 0) 8 14 = specSchedule (List.replicate 32 0) 8 14 :=
  ⟨claim4_fips_key_schedule.1 (List.replicate 16 0) rfl,
   claim4_fips_key_schedule.2.1 (List.replicate 24 0) rfl,
   claim4_fips_key_schedule.2.2 (List.replicate 32 0) rfl⟩
